import Mathlib

/-!
# Moondream text model (Phi-2): loader and graph builder

A shallow embedding of `src/moondream-ggml/src/main.cpp`.

* A `ggml_tensor *` is a `tensor_ptr`: either a tensor that exists before the
  graph is built (a model weight or a KV-cache tensor, `tensor_ptr.ext`) or the
  `i`-th tensor created in the graph context `ctx0` (`tensor_ptr.node i`).
  A nullable pointer is an `Option tensor_ptr`.
* The builder functions run in `Build`, a state-and-abort monad over
  `build_state` (the arena of `ctx0`, the graph `gf`, and `moondream_context`).
  A failed `GGML_ASSERT`/`assert` or a null dereference ends the run with
  `outcome.abort`, which keeps the state reached at that point.
* The tensor runtime (ggml) is not part of the repository.  Its operators are
  modelled on tensor metadata only (type, `ne`, `nb`, op, sources, view
  bookkeeping, op parameters) together with the shape preconditions they
  assert.  No tensor data is computed: the builder itself computes none.
* `int`, `int32_t`, `int64_t` and `size_t` quantities are exact integers
  (`Int`); `uint32_t` fields are `Nat` and are converted where the source
  converts them.  Floats are symbolic (`f32`).
-/

namespace Moondream

/-! ## Tensor runtime: metadata -/

/-- Element types of the runtime that occur here (two quantised block types stand
for the quantised family). -/
inductive ggml_type where
  | F32 | F16 | Q4_0 | Q8_0 | I32
  deriving DecidableEq, Repr

/-- Runtime `ggml_type_size`: bytes per block. -/
def ggml_type_size : ggml_type → Int
  | .F32 => 4
  | .F16 => 2
  | .Q4_0 => 18
  | .Q8_0 => 34
  | .I32 => 4

/-- Runtime `ggml_blck_size`: elements per block. -/
def ggml_blck_size : ggml_type → Int
  | .Q4_0 => 32
  | .Q8_0 => 32
  | _ => 1

/-- Runtime `ggml_row_size(type, ne) = ggml_type_size(type)*ne/ggml_blck_size(type)`. -/
def ggml_row_size (type : ggml_type) (ne : Int) : Int :=
  ggml_type_size type * ne / ggml_blck_size type

/-- Operators of the runtime that the builder can emit. -/
inductive ggml_op where
  | NONE | ADD | MUL | DIV | SQR | NORM | RMS_NORM | MUL_MAT | SCALE | CPY | CONT
  | RESHAPE | VIEW | PERMUTE | TRANSPOSE | GET_ROWS | SOFT_MAX | ROPE
  | FLASH_ATTN_EXT | GELU | SILU | RELU
  deriving DecidableEq, Repr

/-- Runtime `enum ggml_prec`. -/
inductive ggml_prec where
  | DEFAULT | F32
  deriving DecidableEq, Repr

/-- A symbolic `float`: the builder only passes floats on, it never inspects one. -/
inductive f32 where
  /-- the literal `1.0f` -/
  | one
  /-- the value `1.0f/sqrtf(float(n))` -/
  | inv_sqrt (n : Int)
  /-- a value supplied by the caller (a hyper-parameter or context parameter) -/
  | given (k : Nat)
  deriving DecidableEq, Repr

/-- Metadata of a tensor that exists before the graph is built (a model weight or
a per-layer KV-cache tensor); `id` tells such tensors apart. -/
structure ext_tensor where
  id : Nat
  type : ggml_type
  ne0 : Int
  ne1 : Int
  ne2 : Int
  ne3 : Int
  nb0 : Int
  nb1 : Int
  nb2 : Int
  nb3 : Int
  deriving DecidableEq, Repr

/-- A non-null `ggml_tensor *`. -/
inductive tensor_ptr where
  | ext (t : ext_tensor)
  | node (i : Nat)
  deriving DecidableEq, Repr

/-- The fields of `struct ggml_tensor` that graph construction reads or writes. -/
structure ggml_tensor where
  type : ggml_type
  ne0 : Int
  ne1 : Int
  ne2 : Int
  ne3 : Int
  nb0 : Int
  nb1 : Int
  nb2 : Int
  nb3 : Int
  op : ggml_op
  /-- `src[0..]`; a `none` entry is a null source -/
  src : List (Option tensor_ptr)
  view_src : Option tensor_ptr
  view_offs : Int
  /-- `GGML_TENSOR_FLAG_INPUT` -/
  is_input : Bool
  /-- precision slot of the op parameters (`ggml_mul_mat_set_prec`, `ggml_flash_attn_ext_set_prec`) -/
  prec : ggml_prec
  /-- float op parameters (eps; scale, max_bias; rope frequencies) -/
  fparams : List f32
  /-- integer op parameters (view offset; permute axes; rope dims, mode, contexts) -/
  iparams : List Int
  deriving DecidableEq, Repr

/-- A tensor from outside the graph context, seen as a `ggml_tensor`. -/
def ext_tensor.to_tensor (t : ext_tensor) : ggml_tensor :=
  { type := t.type, ne0 := t.ne0, ne1 := t.ne1, ne2 := t.ne2, ne3 := t.ne3,
    nb0 := t.nb0, nb1 := t.nb1, nb2 := t.nb2, nb3 := t.nb3,
    op := .NONE, src := [], view_src := none, view_offs := 0,
    is_input := false, prec := .DEFAULT, fparams := [], iparams := [] }

/-- Runtime `ggml_new_tensor` metadata: a fresh contiguous tensor, `op = NONE`. -/
def new_tensor (type : ggml_type) (ne0 ne1 ne2 ne3 : Int) : ggml_tensor :=
  { type := type, ne0 := ne0, ne1 := ne1, ne2 := ne2, ne3 := ne3,
    nb0 := ggml_type_size type,
    nb1 := ggml_type_size type * (ne0 / ggml_blck_size type),
    nb2 := ggml_type_size type * (ne0 / ggml_blck_size type) * ne1,
    nb3 := ggml_type_size type * (ne0 / ggml_blck_size type) * ne1 * ne2,
    op := .NONE, src := [], view_src := none, view_offs := 0,
    is_input := false, prec := .DEFAULT, fparams := [], iparams := [] }

/-- Runtime `ggml_nelements`. -/
def ggml_nelements (t : ggml_tensor) : Int := t.ne0 * t.ne1 * t.ne2 * t.ne3

/-- Runtime `ggml_nbytes`. -/
def ggml_nbytes (t : ggml_tensor) : Int :=
  if ggml_blck_size t.type = 1 then
    ggml_type_size t.type + (t.ne0 - 1) * t.nb0 + (t.ne1 - 1) * t.nb1
      + (t.ne2 - 1) * t.nb2 + (t.ne3 - 1) * t.nb3
  else
    t.ne0 * t.nb0 / ggml_blck_size t.type + (t.ne1 - 1) * t.nb1
      + (t.ne2 - 1) * t.nb2 + (t.ne3 - 1) * t.nb3

/-- Runtime `ggml_is_contiguous`. -/
def ggml_is_contiguous (t : ggml_tensor) : Bool :=
  t.nb0 == ggml_type_size t.type
    && t.nb1 == t.nb0 * t.ne0 / ggml_blck_size t.type
    && t.nb2 == t.nb1 * t.ne1
    && t.nb3 == t.nb2 * t.ne2

/-- Runtime `ggml_is_transposed`. -/
def ggml_is_transposed (t : ggml_tensor) : Bool := decide (t.nb0 > t.nb1)

/-- Runtime `ggml_is_empty`: some dimension is zero. -/
def ggml_is_empty (t : ggml_tensor) : Bool :=
  t.ne0 == 0 || t.ne1 == 0 || t.ne2 == 0 || t.ne3 == 0

/-- Runtime `ggml_can_repeat(t0, t1)`: `t0` can be broadcast to the shape of `t1`. -/
def ggml_can_repeat (t0 t1 : ggml_tensor) : Bool :=
  if ggml_is_empty t0 then ggml_is_empty t1
  else t1.ne0 % t0.ne0 == 0 && t1.ne1 % t0.ne1 == 0
    && t1.ne2 % t0.ne2 == 0 && t1.ne3 % t0.ne3 == 0

/-- Runtime `ggml_can_mul_mat(t0, t1)`; a zero batch dimension of `t0` (a division
by zero in the runtime) counts as not multipliable. -/
def ggml_can_mul_mat (t0 t1 : ggml_tensor) : Bool :=
  t0.ne0 == t1.ne0 && t0.ne2 != 0 && t0.ne3 != 0
    && t1.ne2 % t0.ne2 == 0 && t1.ne3 % t0.ne3 == 0

/-- Runtime `GGML_KQ_MASK_PAD`. -/
def GGML_KQ_MASK_PAD : Int := 32

/-- Arithmetic in `size_t`, and the conversion of an integer to `size_t`: the value
modulo `2^64`. -/
def wrap_size_t (x : Int) : Int := x % 18446744073709551616

/-- Arithmetic in `int`/`int32_t`: the value in two's complement on 32 bits. (Signed
overflow is undefined in C; the wrap-around of the compiled code stands for it.) -/
def wrap_int32 (x : Int) : Int := (x + 2147483648) % 4294967296 - 2147483648

/-- Arithmetic in `int64_t`: the value in two's complement on 64 bits. -/
def wrap_int64 (x : Int) : Int :=
  (x + 9223372036854775808) % 18446744073709551616 - 9223372036854775808

/-- Runtime macro `GGML_PAD(x, n) = (((x) + (n) - 1) & ~((n) - 1))` on operands of type
`int`, as `main.cpp` applies it to `batch.n_tokens` (an `int32_t`) and
`GGML_KQ_MASK_PAD`: the sum and the difference are taken in `int`. -/
def GGML_PAD (x n : Int) : Int :=
  Int.land (wrap_int32 (wrap_int32 (x + n) - 1)) (Int.lnot (n - 1))

/-- The macro `GGML_PAD` on an `int64_t` first operand, as the runtime applies it to a
tensor extent. -/
def GGML_PAD_int64 (x n : Int) : Int :=
  Int.land (wrap_int64 (wrap_int64 (x + n) - 1)) (Int.lnot (n - 1))

/-! ## Program data (`main.cpp` lines 17-207) -/

/-- The fields of `struct moondream_layer` that the builder reads: nullable pointers
to weight tensors, which exist before the graph is built. -/
structure moondream_layer where
  attn_norm : Option ext_tensor
  attn_norm_b : Option ext_tensor
  wq : Option ext_tensor
  wk : Option ext_tensor
  wv : Option ext_tensor
  wo : Option ext_tensor
  wqkv : Option ext_tensor
  bq : Option ext_tensor
  bk : Option ext_tensor
  bv : Option ext_tensor
  bo : Option ext_tensor
  bqkv : Option ext_tensor
  ffn_down : Option ext_tensor
  ffn_up : Option ext_tensor
  ffn_down_b : Option ext_tensor
  ffn_up_b : Option ext_tensor
  deriving DecidableEq, Repr

/-- `struct moondream_hparams` (fields of type `int` and `float`). -/
structure moondream_hparams where
  n_embd : Int
  n_ff : Int
  n_layer : Int
  n_rot : Int
  n_ctx_train : Int
  n_head : Int
  n_head_kv : Int
  n_embd_head_k : Int
  n_embd_k_gqa : Int
  n_embd_head_v : Int
  n_embd_v_gqa : Int
  f_norm_eps : f32
  f_norm_rms_eps : f32
  rope_freq_base_train : f32
  rope_attn_factor : Int
  f_max_alibi_bias : f32
  deriving DecidableEq, Repr

/-- `struct moondream_cparams` (`uint32_t` fields are `Nat`). -/
structure moondream_cparams where
  n_ctx : Nat
  n_batch : Nat
  n_ubatch : Nat
  n_seq_max : Nat
  n_threads : Nat
  n_threads_batch : Nat
  rope_freq_base : f32
  rope_freq_scale : f32
  n_ctx_orig_yarn : Nat
  yarn_ext_factor : f32
  yarn_attn_factor : f32
  yarn_beta_fast : f32
  yarn_beta_slow : f32
  defrag_thold : f32
  embeddings : Bool
  causal_attn : Bool
  offload_kqv : Bool
  flash_attn : Bool
  deriving DecidableEq, Repr

/-- `struct moondream_model`; a weight pointer is null (`none`) or names a tensor that
exists before the graph is built. -/
structure moondream_model where
  hparams : moondream_hparams
  cparams : moondream_cparams
  layers : List moondream_layer
  tok_embd : Option ext_tensor
  output_norm : Option ext_tensor
  output_norm_b : Option ext_tensor
  output : Option ext_tensor
  output_b : Option ext_tensor
  deriving DecidableEq, Repr

/-- `struct moondream_batch`; an array pointer is `none` when null. -/
structure moondream_batch where
  n_tokens : Int
  token : Option (List Int)
  embd : Option (List f32)
  pos : Option (List Int)
  seq_id : Option (List (List Int))
  deriving DecidableEq, Repr

/-- `struct moondream_context`. -/
structure moondream_context where
  cparams : moondream_cparams
  n_outputs : Int
  n_sample : Int
  inp_tokens : Option tensor_ptr
  inp_embd : Option tensor_ptr
  inp_pos : Option tensor_ptr
  inp_out_ids : Option tensor_ptr
  inp_KQ_mask : Option tensor_ptr
  inp_K_shift : Option tensor_ptr
  inp_mean : Option tensor_ptr
  inp_cls : Option tensor_ptr
  inp_s_copy : Option tensor_ptr
  inp_s_mask : Option tensor_ptr
  inp_s_seq : Option tensor_ptr
  deriving DecidableEq, Repr

/-- `struct moondream_kv_cache`. -/
structure moondream_kv_cache where
  has_shift : Bool
  do_defrag : Bool
  do_copy : Bool
  v_trans : Bool
  head : Nat
  size : Nat
  used : Nat
  n : Nat
  type_k : ggml_type
  type_v : ggml_type
  /-- per-layer cache tensors; they exist before the graph is built -/
  k_l : List ext_tensor
  v_l : List ext_tensor
  deriving DecidableEq, Repr

/-- Conversion of a `uint32_t` value to `int`/`int32_t` (two's complement). -/
def to_int32 (u : Nat) : Int :=
  if u % 4294967296 < 2147483648 then ((u % 4294967296 : Nat) : Int)
  else ((u % 4294967296 : Nat) : Int) - 4294967296

/-! ## The build monad -/

/-- `struct ggml_cgraph`, as far as the builder determines it: the capacity it was
created with and the tensors handed to `ggml_build_forward_expand`, in call order. -/
structure ggml_cgraph where
  size : Nat
  grads : Bool
  expanded : List tensor_ptr
  deriving DecidableEq, Repr

/-- What the builder reads and writes: the tensors created in `ctx0` (in creation
order), the graph, and the `moondream_context`. -/
structure build_state where
  ctx0 : List ggml_tensor
  gf : ggml_cgraph
  mctx : moondream_context
  deriving DecidableEq, Repr

/-- Why a run ended without returning. -/
inductive fault where
  /-- `GGML_ASSERT(n_embd_head == hparams.n_embd_head_k)` in `build_phi2` -/
  | assert_n_embd_head
  /-- `GGML_ASSERT(kv.size == n_ctx)` in `llm_build_kv_store` / `llm_build_kqv` -/
  | assert_kv_size
  /-- `assert(v_cur->ne[0] == n_embd_v_gqa && v_cur->ne[1] == n_tokens)` -/
  | assert_v_cur
  /-- a precondition asserted inside the runtime operator `op` -/
  | op_assert (op : ggml_op)
  /-- the view does not fit into the tensor it aliases (`ggml_new_tensor_impl`) -/
  | view_bounds
  /-- a null tensor pointer was dereferenced -/
  | null_deref
  /-- a pointer into `ctx0` that names no tensor, or a vector index out of range -/
  | bad_access
  deriving DecidableEq, Repr

/-- Result of running a builder step. -/
inductive outcome (α : Type) where
  | ok (a : α) (s : build_state)
  | abort (f : fault) (s : build_state)
  deriving Repr

/-- A builder step. -/
def Build (α : Type) : Type := build_state → outcome α

/-- Sequencing: an abort ends the run. -/
def Build.bind {α β : Type} (x : Build α) (f : α → Build β) : Build β :=
  fun s => match x s with
    | .ok a s1 => f a s1
    | .abort e s1 => .abort e s1

instance : Monad Build where
  pure a := fun s => .ok a s
  bind := Build.bind

/-- End the run. -/
def fail {α : Type} (f : fault) : Build α := fun s => .abort f s

/-- `GGML_ASSERT(c)` / `assert(c)`. -/
def ggml_assert (c : Bool) (f : fault) : Build Unit :=
  if c then pure () else fail f

/-- The tensor a pointer points to, given the tensors of `ctx0`. -/
def lookup (ctx0 : List ggml_tensor) : tensor_ptr → Option ggml_tensor
  | .ext t => some t.to_tensor
  | .node i => ctx0[i]?

/-- Dereference a tensor pointer. -/
def deref (p : tensor_ptr) : Build ggml_tensor := fun s =>
  match lookup s.ctx0 p with
  | some t => .ok t s
  | none => .abort .bad_access s

/-- Use of a nullable pointer where the callee dereferences it. -/
def nonnull (p : Option tensor_ptr) : Build tensor_ptr :=
  match p with
  | some q => pure q
  | none => fail .null_deref

/-- A nullable weight pointer, as a nullable tensor pointer. -/
def weight_ptr (w : Option ext_tensor) : Option tensor_ptr := w.map tensor_ptr.ext

/-- `v[i]` on a `std::vector` (an index out of range ends the run). -/
def vec_at {α : Type} (v : List α) (i : Nat) : Build α :=
  match v[i]? with
  | some a => pure a
  | none => fail .bad_access

/-- Allocate a tensor in `ctx0`; the result points to it. -/
def push (t : ggml_tensor) : Build tensor_ptr := fun s =>
  .ok (.node s.ctx0.length) { s with ctx0 := s.ctx0 ++ [t] }

/-- In-place update of a tensor of `ctx0` (tensors outside `ctx0` are never written). -/
def modify (p : tensor_ptr) (f : ggml_tensor → ggml_tensor) : Build Unit := fun s =>
  match p with
  | .ext _ => .abort .bad_access s
  | .node i =>
    match s.ctx0[i]? with
    | some t => .ok () { s with ctx0 := s.ctx0.set i (f t) }
    | none => .abort .bad_access s

/-- Read the `moondream_context`. -/
def get_mctx : Build moondream_context := fun s => .ok s.mctx s

/-- Write the `moondream_context`. -/
def set_mctx (f : moondream_context → moondream_context) : Build Unit := fun s =>
  .ok () { s with mctx := f s.mctx }

/-! ## Tensor runtime: operators

Each operator checks the preconditions the runtime asserts on its arguments, then
allocates one result tensor in `ctx0`. -/

/-- Runtime `ggml_new_tensor_impl` with a view source: the view is re-based on the
tensor that owns the data, must fit into it, and is then allocated; `fill` sets
the fields the calling operator writes afterwards. The fit is checked in `size_t`
arithmetic, as `data_size + view_offs <= ggml_nbytes(view_src)` is. -/
def new_view (type : ggml_type) (ne0 ne1 ne2 ne3 : Int) (view_src : tensor_ptr)
    (view_offs : Int) (fill : ggml_tensor → ggml_tensor) : Build tensor_ptr := do
  let v ← deref view_src
  let base := match v.view_src with
    | some b => b
    | none => view_src
  let offs := match v.view_src with
    | some _ => view_offs + v.view_offs
    | none => view_offs
  let bt ← deref base
  let data_size := wrap_size_t (ggml_row_size type ne0 * ne1 * ne2 * ne3)
  ggml_assert (data_size == 0
    || decide (wrap_size_t (data_size + offs) ≤ wrap_size_t (ggml_nbytes bt))) .view_bounds
  push (fill { new_tensor type ne0 ne1 ne2 ne3 with view_src := some base, view_offs := offs })

/-- Runtime `ggml_view_tensor`: a view with the shape and strides of `src`. -/
def ggml_view_tensor (src : tensor_ptr) (fill : ggml_tensor → ggml_tensor) :
    Build tensor_ptr := do
  let t ← deref src
  new_view t.type t.ne0 t.ne1 t.ne2 t.ne3 src 0
    (fun r => fill { r with nb0 := t.nb0, nb1 := t.nb1, nb2 := t.nb2, nb3 := t.nb3 })

/-- Runtime `ggml_dup_tensor` followed by the operator's own writes. -/
def dup_tensor (t : ggml_tensor) (op : ggml_op) (src : List (Option tensor_ptr))
    (fparams : List f32) (iparams : List Int) : Build tensor_ptr :=
  push { new_tensor t.type t.ne0 t.ne1 t.ne2 t.ne3 with
    op := op, src := src, fparams := fparams, iparams := iparams }

/-- Runtime `ggml_new_tensor_1d`. -/
def ggml_new_tensor_1d (type : ggml_type) (ne0 : Int) : Build tensor_ptr :=
  push (new_tensor type ne0 1 1 1)

/-- Runtime `ggml_new_tensor_2d`. -/
def ggml_new_tensor_2d (type : ggml_type) (ne0 ne1 : Int) : Build tensor_ptr :=
  push (new_tensor type ne0 ne1 1 1)

/-- Runtime `ggml_set_input`. -/
def ggml_set_input (t : tensor_ptr) : Build Unit :=
  modify t (fun x => { x with is_input := true })

/-- Runtime `ggml_get_rows(a, b)`. -/
def ggml_get_rows (a b : tensor_ptr) : Build tensor_ptr := do
  let ta ← deref a
  let tb ← deref b
  ggml_assert (ta.ne2 == tb.ne1) (.op_assert .GET_ROWS)
  ggml_assert (tb.ne3 == 1) (.op_assert .GET_ROWS)
  ggml_assert (tb.type == .I32) (.op_assert .GET_ROWS)
  push { new_tensor (if ta.type == .I32 then .I32 else .F32) ta.ne0 tb.ne0 tb.ne1 tb.ne2 with
    op := .GET_ROWS, src := [some a, some b] }

/-- Runtime `ggml_norm(a, eps)`. -/
def ggml_norm (a : tensor_ptr) (eps : f32) : Build tensor_ptr := do
  let ta ← deref a
  dup_tensor ta .NORM [some a] [eps] []

/-- Runtime `ggml_rms_norm(a, eps)`. -/
def ggml_rms_norm (a : tensor_ptr) (eps : f32) : Build tensor_ptr := do
  let ta ← deref a
  dup_tensor ta .RMS_NORM [some a] [eps] []

/-- Runtime `ggml_mul(a, b)`. -/
def ggml_mul (a b : tensor_ptr) : Build tensor_ptr := do
  let ta ← deref a
  let tb ← deref b
  ggml_assert (ggml_can_repeat tb ta) (.op_assert .MUL)
  dup_tensor ta .MUL [some a, some b] [] []

/-- Runtime `ggml_add(a, b)`. -/
def ggml_add (a b : tensor_ptr) : Build tensor_ptr := do
  let ta ← deref a
  let tb ← deref b
  ggml_assert (ggml_can_repeat tb ta) (.op_assert .ADD)
  dup_tensor ta .ADD [some a, some b] [] []

/-- Runtime `ggml_div(a, b)`. -/
def ggml_div (a b : tensor_ptr) : Build tensor_ptr := do
  let ta ← deref a
  let tb ← deref b
  ggml_assert (ggml_can_repeat tb ta) (.op_assert .DIV)
  dup_tensor ta .DIV [some a, some b] [] []

/-- Runtime `ggml_sqr(a)`. -/
def ggml_sqr (a : tensor_ptr) : Build tensor_ptr := do
  let ta ← deref a
  dup_tensor ta .SQR [some a] [] []

/-- Runtime `ggml_gelu(a)`. -/
def ggml_gelu (a : tensor_ptr) : Build tensor_ptr := do
  let ta ← deref a
  dup_tensor ta .GELU [some a] [] []

/-- Runtime `ggml_silu(a)`. -/
def ggml_silu (a : tensor_ptr) : Build tensor_ptr := do
  let ta ← deref a
  dup_tensor ta .SILU [some a] [] []

/-- Runtime `ggml_relu(a)`. -/
def ggml_relu (a : tensor_ptr) : Build tensor_ptr := do
  let ta ← deref a
  dup_tensor ta .RELU [some a] [] []

/-- Runtime `ggml_mul_mat(a, b)`: result `[a.ne1, b.ne1, b.ne2, b.ne3]`, F32. -/
def ggml_mul_mat (a b : tensor_ptr) : Build tensor_ptr := do
  let ta ← deref a
  let tb ← deref b
  ggml_assert (ggml_can_mul_mat ta tb) (.op_assert .MUL_MAT)
  ggml_assert (!ggml_is_transposed ta) (.op_assert .MUL_MAT)
  push { new_tensor .F32 ta.ne1 tb.ne1 tb.ne2 tb.ne3 with
    op := .MUL_MAT, src := [some a, some b] }

/-- Runtime `ggml_mul_mat_set_prec(a, prec)`. -/
def ggml_mul_mat_set_prec (a : tensor_ptr) (prec : ggml_prec) : Build Unit := do
  let ta ← deref a
  ggml_assert (ta.op == .MUL_MAT) (.op_assert .MUL_MAT)
  modify a (fun x => { x with prec := prec })

/-- Runtime `ggml_scale(a, s)`; the assertion is `ggml_is_padded_1d(a)`. -/
def ggml_scale (a : tensor_ptr) (s : f32) : Build tensor_ptr := do
  let ta ← deref a
  ggml_assert (ta.nb0 == ggml_type_size ta.type && ta.nb2 == ta.nb1 * ta.ne1
    && ta.nb3 == ta.nb2 * ta.ne2) (.op_assert .SCALE)
  dup_tensor ta .SCALE [some a] [s] []

/-- Runtime `ggml_cpy(a, b)`: the result is a view of the destination `b`. -/
def ggml_cpy (a b : tensor_ptr) : Build tensor_ptr := do
  let ta ← deref a
  let tb ← deref b
  ggml_assert (ggml_nelements ta == ggml_nelements tb) (.op_assert .CPY)
  ggml_view_tensor b (fun r => { r with op := .CPY, src := [some a, some b] })

/-- Runtime `ggml_cast(a, type)`: a copy into a fresh tensor of the new type. -/
def ggml_cast (a : tensor_ptr) (type : ggml_type) : Build tensor_ptr := fun s =>
  (do
    let ta ← deref a
    push { new_tensor type ta.ne0 ta.ne1 ta.ne2 ta.ne3 with
      op := .CPY, src := [some a, some (.node s.ctx0.length)] }) s

/-- Runtime `ggml_cont(a)`. -/
def ggml_cont (a : tensor_ptr) : Build tensor_ptr := do
  let ta ← deref a
  dup_tensor ta .CONT [some a] [] []

/-- Runtime `ggml_cont_2d(a, ne0, ne1)`. -/
def ggml_cont_2d (a : tensor_ptr) (ne0 ne1 : Int) : Build tensor_ptr := do
  let ta ← deref a
  ggml_assert (ggml_nelements ta == ne0 * ne1 * 1 * 1) (.op_assert .CONT)
  push { new_tensor ta.type ne0 ne1 1 1 with op := .CONT, src := [some a] }

/-- Runtime `ggml_reshape_2d(a, ne0, ne1)`. -/
def ggml_reshape_2d (a : tensor_ptr) (ne0 ne1 : Int) : Build tensor_ptr := do
  let ta ← deref a
  ggml_assert (ggml_is_contiguous ta) (.op_assert .RESHAPE)
  ggml_assert (ggml_nelements ta == ne0 * ne1) (.op_assert .RESHAPE)
  new_view ta.type ne0 ne1 1 1 a 0 (fun r => { r with op := .RESHAPE, src := [some a] })

/-- Runtime `ggml_reshape_3d(a, ne0, ne1, ne2)`. -/
def ggml_reshape_3d (a : tensor_ptr) (ne0 ne1 ne2 : Int) : Build tensor_ptr := do
  let ta ← deref a
  ggml_assert (ggml_is_contiguous ta) (.op_assert .RESHAPE)
  ggml_assert (ggml_nelements ta == ne0 * ne1 * ne2) (.op_assert .RESHAPE)
  new_view ta.type ne0 ne1 ne2 1 a 0 (fun r => { r with op := .RESHAPE, src := [some a] })

/-- Runtime `ggml_view_1d(a, ne0, offset)`. -/
def ggml_view_1d (a : tensor_ptr) (ne0 : Int) (offset : Int) : Build tensor_ptr := do
  let ta ← deref a
  new_view ta.type ne0 1 1 1 a offset
    (fun r => { r with op := .VIEW, src := [some a], iparams := [offset] })

/-- Runtime `ggml_view_2d(a, ne0, ne1, nb1, offset)`. -/
def ggml_view_2d (a : tensor_ptr) (ne0 ne1 : Int) (nb1 : Int) (offset : Int) :
    Build tensor_ptr := do
  let ta ← deref a
  new_view ta.type ne0 ne1 1 1 a offset
    (fun r => { r with op := .VIEW, src := [some a], iparams := [offset],
                       nb1 := nb1, nb2 := nb1 * ne1, nb3 := nb1 * ne1 })

/-- Runtime `ggml_view_3d(a, ne0, ne1, ne2, nb1, nb2, offset)`. -/
def ggml_view_3d (a : tensor_ptr) (ne0 ne1 ne2 : Int) (nb1 nb2 : Int) (offset : Int) :
    Build tensor_ptr := do
  let ta ← deref a
  new_view ta.type ne0 ne1 ne2 1 a offset
    (fun r => { r with op := .VIEW, src := [some a], iparams := [offset],
                       nb1 := nb1, nb2 := nb2, nb3 := nb2 * ne2 })

/-- The entry of `x0..x3` that a permutation with axes `a0..a3` moves to place `j`. -/
def permute_pick (a0 a1 a2 a3 : Nat) (x0 x1 x2 x3 : Int) (j : Nat) : Int :=
  if a0 = j then x0 else if a1 = j then x1 else if a2 = j then x2
  else if a3 = j then x3 else 0

/-- Runtime `ggml_permute(a, axis0, axis1, axis2, axis3)`: `ne[axis_i] = a.ne[i]`,
likewise `nb`. -/
def ggml_permute (a : tensor_ptr) (axis0 axis1 axis2 axis3 : Nat) : Build tensor_ptr := do
  let ta ← deref a
  ggml_assert (decide (axis0 < 4) && decide (axis1 < 4) && decide (axis2 < 4)
    && decide (axis3 < 4)) (.op_assert .PERMUTE)
  ggml_assert (axis0 != axis1 && axis0 != axis2 && axis0 != axis3 && axis1 != axis2
    && axis1 != axis3 && axis2 != axis3) (.op_assert .PERMUTE)
  let pne := permute_pick axis0 axis1 axis2 axis3 ta.ne0 ta.ne1 ta.ne2 ta.ne3
  let pnb := permute_pick axis0 axis1 axis2 axis3 ta.nb0 ta.nb1 ta.nb2 ta.nb3
  ggml_view_tensor a (fun r => { r with
    op := .PERMUTE, src := [some a],
    iparams := [(axis0 : Int), (axis1 : Int), (axis2 : Int), (axis3 : Int)],
    ne0 := pne 0, ne1 := pne 1, ne2 := pne 2, ne3 := pne 3,
    nb0 := pnb 0, nb1 := pnb 1, nb2 := pnb 2, nb3 := pnb 3 })

/-- Runtime `ggml_transpose(a)`. -/
def ggml_transpose (a : tensor_ptr) : Build tensor_ptr := do
  let ta ← deref a
  ggml_view_tensor a (fun r => { r with
    op := .TRANSPOSE, src := [some a],
    ne0 := ta.ne1, ne1 := ta.ne0, nb0 := ta.nb1, nb1 := ta.nb0 })

/-- Runtime `ggml_rope_ext(a, b, c, n_dims, mode, n_ctx, n_ctx_orig, freq_base,
freq_scale, ext_factor, attn_factor, beta_fast, beta_slow)`; `c` (the frequency
factors) may be null. -/
def ggml_rope_ext (a b : tensor_ptr) (c : Option tensor_ptr) (n_dims mode n_ctx : Int)
    (n_ctx_orig : Int) (freq_base freq_scale ext_factor attn_factor beta_fast
      beta_slow : f32) : Build tensor_ptr := do
  let ta ← deref a
  let tb ← deref b
  ggml_assert (mode % 2 == 0) (.op_assert .ROPE)
  ggml_assert (tb.ne1 == 1 && tb.ne2 == 1 && tb.ne3 == 1) (.op_assert .ROPE)
  ggml_assert (tb.type == .I32) (.op_assert .ROPE)
  ggml_assert (ta.ne2 == tb.ne0) (.op_assert .ROPE)
  match c with
  | some cp =>
    let tc ← deref cp
    ggml_assert (tc.type == .F32) (.op_assert .ROPE)
    ggml_assert (decide (tc.ne0 ≥ n_dims / 2)) (.op_assert .ROPE)
  | none => pure ()
  dup_tensor ta .ROPE [some a, some b, c]
    [freq_base, freq_scale, ext_factor, attn_factor, beta_fast, beta_slow]
    [n_dims, mode, n_ctx, n_ctx_orig]

/-- Runtime `ggml_soft_max_ext(a, mask, scale, max_bias)`, for a non-null mask. -/
def ggml_soft_max_ext (a mask : tensor_ptr) (scale max_bias : f32) : Build tensor_ptr := do
  let ta ← deref a
  let tm ← deref mask
  ggml_assert (ggml_is_contiguous ta) (.op_assert .SOFT_MAX)
  ggml_assert (tm.type == .F16 || tm.type == .F32) (.op_assert .SOFT_MAX)
  ggml_assert (ggml_is_contiguous tm) (.op_assert .SOFT_MAX)
  ggml_assert (tm.ne2 == 1 && tm.ne3 == 1) (.op_assert .SOFT_MAX)
  ggml_assert (tm.ne0 == ta.ne0) (.op_assert .SOFT_MAX)
  ggml_assert (decide (tm.ne1 ≥ ta.ne1)) (.op_assert .SOFT_MAX)
  dup_tensor ta .SOFT_MAX [some a, some mask] [scale, max_bias] []

/-- Runtime `ggml_flash_attn_ext(q, k, v, mask, scale, max_bias)`, for a non-null
mask: result `[q.ne0, q.ne2, q.ne1, q.ne3]`, F32. -/
def ggml_flash_attn_ext (q k v mask : tensor_ptr) (scale max_bias : f32) :
    Build tensor_ptr := do
  let tq ← deref q
  let tk ← deref k
  let _ ← deref v
  let tm ← deref mask
  ggml_assert (ggml_can_mul_mat tk tq) (.op_assert .FLASH_ATTN_EXT)
  ggml_assert (ggml_is_contiguous tm) (.op_assert .FLASH_ATTN_EXT)
  ggml_assert (tm.ne2 == 1) (.op_assert .FLASH_ATTN_EXT)
  ggml_assert (tm.ne3 == 1) (.op_assert .FLASH_ATTN_EXT)
  ggml_assert (decide (tm.ne1 ≥ GGML_PAD_int64 tq.ne1 GGML_KQ_MASK_PAD))
    (.op_assert .FLASH_ATTN_EXT)
  push { new_tensor .F32 tq.ne0 tq.ne2 tq.ne1 tq.ne3 with
    op := .FLASH_ATTN_EXT, src := [some q, some k, some v, some mask],
    fparams := [scale, max_bias] }

/-- Runtime `ggml_flash_attn_ext_set_prec(a, prec)`. -/
def ggml_flash_attn_ext_set_prec (a : tensor_ptr) (prec : ggml_prec) : Build Unit := do
  let ta ← deref a
  ggml_assert (ta.op == .FLASH_ATTN_EXT) (.op_assert .FLASH_ATTN_EXT)
  modify a (fun x => { x with prec := prec })

/-- Runtime `ggml_new_graph_custom(ctx, size, grads)`: an empty graph. The one graph
of a build lives in the state; its handle is implicit. -/
def ggml_new_graph_custom (size : Nat) (grads : Bool) : Build Unit := fun s =>
  .ok () { s with gf := { size := size, grads := grads, expanded := [] } }

/-- Runtime `ggml_build_forward_expand(gf, tensor)`: `tensor` (with all it depends
on) becomes a required result of the graph. Recorded: the tensor, in call order. -/
def ggml_build_forward_expand (t : tensor_ptr) : Build Unit := fun s =>
  .ok () { s with gf := { s.gf with expanded := s.gf.expanded ++ [t] } }

/-! ## The graph builder (`main.cpp` lines 209-561) -/

/-- `LLAMA_MAX_NODES`. -/
def LLAMA_MAX_NODES : Nat := 8192

/-- `MOONDREAM_ROPE_TYPE` (NeoX). -/
def MOONDREAM_ROPE_TYPE : Int := 2

/-- `enum llm_ffn_op_type`. -/
inductive llm_ffn_op_type where
  | LLM_FFN_SILU | LLM_FFN_GELU | LLM_FFN_RELU | LLM_FFN_RELU_SQR
  deriving DecidableEq, Repr

/-- `enum llm_ffn_gate_type`. -/
inductive llm_ffn_gate_type where
  | LLM_FFN_SEQ | LLM_FFN_PAR
  deriving DecidableEq, Repr

/-- `enum llm_norm_type`. -/
inductive llm_norm_type where
  | LLM_NORM | LLM_NORM_RMS
  deriving DecidableEq, Repr

/-- `llm_build_inp_embd` (lines 211-234). -/
def llm_build_inp_embd (hparams : moondream_hparams) (batch : moondream_batch)
    (tok_embd : Option tensor_ptr) : Build tensor_ptr := do
  if batch.token.isSome then
    let inp_tokens ← ggml_new_tensor_1d .I32 batch.n_tokens
    set_mctx (fun m => { m with inp_tokens := some inp_tokens })
    ggml_set_input inp_tokens
    let tok_embd ← nonnull tok_embd
    ggml_get_rows tok_embd inp_tokens
  else
    let inp_embd ← ggml_new_tensor_2d .F32 hparams.n_embd batch.n_tokens
    set_mctx (fun m => { m with inp_embd := some inp_embd })
    ggml_set_input inp_embd
    pure inp_embd

/-- `build_inp_pos` (lines 237-241). -/
def build_inp_pos (batch : moondream_batch) : Build tensor_ptr := do
  let inp_pos ← ggml_new_tensor_1d .I32 batch.n_tokens
  set_mctx (fun m => { m with inp_pos := some inp_pos })
  ggml_set_input inp_pos
  pure inp_pos

/-- `build_inp_KQ_mask` (lines 244-263). -/
def build_inp_KQ_mask (batch : moondream_batch) (cparams : moondream_cparams)
    (n_kv : Int) : Build tensor_ptr := do
  let inp_KQ_mask ←
    if cparams.causal_attn then
      ggml_new_tensor_2d .F32 n_kv (GGML_PAD batch.n_tokens GGML_KQ_MASK_PAD)
    else
      ggml_new_tensor_2d .F32 batch.n_tokens (GGML_PAD batch.n_tokens GGML_KQ_MASK_PAD)
  set_mctx (fun m => { m with inp_KQ_mask := some inp_KQ_mask })
  ggml_set_input inp_KQ_mask
  if cparams.flash_attn then ggml_cast inp_KQ_mask .F16 else pure inp_KQ_mask

/-- `llm_build_norm` (lines 286-313). -/
def llm_build_norm (cur : tensor_ptr) (hparams : moondream_hparams)
    (mw mb : Option tensor_ptr) (type : llm_norm_type) : Build tensor_ptr := do
  let cur ← match type with
    | .LLM_NORM => ggml_norm cur hparams.f_norm_eps
    | .LLM_NORM_RMS => ggml_rms_norm cur hparams.f_norm_rms_eps
  let cur ← match mw with
    | some w => ggml_mul cur w
    | none => pure cur
  match mb with
  | some b => ggml_add cur b
  | none => pure cur

/-- `llm_build_kv_store` (lines 316-366). `il` indexes the per-layer cache vectors;
`ggml_element_size(t)` is `ggml_type_size(t->type)`. The `assert` on `v_cur` is
taken as compiled in. The byte offsets and the row stride of the views are products
with a `size_t` factor, so they are taken in `size_t`: `kv_head` is an `int32_t`, and
a negative one is converted to `size_t` first. -/
def llm_build_kv_store (hparams : moondream_hparams) (cparams : moondream_cparams)
    (kv : moondream_kv_cache) (k_cur v_cur : tensor_ptr) (n_tokens kv_head : Int)
    (il : Nat) : Build Unit := do
  let n_ctx : Int := cparams.n_ctx
  let n_embd_k_gqa := hparams.n_embd_k_gqa
  let n_embd_v_gqa := hparams.n_embd_v_gqa
  ggml_assert (decide ((kv.size : Int) = n_ctx)) .assert_kv_size
  let k_l ← vec_at kv.k_l il
  let k_cache_view ← ggml_view_1d (.ext k_l) (n_tokens * n_embd_k_gqa)
    (wrap_size_t (ggml_row_size k_l.type n_embd_k_gqa * kv_head))
  let k_cpy ← ggml_cpy k_cur k_cache_view
  ggml_build_forward_expand k_cpy
  let v_t ← deref v_cur
  ggml_assert (v_t.ne0 == n_embd_v_gqa && v_t.ne1 == n_tokens) .assert_v_cur
  if cparams.flash_attn then
    let v_l ← vec_at kv.v_l il
    let v_cache_view ← ggml_view_1d (.ext v_l) (n_tokens * n_embd_v_gqa)
      (wrap_size_t (kv_head * ggml_row_size v_l.type n_embd_v_gqa))
    let v_cpy ← ggml_cpy v_cur v_cache_view
    ggml_build_forward_expand v_cpy
  else
    let v_l ← vec_at kv.v_l il
    let v_cache_view ← ggml_view_2d (.ext v_l) n_tokens n_embd_v_gqa
      (wrap_size_t (n_ctx * ggml_type_size v_l.type))
      (wrap_size_t (kv_head * ggml_type_size v_l.type))
    let v_cur ← ggml_transpose v_cur
    let v_cpy ← ggml_cpy v_cur v_cache_view
    ggml_build_forward_expand v_cpy

/-- `llm_build_kqv` (lines 368-448). -/
def llm_build_kqv (hparams : moondream_hparams) (cparams : moondream_cparams)
    (kv : moondream_kv_cache) (wo wo_b : Option tensor_ptr) (q_cur kq_mask : tensor_ptr)
    (n_tokens n_kv : Int) (kq_scale : f32) (il : Nat) : Build tensor_ptr := do
  let n_ctx : Int := cparams.n_ctx
  let n_head := hparams.n_head
  let n_head_kv := hparams.n_head_kv
  let n_embd_head_k := hparams.n_embd_head_k
  let n_embd_k_gqa := hparams.n_embd_k_gqa
  let n_embd_head_v := hparams.n_embd_head_v
  let n_embd_v_gqa := hparams.n_embd_v_gqa
  let q ← ggml_permute q_cur 0 2 1 3
  let k_l ← vec_at kv.k_l il
  let k ← ggml_view_3d (.ext k_l) n_embd_head_v n_kv n_head_kv
    (ggml_row_size k_l.type n_embd_k_gqa) (ggml_row_size k_l.type n_embd_head_k) 0
  let cur ←
    if cparams.flash_attn then do
      let v_l ← vec_at kv.v_l il
      let v ← ggml_view_3d (.ext v_l) n_embd_head_v n_kv n_head_kv
        (ggml_row_size v_l.type n_embd_v_gqa) (ggml_row_size v_l.type n_embd_head_v) 0
      let cur ← ggml_flash_attn_ext q k v kq_mask kq_scale hparams.f_max_alibi_bias
      ggml_flash_attn_ext_set_prec cur .F32
      ggml_reshape_2d cur (n_embd_head_v * n_head) n_tokens
    else do
      let kq ← ggml_mul_mat k q
      ggml_mul_mat_set_prec kq .F32
      let kq ← ggml_soft_max_ext kq kq_mask kq_scale hparams.f_max_alibi_bias
      ggml_assert (decide ((kv.size : Int) = n_ctx)) .assert_kv_size
      let v_l ← vec_at kv.v_l il
      let v ← ggml_view_3d (.ext v_l) n_kv n_embd_head_v n_head_kv
        (ggml_type_size v_l.type * n_ctx) (ggml_type_size v_l.type * n_ctx * n_embd_head_v) 0
      let kqv ← ggml_mul_mat v kq
      let kqv_merged ← ggml_permute kqv 0 2 1 3
      ggml_cont_2d kqv_merged (n_embd_head_v * n_head) n_tokens
  ggml_build_forward_expand cur
  let wo ← nonnull wo
  let cur ← ggml_mul_mat wo cur
  match wo_b with
  | some b => ggml_add cur b
  | none => pure cur

/-- `llm_build_kv` (lines 450-483). -/
def llm_build_kv (hparams : moondream_hparams) (cparams : moondream_cparams)
    (kv : moondream_kv_cache) (wo wo_b : Option tensor_ptr)
    (k_cur v_cur q_cur kq_mask : tensor_ptr) (n_tokens kv_head n_kv : Int)
    (kq_scale : f32) (il : Nat) : Build tensor_ptr := do
  ggml_build_forward_expand q_cur
  ggml_build_forward_expand k_cur
  ggml_build_forward_expand v_cur
  llm_build_kv_store hparams cparams kv k_cur v_cur n_tokens kv_head il
  llm_build_kqv hparams cparams kv wo wo_b q_cur kq_mask n_tokens n_kv kq_scale il

/-- `build_inp_out_ids` (lines 485-490). -/
def build_inp_out_ids (n_outputs : Int) : Build tensor_ptr := do
  let inp_out_ids ← ggml_new_tensor_1d .I32 n_outputs
  set_mctx (fun m => { m with inp_out_ids := some inp_out_ids })
  ggml_set_input inp_out_ids
  pure inp_out_ids

/-- `llm_build_ffn` (lines 492-561). -/
def llm_build_ffn (cur : tensor_ptr) (up up_b gate gate_b down down_b act_scales :
      Option tensor_ptr) (type_op : llm_ffn_op_type) (type_gate : llm_ffn_gate_type) :
    Build tensor_ptr := do
  let tmp ← match up with
    | some u => ggml_mul_mat u cur
    | none => pure cur
  let tmp ← match up_b with
    | some b => ggml_add tmp b
    | none => pure tmp
  let cur ← match gate with
    | some g => do
      let cur ← match type_gate with
        | .LLM_FFN_SEQ => ggml_mul_mat g tmp
        | .LLM_FFN_PAR => ggml_mul_mat g cur
      match gate_b with
      | some b => ggml_add cur b
      | none => pure cur
    | none => pure tmp
  let cur ← match type_op with
    | .LLM_FFN_SILU => ggml_silu cur
    | .LLM_FFN_GELU => do
      let cur ← ggml_gelu cur
      match act_scales with
      | some a => ggml_div cur a
      | none => pure cur
    | .LLM_FFN_RELU => ggml_relu cur
    | .LLM_FFN_RELU_SQR => do
      let cur ← ggml_relu cur
      ggml_sqr cur
  let cur ← if type_gate = .LLM_FFN_PAR then ggml_mul cur tmp else pure cur
  let down ← nonnull down
  let cur ← ggml_mul_mat down cur
  match down_b with
  | some b => ggml_add cur b
  | none => pure cur

/-! ## `build_phi2` (lines 667-866) -/

/-- The Q/K/V projection of one layer (lines 752-785): from the fused `wqkv` when it
is set, else from `wq`, `wk`, `wv`. Returns `(Qcur, Kcur, Vcur)`. -/
def build_phi2_qkv (layer : moondream_layer) (attn_norm_output : tensor_ptr)
    (n_embd n_embd_gqa n_tokens : Int) : Build (tensor_ptr × tensor_ptr × tensor_ptr) := do
  match layer.wqkv with
  | some wqkv =>
    let cur ← ggml_mul_mat (.ext wqkv) attn_norm_output
    let bqkv ← nonnull (weight_ptr layer.bqkv)
    let cur ← ggml_add cur bqkv
    let cur_t ← deref cur
    let Qv ← ggml_view_2d cur n_embd n_tokens cur_t.nb1 (0 * 4 * n_embd)
    let Qcur ← ggml_cont Qv
    let Kv ← ggml_view_2d cur n_embd_gqa n_tokens cur_t.nb1 (1 * 4 * n_embd)
    let Kcur ← ggml_cont Kv
    let Vv ← ggml_view_2d cur n_embd_gqa n_tokens cur_t.nb1 (1 * 4 * (n_embd + n_embd_gqa))
    let Vcur ← ggml_cont Vv
    pure (Qcur, Kcur, Vcur)
  | none =>
    let wq ← nonnull (weight_ptr layer.wq)
    let q ← ggml_mul_mat wq attn_norm_output
    let bq ← nonnull (weight_ptr layer.bq)
    let Qcur ← ggml_add q bq
    let wk ← nonnull (weight_ptr layer.wk)
    let k ← ggml_mul_mat wk attn_norm_output
    let bk ← nonnull (weight_ptr layer.bk)
    let Kcur ← ggml_add k bk
    let wv ← nonnull (weight_ptr layer.wv)
    let v ← ggml_mul_mat wv attn_norm_output
    let bv ← nonnull (weight_ptr layer.bv)
    let Vcur ← ggml_add v bv
    pure (Qcur, Kcur, Vcur)

/-- The self-attention block of one layer (lines 751-817): projection, reshape,
rotary position, Q scaling, then `llm_build_kv`. Returns the attention output. -/
def build_phi2_attn (hparams : moondream_hparams) (cparams : moondream_cparams)
    (batch : moondream_batch) (kv_cache : moondream_kv_cache) (layer : moondream_layer)
    (attn_norm_output inp_pos KQ_mask : tensor_ptr) (il : Nat) : Build tensor_ptr := do
  let rope_type := MOONDREAM_ROPE_TYPE
  let n_rot := hparams.n_rot
  let n_head := hparams.n_head
  let n_head_kv := hparams.n_head_kv
  let n_ctx := to_int32 cparams.n_ctx
  let n_kv := to_int32 kv_cache.n
  let kv_head := to_int32 kv_cache.head
  let n_tokens := batch.n_tokens
  let n_embd := hparams.n_embd
  let n_embd_head := hparams.n_embd_head_v
  let n_embd_gqa := n_embd_head
  let n_ctx_orig := to_int32 cparams.n_ctx_orig_yarn
  let qkv ← build_phi2_qkv layer attn_norm_output n_embd n_embd_gqa n_tokens
  let Qcur ← ggml_reshape_3d qkv.1 n_embd_head n_head n_tokens
  let Kcur ← ggml_reshape_3d qkv.2.1 n_embd_head n_head_kv n_tokens
  let Qcur ← ggml_rope_ext Qcur inp_pos none n_rot rope_type n_ctx n_ctx_orig
    cparams.rope_freq_base cparams.rope_freq_scale cparams.yarn_ext_factor
    cparams.yarn_attn_factor cparams.yarn_beta_fast cparams.yarn_beta_slow
  let Qcur ← ggml_scale Qcur (.inv_sqrt n_embd_head)
  let Kcur ← ggml_rope_ext Kcur inp_pos none n_rot rope_type n_ctx n_ctx_orig
    cparams.rope_freq_base cparams.rope_freq_scale cparams.yarn_ext_factor
    cparams.yarn_attn_factor cparams.yarn_beta_fast cparams.yarn_beta_slow
  llm_build_kv hparams cparams kv_cache (weight_ptr layer.wo) (weight_ptr layer.bo) Kcur
    qkv.2.2 Qcur KQ_mask
    n_tokens kv_head n_kv .one il

/-- One pass of the layer loop (lines 738-848); `inpL` is the layer input, the
result is the next `inpL`. -/
def build_phi2_layer (model : moondream_model) (hparams : moondream_hparams)
    (cparams : moondream_cparams) (batch : moondream_batch)
    (kv_cache : moondream_kv_cache) (inp_pos KQ_mask : tensor_ptr) (n_outputs : Int)
    (il : Nat) (inpL : tensor_ptr) : Build tensor_ptr := do
  let n_layer := hparams.n_layer
  let layer ← vec_at model.layers il
  let attn_norm_output ← llm_build_norm inpL hparams (weight_ptr layer.attn_norm)
    (weight_ptr layer.attn_norm_b) .LLM_NORM
  let cur ← build_phi2_attn hparams cparams batch kv_cache layer attn_norm_output
    inp_pos KQ_mask il
  let sel ←
    if (il : Int) = n_layer - 1 then do
      let inp_out_ids ← build_inp_out_ids n_outputs
      let cur ← ggml_get_rows cur inp_out_ids
      let inpL ← ggml_get_rows inpL inp_out_ids
      let attn_norm_output ← ggml_get_rows attn_norm_output inp_out_ids
      pure (cur, inpL, attn_norm_output)
    else pure (cur, inpL, attn_norm_output)
  let ffn_output ← llm_build_ffn sel.2.2 (weight_ptr layer.ffn_up)
    (weight_ptr layer.ffn_up_b) none none (weight_ptr layer.ffn_down)
    (weight_ptr layer.ffn_down_b) none .LLM_FFN_GELU .LLM_FFN_SEQ
  let cur ← ggml_add sel.1 ffn_output
  let cur ← ggml_add cur sel.2.1
  pure cur

/-- The layer loop `for (int il = 0; il < n_layer; ++il)`: `k` passes starting at
layer `il`. -/
def build_phi2_layers (model : moondream_model) (hparams : moondream_hparams)
    (cparams : moondream_cparams) (batch : moondream_batch)
    (kv_cache : moondream_kv_cache) (inp_pos KQ_mask : tensor_ptr) (n_outputs : Int) :
    Nat → Nat → tensor_ptr → Build tensor_ptr
  | 0, _, inpL => pure inpL
  | k + 1, il, inpL => do
    let inpL ← build_phi2_layer model hparams cparams batch kv_cache inp_pos KQ_mask
      n_outputs il inpL
    build_phi2_layers model hparams cparams batch kv_cache inp_pos KQ_mask n_outputs
      k (il + 1) inpL

/-- `build_phi2` (lines 667-866). The graph context `ctx0` and `mctx` are the state;
the result is the graph `gf`. -/
def build_phi2 (model : moondream_model) (hparams : moondream_hparams)
    (cparams : moondream_cparams) (batch : moondream_batch)
    (kv_cache : moondream_kv_cache) : Build ggml_cgraph := do
  ggml_new_graph_custom LLAMA_MAX_NODES false
  let mctx ← get_mctx
  let n_outputs := mctx.n_outputs
  let n_kv := to_int32 kv_cache.n
  let n_layer := hparams.n_layer
  let n_embd_head := hparams.n_embd_head_v
  ggml_assert (decide (n_embd_head = hparams.n_embd_head_k)) .assert_n_embd_head
  let inpL ← llm_build_inp_embd hparams batch (weight_ptr model.tok_embd)
  let inp_pos ← build_inp_pos batch
  let KQ_mask ← build_inp_KQ_mask batch cparams n_kv
  let inpL ← build_phi2_layers model hparams cparams batch kv_cache inp_pos KQ_mask
    n_outputs n_layer.toNat 0 inpL
  let cur ← llm_build_norm inpL hparams (weight_ptr model.output_norm)
    (weight_ptr model.output_norm_b) .LLM_NORM
  let output ← nonnull (weight_ptr model.output)
  let cur ← ggml_mul_mat output cur
  let output_b ← nonnull (weight_ptr model.output_b)
  let cur ← ggml_add cur output_b
  ggml_build_forward_expand cur
  fun s => .ok s.gf s

/-! ## The loader (`main.cpp` lines 890-931)

The weight-file reader (gguf) belongs to the runtime; of a file it is modelled what
`moondream_load_model` asks for: version, alignment, data offset and the typed
key/value header. -/

/-- A header value: the two types the loader reads, and any other type. -/
inductive gguf_value where
  | u32 (v : Nat)
  | str (s : String)
  | other
  deriving DecidableEq, Repr

/-- One header entry. -/
structure gguf_kv where
  key : String
  value : gguf_value
  deriving DecidableEq, Repr

/-- A parsed weight file (`struct gguf_context`). -/
structure gguf_context where
  version : Int
  alignment : Nat
  data_offset : Nat
  kv : List gguf_kv
  deriving DecidableEq, Repr

/-- Why the loader ended without returning. -/
inductive load_fault where
  /-- `gguf_init_from_file` returned null and the null context was used -/
  | null_ctx
  /-- `GGML_ASSERT(key_id >= 0 && key_id < gguf_get_n_kv(ctx))` in a `gguf_get_val_*` -/
  | key_assert
  /-- the type assertion of a `gguf_get_val_*` -/
  | type_assert
  /-- integer division by zero, or `INT_MIN / -1` -/
  | int_division
  deriving DecidableEq, Repr

/-- Position of the first entry with key `key` at or after position `i`, else `-1`. -/
def gguf_find_key_from (key : String) : List gguf_kv → Int → Int
  | [], _ => -1
  | e :: rest, i => if e.key = key then i else gguf_find_key_from key rest (i + 1)

/-- Runtime `gguf_find_key`. -/
def gguf_find_key (ctx : gguf_context) (key : String) : Int :=
  gguf_find_key_from key ctx.kv 0

/-- Runtime `gguf_get_val_str`. -/
def gguf_get_val_str (ctx : gguf_context) (key_id : Int) : Except load_fault String :=
  if 0 ≤ key_id ∧ key_id < ctx.kv.length then
    match ctx.kv[key_id.toNat]? with
    | some { key := _, value := .str v } => .ok v
    | _ => .error .type_assert
  else .error .key_assert

/-- Runtime `gguf_get_val_u32`. -/
def gguf_get_val_u32 (ctx : gguf_context) (key_id : Int) : Except load_fault Nat :=
  if 0 ≤ key_id ∧ key_id < ctx.kv.length then
    match ctx.kv[key_id.toNat]? with
    | some { key := _, value := .u32 v } => .ok v
    | _ => .error .type_assert
  else .error .key_assert

/-- The macro `ARCH_PREFIX(t)`. -/
def ARCH_PREFIX (t : String) : String := "phi2." ++ t

/-- Division of two `int` values as the machine does it (truncating); undefined
for a zero divisor and for `INT_MIN / -1`. -/
def int_div (a b : Int) : Except load_fault Int :=
  if b = 0 ∨ (a = -2147483648 ∧ b = -1) then .error .int_division
  else .ok (Int.tdiv a b)

/-- An argument of a `printf` call. -/
inductive printf_arg where
  | s (x : String)
  | d (x : Int)
  | ld (x : Nat)
  deriving DecidableEq, Repr

/-- What the loader has read when it starts printing: the two strings and the local
`hparams`. -/
structure loaded_header where
  model_arch : String
  model_name : String
  hparams : moondream_hparams
  deriving DecidableEq, Repr

/-- Lines 897-915 of `moondream_load_model`: the header reads and the local
`moondream_hparams hparams`. The local is not initialised; `uninit` stands for its
indeterminate contents, of which the fields assigned here are overwritten. -/
def moondream_load_hparams (ctx : gguf_context) (uninit : moondream_hparams) :
    Except load_fault loaded_header := do
  let model_arch ← gguf_get_val_str ctx (gguf_find_key ctx "general.architecture")
  let model_name ← gguf_get_val_str ctx (gguf_find_key ctx "general.name")
  let n_ctx_train ← gguf_get_val_u32 ctx (gguf_find_key ctx (ARCH_PREFIX "context_length"))
  let n_embd ← gguf_get_val_u32 ctx (gguf_find_key ctx (ARCH_PREFIX "embedding_length"))
  let n_rot ← gguf_get_val_u32 ctx (gguf_find_key ctx (ARCH_PREFIX "rope.dimension_count"))
  let n_layer ← gguf_get_val_u32 ctx (gguf_find_key ctx (ARCH_PREFIX "block_count"))
  let n_ff ← gguf_get_val_u32 ctx (gguf_find_key ctx (ARCH_PREFIX "block_count"))
  let n_head ← gguf_get_val_u32 ctx (gguf_find_key ctx (ARCH_PREFIX "attention.head_count"))
  let n_head_kv ← gguf_get_val_u32 ctx
    (gguf_find_key ctx (ARCH_PREFIX "attention.head_count_kv"))
  let n_embd_head_k ← int_div (to_int32 n_embd) (to_int32 n_head)
  pure { model_arch := model_arch, model_name := model_name,
         hparams := { uninit with
           n_ctx_train := to_int32 n_ctx_train, n_embd := to_int32 n_embd,
           n_rot := to_int32 n_rot, n_layer := to_int32 n_layer, n_ff := to_int32 n_ff,
           n_head := to_int32 n_head, n_head_kv := to_int32 n_head_kv,
           n_embd_head_k := n_embd_head_k, n_embd_head_v := n_embd_head_k } }

/-- What a call of `moondream_load_model` leaves behind: the returned `bool`, the
caller's `*model`, and the lines printed. -/
structure load_result where
  ret : Bool
  model : moondream_model
  stdout : List (String × List printf_arg)
  deriving DecidableEq, Repr

/-- `moondream_load_model(gguf_file_path, model)` (lines 890-931). `file` is what
`gguf_init_from_file` finds at the path (`none`: a null context); `model` is the
caller's `*model` before the call. -/
def moondream_load_model (file : Option gguf_context) (gguf_file_path : String)
    (model : moondream_model) (uninit : moondream_hparams) :
    Except load_fault load_result :=
  match file with
  | none => .error .null_ctx
  | some ctx => do
    let gguf_version := ctx.version
    let gguf_alignment := ctx.alignment
    let gguf_data_offset := ctx.data_offset
    let h ← moondream_load_hparams ctx uninit
    let hparams := h.hparams
    pure { ret := true, model := model, stdout := [
      ("loaded %s from %s\n", [.s h.model_name, .s gguf_file_path]),
      ("gguf version: %d\n", [.d gguf_version]),
      ("gguf alignment: %ld\n", [.ld gguf_alignment]),
      ("gguf data offset: %ld\n", [.ld gguf_data_offset]),
      ("model architecture: %s\n", [.s h.model_arch]),
      ("context length: %d\n", [.d hparams.n_ctx_train]),
      ("embedding length: %d\n", [.d hparams.n_embd]),
      ("block count: %d\n", [.d hparams.n_layer]),
      ("feed forward length: %d\n", [.d hparams.n_ff]),
      ("head count: %d\n", [.d hparams.n_head]),
      ("head count kv: %d\n", [.d hparams.n_head_kv]),
      ("n_embd_head_k: %d\n", [.d hparams.n_embd_head_k]),
      ("n_embd_head_v: %d\n", [.d hparams.n_embd_head_v])] }

/-! ## Vocabulary of the proofs

Predicates and tensor records in which the statements below are phrased. -/

/-- `alloc s t p s2`: the step allocated exactly the tensor `t`, and `p` points to it. -/
def alloc (s : build_state) (t : ggml_tensor) (p : tensor_ptr) (s2 : build_state) : Prop :=
  p = .node s.ctx0.length ∧ s2 = { s with ctx0 := s.ctx0 ++ [t] }

/-- The tensor that owns the data of a view of `src` (whose tensor is `v`). -/
def view_base_of (src : tensor_ptr) (v : ggml_tensor) : tensor_ptr :=
  match v.view_src with
  | some b => b
  | none => src

/-- The absolute offset of a view at `offs` into `src` (whose tensor is `v`). -/
def view_offs_of (v : ggml_tensor) (offs : Int) : Int :=
  match v.view_src with
  | some _ => offs + v.view_offs
  | none => offs

/-- The view fits into the tensor `bt` that owns the data: the runtime's check
`data_size == 0 || data_size + view_offs <= ggml_nbytes(view_src)`, in `size_t`. -/
def view_fits (type : ggml_type) (ne0 ne1 ne2 ne3 offs : Int) (bt : ggml_tensor) : Prop :=
  wrap_size_t (ggml_row_size type ne0 * ne1 * ne2 * ne3) = 0
    ∨ wrap_size_t (wrap_size_t (ggml_row_size type ne0 * ne1 * ne2 * ne3) + offs)
        ≤ wrap_size_t (ggml_nbytes bt)

/-- The 1-D write window into a cache tensor that `llm_build_kv_store` creates. -/
def cache_view_1d (c : ext_tensor) (ne0 offset : Int) : ggml_tensor :=
  { new_tensor c.type ne0 1 1 1 with
    view_src := some (.ext c), view_offs := offset,
    op := .VIEW, src := [some (.ext c)], iparams := [offset] }

/-- The 2-D write window into the (transposed) V cache. -/
def cache_view_2d (c : ext_tensor) (ne0 ne1 nb1 offset : Int) : ggml_tensor :=
  { new_tensor c.type ne0 ne1 1 1 with
    view_src := some (.ext c), view_offs := offset,
    op := .VIEW, src := [some (.ext c)], iparams := [offset],
    nb1 := nb1, nb2 := nb1 * ne1, nb3 := nb1 * ne1 }

/-- The copy of `src` into the window `dst` (tensor `w`, a view of cache tensor `c`). -/
def cache_cpy (c : ext_tensor) (w : ggml_tensor) (src dst : tensor_ptr) : ggml_tensor :=
  { new_tensor c.type w.ne0 w.ne1 w.ne2 w.ne3 with
    view_src := some (.ext c), view_offs := w.view_offs,
    nb0 := w.nb0, nb1 := w.nb1, nb2 := w.nb2, nb3 := w.nb3,
    op := .CPY, src := [some src, some dst] }

/-- The 3-D read view over a cache tensor that `llm_build_kqv` creates. -/
def cache_view_3d (c : ext_tensor) (ne0 ne1 ne2 nb1 nb2 : Int) : ggml_tensor :=
  { new_tensor c.type ne0 ne1 ne2 1 with
    view_src := some (.ext c), view_offs := 0,
    op := .VIEW, src := [some (.ext c)], iparams := [0],
    nb1 := nb1, nb2 := nb2, nb3 := nb2 * ne2 }

/-- `grows s s2`: from `s` to `s2` tensors were appended to `ctx0` and nothing was
registered in the graph. -/
def grows (s s2 : build_state) : Prop :=
  s2.gf = s.gf ∧ ∃ new, s2.ctx0 = s.ctx0 ++ new

/-- A step that, when it returns, has only appended tensors. -/
def Grows {α : Type} (m : Build α) : Prop :=
  ∀ s a s2, m s = .ok a s2 → grows s s2

/-- The tensors `seg` that `llm_build_kv` appends to a context of `n` tensors (up to
and including the attention output) and the six tensors `six` it registers, for a
call with the given arguments. -/
def kv_seg (hparams : moondream_hparams) (cparams : moondream_cparams)
    (kv : moondream_kv_cache) (n_tokens kv_head n_kv : Int) (kq_scale : f32) (il : Nat)
    (q_cur k_cur v_cur kq_mask : tensor_ptr) (n : Nat) (seg : List ggml_tensor)
    (six : List tensor_ptr) : Prop :=
  ∃ k_l v_l, kv.k_l[il]? = some k_l ∧ kv.v_l[il]? = some v_l ∧
    ((cparams.flash_attn = true ∧ ∃ qp fa rs,
        qp.op = .PERMUTE ∧ qp.src = [some q_cur]
        ∧ fa.op = .FLASH_ATTN_EXT
        ∧ fa.src = [some (.node (n + 4)), some (.node (n + 5)), some (.node (n + 6)),
            some kq_mask]
        ∧ fa.fparams = [kq_scale, hparams.f_max_alibi_bias] ∧ fa.prec = .F32
        ∧ rs.op = .RESHAPE ∧ rs.src = [some (.node (n + 7))]
        ∧ seg =
          [ cache_view_1d k_l (n_tokens * hparams.n_embd_k_gqa)
              (wrap_size_t (ggml_row_size k_l.type hparams.n_embd_k_gqa * kv_head)),
            cache_cpy k_l (cache_view_1d k_l (n_tokens * hparams.n_embd_k_gqa)
              (wrap_size_t (ggml_row_size k_l.type hparams.n_embd_k_gqa * kv_head))) k_cur (.node n),
            cache_view_1d v_l (n_tokens * hparams.n_embd_v_gqa)
              (wrap_size_t (kv_head * ggml_row_size v_l.type hparams.n_embd_v_gqa)),
            cache_cpy v_l (cache_view_1d v_l (n_tokens * hparams.n_embd_v_gqa)
              (wrap_size_t (kv_head * ggml_row_size v_l.type hparams.n_embd_v_gqa))) v_cur (.node (n + 2)),
            qp,
            cache_view_3d k_l hparams.n_embd_head_v n_kv hparams.n_head_kv
              (ggml_row_size k_l.type hparams.n_embd_k_gqa)
              (ggml_row_size k_l.type hparams.n_embd_head_k),
            cache_view_3d v_l hparams.n_embd_head_v n_kv hparams.n_head_kv
              (ggml_row_size v_l.type hparams.n_embd_v_gqa)
              (ggml_row_size v_l.type hparams.n_embd_head_v),
            fa, rs ]
        ∧ six = [q_cur, k_cur, v_cur, .node (n + 1), .node (n + 3), .node (n + 8)])
    ∨ (cparams.flash_attn = false ∧ ∃ vt qp kq sm kqv pm cur,
        vt.op = .TRANSPOSE ∧ vt.src = [some v_cur]
        ∧ qp.op = .PERMUTE ∧ qp.src = [some q_cur]
        ∧ kq.op = .MUL_MAT ∧ kq.src = [some (.node (n + 6)), some (.node (n + 5))]
        ∧ kq.prec = .F32
        ∧ sm.op = .SOFT_MAX ∧ sm.src = [some (.node (n + 7)), some kq_mask]
        ∧ sm.fparams = [kq_scale, hparams.f_max_alibi_bias]
        ∧ kqv.op = .MUL_MAT ∧ kqv.src = [some (.node (n + 9)), some (.node (n + 8))]
        ∧ pm.op = .PERMUTE ∧ pm.src = [some (.node (n + 10))]
        ∧ cur.op = .CONT ∧ cur.src = [some (.node (n + 11))]
        ∧ seg =
          [ cache_view_1d k_l (n_tokens * hparams.n_embd_k_gqa)
              (wrap_size_t (ggml_row_size k_l.type hparams.n_embd_k_gqa * kv_head)),
            cache_cpy k_l (cache_view_1d k_l (n_tokens * hparams.n_embd_k_gqa)
              (wrap_size_t (ggml_row_size k_l.type hparams.n_embd_k_gqa * kv_head))) k_cur (.node n),
            cache_view_2d v_l n_tokens hparams.n_embd_v_gqa
              (wrap_size_t (cparams.n_ctx * ggml_type_size v_l.type)) (wrap_size_t (kv_head * ggml_type_size v_l.type)),
            vt,
            cache_cpy v_l (cache_view_2d v_l n_tokens hparams.n_embd_v_gqa
              (wrap_size_t (cparams.n_ctx * ggml_type_size v_l.type)) (wrap_size_t (kv_head * ggml_type_size v_l.type)))
              (.node (n + 3)) (.node (n + 2)),
            qp,
            cache_view_3d k_l hparams.n_embd_head_v n_kv hparams.n_head_kv
              (ggml_row_size k_l.type hparams.n_embd_k_gqa)
              (ggml_row_size k_l.type hparams.n_embd_head_k),
            kq, sm,
            cache_view_3d v_l n_kv hparams.n_embd_head_v hparams.n_head_kv
              (ggml_type_size v_l.type * cparams.n_ctx)
              (ggml_type_size v_l.type * cparams.n_ctx * hparams.n_embd_head_v),
            kqv, pm, cur ]
        ∧ six = [q_cur, k_cur, v_cur, .node (n + 1), .node (n + 4), .node (n + 12)]))

/-- Layer `il` as it is found in a context `ctx0` and a registration list `expanded`:
the scaled `Q` and the rotated `K` (tensors `tq`, `tk`), directly followed by the
tensors of `llm_build_kv`; the six registrations of the layer are entries
`6 * il .. 6 * il + 5` of `expanded`. -/
def layer_at (hparams : moondream_hparams) (cparams : moondream_cparams)
    (kv : moondream_kv_cache) (batch : moondream_batch) (KQ_mask : tensor_ptr)
    (ctx0 : List ggml_tensor) (expanded : List tensor_ptr) (il : Nat) : Prop :=
  ∃ A tq tk V tv seg B six E F,
    ctx0 = A ++ ([tq, tk] ++ seg) ++ B ∧ expanded = E ++ six ++ F ∧ E.length = 6 * il
    ∧ tq.op = .SCALE ∧ tq.fparams = [.inv_sqrt hparams.n_embd_head_v] ∧ tk.op = .ROPE
    ∧ lookup A V = some tv ∧ (tv.op = .CONT ∨ tv.op = .ADD)
    ∧ kv_seg hparams cparams kv batch.n_tokens (to_int32 kv.head) (to_int32 kv.n) .one il
        (.node A.length) (.node (A.length + 1)) V KQ_mask (A.length + 2) seg six

/-- In context `ctx0`, tensor `p` takes `q` as an operand. -/
def operand (ctx0 : List ggml_tensor) (p q : tensor_ptr) : Prop :=
  ∃ t, lookup ctx0 p = some t ∧ some q ∈ t.src

/-- In context `ctx0`, tensor `p` is computed from `q`: a chain of one or more operand
links leads from `p` to `q`. -/
def depends (ctx0 : List ggml_tensor) (p q : tensor_ptr) : Prop :=
  Relation.TransGen (operand ctx0) p q

/-- Tensor `p` is a copy of `src` into the cache tensor `c`: a `CPY` node whose
destination is a view over `c`. -/
def cache_write (ctx0 : List ggml_tensor) (p : tensor_ptr) (c : ext_tensor)
    (src : tensor_ptr) : Prop :=
  ∃ t d w, lookup ctx0 p = some t ∧ t.op = .CPY ∧ t.src = [some src, some d]
    ∧ lookup ctx0 d = some w ∧ w.op = .VIEW ∧ w.view_src = some (.ext c)

/-- Tensor `p` reads the cache tensor `c`: it is computed from a view over `c`. -/
def cache_read (ctx0 : List ggml_tensor) (p : tensor_ptr) (c : ext_tensor) : Prop :=
  ∃ d w, depends ctx0 p d ∧ lookup ctx0 d = some w ∧ w.op = .VIEW
    ∧ w.view_src = some (.ext c)

/-- The attention op behind the attention output `att` carries F32 precision and the
scale `kq_scale`: with flash attention the `FLASH_ATTN_EXT` node that `att` reshapes;
without it the `MUL_MAT` node `K*Q` that is the first operand of the `SOFT_MAX` node
which `att` is computed from, the scale being that of the `SOFT_MAX`. -/
def attn_prec_f32 (hparams : moondream_hparams) (cparams : moondream_cparams)
    (ctx0 : List ggml_tensor) (att : tensor_ptr) (kq_scale : f32) : Prop :=
  (cparams.flash_attn = true ∧ ∃ fa t, operand ctx0 att fa ∧ lookup ctx0 fa = some t
      ∧ t.op = .FLASH_ATTN_EXT ∧ t.prec = .F32
      ∧ t.fparams = [kq_scale, hparams.f_max_alibi_bias])
  ∨ (cparams.flash_attn = false ∧ ∃ sm tsm kq mask tkq, depends ctx0 att sm
      ∧ lookup ctx0 sm = some tsm ∧ tsm.op = .SOFT_MAX
      ∧ tsm.fparams = [kq_scale, hparams.f_max_alibi_bias]
      ∧ tsm.src = [some kq, some mask]
      ∧ lookup ctx0 kq = some tkq ∧ tkq.op = .MUL_MAT ∧ tkq.prec = .F32)

/-- The facts about layer `l` that the statements on a finished graph draw on. -/
def layer_facts (hparams : moondream_hparams) (cparams : moondream_cparams)
    (kv : moondream_kv_cache) (ctx0 : List ggml_tensor) (expanded : List tensor_ptr)
    (l : Nat) : Prop :=
  ∃ k_l v_l Q K V kc vc att vsrc tq tk,
    kv.k_l[l]? = some k_l ∧ kv.v_l[l]? = some v_l
    ∧ (expanded.drop (6 * l)).take 6 = [Q, K, V, kc, vc, att]
    ∧ lookup ctx0 Q = some tq ∧ tq.op = .SCALE
    ∧ tq.fparams = [.inv_sqrt hparams.n_embd_head_v]
    ∧ lookup ctx0 K = some tk ∧ tk.op = .ROPE
    ∧ cache_write ctx0 kc k_l K
    ∧ cache_write ctx0 vc v_l vsrc ∧ (vsrc = V ∨ operand ctx0 vsrc V)
    ∧ depends ctx0 att Q ∧ cache_read ctx0 att k_l ∧ cache_read ctx0 att v_l
    ∧ attn_prec_f32 hparams cparams ctx0 att .one

/-! ## Sample inputs: small concrete inputs on which the definitions are evaluated -/

/-- A contiguous 2-D tensor that exists before the build (a weight or a cache). -/
def sample_tensor (id : Nat) (type : ggml_type) (ne0 ne1 : Int) : ext_tensor :=
  { id := id, type := type, ne0 := ne0, ne1 := ne1, ne2 := 1, ne3 := 1,
    nb0 := ggml_type_size type,
    nb1 := ggml_type_size type * (ne0 / ggml_blck_size type),
    nb2 := ggml_type_size type * (ne0 / ggml_blck_size type) * ne1,
    nb3 := ggml_type_size type * (ne0 / ggml_blck_size type) * ne1 }

/-- Hyper-parameters with `n_ff = 8`, `n_rot = 2` and the `gqa` widths set to head
size times `n_head_kv`. -/
def sample_hparams (n_embd n_head n_head_kv n_embd_head_k n_embd_head_v n_layer : Int) :
    moondream_hparams :=
  { n_embd := n_embd, n_ff := 8, n_layer := n_layer, n_rot := 2, n_ctx_train := 8,
    n_head := n_head, n_head_kv := n_head_kv, n_embd_head_k := n_embd_head_k,
    n_embd_k_gqa := n_embd_head_k * n_head_kv, n_embd_head_v := n_embd_head_v,
    n_embd_v_gqa := n_embd_head_v * n_head_kv,
    f_norm_eps := .given 0, f_norm_rms_eps := .given 1, rope_freq_base_train := .given 2,
    rope_attn_factor := 0, f_max_alibi_bias := .given 3 }

/-- Context parameters with causal attention. -/
def sample_cparams (n_ctx : Nat) (flash_attn : Bool) : moondream_cparams :=
  { n_ctx := n_ctx, n_batch := 8, n_ubatch := 8, n_seq_max := 1, n_threads := 1,
    n_threads_batch := 1, rope_freq_base := .given 4, rope_freq_scale := .given 5,
    n_ctx_orig_yarn := 8, yarn_ext_factor := .given 6, yarn_attn_factor := .given 7,
    yarn_beta_fast := .given 8, yarn_beta_slow := .given 9, defrag_thold := .given 10,
    embeddings := false, causal_attn := true, offload_kqv := false,
    flash_attn := flash_attn }

/-- The weights of layer `i`, shaped for `h`: separate `wq`, `wk`, `wv` with their
biases, or the fused `wqkv` with `bqkv` when `fused` is set. -/
def sample_layer (fused : Bool) (h : moondream_hparams) (i : Nat) : moondream_layer :=
  { attn_norm := some (sample_tensor (100 * i + 1) .F32 h.n_embd 1),
    attn_norm_b := some (sample_tensor (100 * i + 2) .F32 h.n_embd 1),
    wq := if fused then none else some (sample_tensor (100 * i + 3) .F16 h.n_embd h.n_embd),
    wk := if fused then none
      else some (sample_tensor (100 * i + 4) .F16 h.n_embd h.n_embd_k_gqa),
    wv := if fused then none
      else some (sample_tensor (100 * i + 5) .F16 h.n_embd h.n_embd_v_gqa),
    wo := some (sample_tensor (100 * i + 6) .F16 h.n_embd h.n_embd),
    wqkv := if fused then
        some (sample_tensor (100 * i + 7) .F16 h.n_embd
          (h.n_embd + h.n_embd_k_gqa + h.n_embd_v_gqa))
      else none,
    bq := if fused then none else some (sample_tensor (100 * i + 8) .F32 h.n_embd 1),
    bk := if fused then none else some (sample_tensor (100 * i + 9) .F32 h.n_embd_k_gqa 1),
    bv := if fused then none else some (sample_tensor (100 * i + 10) .F32 h.n_embd_v_gqa 1),
    bo := some (sample_tensor (100 * i + 11) .F32 h.n_embd 1),
    bqkv := if fused then
        some (sample_tensor (100 * i + 12) .F32 (h.n_embd + h.n_embd_k_gqa + h.n_embd_v_gqa) 1)
      else none,
    ffn_down := some (sample_tensor (100 * i + 13) .F16 h.n_ff h.n_embd),
    ffn_up := some (sample_tensor (100 * i + 14) .F16 h.n_embd h.n_ff),
    ffn_down_b := some (sample_tensor (100 * i + 15) .F32 h.n_embd 1),
    ffn_up_b := some (sample_tensor (100 * i + 16) .F32 h.n_ff 1) }

/-- A model with `h.n_layer` layers and a vocabulary of five. -/
def sample_model (h : moondream_hparams) (c : moondream_cparams) (fused : Bool) :
    moondream_model :=
  { hparams := h, cparams := c,
    layers := (List.range h.n_layer.toNat).map (sample_layer fused h),
    tok_embd := some (sample_tensor 1 .F16 h.n_embd 5),
    output_norm := some (sample_tensor 2 .F32 h.n_embd 1),
    output_norm_b := some (sample_tensor 3 .F32 h.n_embd 1),
    output := some (sample_tensor 4 .F16 h.n_embd 5),
    output_b := some (sample_tensor 5 .F32 5 1) }

/-- An F16 cache of `size` cells per layer, with write position `head` and `n` cells
in use. -/
def sample_kv_cache (h : moondream_hparams) (size head n : Nat) : moondream_kv_cache :=
  { has_shift := false, do_defrag := false, do_copy := false, v_trans := true,
    head := head, size := size, used := head, n := n, type_k := .F16, type_v := .F16,
    k_l := (List.range h.n_layer.toNat).map
      (fun i => sample_tensor (1000 + i) .F16 (h.n_embd_k_gqa * size) 1),
    v_l := (List.range h.n_layer.toNat).map
      (fun i => sample_tensor (2000 + i) .F16 (h.n_embd_v_gqa * size) 1) }

/-- A batch of `n_tokens` with the `token` and `embd` arrays set or null. -/
def sample_batch (n_tokens : Int) (token embd : Bool) : moondream_batch :=
  { n_tokens := n_tokens, token := if token then some [] else none,
    embd := if embd then some [] else none, pos := some [], seq_id := none }

/-- A context that has no input tensor yet. -/
def sample_context (c : moondream_cparams) (n_outputs : Int) : moondream_context :=
  { cparams := c, n_outputs := n_outputs, n_sample := 0, inp_tokens := none,
    inp_embd := none, inp_pos := none, inp_out_ids := none, inp_KQ_mask := none,
    inp_K_shift := none, inp_mean := none, inp_cls := none, inp_s_copy := none,
    inp_s_mask := none, inp_s_seq := none }

/-- The state before a build: an empty `ctx0`. -/
def sample_state (c : moondream_cparams) (n_outputs : Int) : build_state :=
  { ctx0 := [], gf := { size := 0, grads := false, expanded := [] },
    mctx := sample_context c n_outputs }

/-- A run of `build_phi2` on the sample model for `h` and `c`. -/
def sample_build (h : moondream_hparams) (c : moondream_cparams) (fused : Bool)
    (batch : moondream_batch) (kv_size kv_head kv_n : Nat) (n_outputs : Int) :
    outcome ggml_cgraph :=
  build_phi2 (sample_model h c fused) h c batch (sample_kv_cache h kv_size kv_head kv_n)
    (sample_state c n_outputs)

/-- Whether a run returned. -/
def returned {α : Type} : outcome α → Bool
  | .ok _ _ => true
  | .abort _ _ => false

/-- The state a run ended in. -/
def state_of {α : Type} : outcome α → build_state
  | .ok _ s => s
  | .abort _ s => s

/-- The graph a run returned (the state's graph when it did not return). -/
def graph_of : outcome ggml_cgraph → ggml_cgraph
  | .ok g _ => g
  | .abort _ s => s.gf

instance {α : Type} [DecidableEq α] : DecidableEq (outcome α) := fun a b =>
  match a, b with
  | .ok x s, .ok y t =>
    if h : x = y ∧ s = t then isTrue (by rw [h.1, h.2])
    else isFalse (by intro e; cases e; exact h ⟨rfl, rfl⟩)
  | .abort x s, .abort y t =>
    if h : x = y ∧ s = t then isTrue (by rw [h.1, h.2])
    else isFalse (by intro e; cases e; exact h ⟨rfl, rfl⟩)
  | .ok _ _, .abort _ _ => isFalse (by intro e; cases e)
  | .abort _ _, .ok _ _ => isFalse (by intro e; cases e)

/-- One layer, two heads of size two, no flash attention, three tokens, a cache of
eight cells with none in use before and three after. -/
def run_noflash : outcome ggml_cgraph :=
  sample_build (sample_hparams 4 2 2 2 2 1) (sample_cparams 8 false) false
    (sample_batch 3 true false) 8 0 3 1

/-- Two layers, two heads of size two, flash attention. -/
def run_flash : outcome ggml_cgraph :=
  sample_build (sample_hparams 4 2 2 2 2 2) (sample_cparams 8 true) false
    (sample_batch 3 true false) 8 0 3 1

/-- The header of the scenario file, with `general.architecture = arch`. -/
def scenario_header (arch : String) : gguf_context :=
  { version := 3, alignment := 32, data_offset := 4096,
    kv := [ ⟨"general.architecture", .str arch⟩, ⟨"general.name", .str "moondream2"⟩,
            ⟨"phi2.context_length", .u32 2048⟩, ⟨"phi2.embedding_length", .u32 2560⟩,
            ⟨"phi2.block_count", .u32 32⟩, ⟨"phi2.rope.dimension_count", .u32 32⟩,
            ⟨"phi2.attention.head_count", .u32 32⟩,
            ⟨"phi2.attention.head_count_kv", .u32 32⟩ ] }

/-- A state in which `Kcur` and `Vcur` of three tokens and width four exist (tensors
`0` and `1`), as `llm_build_kv_store` finds them. -/
def kv_store_state : build_state :=
  { ctx0 := [new_tensor .F32 4 3 1 1, new_tensor .F32 4 3 1 1],
    gf := { size := 0, grads := false, expanded := [] },
    mctx := sample_context (sample_cparams 8 false) 1 }

/-- A call of `llm_build_kv_store` on `kv_store_state`: three tokens written at cache
position `kv_head = 2` of layer `0`. -/
def kv_store_run (flash_attn : Bool) : outcome Unit :=
  llm_build_kv_store (sample_hparams 4 2 2 2 2 1) (sample_cparams 8 flash_attn)
    (sample_kv_cache (sample_hparams 4 2 2 2 2 1) 8 2 5) (.node 0) (.node 1) 3 2 0
    kv_store_state

/-- A call of `llm_build_kv_store` on `kv_store_state` with the cache head at
`4294967295`, which the `int32_t kv_head` of the builder holds as `-1`. -/
def kv_store_wrap_run (flash_attn : Bool) : outcome Unit :=
  llm_build_kv_store (sample_hparams 4 2 2 2 2 1) (sample_cparams 8 flash_attn)
    (sample_kv_cache (sample_hparams 4 2 2 2 2 1) 8 4294967295 5) (.node 0) (.node 1) 3
    (to_int32 4294967295) 0 kv_store_state

/-- The tensor a run returned, if any. -/
def result_of {α : Type} : outcome α → Option α
  | .ok a _ => some a
  | .abort _ _ => none

/-- Tensor `p` is a matrix of `n` columns: extents `[_, n, 1, 1]`. -/
def columns (ctx0 : List ggml_tensor) (p : tensor_ptr) (n : Int) : Prop :=
  ∃ t, lookup ctx0 p = some t ∧ t.ne1 = n ∧ t.ne2 = 1 ∧ t.ne3 = 1

/-! ## `main` (`main.cpp` lines 933-972) -/

/-- `MD_TEXT_MODEL_FNAME`. A C string is modelled by the list of its `char`s, the
terminator left out. -/
def MD_TEXT_MODEL_FNAME : List Char := "moondream2-text-model-f16.gguf".toList

/-- `MD_MMPROJ_FNAME`. -/
def MD_MMPROJ_FNAME : List Char := "moondream2-mmproj-f16.gguf".toList

/-- `DATA_PATH_MAX_LEN`. -/
def DATA_PATH_MAX_LEN : Nat := 512

/-- A value as a `size_t` (64 bits). -/
def to_size_t (n : Nat) : Nat := n % 18446744073709551616

/-- Library `strlen`. -/
def strlen (s : List Char) : Nat := to_size_t s.length

/-- Library `snprintf(buf, size, "%s%s", a, b)`: the string `buf` holds afterwards, the
first `size - 1` chars of `a` followed by `b` (nothing is written when `size` is 0). -/
def snprintf_s_s (size : Nat) (a b : List Char) : List Char := (a ++ b).take (size - 1)

/-- What a run of `main` leaves behind: the lines printed and the exit status, or the
fault on which the process died instead of returning from `main`. -/
structure main_result where
  stdout : List (String × List printf_arg)
  status : Except load_fault Int
  deriving Repr

/-- Lines 945-959 of `main`: the two resolved paths `(text_model_path, mmproj_path)`.
Both buffers and both size bounds are `data_path_length + text_model_fname_length + 1`. -/
def main_paths (data_path : List Char) : List Char × List Char :=
  let data_path_length := strlen data_path
  let text_model_fname := MD_TEXT_MODEL_FNAME
  let text_model_fname_length := strlen text_model_fname
  let text_model_path_length := to_size_t (data_path_length + text_model_fname_length + 1)
  let text_model_path := snprintf_s_s text_model_path_length data_path text_model_fname
  let mmproj_fname := MD_MMPROJ_FNAME
  let mmproj_path_length := to_size_t (data_path_length + text_model_fname_length + 1)
  let mmproj_path := snprintf_s_s mmproj_path_length data_path mmproj_fname
  (text_model_path, mmproj_path)

/-- Lines 966-971 of `main`: the report on the loader's result and the value returned. -/
def main_report (result : Bool) : (String × List printf_arg) × Int :=
  if result == false then (("could not load model\n", []), 0)
  else (("succesfully loaded model\n", []), 0)

/-- `main(argc, argv)` (lines 933-972); `argc` is the length of `argv`. `files` is the
file system as `gguf_init_from_file` sees it; `model` and `uninit` stand for the
indeterminate contents of the locals `model` and (in the loader) `hparams`. -/
def main (argv : List (List Char)) (files : List Char → Option gguf_context)
    (model : moondream_model) (uninit : moondream_hparams) : main_result :=
  if argv.length < 2 then
    { stdout := [("incorrect number of arguments\n", [])], status := .ok 1 }
  else
    let data_path := argv.getD 1 []
    let data_path_length := strlen data_path
    if data_path_length > DATA_PATH_MAX_LEN then
      { stdout := [("provided data path exceeded max length", [])], status := .ok 1 }
    else
      let paths := main_paths data_path
      let printed : List (String × List printf_arg) :=
        [("text model path: %s\n", [.s (String.mk paths.1)]),
         ("mmproj path: %s\n", [.s (String.mk paths.2)])]
      match moondream_load_model (files paths.1) (String.mk paths.1) model uninit with
      | .error f => { stdout := printed, status := .error f }
      | .ok r =>
        { stdout := printed ++ r.stdout ++ [(main_report r.ret).1],
          status := .ok (main_report r.ret).2 }

/-- A Phi-2 header with the given embedding length and head count. -/
def phi2_header (n_embd n_head : Nat) : gguf_context :=
  { version := 3, alignment := 32, data_offset := 4096,
    kv := [ ⟨"general.architecture", .str "phi2"⟩, ⟨"general.name", .str "moondream2"⟩,
            ⟨"phi2.context_length", .u32 2048⟩, ⟨"phi2.embedding_length", .u32 n_embd⟩,
            ⟨"phi2.block_count", .u32 32⟩, ⟨"phi2.rope.dimension_count", .u32 32⟩,
            ⟨"phi2.attention.head_count", .u32 n_head⟩,
            ⟨"phi2.attention.head_count_kv", .u32 n_head⟩ ] }

/-- A file system that holds no file. -/
def no_files : List Char → Option gguf_context := fun _ => none

/-- A file system that holds the scenario file under one path.  -/
def one_file (path : List Char) : List Char → Option gguf_context :=
  fun p => if p = path then some (scenario_header "phi2") else none

/-- The hyper-parameters of the build scenarios: Phi-2 with 32 layers, 32 heads of
size 80 and as many key/value heads. -/
def scenario_hparams : moondream_hparams :=
  { n_embd := 2560, n_ff := 10240, n_layer := 32, n_rot := 32, n_ctx_train := 2048,
    n_head := 32, n_head_kv := 32, n_embd_head_k := 80, n_embd_k_gqa := 2560,
    n_embd_head_v := 80, n_embd_v_gqa := 2560,
    f_norm_eps := .given 0, f_norm_rms_eps := .given 1, rope_freq_base_train := .given 2,
    rope_attn_factor := 0, f_max_alibi_bias := .given 3 }

/-- The context parameters of the build scenarios: `n_ctx = 2048`, `n_batch = 128`,
causal attention, no flash attention. -/
def scenario_cparams : moondream_cparams :=
  { sample_cparams 2048 false with n_batch := 128, n_ubatch := 128, n_ctx_orig_yarn := 2048 }

/-- The model of the build scenarios, with a vocabulary of 51200; `fused` chooses
between the fused `wqkv` and separate `wq`, `wk`, `wv`. -/
def scenario_model (fused : Bool) : moondream_model :=
  { hparams := scenario_hparams, cparams := scenario_cparams,
    layers := (List.range 32).map (sample_layer fused scenario_hparams),
    tok_embd := some (sample_tensor 1 .F16 2560 51200),
    output_norm := some (sample_tensor 2 .F32 2560 1),
    output_norm_b := some (sample_tensor 3 .F32 2560 1),
    output := some (sample_tensor 4 .F16 2560 51200),
    output_b := some (sample_tensor 5 .F32 51200 1) }

/-- The prefill scenario: 16 token ids, `n_outputs = 1`, an empty cache of 2048 cells. -/
def prefill_run (fused : Bool) : outcome ggml_cgraph :=
  build_phi2 (scenario_model fused) scenario_hparams scenario_cparams
    (sample_batch 16 true false) (sample_kv_cache scenario_hparams 2048 0 0)
    (sample_state scenario_cparams 1)

/-- The decode scenario: one token id, `n_outputs = 1`, a cache of 2048 cells with
`head = 16`, `n = 16`, `used = 16`. -/
def decode_run (fused : Bool) : outcome ggml_cgraph :=
  build_phi2 (scenario_model fused) scenario_hparams scenario_cparams
    (sample_batch 1 true false) (sample_kv_cache scenario_hparams 2048 16 16)
    (sample_state scenario_cparams 1)

/-- The assertion a run ended in, if it did not return. -/
def fault_of {α : Type} : outcome α → Option fault
  | .ok _ _ => none
  | .abort f _ => some f

/-- A state in which the normed layer input of three tokens and width four (tensor
`0`), `inp_pos` (tensor `1`) and a mask of shape `[3, 32]` (tensor `2`) exist, as
`build_phi2_attn` finds them. -/
def attn_state : build_state :=
  { ctx0 := [new_tensor .F32 4 3 1 1, new_tensor .I32 3 1 1 1, new_tensor .F32 3 32 1 1],
    gf := { size := 0, grads := false, expanded := [] },
    mctx := sample_context (sample_cparams 8 false) 1 }

/-- A call of `build_phi2_attn` on `attn_state` for a layer with the fused `wqkv`, one
head of size four and one key/value head. -/
def attn_run : outcome tensor_ptr :=
  build_phi2_attn (sample_hparams 4 1 1 4 4 1) (sample_cparams 8 false)
    (sample_batch 3 true false) (sample_kv_cache (sample_hparams 4 1 1 4 4 1) 8 0 3)
    (sample_layer true (sample_hparams 4 1 1 4 4 1) 0) (.node 0) (.node 1) (.node 2) 0
    attn_state

/-- One pass of the layer loop on `attn_state`, with tensor `0` as the layer input:
layer `0` of a model of one layer (so the last one), with the fused `wqkv`, one head
of size four and one key/value head. -/
def layer_run : outcome tensor_ptr :=
  build_phi2_layer
    (sample_model (sample_hparams 4 1 1 4 4 1) (sample_cparams 8 false) true)
    (sample_hparams 4 1 1 4 4 1) (sample_cparams 8 false)
    (sample_batch 3 true false) (sample_kv_cache (sample_hparams 4 1 1 4 4 1) 8 0 3)
    (.node 1) (.node 2) 1 0 (.node 0) attn_state

/-- A build for a model without layers (`n_layer = 0`): three tokens, `n_outputs = 1`. -/
def run_no_layers : outcome ggml_cgraph :=
  sample_build (sample_hparams 4 2 2 2 2 0) (sample_cparams 8 false) false
    (sample_batch 3 true false) 8 0 3 1

/-- Number of `GET_ROWS` tensors in a context. -/
def count_get_rows (ctx0 : List ggml_tensor) : Nat :=
  ctx0.countP (fun t => t.op == .GET_ROWS)

/-- Number of tensors in a context that are flagged as graph inputs. -/
def count_inputs (ctx0 : List ggml_tensor) : Nat :=
  ctx0.countP (fun t => t.is_input)

/-- `quiet s s2`: from `s` to `s2` no `GET_ROWS` tensor and no input tensor was
created, and the `moondream_context` is the same. -/
def quiet (s s2 : build_state) : Prop :=
  count_get_rows s2.ctx0 = count_get_rows s.ctx0
    ∧ count_inputs s2.ctx0 = count_inputs s.ctx0 ∧ s2.mctx = s.mctx

/-- A step that, when it returns, was quiet. -/
def Quiet {α : Type} (m : Build α) : Prop :=
  ∀ s a s2, m s = .ok a s2 → quiet s s2

/-- A tensor with the type, extents and strides of a fresh tensor, and no view source. -/
def plain (t : ggml_tensor) (ty : ggml_type) (ne0 ne1 ne2 ne3 : Int) : Prop :=
  t.type = ty ∧ t.ne0 = ne0 ∧ t.ne1 = ne1 ∧ t.ne2 = ne2 ∧ t.ne3 = ne3
    ∧ t.nb0 = (new_tensor ty ne0 ne1 ne2 ne3).nb0 ∧ t.nb1 = (new_tensor ty ne0 ne1 ne2 ne3).nb1
    ∧ t.nb2 = (new_tensor ty ne0 ne1 ne2 ne3).nb2 ∧ t.nb3 = (new_tensor ty ne0 ne1 ne2 ne3).nb3
    ∧ t.view_src = none

/-- Pointer `p` names a `plain` tensor of the given type and extents. -/
def plain_at (ctx0 : List ggml_tensor) (p : tensor_ptr) (ty : ggml_type)
    (ne0 ne1 ne2 ne3 : Int) : Prop :=
  ∃ t, lookup ctx0 p = some t ∧ plain t ty ne0 ne1 ne2 ne3

/-- `runs m s P`: the step `m` returns from state `s`, and the result and the state it
returns in satisfy `P`. -/
def runs {α : Type} (m : Build α) (s : build_state) (P : α → build_state → Prop) : Prop :=
  match m s with
  | .ok a s2 => P a s2
  | .abort _ _ => False

/-- Number of `CPY` tensors in a context. -/
def count_cpy (ctx0 : List ggml_tensor) : Nat :=
  ctx0.countP (fun t => t.op == .CPY)

/-- `calm s s2`: from `s` to `s2` no `CPY` tensor was created. -/
def calm (s s2 : build_state) : Prop :=
  count_cpy s2.ctx0 = count_cpy s.ctx0

/-- A step that, when it returns, was calm. -/
def Calm {α : Type} (m : Build α) : Prop :=
  ∀ s a s2, m s = .ok a s2 → calm s s2

/-- The input pointers recorded in the context are the same. -/
def inputs_kept (m m2 : moondream_context) : Prop :=
  m2.inp_tokens = m.inp_tokens ∧ m2.inp_pos = m.inp_pos ∧ m2.inp_KQ_mask = m.inp_KQ_mask

/-- The K cache tensor of layer `l` in the scenarios: F16, `2560 * 2048` elements. -/
def scenario_k_l (l : Nat) : ext_tensor := sample_tensor (1000 + l) .F16 (2560 * 2048) 1

/-- The V cache tensor of layer `l` in the scenarios: F16, `2560 * 2048` elements. -/
def scenario_v_l (l : Nat) : ext_tensor := sample_tensor (2000 + l) .F16 (2560 * 2048) 1

/-- What layer `l` of a scenario graph holds from tensor `base` (the rotated K) on: the
K write window and the copy into it, the V write window and the copy of the transposed
V into it, both registered; the K read window, the soft-max over `mask`, and the V read
window. `n` tokens, cache head `a`, `n_kv = b`. -/
def scenario_layer (ctx0 : List ggml_tensor) (expanded : List tensor_ptr) (mask : tensor_ptr)
    (n : Int) (a b : Int) (l base : Nat) : Prop :=
  ctx0[base + 1]? = some (cache_view_1d (scenario_k_l l) (n * 2560) (wrap_size_t (5120 * a)))
  ∧ ctx0[base + 2]? = some (cache_cpy (scenario_k_l l)
      (cache_view_1d (scenario_k_l l) (n * 2560) (wrap_size_t (5120 * a))) (.node base) (.node (base + 1)))
  ∧ ctx0[base + 3]? = some (cache_view_2d (scenario_v_l l) n 2560 4096 (wrap_size_t (a * 2)))
  ∧ ctx0[base + 5]? = some (cache_cpy (scenario_v_l l)
      (cache_view_2d (scenario_v_l l) n 2560 4096 (wrap_size_t (a * 2))) (.node (base + 4))
      (.node (base + 3)))
  ∧ ctx0[base + 7]? = some (cache_view_3d (scenario_k_l l) 80 b 32 5120 160)
  ∧ (∃ sm, ctx0[base + 9]? = some sm ∧ sm.op = .SOFT_MAX
      ∧ sm.src = [some (.node (base + 8)), some mask])
  ∧ ctx0[base + 10]? = some (cache_view_3d (scenario_v_l l) b 80 32 4096 327680)
  ∧ expanded[6 * l + 3]? = some (.node (base + 2))
  ∧ expanded[6 * l + 4]? = some (.node (base + 5))

/-- Number of `CPY` tensors of shape `[ne0, ne1]` in a context. -/
def count_cpy_shape (ctx0 : List ggml_tensor) (ne0 ne1 : Int) : Nat :=
  ctx0.countP (fun t => t.op == .CPY && t.ne0 == ne0 && t.ne1 == ne1 && t.ne2 == 1
    && t.ne3 == 1)

/-- A step that never ends in the `kv.size == n_ctx` assertion. -/
def NoKv {α : Type} (m : Build α) : Prop :=
  ∀ s f s2, m s = .abort f s2 → f ≠ .assert_kv_size

theorem pure_run {α : Type} (a : α) (s : build_state) :
    (pure a : Build α) s = .ok a s := rfl

theorem bind_run {α β : Type} (x : Build α) (f : α → Build β) (s : build_state) :
    (x >>= f) s = match x s with
      | .ok a s1 => f a s1
      | .abort e s1 => .abort e s1 := rfl

theorem bind_ok {α β : Type} {x : Build α} {f : α → Build β} {s s2 : build_state} {b : β} :
    (x >>= f) s = .ok b s2 ↔ ∃ a s1, x s = .ok a s1 ∧ f a s1 = .ok b s2 := by
  simp only [bind_run]
  cases h : x s with
  | ok a s1 =>
    constructor
    · intro h2
      exact ⟨a, s1, rfl, h2⟩
    · rintro ⟨a2, s3, h3, h4⟩
      cases h3
      exact h4
  | abort e s1 => simp

theorem pure_ok {α : Type} {a b : α} {s s2 : build_state} :
    (pure a : Build α) s = .ok b s2 ↔ a = b ∧ s = s2 := by
  simp [pure_run]

theorem fail_ok {α : Type} {f : fault} {s s2 : build_state} {a : α} :
    (fail f : Build α) s = .ok a s2 ↔ False := by
  simp [fail]

theorem assert_ok {c : Bool} {f : fault} {s s2 : build_state} {u : Unit} :
    ggml_assert c f s = .ok u s2 ↔ c = true ∧ s = s2 := by
  cases c <;> simp [ggml_assert, fail, pure_run]

theorem deref_ok {p : tensor_ptr} {s s2 : build_state} {t : ggml_tensor} :
    deref p s = .ok t s2 ↔ lookup s.ctx0 p = some t ∧ s = s2 := by
  unfold deref
  cases h : lookup s.ctx0 p <;> simp

theorem nonnull_ok {p : Option tensor_ptr} {s s2 : build_state} {q : tensor_ptr} :
    nonnull p s = .ok q s2 ↔ p = some q ∧ s = s2 := by
  cases p <;> simp [nonnull, fail, pure_run]

theorem vec_at_ok {α : Type} {v : List α} {i : Nat} {s s2 : build_state} {a : α} :
    vec_at v i s = .ok a s2 ↔ v[i]? = some a ∧ s = s2 := by
  unfold vec_at
  cases h : v[i]? <;> simp [fail, pure_run]

theorem push_ok {t : ggml_tensor} {s s2 : build_state} {p : tensor_ptr} :
    push t s = .ok p s2 ↔ p = .node s.ctx0.length ∧ s2 = { s with ctx0 := s.ctx0 ++ [t] } := by
  simp [push, eq_comm]

theorem expand_ok {t : tensor_ptr} {s s2 : build_state} {u : Unit} :
    ggml_build_forward_expand t s = .ok u s2
      ↔ s2 = { s with gf := { s.gf with expanded := s.gf.expanded ++ [t] } } := by
  simp [ggml_build_forward_expand, eq_comm]

theorem set_mctx_ok {f : moondream_context → moondream_context} {s s2 : build_state}
    {u : Unit} : set_mctx f s = .ok u s2 ↔ s2 = { s with mctx := f s.mctx } := by
  simp [set_mctx, eq_comm]

/-! ## Pointers stay valid while the arena grows -/

theorem lookup_append {l : List ggml_tensor} {p : tensor_ptr} {t : ggml_tensor}
    (m : List ggml_tensor) (h : lookup l p = some t) : lookup (l ++ m) p = some t := by
  cases p with
  | ext e => simpa [lookup] using h
  | node i =>
    simp only [lookup] at h ⊢
    have hi : i < l.length := by
      by_contra hc
      rw [List.getElem?_eq_none (by omega)] at h
      cases h
    rw [List.getElem?_append_left hi]
    exact h

@[simp] theorem lookup_new (l m : List ggml_tensor) (k : Nat) :
    lookup (l ++ m) (.node (l.length + k)) = m[k]? := by
  simp [lookup, List.getElem?_append_right]

@[simp] theorem lookup_new_zero (l m : List ggml_tensor) :
    lookup (l ++ m) (.node l.length) = m[0]? := by
  simpa using lookup_new l m 0

/-! ## What each runtime operator does when it returns -/

theorem new_view_ok {type : ggml_type} {ne0 ne1 ne2 ne3 offs : Int} {src p : tensor_ptr}
    {fill : ggml_tensor → ggml_tensor} {s s2 : build_state} :
    new_view type ne0 ne1 ne2 ne3 src offs fill s = .ok p s2 ↔
      ∃ v bt, lookup s.ctx0 src = some v ∧ lookup s.ctx0 (view_base_of src v) = some bt
        ∧ view_fits type ne0 ne1 ne2 ne3 (view_offs_of v offs) bt
        ∧ alloc s (fill { new_tensor type ne0 ne1 ne2 ne3 with
            view_src := some (view_base_of src v), view_offs := view_offs_of v offs }) p s2 := by
  simp [new_view, bind_ok, deref_ok, assert_ok, push_ok, alloc, and_assoc, view_base_of,
    view_offs_of, view_fits]

theorem ggml_view_tensor_ok {src p : tensor_ptr} {fill : ggml_tensor → ggml_tensor}
    {s s2 : build_state} :
    ggml_view_tensor src fill s = .ok p s2 ↔
      ∃ t bt, lookup s.ctx0 src = some t ∧ lookup s.ctx0 (view_base_of src t) = some bt
        ∧ view_fits t.type t.ne0 t.ne1 t.ne2 t.ne3 (view_offs_of t 0) bt
        ∧ alloc s (fill { new_tensor t.type t.ne0 t.ne1 t.ne2 t.ne3 with
            view_src := some (view_base_of src t), view_offs := view_offs_of t 0,
            nb0 := t.nb0, nb1 := t.nb1, nb2 := t.nb2, nb3 := t.nb3 }) p s2 := by
  simp only [ggml_view_tensor, bind_ok, deref_ok, new_view_ok, and_assoc]
  constructor
  · rintro ⟨t, s1, h1, rfl, v, bt, h2, h3, h4, h5⟩
    rw [h1] at h2
    cases h2
    exact ⟨t, bt, h1, h3, h4, h5⟩
  · rintro ⟨t, bt, h1, h3, h4, h5⟩
    exact ⟨t, s, h1, rfl, t, bt, h1, h3, h4, h5⟩

theorem modify_ok {p : tensor_ptr} {f : ggml_tensor → ggml_tensor} {s s2 : build_state}
    {u : Unit} :
    modify p f s = .ok u s2 ↔ ∃ i t, p = .node i ∧ s.ctx0[i]? = some t
      ∧ s2 = { s with ctx0 := s.ctx0.set i (f t) } := by
  cases p with
  | ext e => simp [modify]
  | node i =>
    simp only [modify]
    split
    · rename_i t h
      constructor
      · intro h2
        cases h2
        exact ⟨i, t, rfl, h, rfl⟩
      · rintro ⟨j, t2, h3, h4, h5⟩
        cases h3
        rw [h] at h4
        cases h4
        rw [h5]
    · rename_i h
      constructor
      · intro h2
        cases h2
      · rintro ⟨j, t2, h3, h4, h5⟩
        cases h3
        rw [h] at h4
        cases h4

theorem set_last (l : List ggml_tensor) (t x : ggml_tensor) :
    (l ++ [t]).set l.length x = l ++ [x] := by
  induction l with
  | nil => rfl
  | cons a l ih => simp [List.set, ih]

theorem ggml_new_tensor_1d_ok {type : ggml_type} {ne0 : Int} {p : tensor_ptr}
    {s s2 : build_state} :
    ggml_new_tensor_1d type ne0 s = .ok p s2 ↔ alloc s (new_tensor type ne0 1 1 1) p s2 := by
  simp [ggml_new_tensor_1d, push_ok, alloc]

theorem ggml_new_tensor_2d_ok {type : ggml_type} {ne0 ne1 : Int} {p : tensor_ptr}
    {s s2 : build_state} :
    ggml_new_tensor_2d type ne0 ne1 s = .ok p s2 ↔ alloc s (new_tensor type ne0 ne1 1 1) p s2 := by
  simp [ggml_new_tensor_2d, push_ok, alloc]

theorem ggml_set_input_ok {p : tensor_ptr} {s s2 : build_state} {u : Unit} :
    ggml_set_input p s = .ok u s2 ↔ ∃ i t, p = .node i ∧ s.ctx0[i]? = some t
      ∧ s2 = { s with ctx0 := s.ctx0.set i { t with is_input := true } } := by
  simp [ggml_set_input, modify_ok]

theorem ggml_get_rows_ok {a b p : tensor_ptr} {s s2 : build_state} :
    ggml_get_rows a b s = .ok p s2 ↔ ∃ ta tb, lookup s.ctx0 a = some ta
      ∧ lookup s.ctx0 b = some tb ∧ ta.ne2 = tb.ne1 ∧ tb.ne3 = 1 ∧ tb.type = .I32
      ∧ alloc s { new_tensor (if ta.type = .I32 then .I32 else .F32) ta.ne0 tb.ne0 tb.ne1 tb.ne2
          with op := .GET_ROWS, src := [some a, some b] } p s2 := by
  simp [ggml_get_rows, bind_ok, deref_ok, assert_ok, push_ok, alloc, and_assoc, new_tensor]

theorem ggml_norm_ok {a p : tensor_ptr} {eps : f32} {s s2 : build_state} :
    ggml_norm a eps s = .ok p s2 ↔ ∃ ta, lookup s.ctx0 a = some ta
      ∧ alloc s { new_tensor ta.type ta.ne0 ta.ne1 ta.ne2 ta.ne3 with
          op := .NORM, src := [some a], fparams := [eps] } p s2 := by
  simp [ggml_norm, dup_tensor, bind_ok, deref_ok, push_ok, alloc, and_assoc, new_tensor]

theorem ggml_rms_norm_ok {a p : tensor_ptr} {eps : f32} {s s2 : build_state} :
    ggml_rms_norm a eps s = .ok p s2 ↔ ∃ ta, lookup s.ctx0 a = some ta
      ∧ alloc s { new_tensor ta.type ta.ne0 ta.ne1 ta.ne2 ta.ne3 with
          op := .RMS_NORM, src := [some a], fparams := [eps] } p s2 := by
  simp [ggml_rms_norm, dup_tensor, bind_ok, deref_ok, push_ok, alloc, and_assoc, new_tensor]

theorem ggml_mul_ok {a b p : tensor_ptr} {s s2 : build_state} :
    ggml_mul a b s = .ok p s2 ↔ ∃ ta tb, lookup s.ctx0 a = some ta ∧ lookup s.ctx0 b = some tb
      ∧ ggml_can_repeat tb ta = true
      ∧ alloc s { new_tensor ta.type ta.ne0 ta.ne1 ta.ne2 ta.ne3 with
          op := .MUL, src := [some a, some b] } p s2 := by
  simp [ggml_mul, dup_tensor, bind_ok, deref_ok, assert_ok, push_ok, alloc, and_assoc, new_tensor]

theorem ggml_add_ok {a b p : tensor_ptr} {s s2 : build_state} :
    ggml_add a b s = .ok p s2 ↔ ∃ ta tb, lookup s.ctx0 a = some ta ∧ lookup s.ctx0 b = some tb
      ∧ ggml_can_repeat tb ta = true
      ∧ alloc s { new_tensor ta.type ta.ne0 ta.ne1 ta.ne2 ta.ne3 with
          op := .ADD, src := [some a, some b] } p s2 := by
  simp [ggml_add, dup_tensor, bind_ok, deref_ok, assert_ok, push_ok, alloc, and_assoc, new_tensor]

theorem ggml_div_ok {a b p : tensor_ptr} {s s2 : build_state} :
    ggml_div a b s = .ok p s2 ↔ ∃ ta tb, lookup s.ctx0 a = some ta ∧ lookup s.ctx0 b = some tb
      ∧ ggml_can_repeat tb ta = true
      ∧ alloc s { new_tensor ta.type ta.ne0 ta.ne1 ta.ne2 ta.ne3 with
          op := .DIV, src := [some a, some b] } p s2 := by
  simp [ggml_div, dup_tensor, bind_ok, deref_ok, assert_ok, push_ok, alloc, and_assoc, new_tensor]

theorem ggml_sqr_ok {a p : tensor_ptr} {s s2 : build_state} :
    ggml_sqr a s = .ok p s2 ↔ ∃ ta, lookup s.ctx0 a = some ta
      ∧ alloc s { new_tensor ta.type ta.ne0 ta.ne1 ta.ne2 ta.ne3 with
          op := .SQR, src := [some a] } p s2 := by
  simp [ggml_sqr, dup_tensor, bind_ok, deref_ok, push_ok, alloc, and_assoc, new_tensor]

theorem ggml_gelu_ok {a p : tensor_ptr} {s s2 : build_state} :
    ggml_gelu a s = .ok p s2 ↔ ∃ ta, lookup s.ctx0 a = some ta
      ∧ alloc s { new_tensor ta.type ta.ne0 ta.ne1 ta.ne2 ta.ne3 with
          op := .GELU, src := [some a] } p s2 := by
  simp [ggml_gelu, dup_tensor, bind_ok, deref_ok, push_ok, alloc, and_assoc, new_tensor]

theorem ggml_silu_ok {a p : tensor_ptr} {s s2 : build_state} :
    ggml_silu a s = .ok p s2 ↔ ∃ ta, lookup s.ctx0 a = some ta
      ∧ alloc s { new_tensor ta.type ta.ne0 ta.ne1 ta.ne2 ta.ne3 with
          op := .SILU, src := [some a] } p s2 := by
  simp [ggml_silu, dup_tensor, bind_ok, deref_ok, push_ok, alloc, and_assoc, new_tensor]

theorem ggml_relu_ok {a p : tensor_ptr} {s s2 : build_state} :
    ggml_relu a s = .ok p s2 ↔ ∃ ta, lookup s.ctx0 a = some ta
      ∧ alloc s { new_tensor ta.type ta.ne0 ta.ne1 ta.ne2 ta.ne3 with
          op := .RELU, src := [some a] } p s2 := by
  simp [ggml_relu, dup_tensor, bind_ok, deref_ok, push_ok, alloc, and_assoc, new_tensor]

theorem ggml_mul_mat_ok {a b p : tensor_ptr} {s s2 : build_state} :
    ggml_mul_mat a b s = .ok p s2 ↔ ∃ ta tb, lookup s.ctx0 a = some ta
      ∧ lookup s.ctx0 b = some tb ∧ ggml_can_mul_mat ta tb = true
      ∧ ggml_is_transposed ta = false
      ∧ alloc s { new_tensor .F32 ta.ne1 tb.ne1 tb.ne2 tb.ne3 with
          op := .MUL_MAT, src := [some a, some b] } p s2 := by
  simp [ggml_mul_mat, bind_ok, deref_ok, assert_ok, push_ok, alloc, and_assoc, new_tensor]

theorem ggml_scale_ok {a p : tensor_ptr} {sc : f32} {s s2 : build_state} :
    ggml_scale a sc s = .ok p s2 ↔ ∃ ta, lookup s.ctx0 a = some ta
      ∧ (ta.nb0 = ggml_type_size ta.type ∧ ta.nb2 = ta.nb1 * ta.ne1 ∧ ta.nb3 = ta.nb2 * ta.ne2)
      ∧ alloc s { new_tensor ta.type ta.ne0 ta.ne1 ta.ne2 ta.ne3 with
          op := .SCALE, src := [some a], fparams := [sc] } p s2 := by
  simp [ggml_scale, dup_tensor, bind_ok, deref_ok, assert_ok, push_ok, alloc, and_assoc,
    new_tensor]

theorem ggml_cont_ok {a p : tensor_ptr} {s s2 : build_state} :
    ggml_cont a s = .ok p s2 ↔ ∃ ta, lookup s.ctx0 a = some ta
      ∧ alloc s { new_tensor ta.type ta.ne0 ta.ne1 ta.ne2 ta.ne3 with
          op := .CONT, src := [some a] } p s2 := by
  simp [ggml_cont, dup_tensor, bind_ok, deref_ok, push_ok, alloc, and_assoc, new_tensor]

theorem ggml_cont_2d_ok {a p : tensor_ptr} {ne0 ne1 : Int} {s s2 : build_state} :
    ggml_cont_2d a ne0 ne1 s = .ok p s2 ↔ ∃ ta, lookup s.ctx0 a = some ta
      ∧ ggml_nelements ta = ne0 * ne1
      ∧ alloc s { new_tensor ta.type ne0 ne1 1 1 with op := .CONT, src := [some a] } p s2 := by
  simp [ggml_cont_2d, bind_ok, deref_ok, assert_ok, push_ok, alloc, and_assoc, new_tensor]

theorem ggml_cast_ok {a p : tensor_ptr} {type : ggml_type} {s s2 : build_state} :
    ggml_cast a type s = .ok p s2 ↔ ∃ ta, lookup s.ctx0 a = some ta
      ∧ alloc s { new_tensor type ta.ne0 ta.ne1 ta.ne2 ta.ne3 with
          op := .CPY, src := [some a, some (.node s.ctx0.length)] } p s2 := by
  simp [ggml_cast, bind_ok, deref_ok, push_ok, alloc, and_assoc, new_tensor]

theorem ggml_mul_mat_set_prec_ok {a : tensor_ptr} {prec : ggml_prec} {s s2 : build_state}
    {u : Unit} :
    ggml_mul_mat_set_prec a prec s = .ok u s2 ↔ ∃ i t, a = .node i ∧ s.ctx0[i]? = some t
      ∧ t.op = .MUL_MAT ∧ s2 = { s with ctx0 := s.ctx0.set i { t with prec := prec } } := by
  simp only [ggml_mul_mat_set_prec, bind_ok, deref_ok, assert_ok, modify_ok, and_assoc]
  constructor
  · rintro ⟨t, s1, h1, rfl, u1, s3, h2, rfl, i, t2, rfl, h3, h4⟩
    simp only [lookup] at h1
    rw [h1] at h3
    cases h3
    exact ⟨i, t, rfl, h1, by simpa using h2, h4⟩
  · rintro ⟨i, t, rfl, h1, h2, h3⟩
    exact ⟨t, s, h1, rfl, (), s, by simpa using h2, rfl, i, t, rfl, h1, h3⟩

theorem ggml_flash_attn_ext_set_prec_ok {a : tensor_ptr} {prec : ggml_prec}
    {s s2 : build_state} {u : Unit} :
    ggml_flash_attn_ext_set_prec a prec s = .ok u s2 ↔ ∃ i t, a = .node i
      ∧ s.ctx0[i]? = some t ∧ t.op = .FLASH_ATTN_EXT
      ∧ s2 = { s with ctx0 := s.ctx0.set i { t with prec := prec } } := by
  simp only [ggml_flash_attn_ext_set_prec, bind_ok, deref_ok, assert_ok, modify_ok, and_assoc]
  constructor
  · rintro ⟨t, s1, h1, rfl, u1, s3, h2, rfl, i, t2, rfl, h3, h4⟩
    simp only [lookup] at h1
    rw [h1] at h3
    cases h3
    exact ⟨i, t, rfl, h1, by simpa using h2, h4⟩
  · rintro ⟨i, t, rfl, h1, h2, h3⟩
    exact ⟨t, s, h1, rfl, (), s, by simpa using h2, rfl, i, t, rfl, h1, h3⟩

theorem ggml_cpy_ok {a b p : tensor_ptr} {s s2 : build_state} :
    ggml_cpy a b s = .ok p s2 ↔ ∃ ta tb bt, lookup s.ctx0 a = some ta
      ∧ lookup s.ctx0 b = some tb ∧ ggml_nelements ta = ggml_nelements tb
      ∧ lookup s.ctx0 (view_base_of b tb) = some bt
      ∧ view_fits tb.type tb.ne0 tb.ne1 tb.ne2 tb.ne3 (view_offs_of tb 0) bt
      ∧ alloc s { new_tensor tb.type tb.ne0 tb.ne1 tb.ne2 tb.ne3 with
          view_src := some (view_base_of b tb), view_offs := view_offs_of tb 0,
          nb0 := tb.nb0, nb1 := tb.nb1, nb2 := tb.nb2, nb3 := tb.nb3,
          op := .CPY, src := [some a, some b] } p s2 := by
  simp only [ggml_cpy, bind_ok, deref_ok, assert_ok, ggml_view_tensor_ok, and_assoc]
  constructor
  · rintro ⟨ta, s1, h1, rfl, tb, s3, h2, rfl, u, s4, h3, rfl, t, bt, h4, h5, h6, h7⟩
    rw [h2] at h4
    cases h4
    exact ⟨ta, tb, bt, h1, h2, by simpa using h3, h5, h6, h7⟩
  · rintro ⟨ta, tb, bt, h1, h2, h3, h5, h6, h7⟩
    exact ⟨ta, s, h1, rfl, tb, s, h2, rfl, (), s, by simpa using h3, rfl, tb, bt, h2, h5, h6, h7⟩

theorem ggml_reshape_2d_ok {a p : tensor_ptr} {ne0 ne1 : Int} {s s2 : build_state} :
    ggml_reshape_2d a ne0 ne1 s = .ok p s2 ↔ ∃ ta bt, lookup s.ctx0 a = some ta
      ∧ ggml_is_contiguous ta = true ∧ ggml_nelements ta = ne0 * ne1
      ∧ lookup s.ctx0 (view_base_of a ta) = some bt
      ∧ view_fits ta.type ne0 ne1 1 1 (view_offs_of ta 0) bt
      ∧ alloc s { new_tensor ta.type ne0 ne1 1 1 with
          view_src := some (view_base_of a ta), view_offs := view_offs_of ta 0,
          op := .RESHAPE, src := [some a] } p s2 := by
  simp only [ggml_reshape_2d, bind_ok, deref_ok, assert_ok, new_view_ok, and_assoc]
  constructor
  · rintro ⟨ta, s1, h1, rfl, u, s3, h2, rfl, u2, s4, h3, rfl, t, bt, h4, h5, h6, h7⟩
    rw [h1] at h4
    cases h4
    exact ⟨ta, bt, h1, h2, by simpa using h3, h5, h6, h7⟩
  · rintro ⟨ta, bt, h1, h2, h3, h5, h6, h7⟩
    exact ⟨ta, s, h1, rfl, (), s, h2, rfl, (), s, by simpa using h3, rfl, ta, bt, h1, h5, h6, h7⟩

theorem ggml_reshape_3d_ok {a p : tensor_ptr} {ne0 ne1 ne2 : Int} {s s2 : build_state} :
    ggml_reshape_3d a ne0 ne1 ne2 s = .ok p s2 ↔ ∃ ta bt, lookup s.ctx0 a = some ta
      ∧ ggml_is_contiguous ta = true ∧ ggml_nelements ta = ne0 * ne1 * ne2
      ∧ lookup s.ctx0 (view_base_of a ta) = some bt
      ∧ view_fits ta.type ne0 ne1 ne2 1 (view_offs_of ta 0) bt
      ∧ alloc s { new_tensor ta.type ne0 ne1 ne2 1 with
          view_src := some (view_base_of a ta), view_offs := view_offs_of ta 0,
          op := .RESHAPE, src := [some a] } p s2 := by
  simp only [ggml_reshape_3d, bind_ok, deref_ok, assert_ok, new_view_ok, and_assoc]
  constructor
  · rintro ⟨ta, s1, h1, rfl, u, s3, h2, rfl, u2, s4, h3, rfl, t, bt, h4, h5, h6, h7⟩
    rw [h1] at h4
    cases h4
    exact ⟨ta, bt, h1, h2, by simpa using h3, h5, h6, h7⟩
  · rintro ⟨ta, bt, h1, h2, h3, h5, h6, h7⟩
    exact ⟨ta, s, h1, rfl, (), s, h2, rfl, (), s, by simpa using h3, rfl, ta, bt, h1, h5, h6, h7⟩

theorem ggml_view_1d_ok {a p : tensor_ptr} {ne0 offset : Int} {s s2 : build_state} :
    ggml_view_1d a ne0 offset s = .ok p s2 ↔ ∃ ta bt, lookup s.ctx0 a = some ta
      ∧ lookup s.ctx0 (view_base_of a ta) = some bt
      ∧ view_fits ta.type ne0 1 1 1 (view_offs_of ta offset) bt
      ∧ alloc s { new_tensor ta.type ne0 1 1 1 with
          view_src := some (view_base_of a ta), view_offs := view_offs_of ta offset,
          op := .VIEW, src := [some a], iparams := [offset] } p s2 := by
  simp only [ggml_view_1d, bind_ok, deref_ok, new_view_ok, and_assoc]
  constructor
  · rintro ⟨ta, s1, h1, rfl, t, bt, h4, h5, h6, h7⟩
    rw [h1] at h4
    cases h4
    exact ⟨ta, bt, h1, h5, h6, h7⟩
  · rintro ⟨ta, bt, h1, h5, h6, h7⟩
    exact ⟨ta, s, h1, rfl, ta, bt, h1, h5, h6, h7⟩

theorem ggml_view_2d_ok {a p : tensor_ptr} {ne0 ne1 nb1 offset : Int} {s s2 : build_state} :
    ggml_view_2d a ne0 ne1 nb1 offset s = .ok p s2 ↔ ∃ ta bt, lookup s.ctx0 a = some ta
      ∧ lookup s.ctx0 (view_base_of a ta) = some bt
      ∧ view_fits ta.type ne0 ne1 1 1 (view_offs_of ta offset) bt
      ∧ alloc s { new_tensor ta.type ne0 ne1 1 1 with
          view_src := some (view_base_of a ta), view_offs := view_offs_of ta offset,
          op := .VIEW, src := [some a], iparams := [offset],
          nb1 := nb1, nb2 := nb1 * ne1, nb3 := nb1 * ne1 } p s2 := by
  simp only [ggml_view_2d, bind_ok, deref_ok, new_view_ok, and_assoc]
  constructor
  · rintro ⟨ta, s1, h1, rfl, t, bt, h4, h5, h6, h7⟩
    rw [h1] at h4
    cases h4
    exact ⟨ta, bt, h1, h5, h6, h7⟩
  · rintro ⟨ta, bt, h1, h5, h6, h7⟩
    exact ⟨ta, s, h1, rfl, ta, bt, h1, h5, h6, h7⟩

theorem ggml_view_3d_ok {a p : tensor_ptr} {ne0 ne1 ne2 nb1 nb2 offset : Int}
    {s s2 : build_state} :
    ggml_view_3d a ne0 ne1 ne2 nb1 nb2 offset s = .ok p s2 ↔ ∃ ta bt,
      lookup s.ctx0 a = some ta ∧ lookup s.ctx0 (view_base_of a ta) = some bt
      ∧ view_fits ta.type ne0 ne1 ne2 1 (view_offs_of ta offset) bt
      ∧ alloc s { new_tensor ta.type ne0 ne1 ne2 1 with
          view_src := some (view_base_of a ta), view_offs := view_offs_of ta offset,
          op := .VIEW, src := [some a], iparams := [offset],
          nb1 := nb1, nb2 := nb2, nb3 := nb2 * ne2 } p s2 := by
  simp only [ggml_view_3d, bind_ok, deref_ok, new_view_ok, and_assoc]
  constructor
  · rintro ⟨ta, s1, h1, rfl, t, bt, h4, h5, h6, h7⟩
    rw [h1] at h4
    cases h4
    exact ⟨ta, bt, h1, h5, h6, h7⟩
  · rintro ⟨ta, bt, h1, h5, h6, h7⟩
    exact ⟨ta, s, h1, rfl, ta, bt, h1, h5, h6, h7⟩

theorem ggml_permute_0213_ok {a p : tensor_ptr} {s s2 : build_state} :
    ggml_permute a 0 2 1 3 s = .ok p s2 ↔ ∃ ta bt, lookup s.ctx0 a = some ta
      ∧ lookup s.ctx0 (view_base_of a ta) = some bt
      ∧ view_fits ta.type ta.ne0 ta.ne1 ta.ne2 ta.ne3 (view_offs_of ta 0) bt
      ∧ alloc s { new_tensor ta.type ta.ne0 ta.ne2 ta.ne1 ta.ne3 with
          view_src := some (view_base_of a ta), view_offs := view_offs_of ta 0,
          nb0 := ta.nb0, nb1 := ta.nb2, nb2 := ta.nb1, nb3 := ta.nb3,
          op := .PERMUTE, src := [some a], iparams := [0, 2, 1, 3] } p s2 := by
  simp only [ggml_permute, bind_ok, deref_ok, assert_ok, ggml_view_tensor_ok, and_assoc]
  constructor
  · rintro ⟨ta, s1, h1, rfl, u, s3, -, rfl, u2, s4, -, rfl, t, bt, h4, h5, h6, h7⟩
    rw [h1] at h4
    cases h4
    exact ⟨ta, bt, h1, h5, h6, by simpa [permute_pick, new_tensor] using h7⟩
  · rintro ⟨ta, bt, h1, h5, h6, h7⟩
    exact ⟨ta, s, h1, rfl, (), s, by decide, rfl, (), s, by decide, rfl, ta, bt, h1, h5, h6,
      by simpa [permute_pick, new_tensor] using h7⟩

theorem ggml_transpose_ok {a p : tensor_ptr} {s s2 : build_state} :
    ggml_transpose a s = .ok p s2 ↔ ∃ ta bt, lookup s.ctx0 a = some ta
      ∧ lookup s.ctx0 (view_base_of a ta) = some bt
      ∧ view_fits ta.type ta.ne0 ta.ne1 ta.ne2 ta.ne3 (view_offs_of ta 0) bt
      ∧ alloc s { new_tensor ta.type ta.ne1 ta.ne0 ta.ne2 ta.ne3 with
          view_src := some (view_base_of a ta), view_offs := view_offs_of ta 0,
          nb0 := ta.nb1, nb1 := ta.nb0, nb2 := ta.nb2, nb3 := ta.nb3,
          op := .TRANSPOSE, src := [some a] } p s2 := by
  simp only [ggml_transpose, bind_ok, deref_ok, ggml_view_tensor_ok, and_assoc]
  constructor
  · rintro ⟨ta, s1, h1, rfl, t, bt, h4, h5, h6, h7⟩
    rw [h1] at h4
    cases h4
    exact ⟨ta, bt, h1, h5, h6, by simpa [new_tensor] using h7⟩
  · rintro ⟨ta, bt, h1, h5, h6, h7⟩
    exact ⟨ta, s, h1, rfl, ta, bt, h1, h5, h6, by simpa [new_tensor] using h7⟩

theorem ggml_rope_ext_none_ok {a b p : tensor_ptr} {n_dims mode n_ctx n_ctx_orig : Int}
    {f1 f2 f3 f4 f5 f6 : f32} {s s2 : build_state} :
    ggml_rope_ext a b none n_dims mode n_ctx n_ctx_orig f1 f2 f3 f4 f5 f6 s = .ok p s2 ↔
      ∃ ta tb, lookup s.ctx0 a = some ta ∧ lookup s.ctx0 b = some tb
      ∧ mode % 2 = 0 ∧ (tb.ne1 = 1 ∧ tb.ne2 = 1 ∧ tb.ne3 = 1) ∧ tb.type = .I32
      ∧ ta.ne2 = tb.ne0
      ∧ alloc s { new_tensor ta.type ta.ne0 ta.ne1 ta.ne2 ta.ne3 with
          op := .ROPE, src := [some a, some b, none],
          fparams := [f1, f2, f3, f4, f5, f6],
          iparams := [n_dims, mode, n_ctx, n_ctx_orig] } p s2 := by
  simp [ggml_rope_ext, dup_tensor, bind_ok, deref_ok, assert_ok, push_ok, pure_ok, alloc,
    and_assoc, new_tensor]

theorem ggml_soft_max_ext_ok {a mask p : tensor_ptr} {scale max_bias : f32}
    {s s2 : build_state} :
    ggml_soft_max_ext a mask scale max_bias s = .ok p s2 ↔
      ∃ ta tm, lookup s.ctx0 a = some ta ∧ lookup s.ctx0 mask = some tm
      ∧ ggml_is_contiguous ta = true ∧ (tm.type = .F16 ∨ tm.type = .F32)
      ∧ ggml_is_contiguous tm = true ∧ (tm.ne2 = 1 ∧ tm.ne3 = 1) ∧ tm.ne0 = ta.ne0
      ∧ ta.ne1 ≤ tm.ne1
      ∧ alloc s { new_tensor ta.type ta.ne0 ta.ne1 ta.ne2 ta.ne3 with
          op := .SOFT_MAX, src := [some a, some mask], fparams := [scale, max_bias] } p s2 := by
  simp [ggml_soft_max_ext, dup_tensor, bind_ok, deref_ok, assert_ok, push_ok, alloc,
    and_assoc, new_tensor]

theorem ggml_flash_attn_ext_ok {q k v mask p : tensor_ptr} {scale max_bias : f32}
    {s s2 : build_state} :
    ggml_flash_attn_ext q k v mask scale max_bias s = .ok p s2 ↔
      ∃ tq tk tv tm, lookup s.ctx0 q = some tq ∧ lookup s.ctx0 k = some tk
      ∧ lookup s.ctx0 v = some tv ∧ lookup s.ctx0 mask = some tm
      ∧ ggml_can_mul_mat tk tq = true ∧ ggml_is_contiguous tm = true
      ∧ tm.ne2 = 1 ∧ tm.ne3 = 1 ∧ GGML_PAD_int64 tq.ne1 GGML_KQ_MASK_PAD ≤ tm.ne1
      ∧ alloc s { new_tensor .F32 tq.ne0 tq.ne2 tq.ne1 tq.ne3 with
          op := .FLASH_ATTN_EXT, src := [some q, some k, some v, some mask],
          fparams := [scale, max_bias] } p s2 := by
  simp [ggml_flash_attn_ext, bind_ok, deref_ok, assert_ok, push_ok, alloc,
    and_assoc, new_tensor]

theorem ggml_new_graph_custom_ok {size : Nat} {grads : Bool} {s s2 : build_state}
    {u : Unit} :
    ggml_new_graph_custom size grads s = .ok u s2
      ↔ s2 = { s with gf := { size := size, grads := grads, expanded := [] } } := by
  simp [ggml_new_graph_custom, eq_comm]

theorem get_mctx_ok {m : moondream_context} {s s2 : build_state} :
    get_mctx s = .ok m s2 ↔ s.mctx = m ∧ s = s2 := by
  simp [get_mctx]

/-! ## Field access on freshly built tensors -/

@[simp] theorem lookup_ext (l : List ggml_tensor) (e : ext_tensor) :
    lookup l (.ext e) = some e.to_tensor := rfl

@[simp] theorem to_tensor_type (e : ext_tensor) : e.to_tensor.type = e.type := rfl
@[simp] theorem to_tensor_ne0 (e : ext_tensor) : e.to_tensor.ne0 = e.ne0 := rfl
@[simp] theorem to_tensor_ne1 (e : ext_tensor) : e.to_tensor.ne1 = e.ne1 := rfl
@[simp] theorem to_tensor_ne2 (e : ext_tensor) : e.to_tensor.ne2 = e.ne2 := rfl
@[simp] theorem to_tensor_ne3 (e : ext_tensor) : e.to_tensor.ne3 = e.ne3 := rfl
@[simp] theorem to_tensor_nb0 (e : ext_tensor) : e.to_tensor.nb0 = e.nb0 := rfl
@[simp] theorem to_tensor_nb1 (e : ext_tensor) : e.to_tensor.nb1 = e.nb1 := rfl
@[simp] theorem to_tensor_nb2 (e : ext_tensor) : e.to_tensor.nb2 = e.nb2 := rfl
@[simp] theorem to_tensor_nb3 (e : ext_tensor) : e.to_tensor.nb3 = e.nb3 := rfl
@[simp] theorem to_tensor_op (e : ext_tensor) : e.to_tensor.op = .NONE := rfl
@[simp] theorem to_tensor_view_src (e : ext_tensor) : e.to_tensor.view_src = none := rfl
@[simp] theorem to_tensor_view_offs (e : ext_tensor) : e.to_tensor.view_offs = 0 := rfl

@[simp] theorem view_base_of_ext (src : tensor_ptr) (e : ext_tensor) :
    view_base_of src e.to_tensor = src := rfl
@[simp] theorem view_offs_of_ext (e : ext_tensor) (offs : Int) :
    view_offs_of e.to_tensor offs = offs := rfl

@[simp] theorem new_tensor_type (ty : ggml_type) (a b c d : Int) :
    (new_tensor ty a b c d).type = ty := rfl
@[simp] theorem new_tensor_ne0 (ty : ggml_type) (a b c d : Int) :
    (new_tensor ty a b c d).ne0 = a := rfl
@[simp] theorem new_tensor_ne1 (ty : ggml_type) (a b c d : Int) :
    (new_tensor ty a b c d).ne1 = b := rfl
@[simp] theorem new_tensor_ne2 (ty : ggml_type) (a b c d : Int) :
    (new_tensor ty a b c d).ne2 = c := rfl
@[simp] theorem new_tensor_ne3 (ty : ggml_type) (a b c d : Int) :
    (new_tensor ty a b c d).ne3 = d := rfl
@[simp] theorem new_tensor_nb0 (ty : ggml_type) (a b c d : Int) :
    (new_tensor ty a b c d).nb0 = ggml_type_size ty := rfl
@[simp] theorem new_tensor_nb1 (ty : ggml_type) (a b c d : Int) :
    (new_tensor ty a b c d).nb1 = ggml_type_size ty * (a / ggml_blck_size ty) := rfl
@[simp] theorem new_tensor_nb2 (ty : ggml_type) (a b c d : Int) :
    (new_tensor ty a b c d).nb2 = ggml_type_size ty * (a / ggml_blck_size ty) * b := rfl
@[simp] theorem new_tensor_nb3 (ty : ggml_type) (a b c d : Int) :
    (new_tensor ty a b c d).nb3 = ggml_type_size ty * (a / ggml_blck_size ty) * b * c := rfl
@[simp] theorem new_tensor_op (ty : ggml_type) (a b c d : Int) :
    (new_tensor ty a b c d).op = .NONE := rfl
@[simp] theorem new_tensor_src (ty : ggml_type) (a b c d : Int) :
    (new_tensor ty a b c d).src = [] := rfl
@[simp] theorem new_tensor_view_src (ty : ggml_type) (a b c d : Int) :
    (new_tensor ty a b c d).view_src = none := rfl
@[simp] theorem new_tensor_view_offs (ty : ggml_type) (a b c d : Int) :
    (new_tensor ty a b c d).view_offs = 0 := rfl
@[simp] theorem new_tensor_is_input (ty : ggml_type) (a b c d : Int) :
    (new_tensor ty a b c d).is_input = false := rfl
@[simp] theorem new_tensor_prec (ty : ggml_type) (a b c d : Int) :
    (new_tensor ty a b c d).prec = .DEFAULT := rfl
@[simp] theorem new_tensor_fparams (ty : ggml_type) (a b c d : Int) :
    (new_tensor ty a b c d).fparams = [] := rfl
@[simp] theorem new_tensor_iparams (ty : ggml_type) (a b c d : Int) :
    (new_tensor ty a b c d).iparams = [] := rfl

/-! ## Lists that grow at the end -/

@[simp] theorem lookup_snoc_last (l : List ggml_tensor) (t : ggml_tensor) :
    lookup (l ++ [t]) (.node l.length) = some t := by
  simp [lookup]

/-- One allocating operator followed by the rest of the run: the rest runs on the
state with the new tensor appended. -/
theorem step {β : Type} {op : Build tensor_ptr} {g : tensor_ptr → Build β}
    {s s2 : build_state} {b : β} {C : ggml_tensor → Prop}
    (h : (op >>= g) s = .ok b s2)
    (hop : ∀ p s1, op s = .ok p s1 → ∃ t, alloc s t p s1 ∧ C t) :
    ∃ t, C t ∧ g (.node s.ctx0.length) { s with ctx0 := s.ctx0 ++ [t] } = .ok b s2 := by
  obtain ⟨p, s1, h1, h2⟩ := bind_ok.mp h
  obtain ⟨t, ⟨rfl, rfl⟩, hc⟩ := hop p s1 h1
  exact ⟨t, hc, h2⟩

theorem step_assert {β : Type} {c : Bool} {f : fault} {g : Unit → Build β}
    {s s2 : build_state} {b : β} (h : (ggml_assert c f >>= g) s = .ok b s2) :
    c = true ∧ g () s = .ok b s2 := by
  obtain ⟨u, s1, h1, h2⟩ := bind_ok.mp h
  obtain ⟨hc, rfl⟩ := assert_ok.mp h1
  exact ⟨hc, h2⟩

theorem step_deref {β : Type} {p : tensor_ptr} {g : ggml_tensor → Build β}
    {s s2 : build_state} {b : β} (h : (deref p >>= g) s = .ok b s2) :
    ∃ t, lookup s.ctx0 p = some t ∧ g t s = .ok b s2 := by
  obtain ⟨t, s1, h1, h2⟩ := bind_ok.mp h
  obtain ⟨hc, rfl⟩ := deref_ok.mp h1
  exact ⟨t, hc, h2⟩

theorem step_nonnull {β : Type} {p : Option tensor_ptr} {g : tensor_ptr → Build β}
    {s s2 : build_state} {b : β} (h : (nonnull p >>= g) s = .ok b s2) :
    ∃ q, p = some q ∧ g q s = .ok b s2 := by
  obtain ⟨t, s1, h1, h2⟩ := bind_ok.mp h
  obtain ⟨hc, rfl⟩ := nonnull_ok.mp h1
  exact ⟨t, hc, h2⟩

theorem step_vec_at {α β : Type} {v : List α} {i : Nat} {g : α → Build β}
    {s s2 : build_state} {b : β} (h : (vec_at v i >>= g) s = .ok b s2) :
    ∃ a, v[i]? = some a ∧ g a s = .ok b s2 := by
  obtain ⟨t, s1, h1, h2⟩ := bind_ok.mp h
  obtain ⟨hc, rfl⟩ := vec_at_ok.mp h1
  exact ⟨t, hc, h2⟩

theorem step_expand {β : Type} {t : tensor_ptr} {g : Unit → Build β}
    {s s2 : build_state} {b : β} (h : (ggml_build_forward_expand t >>= g) s = .ok b s2) :
    g () { s with gf := { s.gf with expanded := s.gf.expanded ++ [t] } } = .ok b s2 := by
  obtain ⟨u, s1, h1, h2⟩ := bind_ok.mp h
  have h3 := expand_ok.mp h1
  subst h3
  exact h2

theorem step_set_mctx {β : Type} {f : moondream_context → moondream_context}
    {g : Unit → Build β} {s s2 : build_state} {b : β}
    (h : (set_mctx f >>= g) s = .ok b s2) :
    g () { s with mctx := f s.mctx } = .ok b s2 := by
  obtain ⟨u, s1, h1, h2⟩ := bind_ok.mp h
  have h3 := set_mctx_ok.mp h1
  subst h3
  exact h2

theorem step_pure {α β : Type} {a : α} {g : α → Build β} {s s2 : build_state} {b : β}
    (h : (pure a >>= g) s = .ok b s2) : g a s = .ok b s2 := by
  obtain ⟨u, s1, h1, h2⟩ := bind_ok.mp h
  obtain ⟨rfl, rfl⟩ := pure_ok.mp h1
  exact h2

/-! ## Forward form: the allocated tensor as a variable with its defining equation -/

theorem ggml_new_tensor_1d_fwd {type : ggml_type} {ne0 : Int} {p : tensor_ptr}
    {s s2 : build_state} (h : ggml_new_tensor_1d type ne0 s = .ok p s2) :
    ∃ t, alloc s t p s2 ∧ t = new_tensor type ne0 1 1 1 :=
  ⟨_, ggml_new_tensor_1d_ok.mp h, rfl⟩

theorem ggml_new_tensor_2d_fwd {type : ggml_type} {ne0 ne1 : Int} {p : tensor_ptr}
    {s s2 : build_state} (h : ggml_new_tensor_2d type ne0 ne1 s = .ok p s2) :
    ∃ t, alloc s t p s2 ∧ t = new_tensor type ne0 ne1 1 1 :=
  ⟨_, ggml_new_tensor_2d_ok.mp h, rfl⟩

theorem ggml_get_rows_fwd {a b p : tensor_ptr} {s s2 : build_state}
    (h : ggml_get_rows a b s = .ok p s2) :
    ∃ t, alloc s t p s2 ∧ ∃ ta tb, lookup s.ctx0 a = some ta ∧ lookup s.ctx0 b = some tb
      ∧ ta.ne2 = tb.ne1 ∧ tb.ne3 = 1 ∧ tb.type = .I32
      ∧ t = { new_tensor (if ta.type = .I32 then .I32 else .F32) ta.ne0 tb.ne0 tb.ne1 tb.ne2
          with op := .GET_ROWS, src := [some a, some b] } := by
  obtain ⟨ta, tb, h1, h2, h3, h4, h5, h6⟩ := ggml_get_rows_ok.mp h
  exact ⟨_, h6, ta, tb, h1, h2, h3, h4, h5, rfl⟩

theorem ggml_norm_fwd {a p : tensor_ptr} {eps : f32} {s s2 : build_state}
    (h : ggml_norm a eps s = .ok p s2) :
    ∃ t, alloc s t p s2 ∧ ∃ ta, lookup s.ctx0 a = some ta
      ∧ t = { new_tensor ta.type ta.ne0 ta.ne1 ta.ne2 ta.ne3 with
          op := .NORM, src := [some a], fparams := [eps] } := by
  obtain ⟨ta, h1, h2⟩ := ggml_norm_ok.mp h
  exact ⟨_, h2, ta, h1, rfl⟩

theorem ggml_rms_norm_fwd {a p : tensor_ptr} {eps : f32} {s s2 : build_state}
    (h : ggml_rms_norm a eps s = .ok p s2) :
    ∃ t, alloc s t p s2 ∧ ∃ ta, lookup s.ctx0 a = some ta
      ∧ t = { new_tensor ta.type ta.ne0 ta.ne1 ta.ne2 ta.ne3 with
          op := .RMS_NORM, src := [some a], fparams := [eps] } := by
  obtain ⟨ta, h1, h2⟩ := ggml_rms_norm_ok.mp h
  exact ⟨_, h2, ta, h1, rfl⟩

theorem ggml_mul_fwd {a b p : tensor_ptr} {s s2 : build_state}
    (h : ggml_mul a b s = .ok p s2) :
    ∃ t, alloc s t p s2 ∧ ∃ ta tb, lookup s.ctx0 a = some ta ∧ lookup s.ctx0 b = some tb
      ∧ ggml_can_repeat tb ta = true
      ∧ t = { new_tensor ta.type ta.ne0 ta.ne1 ta.ne2 ta.ne3 with
          op := .MUL, src := [some a, some b] } := by
  obtain ⟨ta, tb, h1, h2, h3, h4⟩ := ggml_mul_ok.mp h
  exact ⟨_, h4, ta, tb, h1, h2, h3, rfl⟩

theorem ggml_add_fwd {a b p : tensor_ptr} {s s2 : build_state}
    (h : ggml_add a b s = .ok p s2) :
    ∃ t, alloc s t p s2 ∧ ∃ ta tb, lookup s.ctx0 a = some ta ∧ lookup s.ctx0 b = some tb
      ∧ ggml_can_repeat tb ta = true
      ∧ t = { new_tensor ta.type ta.ne0 ta.ne1 ta.ne2 ta.ne3 with
          op := .ADD, src := [some a, some b] } := by
  obtain ⟨ta, tb, h1, h2, h3, h4⟩ := ggml_add_ok.mp h
  exact ⟨_, h4, ta, tb, h1, h2, h3, rfl⟩

theorem ggml_gelu_fwd {a p : tensor_ptr} {s s2 : build_state}
    (h : ggml_gelu a s = .ok p s2) :
    ∃ t, alloc s t p s2 ∧ ∃ ta, lookup s.ctx0 a = some ta
      ∧ t = { new_tensor ta.type ta.ne0 ta.ne1 ta.ne2 ta.ne3 with
          op := .GELU, src := [some a] } := by
  obtain ⟨ta, h1, h2⟩ := ggml_gelu_ok.mp h
  exact ⟨_, h2, ta, h1, rfl⟩

theorem ggml_mul_mat_fwd {a b p : tensor_ptr} {s s2 : build_state}
    (h : ggml_mul_mat a b s = .ok p s2) :
    ∃ t, alloc s t p s2 ∧ ∃ ta tb, lookup s.ctx0 a = some ta ∧ lookup s.ctx0 b = some tb
      ∧ ggml_can_mul_mat ta tb = true ∧ ggml_is_transposed ta = false
      ∧ t = { new_tensor .F32 ta.ne1 tb.ne1 tb.ne2 tb.ne3 with
          op := .MUL_MAT, src := [some a, some b] } := by
  obtain ⟨ta, tb, h1, h2, h3, h4, h5⟩ := ggml_mul_mat_ok.mp h
  exact ⟨_, h5, ta, tb, h1, h2, h3, h4, rfl⟩

theorem ggml_scale_fwd {a p : tensor_ptr} {sc : f32} {s s2 : build_state}
    (h : ggml_scale a sc s = .ok p s2) :
    ∃ t, alloc s t p s2 ∧ ∃ ta, lookup s.ctx0 a = some ta
      ∧ t = { new_tensor ta.type ta.ne0 ta.ne1 ta.ne2 ta.ne3 with
          op := .SCALE, src := [some a], fparams := [sc] } := by
  obtain ⟨ta, h1, -, h2⟩ := ggml_scale_ok.mp h
  exact ⟨_, h2, ta, h1, rfl⟩

theorem ggml_cont_fwd {a p : tensor_ptr} {s s2 : build_state}
    (h : ggml_cont a s = .ok p s2) :
    ∃ t, alloc s t p s2 ∧ ∃ ta, lookup s.ctx0 a = some ta
      ∧ t = { new_tensor ta.type ta.ne0 ta.ne1 ta.ne2 ta.ne3 with
          op := .CONT, src := [some a] } := by
  obtain ⟨ta, h1, h2⟩ := ggml_cont_ok.mp h
  exact ⟨_, h2, ta, h1, rfl⟩

theorem ggml_cont_2d_fwd {a p : tensor_ptr} {ne0 ne1 : Int} {s s2 : build_state}
    (h : ggml_cont_2d a ne0 ne1 s = .ok p s2) :
    ∃ t, alloc s t p s2 ∧ ∃ ta, lookup s.ctx0 a = some ta ∧ ggml_nelements ta = ne0 * ne1
      ∧ t = { new_tensor ta.type ne0 ne1 1 1 with op := .CONT, src := [some a] } := by
  obtain ⟨ta, h1, h2, h3⟩ := ggml_cont_2d_ok.mp h
  exact ⟨_, h3, ta, h1, h2, rfl⟩

theorem ggml_cast_fwd {a p : tensor_ptr} {type : ggml_type} {s s2 : build_state}
    (h : ggml_cast a type s = .ok p s2) :
    ∃ t, alloc s t p s2 ∧ ∃ ta, lookup s.ctx0 a = some ta
      ∧ t = { new_tensor type ta.ne0 ta.ne1 ta.ne2 ta.ne3 with
          op := .CPY, src := [some a, some (.node s.ctx0.length)] } := by
  obtain ⟨ta, h1, h2⟩ := ggml_cast_ok.mp h
  exact ⟨_, h2, ta, h1, rfl⟩

theorem ggml_cpy_fwd {a b p : tensor_ptr} {s s2 : build_state}
    (h : ggml_cpy a b s = .ok p s2) :
    ∃ t, alloc s t p s2 ∧ ∃ ta tb, lookup s.ctx0 a = some ta ∧ lookup s.ctx0 b = some tb
      ∧ ggml_nelements ta = ggml_nelements tb
      ∧ t = { new_tensor tb.type tb.ne0 tb.ne1 tb.ne2 tb.ne3 with
          view_src := some (view_base_of b tb), view_offs := view_offs_of tb 0,
          nb0 := tb.nb0, nb1 := tb.nb1, nb2 := tb.nb2, nb3 := tb.nb3,
          op := .CPY, src := [some a, some b] } := by
  obtain ⟨ta, tb, bt, h1, h2, h3, -, -, h4⟩ := ggml_cpy_ok.mp h
  exact ⟨_, h4, ta, tb, h1, h2, h3, rfl⟩

theorem ggml_reshape_2d_fwd {a p : tensor_ptr} {ne0 ne1 : Int} {s s2 : build_state}
    (h : ggml_reshape_2d a ne0 ne1 s = .ok p s2) :
    ∃ t, alloc s t p s2 ∧ ∃ ta, lookup s.ctx0 a = some ta
      ∧ ggml_is_contiguous ta = true ∧ ggml_nelements ta = ne0 * ne1
      ∧ t = { new_tensor ta.type ne0 ne1 1 1 with
          view_src := some (view_base_of a ta), view_offs := view_offs_of ta 0,
          op := .RESHAPE, src := [some a] } := by
  obtain ⟨ta, bt, h1, h2, h3, -, -, h4⟩ := ggml_reshape_2d_ok.mp h
  exact ⟨_, h4, ta, h1, h2, h3, rfl⟩

theorem ggml_reshape_3d_fwd {a p : tensor_ptr} {ne0 ne1 ne2 : Int} {s s2 : build_state}
    (h : ggml_reshape_3d a ne0 ne1 ne2 s = .ok p s2) :
    ∃ t, alloc s t p s2 ∧ ∃ ta, lookup s.ctx0 a = some ta
      ∧ ggml_is_contiguous ta = true ∧ ggml_nelements ta = ne0 * ne1 * ne2
      ∧ t = { new_tensor ta.type ne0 ne1 ne2 1 with
          view_src := some (view_base_of a ta), view_offs := view_offs_of ta 0,
          op := .RESHAPE, src := [some a] } := by
  obtain ⟨ta, bt, h1, h2, h3, -, -, h4⟩ := ggml_reshape_3d_ok.mp h
  exact ⟨_, h4, ta, h1, h2, h3, rfl⟩

theorem ggml_view_1d_fwd {a p : tensor_ptr} {ne0 offset : Int} {s s2 : build_state}
    (h : ggml_view_1d a ne0 offset s = .ok p s2) :
    ∃ t, alloc s t p s2 ∧ ∃ ta, lookup s.ctx0 a = some ta
      ∧ t = { new_tensor ta.type ne0 1 1 1 with
          view_src := some (view_base_of a ta), view_offs := view_offs_of ta offset,
          op := .VIEW, src := [some a], iparams := [offset] } := by
  obtain ⟨ta, bt, h1, -, -, h4⟩ := ggml_view_1d_ok.mp h
  exact ⟨_, h4, ta, h1, rfl⟩

theorem ggml_view_2d_fwd {a p : tensor_ptr} {ne0 ne1 nb1 offset : Int} {s s2 : build_state}
    (h : ggml_view_2d a ne0 ne1 nb1 offset s = .ok p s2) :
    ∃ t, alloc s t p s2 ∧ ∃ ta, lookup s.ctx0 a = some ta
      ∧ t = { new_tensor ta.type ne0 ne1 1 1 with
          view_src := some (view_base_of a ta), view_offs := view_offs_of ta offset,
          op := .VIEW, src := [some a], iparams := [offset],
          nb1 := nb1, nb2 := nb1 * ne1, nb3 := nb1 * ne1 } := by
  obtain ⟨ta, bt, h1, -, -, h4⟩ := ggml_view_2d_ok.mp h
  exact ⟨_, h4, ta, h1, rfl⟩

theorem ggml_view_3d_fwd {a p : tensor_ptr} {ne0 ne1 ne2 nb1 nb2 offset : Int}
    {s s2 : build_state} (h : ggml_view_3d a ne0 ne1 ne2 nb1 nb2 offset s = .ok p s2) :
    ∃ t, alloc s t p s2 ∧ ∃ ta, lookup s.ctx0 a = some ta
      ∧ t = { new_tensor ta.type ne0 ne1 ne2 1 with
          view_src := some (view_base_of a ta), view_offs := view_offs_of ta offset,
          op := .VIEW, src := [some a], iparams := [offset],
          nb1 := nb1, nb2 := nb2, nb3 := nb2 * ne2 } := by
  obtain ⟨ta, bt, h1, -, -, h4⟩ := ggml_view_3d_ok.mp h
  exact ⟨_, h4, ta, h1, rfl⟩

theorem ggml_permute_0213_fwd {a p : tensor_ptr} {s s2 : build_state}
    (h : ggml_permute a 0 2 1 3 s = .ok p s2) :
    ∃ t, alloc s t p s2 ∧ ∃ ta, lookup s.ctx0 a = some ta
      ∧ t = { new_tensor ta.type ta.ne0 ta.ne2 ta.ne1 ta.ne3 with
          view_src := some (view_base_of a ta), view_offs := view_offs_of ta 0,
          nb0 := ta.nb0, nb1 := ta.nb2, nb2 := ta.nb1, nb3 := ta.nb3,
          op := .PERMUTE, src := [some a], iparams := [0, 2, 1, 3] } := by
  obtain ⟨ta, bt, h1, -, -, h4⟩ := ggml_permute_0213_ok.mp h
  exact ⟨_, h4, ta, h1, rfl⟩

theorem ggml_transpose_fwd {a p : tensor_ptr} {s s2 : build_state}
    (h : ggml_transpose a s = .ok p s2) :
    ∃ t, alloc s t p s2 ∧ ∃ ta, lookup s.ctx0 a = some ta
      ∧ t = { new_tensor ta.type ta.ne1 ta.ne0 ta.ne2 ta.ne3 with
          view_src := some (view_base_of a ta), view_offs := view_offs_of ta 0,
          nb0 := ta.nb1, nb1 := ta.nb0, nb2 := ta.nb2, nb3 := ta.nb3,
          op := .TRANSPOSE, src := [some a] } := by
  obtain ⟨ta, bt, h1, -, -, h4⟩ := ggml_transpose_ok.mp h
  exact ⟨_, h4, ta, h1, rfl⟩

theorem ggml_rope_ext_none_fwd {a b p : tensor_ptr} {n_dims mode n_ctx n_ctx_orig : Int}
    {f1 f2 f3 f4 f5 f6 : f32} {s s2 : build_state}
    (h : ggml_rope_ext a b none n_dims mode n_ctx n_ctx_orig f1 f2 f3 f4 f5 f6 s = .ok p s2) :
    ∃ t, alloc s t p s2 ∧ ∃ ta, lookup s.ctx0 a = some ta
      ∧ t = { new_tensor ta.type ta.ne0 ta.ne1 ta.ne2 ta.ne3 with
          op := .ROPE, src := [some a, some b, none],
          fparams := [f1, f2, f3, f4, f5, f6],
          iparams := [n_dims, mode, n_ctx, n_ctx_orig] } := by
  obtain ⟨ta, tb, h1, -, -, -, -, -, h4⟩ := ggml_rope_ext_none_ok.mp h
  exact ⟨_, h4, ta, h1, rfl⟩

theorem ggml_soft_max_ext_fwd {a mask p : tensor_ptr} {scale max_bias : f32}
    {s s2 : build_state} (h : ggml_soft_max_ext a mask scale max_bias s = .ok p s2) :
    ∃ t, alloc s t p s2 ∧ ∃ ta, lookup s.ctx0 a = some ta
      ∧ t = { new_tensor ta.type ta.ne0 ta.ne1 ta.ne2 ta.ne3 with
          op := .SOFT_MAX, src := [some a, some mask], fparams := [scale, max_bias] } := by
  obtain ⟨ta, tm, h1, -, -, -, -, -, -, -, h4⟩ := ggml_soft_max_ext_ok.mp h
  exact ⟨_, h4, ta, h1, rfl⟩

theorem ggml_flash_attn_ext_fwd {q k v mask p : tensor_ptr} {scale max_bias : f32}
    {s s2 : build_state} (h : ggml_flash_attn_ext q k v mask scale max_bias s = .ok p s2) :
    ∃ t, alloc s t p s2 ∧ ∃ tq, lookup s.ctx0 q = some tq
      ∧ t = { new_tensor .F32 tq.ne0 tq.ne2 tq.ne1 tq.ne3 with
          op := .FLASH_ATTN_EXT, src := [some q, some k, some v, some mask],
          fparams := [scale, max_bias] } := by
  obtain ⟨tq, tk, tv, tm, h1, -, -, -, -, -, -, -, -, h4⟩ := ggml_flash_attn_ext_ok.mp h
  exact ⟨_, h4, tq, h1, rfl⟩

/-! ## `llm_build_kv_store`, step by step -/

theorem lookup_fresh (l m : List ggml_tensor) (k : Nat) :
    lookup (l ++ m) (.node (l.length + k)) = m[k]? := by
  simp [lookup, List.getElem?_append_right]

theorem lookup_fresh0 (l m : List ggml_tensor) :
    lookup (l ++ m) (.node l.length) = m[0]? := by
  have h := lookup_fresh l m 0
  simp only [Nat.add_zero] at h
  exact h

/-- The list-shape normal form used while stepping: appends flattened, lengths
computed. -/
theorem length_snoc2 (l : List ggml_tensor) (a b : ggml_tensor) :
    (l ++ [a] ++ [b]).length = l.length + 2 := by simp

theorem llm_build_kv_store_flash {hparams : moondream_hparams} {cparams : moondream_cparams}
    {kv : moondream_kv_cache} {k_cur v_cur : tensor_ptr} {n_tokens kv_head : Int} {il : Nat}
    {s s2 : build_state} {u : Unit} (hf : cparams.flash_attn = true)
    (h : llm_build_kv_store hparams cparams kv k_cur v_cur n_tokens kv_head il s = .ok u s2) :
    ∃ k_l v_l, kv.k_l[il]? = some k_l ∧ kv.v_l[il]? = some v_l
      ∧ (kv.size : Int) = cparams.n_ctx
      ∧ s2 = { s with
          ctx0 := s.ctx0 ++
            [ cache_view_1d k_l (n_tokens * hparams.n_embd_k_gqa)
                (wrap_size_t (ggml_row_size k_l.type hparams.n_embd_k_gqa * kv_head)),
              cache_cpy k_l (cache_view_1d k_l (n_tokens * hparams.n_embd_k_gqa)
                (wrap_size_t (ggml_row_size k_l.type hparams.n_embd_k_gqa * kv_head)))
                k_cur (.node s.ctx0.length),
              cache_view_1d v_l (n_tokens * hparams.n_embd_v_gqa)
                (wrap_size_t (kv_head * ggml_row_size v_l.type hparams.n_embd_v_gqa)),
              cache_cpy v_l (cache_view_1d v_l (n_tokens * hparams.n_embd_v_gqa)
                (wrap_size_t (kv_head * ggml_row_size v_l.type hparams.n_embd_v_gqa)))
                v_cur (.node (s.ctx0.length + 2)) ],
          gf := { s.gf with expanded := s.gf.expanded ++
            [.node (s.ctx0.length + 1), .node (s.ctx0.length + 3)] } } := by
  unfold llm_build_kv_store at h
  replace h := step_assert h
  obtain ⟨hsz, h⟩ := h
  replace h := step_vec_at h
  obtain ⟨k_l, hkl, h⟩ := h
  replace h := step h (fun _ _ => ggml_view_1d_fwd)
  obtain ⟨t1, ⟨ta, e1, ht1⟩, h⟩ := h
  simp only [lookup_ext, Option.some.injEq] at e1
  subst e1
  replace h := step h (fun _ _ => ggml_cpy_fwd)
  obtain ⟨t2, ⟨ta, tb, -, e3, -, ht2⟩, h⟩ := h
  simp only [lookup_snoc_last, Option.some.injEq] at e3
  subst e3
  replace h := step_expand h
  replace h := step_deref h
  obtain ⟨tv, e5, h⟩ := h
  replace h := step_assert h
  obtain ⟨hv, h⟩ := h
  rw [if_pos hf] at h
  replace h := step_vec_at h
  obtain ⟨v_l, hvl, h⟩ := h
  replace h := step h (fun _ _ => ggml_view_1d_fwd)
  obtain ⟨t3, ⟨ta, e1, ht3⟩, h⟩ := h
  simp only [lookup_ext, Option.some.injEq] at e1
  subst e1
  replace h := step h (fun _ _ => ggml_cpy_fwd)
  obtain ⟨t4, ⟨ta, tb, -, e3, -, ht4⟩, h⟩ := h
  simp only [lookup_snoc_last, Option.some.injEq] at e3
  subst e3
  have h := expand_ok.mp h
  refine ⟨k_l, v_l, hkl, hvl, by simpa using hsz, ?_⟩
  rw [h]
  subst ht1 ht2 ht3 ht4
  simp [cache_view_1d, cache_cpy, view_base_of, view_offs_of]

theorem llm_build_kv_store_noflash {hparams : moondream_hparams}
    {cparams : moondream_cparams} {kv : moondream_kv_cache} {k_cur v_cur : tensor_ptr}
    {n_tokens kv_head : Int} {il : Nat} {s s2 : build_state} {u : Unit}
    (hf : cparams.flash_attn = false)
    (h : llm_build_kv_store hparams cparams kv k_cur v_cur n_tokens kv_head il s = .ok u s2) :
    ∃ k_l v_l vt, kv.k_l[il]? = some k_l ∧ kv.v_l[il]? = some v_l
      ∧ (kv.size : Int) = cparams.n_ctx
      ∧ vt.op = .TRANSPOSE ∧ vt.src = [some v_cur]
      ∧ s2 = { s with
          ctx0 := s.ctx0 ++
            [ cache_view_1d k_l (n_tokens * hparams.n_embd_k_gqa)
                (wrap_size_t (ggml_row_size k_l.type hparams.n_embd_k_gqa * kv_head)),
              cache_cpy k_l (cache_view_1d k_l (n_tokens * hparams.n_embd_k_gqa)
                (wrap_size_t (ggml_row_size k_l.type hparams.n_embd_k_gqa * kv_head)))
                k_cur (.node s.ctx0.length),
              cache_view_2d v_l n_tokens hparams.n_embd_v_gqa
                (wrap_size_t (cparams.n_ctx * ggml_type_size v_l.type))
                (wrap_size_t (kv_head * ggml_type_size v_l.type)),
              vt,
              cache_cpy v_l (cache_view_2d v_l n_tokens hparams.n_embd_v_gqa
                (wrap_size_t (cparams.n_ctx * ggml_type_size v_l.type))
                (wrap_size_t (kv_head * ggml_type_size v_l.type)))
                (.node (s.ctx0.length + 3)) (.node (s.ctx0.length + 2)) ],
          gf := { s.gf with expanded := s.gf.expanded ++
            [.node (s.ctx0.length + 1), .node (s.ctx0.length + 4)] } } := by
  unfold llm_build_kv_store at h
  replace h := step_assert h
  obtain ⟨hsz, h⟩ := h
  replace h := step_vec_at h
  obtain ⟨k_l, hkl, h⟩ := h
  replace h := step h (fun _ _ => ggml_view_1d_fwd)
  obtain ⟨t1, ⟨ta, e1, ht1⟩, h⟩ := h
  simp only [lookup_ext, Option.some.injEq] at e1
  subst e1
  replace h := step h (fun _ _ => ggml_cpy_fwd)
  obtain ⟨t2, ⟨ta, tb, -, e3, -, ht2⟩, h⟩ := h
  simp only [lookup_snoc_last, Option.some.injEq] at e3
  subst e3
  replace h := step_expand h
  replace h := step_deref h
  obtain ⟨tv, e5, h⟩ := h
  replace h := step_assert h
  obtain ⟨hv, h⟩ := h
  rw [if_neg (by simp [hf])] at h
  replace h := step_vec_at h
  obtain ⟨v_l, hvl, h⟩ := h
  replace h := step h (fun _ _ => ggml_view_2d_fwd)
  obtain ⟨t3, ⟨ta, e1, ht3⟩, h⟩ := h
  simp only [lookup_ext, Option.some.injEq] at e1
  subst e1
  replace h := step h (fun _ _ => ggml_transpose_fwd)
  obtain ⟨t4, ⟨ta, -, ht4⟩, h⟩ := h
  replace h := step h (fun _ _ => ggml_cpy_fwd)
  obtain ⟨t5, ⟨ta2, tb, -, e3, -, ht5⟩, h⟩ := h
  simp only [List.append_assoc, List.singleton_append, List.cons_append, List.nil_append,
    List.length_append, List.length_singleton, List.length_cons, List.length_nil] at e3 h ht5
  rw [lookup_fresh] at e3
  simp only [List.getElem?_cons_succ, List.getElem?_cons_zero, Option.some.injEq] at e3
  subst e3
  have h := expand_ok.mp h
  refine ⟨k_l, v_l, t4, hkl, hvl, by simpa using hsz, by rw [ht4], by rw [ht4], ?_⟩
  rw [h]
  subst ht1 ht2 ht3 ht5
  simp [cache_view_1d, cache_view_2d, cache_cpy, view_base_of, view_offs_of]

/-! ## `llm_build_kqv`, step by step -/

theorem step_set_input {β : Type} {X : List ggml_tensor} {t : ggml_tensor}
    {gf : ggml_cgraph} {mctx : moondream_context} {g : Unit → Build β}
    {s2 : build_state} {b : β}
    (h : (ggml_set_input (.node X.length) >>= g)
        { ctx0 := X ++ [t], gf := gf, mctx := mctx } = .ok b s2) :
    g () { ctx0 := X ++ [{ t with is_input := true }], gf := gf, mctx := mctx } = .ok b s2 := by
  obtain ⟨u, s1, h1, h2⟩ := bind_ok.mp h
  obtain ⟨i, t2, e1, e2, rfl⟩ := ggml_set_input_ok.mp h1
  cases e1
  simp only [List.getElem?_concat_length, Option.some.injEq] at e2
  subst e2
  simpa only [set_last] using h2

theorem step_mul_mat_set_prec {β : Type} {X : List ggml_tensor} {t : ggml_tensor}
    {prec : ggml_prec} {gf : ggml_cgraph} {mctx : moondream_context} {g : Unit → Build β}
    {s2 : build_state} {b : β}
    (h : (ggml_mul_mat_set_prec (.node X.length) prec >>= g)
        { ctx0 := X ++ [t], gf := gf, mctx := mctx } = .ok b s2) :
    g () { ctx0 := X ++ [{ t with prec := prec }], gf := gf, mctx := mctx } = .ok b s2 := by
  obtain ⟨u, s1, h1, h2⟩ := bind_ok.mp h
  obtain ⟨i, t2, e1, e2, -, rfl⟩ := ggml_mul_mat_set_prec_ok.mp h1
  cases e1
  simp only [List.getElem?_concat_length, Option.some.injEq] at e2
  subst e2
  simpa only [set_last] using h2

theorem step_flash_attn_ext_set_prec {β : Type} {X : List ggml_tensor} {t : ggml_tensor}
    {prec : ggml_prec} {gf : ggml_cgraph} {mctx : moondream_context} {g : Unit → Build β}
    {s2 : build_state} {b : β}
    (h : (ggml_flash_attn_ext_set_prec (.node X.length) prec >>= g)
        { ctx0 := X ++ [t], gf := gf, mctx := mctx } = .ok b s2) :
    g () { ctx0 := X ++ [{ t with prec := prec }], gf := gf, mctx := mctx } = .ok b s2 := by
  obtain ⟨u, s1, h1, h2⟩ := bind_ok.mp h
  obtain ⟨i, t2, e1, e2, -, rfl⟩ := ggml_flash_attn_ext_set_prec_ok.mp h1
  cases e1
  simp only [List.getElem?_concat_length, Option.some.injEq] at e2
  subst e2
  simpa only [set_last] using h2

/-- The tail of `llm_build_kqv` (lines 443-447): the output projection, and its bias
when there is one. It allocates one or two tensors and registers nothing. -/
theorem kqv_tail {wo wo_b : Option tensor_ptr} {cur r : tensor_ptr} {s s2 : build_state}
    (h : (do
        let wo ← nonnull wo
        let cur ← ggml_mul_mat wo cur
        match wo_b with
        | some b => ggml_add cur b
        | none => pure cur : Build tensor_ptr) s = .ok r s2) :
    ∃ tail, s2 = { s with ctx0 := s.ctx0 ++ tail } := by
  replace h := step_nonnull h
  obtain ⟨w, -, h⟩ := h
  replace h := step h (fun _ _ => ggml_mul_mat_fwd)
  obtain ⟨t1, -, h⟩ := h
  cases wo_b with
  | none =>
    obtain ⟨-, rfl⟩ := pure_ok.mp h
    exact ⟨[t1], rfl⟩
  | some b =>
    obtain ⟨t2, ⟨rfl, rfl⟩, -⟩ := ggml_add_fwd h
    exact ⟨[t1, t2], by simp⟩

theorem llm_build_kqv_flash {hparams : moondream_hparams} {cparams : moondream_cparams}
    {kv : moondream_kv_cache} {wo wo_b : Option tensor_ptr} {q_cur kq_mask : tensor_ptr}
    {n_tokens n_kv : Int} {kq_scale : f32} {il : Nat} {s s2 : build_state} {r : tensor_ptr}
    (hf : cparams.flash_attn = true)
    (h : llm_build_kqv hparams cparams kv wo wo_b q_cur kq_mask n_tokens n_kv kq_scale il s
      = .ok r s2) :
    ∃ k_l v_l qp fa rs tail, kv.k_l[il]? = some k_l ∧ kv.v_l[il]? = some v_l
      ∧ qp.op = .PERMUTE ∧ qp.src = [some q_cur]
      ∧ fa.op = .FLASH_ATTN_EXT
      ∧ fa.src = [some (.node s.ctx0.length), some (.node (s.ctx0.length + 1)),
          some (.node (s.ctx0.length + 2)), some kq_mask]
      ∧ fa.fparams = [kq_scale, hparams.f_max_alibi_bias] ∧ fa.prec = .F32
      ∧ rs.op = .RESHAPE ∧ rs.src = [some (.node (s.ctx0.length + 3))]
      ∧ s2 = { s with
          ctx0 := s.ctx0 ++
            [ qp,
              cache_view_3d k_l hparams.n_embd_head_v n_kv hparams.n_head_kv
                (ggml_row_size k_l.type hparams.n_embd_k_gqa)
                (ggml_row_size k_l.type hparams.n_embd_head_k),
              cache_view_3d v_l hparams.n_embd_head_v n_kv hparams.n_head_kv
                (ggml_row_size v_l.type hparams.n_embd_v_gqa)
                (ggml_row_size v_l.type hparams.n_embd_head_v),
              fa, rs ] ++ tail,
          gf := { s.gf with expanded := s.gf.expanded ++ [.node (s.ctx0.length + 4)] } } := by
  unfold llm_build_kqv at h
  replace h := step h (fun _ _ => ggml_permute_0213_fwd)
  obtain ⟨t1, ⟨ta, -, ht1⟩, h⟩ := h
  replace h := step_vec_at h
  obtain ⟨k_l, hkl, h⟩ := h
  replace h := step h (fun _ _ => ggml_view_3d_fwd)
  obtain ⟨t2, ⟨ta, e1, ht2⟩, h⟩ := h
  simp only [lookup_ext, Option.some.injEq] at e1
  subst e1
  rw [if_pos hf] at h
  beta_reduce at h
  replace h := step_vec_at h
  obtain ⟨v_l, hvl, h⟩ := h
  replace h := step h (fun _ _ => ggml_view_3d_fwd)
  obtain ⟨t3, ⟨ta, e1, ht3⟩, h⟩ := h
  simp only [lookup_ext, Option.some.injEq] at e1
  subst e1
  replace h := step h (fun _ _ => ggml_flash_attn_ext_fwd)
  obtain ⟨t4, ⟨tq, -, ht4⟩, h⟩ := h
  replace h := step_flash_attn_ext_set_prec h
  replace h := step h (fun _ _ => ggml_reshape_2d_fwd)
  obtain ⟨t5, ⟨ta, -, -, -, ht5⟩, h⟩ := h
  replace h := step_expand h
  obtain ⟨tail, h⟩ := kqv_tail h
  simp only [List.append_assoc, List.singleton_append, List.cons_append, List.nil_append,
    List.length_append, List.length_singleton, List.length_cons, List.length_nil] at h ht4 ht5
  refine ⟨k_l, v_l, t1, { t4 with prec := .F32 }, t5, tail, hkl, hvl, by rw [ht1], by rw [ht1],
    by rw [ht4], by rw [ht4], by rw [ht4], rfl, by rw [ht5], by rw [ht5], ?_⟩
  rw [h]
  subst ht2 ht3
  simp [cache_view_3d, view_base_of, view_offs_of]

theorem llm_build_kqv_noflash {hparams : moondream_hparams} {cparams : moondream_cparams}
    {kv : moondream_kv_cache} {wo wo_b : Option tensor_ptr} {q_cur kq_mask : tensor_ptr}
    {n_tokens n_kv : Int} {kq_scale : f32} {il : Nat} {s s2 : build_state} {r : tensor_ptr}
    (hf : cparams.flash_attn = false)
    (h : llm_build_kqv hparams cparams kv wo wo_b q_cur kq_mask n_tokens n_kv kq_scale il s
      = .ok r s2) :
    ∃ k_l v_l qp kq sm kqv pm cur tail, kv.k_l[il]? = some k_l ∧ kv.v_l[il]? = some v_l
      ∧ qp.op = .PERMUTE ∧ qp.src = [some q_cur]
      ∧ kq.op = .MUL_MAT
      ∧ kq.src = [some (.node (s.ctx0.length + 1)), some (.node s.ctx0.length)]
      ∧ kq.prec = .F32
      ∧ sm.op = .SOFT_MAX ∧ sm.src = [some (.node (s.ctx0.length + 2)), some kq_mask]
      ∧ sm.fparams = [kq_scale, hparams.f_max_alibi_bias]
      ∧ kqv.op = .MUL_MAT
      ∧ kqv.src = [some (.node (s.ctx0.length + 4)), some (.node (s.ctx0.length + 3))]
      ∧ pm.op = .PERMUTE ∧ pm.src = [some (.node (s.ctx0.length + 5))]
      ∧ cur.op = .CONT ∧ cur.src = [some (.node (s.ctx0.length + 6))]
      ∧ s2 = { s with
          ctx0 := s.ctx0 ++
            [ qp,
              cache_view_3d k_l hparams.n_embd_head_v n_kv hparams.n_head_kv
                (ggml_row_size k_l.type hparams.n_embd_k_gqa)
                (ggml_row_size k_l.type hparams.n_embd_head_k),
              kq, sm,
              cache_view_3d v_l n_kv hparams.n_embd_head_v hparams.n_head_kv
                (ggml_type_size v_l.type * cparams.n_ctx)
                (ggml_type_size v_l.type * cparams.n_ctx * hparams.n_embd_head_v),
              kqv, pm, cur ] ++ tail,
          gf := { s.gf with expanded := s.gf.expanded ++ [.node (s.ctx0.length + 7)] } } := by
  unfold llm_build_kqv at h
  replace h := step h (fun _ _ => ggml_permute_0213_fwd)
  obtain ⟨t1, ⟨ta, -, ht1⟩, h⟩ := h
  replace h := step_vec_at h
  obtain ⟨k_l, hkl, h⟩ := h
  replace h := step h (fun _ _ => ggml_view_3d_fwd)
  obtain ⟨t2, ⟨ta, e1, ht2⟩, h⟩ := h
  simp only [lookup_ext, Option.some.injEq] at e1
  subst e1
  rw [if_neg (by simp [hf])] at h
  beta_reduce at h
  replace h := step h (fun _ _ => ggml_mul_mat_fwd)
  obtain ⟨t3, ⟨ta, tb, -, -, -, -, ht3⟩, h⟩ := h
  replace h := step_mul_mat_set_prec h
  replace h := step h (fun _ _ => ggml_soft_max_ext_fwd)
  obtain ⟨t4, ⟨ta, -, ht4⟩, h⟩ := h
  replace h := step_assert h
  obtain ⟨-, h⟩ := h
  replace h := step_vec_at h
  obtain ⟨v_l, hvl, h⟩ := h
  replace h := step h (fun _ _ => ggml_view_3d_fwd)
  obtain ⟨t5, ⟨ta, e1, ht5⟩, h⟩ := h
  simp only [lookup_ext, Option.some.injEq] at e1
  subst e1
  replace h := step h (fun _ _ => ggml_mul_mat_fwd)
  obtain ⟨t6, ⟨ta, tb, -, -, -, -, ht6⟩, h⟩ := h
  replace h := step h (fun _ _ => ggml_permute_0213_fwd)
  obtain ⟨t7, ⟨ta, -, ht7⟩, h⟩ := h
  replace h := step h (fun _ _ => ggml_cont_2d_fwd)
  obtain ⟨t8, ⟨ta, -, -, ht8⟩, h⟩ := h
  replace h := step_expand h
  obtain ⟨tail, h⟩ := kqv_tail h
  simp only [List.append_assoc, List.singleton_append, List.cons_append, List.nil_append,
    List.length_append, List.length_singleton, List.length_cons, List.length_nil]
    at h ht3 ht4 ht6 ht7 ht8
  refine ⟨k_l, v_l, t1, { t3 with prec := .F32 }, t4, t6, t7, t8, tail, hkl, hvl,
    by rw [ht1], by rw [ht1], by rw [ht3], by rw [ht3], rfl, by rw [ht4], by rw [ht4],
    by rw [ht4], by rw [ht6], by rw [ht6], by rw [ht7], by rw [ht7], by rw [ht8],
    by rw [ht8], ?_⟩
  rw [h]
  subst ht2 ht5
  simp [cache_view_3d, view_base_of, view_offs_of]

/-! ## Steps that only append tensors -/

theorem grows_refl (s : build_state) : grows s s := ⟨rfl, [], by simp⟩

theorem grows_trans {s s1 s2 : build_state} (h1 : grows s s1) (h2 : grows s1 s2) :
    grows s s2 := by
  obtain ⟨g1, n1, e1⟩ := h1
  obtain ⟨g2, n2, e2⟩ := h2
  exact ⟨g2.trans g1, n1 ++ n2, by rw [e2, e1, List.append_assoc]⟩

theorem grows_of_alloc {s s2 : build_state} {t : ggml_tensor} {p : tensor_ptr}
    (h : alloc s t p s2) : grows s s2 := by
  obtain ⟨-, rfl⟩ := h
  exact ⟨rfl, [t], rfl⟩

theorem Grows.pure {α : Type} (a : α) : Grows (pure a : Build α) := by
  intro s b s2 h
  obtain ⟨-, rfl⟩ := pure_ok.mp h
  exact grows_refl s

theorem Grows.bind {α β : Type} {x : Build α} {f : α → Build β} (hx : Grows x)
    (hf : ∀ a, Grows (f a)) : Grows (x >>= f) := by
  intro s b s2 h
  obtain ⟨a, s1, h1, h2⟩ := bind_ok.mp h
  exact grows_trans (hx s a s1 h1) (hf a s1 b s2 h2)

theorem Grows.assert (c : Bool) (f : fault) : Grows (ggml_assert c f) := by
  intro s b s2 h
  obtain ⟨-, rfl⟩ := assert_ok.mp h
  exact grows_refl s

theorem Grows.deref (p : tensor_ptr) : Grows (deref p) := by
  intro s b s2 h
  obtain ⟨-, rfl⟩ := deref_ok.mp h
  exact grows_refl s

theorem Grows.nonnull (p : Option tensor_ptr) : Grows (nonnull p) := by
  intro s b s2 h
  obtain ⟨-, rfl⟩ := nonnull_ok.mp h
  exact grows_refl s

theorem Grows.vec_at {α : Type} (v : List α) (i : Nat) : Grows (vec_at v i) := by
  intro s b s2 h
  obtain ⟨-, rfl⟩ := vec_at_ok.mp h
  exact grows_refl s

theorem Grows.of_fwd {op : Build tensor_ptr} {C : build_state → ggml_tensor → Prop}
    (hop : ∀ s p s1, op s = .ok p s1 → ∃ t, alloc s t p s1 ∧ C s t) : Grows op := by
  intro s p s2 h
  obtain ⟨t, ha, -⟩ := hop s p s2 h
  exact grows_of_alloc ha

theorem Grows.norm (a : tensor_ptr) (eps : f32) : Grows (ggml_norm a eps) :=
  Grows.of_fwd (fun _ _ _ => ggml_norm_fwd)

theorem Grows.rms_norm (a : tensor_ptr) (eps : f32) : Grows (ggml_rms_norm a eps) :=
  Grows.of_fwd (fun _ _ _ => ggml_rms_norm_fwd)

theorem Grows.mul (a b : tensor_ptr) : Grows (ggml_mul a b) :=
  Grows.of_fwd (fun _ _ _ => ggml_mul_fwd)

theorem Grows.add (a b : tensor_ptr) : Grows (ggml_add a b) :=
  Grows.of_fwd (fun _ _ _ => ggml_add_fwd)

theorem Grows.mul_mat (a b : tensor_ptr) : Grows (ggml_mul_mat a b) :=
  Grows.of_fwd (fun _ _ _ => ggml_mul_mat_fwd)

theorem Grows.gelu (a : tensor_ptr) : Grows (ggml_gelu a) :=
  Grows.of_fwd (fun _ _ _ => ggml_gelu_fwd)

theorem Grows.cont (a : tensor_ptr) : Grows (ggml_cont a) :=
  Grows.of_fwd (fun _ _ _ => ggml_cont_fwd)

theorem Grows.get_rows (a b : tensor_ptr) : Grows (ggml_get_rows a b) :=
  Grows.of_fwd (fun _ _ _ => ggml_get_rows_fwd)

theorem Grows.view_2d (a : tensor_ptr) (ne0 ne1 nb1 offset : Int) :
    Grows (ggml_view_2d a ne0 ne1 nb1 offset) :=
  Grows.of_fwd (fun _ _ _ => ggml_view_2d_fwd)

theorem Grows.reshape_3d (a : tensor_ptr) (ne0 ne1 ne2 : Int) :
    Grows (ggml_reshape_3d a ne0 ne1 ne2) :=
  Grows.of_fwd (fun _ _ _ => ggml_reshape_3d_fwd)

theorem llm_build_norm_grows (cur : tensor_ptr) (hparams : moondream_hparams)
    (mw mb : Option tensor_ptr) (type : llm_norm_type) :
    Grows (llm_build_norm cur hparams mw mb type) := by
  unfold llm_build_norm
  cases type <;> cases mw <;> cases mb <;> dsimp only <;>
    repeat' first
      | exact Grows.pure _
      | exact Grows.norm _ _
      | exact Grows.rms_norm _ _
      | exact Grows.mul _ _
      | exact Grows.add _ _
      | apply Grows.bind
      | intro _

theorem build_phi2_qkv_grows (layer : moondream_layer) (x : tensor_ptr)
    (n_embd n_embd_gqa n_tokens : Int) :
    Grows (build_phi2_qkv layer x n_embd n_embd_gqa n_tokens) := by
  unfold build_phi2_qkv
  cases layer.wqkv <;> dsimp only <;>
    repeat' first
      | exact Grows.pure _
      | exact Grows.nonnull _
      | exact Grows.deref _
      | exact Grows.mul_mat _ _
      | exact Grows.add _ _
      | exact Grows.cont _
      | exact Grows.view_2d _ _ _ _ _
      | apply Grows.bind
      | intro _

theorem llm_build_ffn_phi2_grows (cur : tensor_ptr) (up up_b down down_b : Option tensor_ptr) :
    Grows (llm_build_ffn cur up up_b none none down down_b none .LLM_FFN_GELU .LLM_FFN_SEQ) := by
  unfold llm_build_ffn
  cases up <;> cases up_b <;> cases down_b <;>
    simp only [reduceCtorEq, if_false] <;>
    repeat' first
      | exact Grows.pure _
      | exact Grows.nonnull _
      | exact Grows.mul_mat _ _
      | exact Grows.add _ _
      | exact Grows.gelu _
      | apply Grows.bind
      | intro _

/-! ## `llm_build_kv`: the tensors and registrations of one attention block -/

theorem llm_build_kv_fwd {hparams : moondream_hparams} {cparams : moondream_cparams}
    {kv : moondream_kv_cache} {wo wo_b : Option tensor_ptr}
    {k_cur v_cur q_cur kq_mask : tensor_ptr} {n_tokens kv_head n_kv : Int} {kq_scale : f32}
    {il : Nat} {s s2 : build_state} {r : tensor_ptr}
    (h : llm_build_kv hparams cparams kv wo wo_b k_cur v_cur q_cur kq_mask n_tokens kv_head
      n_kv kq_scale il s = .ok r s2) :
    ∃ seg tail six, kv_seg hparams cparams kv n_tokens kv_head n_kv kq_scale il q_cur k_cur
        v_cur kq_mask s.ctx0.length seg six
      ∧ (kv.size : Int) = cparams.n_ctx
      ∧ s2 = { s with ctx0 := s.ctx0 ++ seg ++ tail,
                      gf := { s.gf with expanded := s.gf.expanded ++ six } } := by
  unfold llm_build_kv at h
  replace h := step_expand h
  replace h := step_expand h
  replace h := step_expand h
  obtain ⟨u, s1, h1, h⟩ := bind_ok.mp h
  cases hf : cparams.flash_attn with
  | true =>
    obtain ⟨k_l, v_l, hk, hv, hsz, rfl⟩ := llm_build_kv_store_flash hf h1
    obtain ⟨k_l2, v_l2, qp, fa, rs, tail, hk2, hv2, f1, f2, f3, f4, f5, f6, f7, f8, rfl⟩ :=
      llm_build_kqv_flash hf h
    rw [hk] at hk2
    rw [hv] at hv2
    cases hk2
    cases hv2
    simp only [List.length_append, List.length_cons, List.length_nil, Nat.zero_add,
      Nat.reduceAdd, Nat.add_assoc] at f4 f8
    refine ⟨_, tail, _, ⟨k_l, v_l, hk, hv, Or.inl ⟨hf, qp, fa, rs, f1, f2, f3, f4, f5, f6,
      f7, f8, rfl, rfl⟩⟩, hsz, ?_⟩
    simp [Nat.add_assoc]
  | false =>
    obtain ⟨k_l, v_l, vt, hk, hv, hsz, g1, g2, rfl⟩ := llm_build_kv_store_noflash hf h1
    obtain ⟨k_l2, v_l2, qp, kq, sm, kqv, pm, cur, tail, hk2, hv2, f1, f2, f3, f4, f5, f6, f7,
      f8, f9, f10, f11, f12, f13, f14, rfl⟩ := llm_build_kqv_noflash hf h
    rw [hk] at hk2
    rw [hv] at hv2
    cases hk2
    cases hv2
    simp only [List.length_append, List.length_cons, List.length_nil, Nat.zero_add,
      Nat.reduceAdd, Nat.add_assoc] at f4 f7 f10 f12 f14
    refine ⟨_, tail, _, ⟨k_l, v_l, hk, hv, Or.inr ⟨hf, vt, qp, kq, sm, kqv, pm, cur, g1, g2,
      f1, f2, f3, f4, f5, f6, f7, f8, f9, f10, f11, f12, f13, f14, rfl, rfl⟩⟩, hsz, ?_⟩
    simp [Nat.add_assoc]

/-! ## The attention block of a layer -/

/-- The projection appends tensors only; `Vcur` is the last of them, a `CONT` on the
fused path and an `ADD` on the split path. -/
theorem build_phi2_qkv_fwd {layer : moondream_layer} {x : tensor_ptr}
    {n_embd n_embd_gqa n_tokens : Int} {s s2 : build_state}
    {r : tensor_ptr × tensor_ptr × tensor_ptr}
    (h : build_phi2_qkv layer x n_embd n_embd_gqa n_tokens s = .ok r s2) :
    ∃ pre tv, s2 = { s with ctx0 := s.ctx0 ++ pre ++ [tv] }
      ∧ r.2.2 = .node (s.ctx0 ++ pre).length
      ∧ (tv.op = .CONT ∨ tv.op = .ADD) := by
  unfold build_phi2_qkv at h
  cases hw : layer.wqkv with
  | some w =>
    rw [hw] at h
    dsimp only at h
    replace h := step h (fun _ _ => ggml_mul_mat_fwd)
    obtain ⟨t1, -, h⟩ := h
    replace h := step_nonnull h
    obtain ⟨b, -, h⟩ := h
    replace h := step h (fun _ _ => ggml_add_fwd)
    obtain ⟨t2, -, h⟩ := h
    replace h := step_deref h
    obtain ⟨tc, -, h⟩ := h
    replace h := step h (fun _ _ => ggml_view_2d_fwd)
    obtain ⟨t3, -, h⟩ := h
    replace h := step h (fun _ _ => ggml_cont_fwd)
    obtain ⟨t4, -, h⟩ := h
    replace h := step h (fun _ _ => ggml_view_2d_fwd)
    obtain ⟨t5, -, h⟩ := h
    replace h := step h (fun _ _ => ggml_cont_fwd)
    obtain ⟨t6, -, h⟩ := h
    replace h := step h (fun _ _ => ggml_view_2d_fwd)
    obtain ⟨t7, -, h⟩ := h
    replace h := step h (fun _ _ => ggml_cont_fwd)
    obtain ⟨t8, ⟨ta, -, ht8⟩, h⟩ := h
    obtain ⟨rfl, rfl⟩ := pure_ok.mp h
    refine ⟨[t1, t2, t3, t4, t5, t6, t7], t8, by simp, by simp, Or.inl (by rw [ht8])⟩
  | none =>
    rw [hw] at h
    dsimp only at h
    replace h := step_nonnull h
    obtain ⟨wq, -, h⟩ := h
    replace h := step h (fun _ _ => ggml_mul_mat_fwd)
    obtain ⟨t1, -, h⟩ := h
    replace h := step_nonnull h
    obtain ⟨bq, -, h⟩ := h
    replace h := step h (fun _ _ => ggml_add_fwd)
    obtain ⟨t2, -, h⟩ := h
    replace h := step_nonnull h
    obtain ⟨wk, -, h⟩ := h
    replace h := step h (fun _ _ => ggml_mul_mat_fwd)
    obtain ⟨t3, -, h⟩ := h
    replace h := step_nonnull h
    obtain ⟨bk, -, h⟩ := h
    replace h := step h (fun _ _ => ggml_add_fwd)
    obtain ⟨t4, -, h⟩ := h
    replace h := step_nonnull h
    obtain ⟨wv, -, h⟩ := h
    replace h := step h (fun _ _ => ggml_mul_mat_fwd)
    obtain ⟨t5, -, h⟩ := h
    replace h := step_nonnull h
    obtain ⟨bv, -, h⟩ := h
    replace h := step h (fun _ _ => ggml_add_fwd)
    obtain ⟨t6, ⟨ta, tb, -, -, -, ht6⟩, h⟩ := h
    obtain ⟨rfl, rfl⟩ := pure_ok.mp h
    refine ⟨[t1, t2, t3, t4, t5], t6, by simp, by simp, Or.inr (by rw [ht6])⟩

theorem build_phi2_attn_fwd {hparams : moondream_hparams} {cparams : moondream_cparams}
    {batch : moondream_batch} {kv : moondream_kv_cache} {layer : moondream_layer}
    {x inp_pos KQ_mask : tensor_ptr} {il : Nat} {s s2 : build_state} {r : tensor_ptr}
    (h : build_phi2_attn hparams cparams batch kv layer x inp_pos KQ_mask il s = .ok r s2) :
    ∃ pre tq tk V tv seg tail six,
      tq.op = .SCALE ∧ tq.fparams = [.inv_sqrt hparams.n_embd_head_v] ∧ tk.op = .ROPE
      ∧ lookup (s.ctx0 ++ pre) V = some tv ∧ (tv.op = .CONT ∨ tv.op = .ADD)
      ∧ kv_seg hparams cparams kv batch.n_tokens (to_int32 kv.head) (to_int32 kv.n) .one il
          (.node (s.ctx0 ++ pre).length) (.node ((s.ctx0 ++ pre).length + 1)) V KQ_mask
          ((s.ctx0 ++ pre).length + 2) seg six
      ∧ (kv.size : Int) = cparams.n_ctx
      ∧ s2 = { s with ctx0 := s.ctx0 ++ pre ++ ([tq, tk] ++ seg) ++ tail,
                      gf := { s.gf with expanded := s.gf.expanded ++ six } } := by
  unfold build_phi2_attn at h
  obtain ⟨qkv, s1, h1, h⟩ := bind_ok.mp h
  obtain ⟨pre, tv, rfl, hV, htv⟩ := build_phi2_qkv_fwd h1
  replace h := step h (fun _ _ => ggml_reshape_3d_fwd)
  obtain ⟨t1, -, h⟩ := h
  replace h := step h (fun _ _ => ggml_reshape_3d_fwd)
  obtain ⟨t2, -, h⟩ := h
  replace h := step h (fun _ _ => ggml_rope_ext_none_fwd)
  obtain ⟨t3, -, h⟩ := h
  replace h := step h (fun _ _ => ggml_scale_fwd)
  obtain ⟨t4, ⟨ta, -, ht4⟩, h⟩ := h
  replace h := step h (fun _ _ => ggml_rope_ext_none_fwd)
  obtain ⟨t5, ⟨ta, -, ht5⟩, h⟩ := h
  obtain ⟨seg, tail, six, hseg, hsz, rfl⟩ := llm_build_kv_fwd h
  dsimp only at hseg ⊢
  simp only [List.append_assoc, List.singleton_append, List.cons_append, List.nil_append,
    List.length_append, List.length_singleton, List.length_cons, List.length_nil,
    Nat.add_assoc, Nat.reduceAdd] at hseg ⊢
  refine ⟨pre ++ [tv, t1, t2, t3], t4, t5, qkv.2.2, tv, seg, tail, six, by rw [ht4],
    by rw [ht4], by rw [ht5], ?_, htv, ?_, hsz, ?_⟩
  · rw [hV]
    have e := lookup_fresh0 (s.ctx0 ++ pre) [tv, t1, t2, t3]
    simpa only [List.append_assoc, List.getElem?_cons_zero] using e
  · simpa only [List.append_assoc, List.length_append, List.length_cons, List.length_nil,
      Nat.add_assoc, Nat.reduceAdd, Nat.zero_add] using hseg
  · simp only [List.append_assoc, List.singleton_append, List.cons_append, List.nil_append]

/-! ## Input tensors and one pass of the layer loop -/

theorem grows_of {α : Type} {m : Build α} (hm : Grows m) {s s2 : build_state} {a : α}
    (h : m s = .ok a s2) : grows s s2 := hm s a s2 h

theorem Grows.build_inp_out_ids (n_outputs : Int) : Grows (build_inp_out_ids n_outputs) := by
  intro s a s2 h
  unfold Moondream.build_inp_out_ids at h
  replace h := step h (fun _ _ => ggml_new_tensor_1d_fwd)
  obtain ⟨t, -, h⟩ := h
  replace h := step_set_mctx h
  replace h := step_set_input h
  obtain ⟨-, rfl⟩ := pure_ok.mp h
  exact ⟨rfl, [_], rfl⟩

theorem Grows.build_inp_pos (batch : moondream_batch) : Grows (build_inp_pos batch) := by
  intro s a s2 h
  unfold Moondream.build_inp_pos at h
  replace h := step h (fun _ _ => ggml_new_tensor_1d_fwd)
  obtain ⟨t, -, h⟩ := h
  replace h := step_set_mctx h
  replace h := step_set_input h
  obtain ⟨-, rfl⟩ := pure_ok.mp h
  exact ⟨rfl, [_], rfl⟩

theorem Grows.llm_build_inp_embd (hparams : moondream_hparams) (batch : moondream_batch)
    (tok_embd : Option tensor_ptr) : Grows (llm_build_inp_embd hparams batch tok_embd) := by
  intro s a s2 h
  unfold Moondream.llm_build_inp_embd at h
  by_cases hb : batch.token.isSome = true
  · rw [if_pos hb] at h
    replace h := step h (fun _ _ => ggml_new_tensor_1d_fwd)
    obtain ⟨t, -, h⟩ := h
    replace h := step_set_mctx h
    replace h := step_set_input h
    replace h := step_nonnull h
    obtain ⟨w, -, h⟩ := h
    obtain ⟨t2, ⟨-, rfl⟩, -⟩ := ggml_get_rows_fwd h
    exact ⟨rfl, [{ t with is_input := true }, t2], by simp⟩
  · rw [if_neg hb] at h
    replace h := step h (fun _ _ => ggml_new_tensor_2d_fwd)
    obtain ⟨t, -, h⟩ := h
    replace h := step_set_mctx h
    replace h := step_set_input h
    obtain ⟨-, rfl⟩ := pure_ok.mp h
    exact ⟨rfl, [_], rfl⟩

theorem Grows.build_inp_KQ_mask (batch : moondream_batch) (cparams : moondream_cparams)
    (n_kv : Int) : Grows (build_inp_KQ_mask batch cparams n_kv) := by
  intro s a s2 h
  unfold Moondream.build_inp_KQ_mask at h
  have key : ∀ (ne0 : Int), ((do
      let inp_KQ_mask ← ggml_new_tensor_2d .F32 ne0 (GGML_PAD batch.n_tokens GGML_KQ_MASK_PAD)
      set_mctx (fun m => { m with inp_KQ_mask := some inp_KQ_mask })
      ggml_set_input inp_KQ_mask
      if cparams.flash_attn then ggml_cast inp_KQ_mask .F16 else Pure.pure inp_KQ_mask :
        Build tensor_ptr) s = .ok a s2) → grows s s2 := by
    intro ne0 h
    replace h := step h (fun _ _ => ggml_new_tensor_2d_fwd)
    obtain ⟨t, -, h⟩ := h
    replace h := step_set_mctx h
    replace h := step_set_input h
    cases hf : cparams.flash_attn
    · rw [hf] at h
      obtain ⟨-, rfl⟩ := pure_ok.mp h
      exact ⟨rfl, [_], rfl⟩
    · rw [hf] at h
      obtain ⟨t2, ⟨-, rfl⟩, -⟩ := ggml_cast_fwd h
      exact ⟨rfl, [{ t with is_input := true }, t2], by simp⟩
  cases hc : cparams.causal_attn
  · rw [hc] at h
    exact key _ h
  · rw [hc] at h
    exact key _ h

theorem kv_seg_six_length {hparams : moondream_hparams} {cparams : moondream_cparams}
    {kv : moondream_kv_cache} {n_tokens kv_head n_kv : Int} {kq_scale : f32} {il : Nat}
    {q_cur k_cur v_cur kq_mask : tensor_ptr} {n : Nat} {seg : List ggml_tensor}
    {six : List tensor_ptr}
    (h : kv_seg hparams cparams kv n_tokens kv_head n_kv kq_scale il q_cur k_cur v_cur
      kq_mask n seg six) : six.length = 6 := by
  obtain ⟨k_l, v_l, -, -, h⟩ := h
  rcases h with ⟨-, qp, fa, rs, -, -, -, -, -, -, -, -, -, rfl⟩ |
    ⟨-, vt, qp, kq, sm, kqv, pm, cur, -, -, -, -, -, -, -, -, -, -, -, -, -, -, -, -, -, rfl⟩
  · rfl
  · rfl

/-! ## One pass of the layer loop -/

theorem Grows.layer_tail (hparams : moondream_hparams) (layer : moondream_layer)
    (n_outputs : Int) (il : Nat) (cur inpL attn_norm_output : tensor_ptr) :
    Grows (do
      let sel ←
        if (il : Int) = hparams.n_layer - 1 then do
          let inp_out_ids ← Moondream.build_inp_out_ids n_outputs
          let cur ← ggml_get_rows cur inp_out_ids
          let inpL ← ggml_get_rows inpL inp_out_ids
          let attn_norm_output ← ggml_get_rows attn_norm_output inp_out_ids
          Pure.pure (cur, inpL, attn_norm_output)
        else Pure.pure (cur, inpL, attn_norm_output)
      let ffn_output ← llm_build_ffn sel.2.2 (weight_ptr layer.ffn_up)
        (weight_ptr layer.ffn_up_b) none none (weight_ptr layer.ffn_down)
        (weight_ptr layer.ffn_down_b) none .LLM_FFN_GELU .LLM_FFN_SEQ
      let cur ← ggml_add sel.1 ffn_output
      let cur ← ggml_add cur sel.2.1
      Pure.pure cur : Build tensor_ptr) := by
  by_cases hl : (il : Int) = hparams.n_layer - 1
  · simp only [if_pos hl]
    repeat' first
      | exact Grows.pure _
      | exact Grows.build_inp_out_ids _
      | exact Grows.get_rows _ _
      | exact llm_build_ffn_phi2_grows _ _ _ _ _
      | exact Grows.add _ _
      | apply Grows.bind
      | intro _
  · simp only [if_neg hl]
    repeat' first
      | exact Grows.pure _
      | exact llm_build_ffn_phi2_grows _ _ _ _ _
      | exact Grows.add _ _
      | apply Grows.bind
      | intro _

theorem build_phi2_layer_fwd {model : moondream_model} {hparams : moondream_hparams}
    {cparams : moondream_cparams} {batch : moondream_batch} {kv : moondream_kv_cache}
    {inp_pos KQ_mask inpL r : tensor_ptr} {n_outputs : Int} {il : Nat}
    {s s2 : build_state}
    (h : build_phi2_layer model hparams cparams batch kv inp_pos KQ_mask n_outputs il inpL s
      = .ok r s2) :
    ∃ pre tq tk V tv seg post six,
      tq.op = .SCALE ∧ tq.fparams = [.inv_sqrt hparams.n_embd_head_v] ∧ tk.op = .ROPE
      ∧ lookup (s.ctx0 ++ pre) V = some tv ∧ (tv.op = .CONT ∨ tv.op = .ADD)
      ∧ kv_seg hparams cparams kv batch.n_tokens (to_int32 kv.head) (to_int32 kv.n) .one il
          (.node (s.ctx0 ++ pre).length) (.node ((s.ctx0 ++ pre).length + 1)) V KQ_mask
          ((s.ctx0 ++ pre).length + 2) seg six
      ∧ (kv.size : Int) = cparams.n_ctx
      ∧ s2.ctx0 = s.ctx0 ++ pre ++ ([tq, tk] ++ seg) ++ post
      ∧ s2.gf = { s.gf with expanded := s.gf.expanded ++ six } := by
  unfold build_phi2_layer at h
  replace h := step_vec_at h
  obtain ⟨layer, -, h⟩ := h
  obtain ⟨x, s1, h1, h⟩ := bind_ok.mp h
  obtain ⟨g1, n1, e1⟩ := llm_build_norm_grows _ _ _ _ _ _ _ _ h1
  obtain ⟨c, s3, h3, h⟩ := bind_ok.mp h
  obtain ⟨pre, tq, tk, V, tv, seg, tail, six, a1, a2, a3, a4, a5, a6, a7, rfl⟩ :=
    build_phi2_attn_fwd h3
  obtain ⟨g4, n4, e4⟩ := grows_of (Grows.layer_tail hparams layer n_outputs il c inpL x) h
  dsimp only at g4 e4
  rw [e1] at a4 a6 e4
  refine ⟨n1 ++ pre, tq, tk, V, tv, seg, tail ++ n4, six, a1, a2, a3, ?_, a5, ?_, a7, ?_, ?_⟩
  · rw [← List.append_assoc]; exact a4
  · rw [← List.append_assoc]; exact a6
  · rw [e4]; simp only [List.append_assoc]
  · rw [g4, g1]

/-! ## The layer loop and the whole build -/

theorem layer_at_mono {hparams : moondream_hparams} {cparams : moondream_cparams}
    {kv : moondream_kv_cache} {batch : moondream_batch} {KQ_mask : tensor_ptr}
    {ctx0 : List ggml_tensor} {expanded : List tensor_ptr} {il : Nat}
    (h : layer_at hparams cparams kv batch KQ_mask ctx0 expanded il)
    (new : List ggml_tensor) (reg : List tensor_ptr) :
    layer_at hparams cparams kv batch KQ_mask (ctx0 ++ new) (expanded ++ reg) il := by
  obtain ⟨A, tq, tk, V, tv, seg, B, six, E, F, rfl, rfl, h3, h4, h5, h6, h7, h8, h9⟩ := h
  exact ⟨A, tq, tk, V, tv, seg, B ++ new, six, E, F ++ reg, by simp only [List.append_assoc],
    by simp only [List.append_assoc], h3, h4, h5, h6, h7, h8, h9⟩

theorem build_phi2_layers_fwd {model : moondream_model} {hparams : moondream_hparams}
    {cparams : moondream_cparams} {batch : moondream_batch} {kv : moondream_kv_cache}
    {inp_pos KQ_mask : tensor_ptr} {n_outputs : Int} (k : Nat) :
    ∀ (il : Nat) (inpL r : tensor_ptr) (s s2 : build_state),
      build_phi2_layers model hparams cparams batch kv inp_pos KQ_mask n_outputs k il inpL s
        = .ok r s2 →
      s.gf.expanded.length = 6 * il →
      (∃ new reg, s2.ctx0 = s.ctx0 ++ new
          ∧ s2.gf = { s.gf with expanded := s.gf.expanded ++ reg } ∧ reg.length = 6 * k)
        ∧ (∀ j, il ≤ j → j < il + k →
            layer_at hparams cparams kv batch KQ_mask s2.ctx0 s2.gf.expanded j)
        ∧ (0 < k → (kv.size : Int) = cparams.n_ctx) := by
  induction k with
  | zero =>
    intro il inpL r s s2 h _
    unfold build_phi2_layers at h
    obtain ⟨-, rfl⟩ := pure_ok.mp h
    exact ⟨⟨[], [], by simp, by simp, rfl⟩, fun j h1 h2 => absurd h2 (by omega),
      fun h0 => absurd h0 (by omega)⟩
  | succ k ih =>
    intro il inpL r s s2 h hlen
    unfold build_phi2_layers at h
    obtain ⟨x, s1, h1, h⟩ := bind_ok.mp h
    obtain ⟨pre, tq, tk, V, tv, seg, post, six, a1, a2, a3, a4, a5, a6, a7, e1, g1⟩ :=
      build_phi2_layer_fwd h1
    have hsix := kv_seg_six_length a6
    have hlen1 : s1.gf.expanded.length = 6 * (il + 1) := by
      rw [g1]; simp only [List.length_append]; omega
    obtain ⟨⟨new, reg, e2, g2, hreg⟩, hl, -⟩ := ih (il + 1) x r s1 s2 h hlen1
    have hat : layer_at hparams cparams kv batch KQ_mask s1.ctx0 s1.gf.expanded il :=
      ⟨s.ctx0 ++ pre, tq, tk, V, tv, seg, post, six, s.gf.expanded, [], e1,
        by rw [g1]; simp, hlen, a1, a2, a3, a4, a5, a6⟩
    refine ⟨⟨pre ++ ([tq, tk] ++ seg) ++ post ++ new, six ++ reg, ?_, ?_, ?_⟩, ?_, fun _ => a7⟩
    · rw [e2, e1]; simp only [List.append_assoc]
    · rw [g2, g1]; simp only [List.append_assoc]
    · simp only [List.length_append]; omega
    · intro j hj1 hj2
      by_cases hj : j = il
      · subst hj
        have hm := layer_at_mono hat new reg
        rw [e2, g2]
        exact hm
      · exact hl j (by omega) (by omega)

/-- What a returned build consists of: the guard on the head sizes held, every layer
is found in the final context, and the registrations are six per layer followed by
the logits `ADD`, whose first operand is the `MUL_MAT` by `model.output`. -/
theorem build_phi2_fwd {model : moondream_model} {hparams : moondream_hparams}
    {cparams : moondream_cparams} {batch : moondream_batch} {kv : moondream_kv_cache}
    {s s2 : build_state} {gf : ggml_cgraph}
    (h : build_phi2 model hparams cparams batch kv s = .ok gf s2) :
    hparams.n_embd_head_v = hparams.n_embd_head_k
    ∧ (0 < hparams.n_layer.toNat → (kv.size : Int) = cparams.n_ctx)
    ∧ gf = s2.gf
    ∧ (∃ KQ_mask, ∀ j, j < hparams.n_layer.toNat →
        layer_at hparams cparams kv batch KQ_mask s2.ctx0 gf.expanded j)
    ∧ ∃ reg front tm tl w b cur,
        gf.expanded = reg ++ [.node (front.length + 1)]
        ∧ reg.length = 6 * hparams.n_layer.toNat
        ∧ s2.ctx0 = front ++ [tm, tl]
        ∧ model.output = some w ∧ model.output_b = some b
        ∧ tm.op = .MUL_MAT ∧ tm.src = [some (.ext w), some cur]
        ∧ tl.op = .ADD ∧ tl.src = [some (.node front.length), some (.ext b)] := by
  unfold build_phi2 at h
  obtain ⟨u, s1, h1, h⟩ := bind_ok.mp h
  have e1 := ggml_new_graph_custom_ok.mp h1
  subst e1
  obtain ⟨m, s1, h1, h⟩ := bind_ok.mp h
  obtain ⟨-, rfl⟩ := get_mctx_ok.mp h1
  replace h := step_assert h
  obtain ⟨hg, h⟩ := h
  obtain ⟨inpL, s1, h1, h⟩ := bind_ok.mp h
  obtain ⟨g1, n1, c1⟩ := Grows.llm_build_inp_embd _ _ _ _ _ _ h1
  obtain ⟨inp_pos, s3, h3, h⟩ := bind_ok.mp h
  obtain ⟨g3, n3, c3⟩ := Grows.build_inp_pos _ _ _ _ h3
  obtain ⟨KQ_mask, s4, h4, h⟩ := bind_ok.mp h
  obtain ⟨g4, n4, c4⟩ := Grows.build_inp_KQ_mask _ _ _ _ _ _ h4
  obtain ⟨x, s5, h5, h⟩ := bind_ok.mp h
  have hlen : s4.gf.expanded.length = 6 * 0 := by rw [g4, g3, g1]; rfl
  obtain ⟨⟨new, reg, c5, g5, hreg⟩, hl, hsz⟩ := build_phi2_layers_fwd _ 0 inpL x s4 s5 h5 hlen
  obtain ⟨y, s6, h6, h⟩ := bind_ok.mp h
  obtain ⟨g6, n6, c6⟩ := llm_build_norm_grows _ _ _ _ _ _ _ _ h6
  replace h := step_nonnull h
  obtain ⟨ow, how, h⟩ := h
  replace h := step h (fun _ _ => ggml_mul_mat_fwd)
  obtain ⟨tm, ⟨ta, tb, -, -, -, -, htm⟩, h⟩ := h
  replace h := step_nonnull h
  obtain ⟨ob, hob, h⟩ := h
  replace h := step h (fun _ _ => ggml_add_fwd)
  obtain ⟨tl, ⟨ta2, tb2, -, -, -, htl⟩, h⟩ := h
  replace h := step_expand h
  cases h
  dsimp only
  cases hw : model.output with
  | none => rw [hw] at how; cases how
  | some w =>
  cases hb : model.output_b with
  | none => rw [hb] at hob; cases hob
  | some b =>
  rw [hw] at how
  rw [hb] at hob
  cases how
  cases hob
  have hexp : s6.gf.expanded = reg := by rw [g6, g5, g4, g3, g1]; rfl
  refine ⟨of_decide_eq_true hg, hsz, rfl, ⟨KQ_mask, fun j hj => ?_⟩,
    reg, s6.ctx0, tm, tl, w, b, y, ?_, hreg, by simp, rfl, rfl, by rw [htm], by rw [htm],
    by rw [htl], by rw [htl]⟩
  · have h0 := hl j (Nat.zero_le j) (by omega)
    have hm := layer_at_mono h0 (n6 ++ [tm, tl]) [tensor_ptr.node (s6.ctx0.length + 1)]
    rw [g6, c6]
    rw [c6] at hm
    simpa [List.append_assoc] using hm
  · rw [hexp]; simp

/-! ## Reading a finished graph -/

theorem lookup_mid (A M B : List ggml_tensor) (i : Nat) (t : ggml_tensor)
    (h : M[i]? = some t) : lookup (A ++ M ++ B) (.node (A.length + i)) = some t :=
  lookup_append B (by rw [lookup_fresh]; exact h)

theorem operand_of {ctx0 : List ggml_tensor} {p q : tensor_ptr} {t : ggml_tensor}
    {l : List (Option tensor_ptr)} (h : lookup ctx0 p = some t) (hs : t.src = l)
    (hm : some q ∈ l) : operand ctx0 p q :=
  ⟨t, h, by rw [hs]; exact hm⟩

theorem depends_step {ctx0 : List ggml_tensor} {p q r : tensor_ptr}
    (h : operand ctx0 p q) (h2 : depends ctx0 q r) : depends ctx0 p r :=
  Relation.TransGen.head h h2

theorem depends_one {ctx0 : List ggml_tensor} {p q : tensor_ptr}
    (h : operand ctx0 p q) : depends ctx0 p q :=
  Relation.TransGen.single h

theorem layer_at_facts {hparams : moondream_hparams} {cparams : moondream_cparams}
    {kv : moondream_kv_cache} {batch : moondream_batch} {KQ_mask : tensor_ptr}
    {ctx0 : List ggml_tensor} {expanded : List tensor_ptr} {l : Nat}
    (h : layer_at hparams cparams kv batch KQ_mask ctx0 expanded l) :
    layer_facts hparams cparams kv ctx0 expanded l := by
  obtain ⟨A, tq, tk, V, tv, seg, B, six, E, F, rfl, rfl, hE, hq1, hq2, hk1, hV, -, hseg⟩ := h
  have hsix := kv_seg_six_length hseg
  have hreg : ((E ++ six ++ F).drop (6 * l)).take 6 = six := by
    rw [List.append_assoc, List.drop_left' hE, List.take_left' hsix]
  have hVl : lookup (A ++ ([tq, tk] ++ seg) ++ B) V = some tv :=
    lookup_append B (lookup_append _ hV)
  have L : ∀ i t, ([tq, tk] ++ seg)[i]? = some t →
      lookup (A ++ ([tq, tk] ++ seg) ++ B) (.node (A.length + i)) = some t :=
    fun i t hi => lookup_mid A _ B i t hi
  obtain ⟨k_l, v_l, hkl, hvl, hcase⟩ := hseg
  rcases hcase with ⟨hf, qp, fa, rs, p1, p2, f1, f2, f3, f4, r1, r2, rfl, rfl⟩ |
    ⟨hf, vt, qp, kq, sm, kqv, pm, cur, v1, v2, p1, p2, q1, q2, q3, m1, m2, m3, w1, w2, x1, x2,
      c1, c2, rfl, rfl⟩
  · simp only [Nat.add_assoc, Nat.reduceAdd] at f2 r2 hreg ⊢
    have o_rs : operand _ (.node (A.length + 10)) (.node (A.length + 9)) :=
      operand_of (L 10 _ rfl) r2 (by simp)
    have o_fq : operand _ (.node (A.length + 9)) (.node (A.length + 6)) :=
      operand_of (L 9 _ rfl) f2 (by simp)
    have o_fk : operand _ (.node (A.length + 9)) (.node (A.length + 7)) :=
      operand_of (L 9 _ rfl) f2 (by simp)
    have o_fv : operand _ (.node (A.length + 9)) (.node (A.length + 8)) :=
      operand_of (L 9 _ rfl) f2 (by simp)
    have o_qp : operand _ (.node (A.length + 6)) (.node A.length) :=
      operand_of (L 6 _ rfl) p2 (by simp)
    refine ⟨k_l, v_l, _, _, _, _, _, _, V, tq, tk, hkl, hvl, hreg, L 0 _ rfl, hq1, hq2,
      L 1 _ rfl, hk1, ?_, ?_, Or.inl rfl, ?_, ?_, ?_, ?_⟩
    · exact ⟨_, _, _, L 3 _ rfl, rfl, rfl, L 2 _ rfl, rfl, rfl⟩
    · exact ⟨_, _, _, L 5 _ rfl, rfl, rfl, L 4 _ rfl, rfl, rfl⟩
    · exact depends_step o_rs (depends_step o_fq (depends_one o_qp))
    · exact ⟨_, _, depends_step o_rs (depends_one o_fk), L 7 _ rfl, rfl, rfl⟩
    · exact ⟨_, _, depends_step o_rs (depends_one o_fv), L 8 _ rfl, rfl, rfl⟩
    · exact Or.inl ⟨hf, _, _, o_rs, L 9 _ rfl, f1, f4, f3⟩
  · simp only [Nat.add_assoc, Nat.reduceAdd] at q2 m2 w2 x2 c2 hreg ⊢
    have o_cur : operand _ (.node (A.length + 14)) (.node (A.length + 13)) :=
      operand_of (L 14 _ rfl) c2 (by simp)
    have o_pm : operand _ (.node (A.length + 13)) (.node (A.length + 12)) :=
      operand_of (L 13 _ rfl) x2 (by simp)
    have o_kqv_v : operand _ (.node (A.length + 12)) (.node (A.length + 11)) :=
      operand_of (L 12 _ rfl) w2 (by simp)
    have o_kqv_s : operand _ (.node (A.length + 12)) (.node (A.length + 10)) :=
      operand_of (L 12 _ rfl) w2 (by simp)
    have o_sm : operand _ (.node (A.length + 10)) (.node (A.length + 9)) :=
      operand_of (L 10 _ rfl) m2 (by simp)
    have o_kq_k : operand _ (.node (A.length + 9)) (.node (A.length + 8)) :=
      operand_of (L 9 _ rfl) q2 (by simp)
    have o_kq_q : operand _ (.node (A.length + 9)) (.node (A.length + 7)) :=
      operand_of (L 9 _ rfl) q2 (by simp)
    have o_qp : operand _ (.node (A.length + 7)) (.node A.length) :=
      operand_of (L 7 _ rfl) p2 (by simp)
    have o_vt : operand _ (.node (A.length + 5)) V :=
      operand_of (L 5 _ rfl) v2 (by simp)
    have d_sm : depends _ (.node (A.length + 14)) (.node (A.length + 10)) :=
      depends_step o_cur (depends_step o_pm (depends_one o_kqv_s))
    have d_kq : depends _ (.node (A.length + 14)) (.node (A.length + 9)) :=
      Relation.TransGen.tail d_sm o_sm
    refine ⟨k_l, v_l, _, _, _, _, _, _, .node (A.length + 5), tq, tk, hkl, hvl, hreg,
      L 0 _ rfl, hq1, hq2, L 1 _ rfl, hk1, ?_, ?_, Or.inr o_vt, ?_, ?_, ?_, ?_⟩
    · exact ⟨_, _, _, L 3 _ rfl, rfl, rfl, L 2 _ rfl, rfl, rfl⟩
    · exact ⟨_, _, _, L 6 _ rfl, rfl, rfl, L 4 _ rfl, rfl, rfl⟩
    · exact Relation.TransGen.tail (Relation.TransGen.tail d_kq o_kq_q) o_qp
    · exact ⟨_, _, Relation.TransGen.tail d_kq o_kq_k, L 8 _ rfl, rfl, rfl⟩
    · exact ⟨_, _, depends_step o_cur (depends_step o_pm (depends_one o_kqv_v)),
        L 11 _ rfl, rfl, rfl⟩
    · exact Or.inr ⟨hf, _, _, _, _, _, d_sm, L 10 _ rfl, m1, m3, m2, L 9 _ rfl, q1, q3⟩

/-! ## The loader -/

/-- Claim C1. For the scenario header (`phi2`, 2048/2560/32/32/32/32) the loader does
compute the local `hparams` with the header values and both head sizes `80`, but the
`Model` it hands back is the caller's model as it was before the call, whatever that
was: the local `hparams` is never stored into it. -/
theorem moondream_load_model_drops_hparams (path : String) (model : moondream_model)
    (uninit : moondream_hparams) :
    moondream_load_hparams (scenario_header "phi2") uninit
        = .ok { model_arch := "phi2", model_name := "moondream2",
                hparams := { uninit with
                  n_ctx_train := 2048, n_embd := 2560, n_rot := 32, n_layer := 32,
                  n_ff := 32, n_head := 32, n_head_kv := 32,
                  n_embd_head_k := 80, n_embd_head_v := 80 } }
    ∧ moondream_load_model (some (scenario_header "phi2")) path model uninit
        = .ok { ret := true, model := model, stdout := [
            ("loaded %s from %s\n", [.s "moondream2", .s path]),
            ("gguf version: %d\n", [.d 3]),
            ("gguf alignment: %ld\n", [.ld 32]),
            ("gguf data offset: %ld\n", [.ld 4096]),
            ("model architecture: %s\n", [.s "phi2"]),
            ("context length: %d\n", [.d 2048]),
            ("embedding length: %d\n", [.d 2560]),
            ("block count: %d\n", [.d 32]),
            ("feed forward length: %d\n", [.d 32]),
            ("head count: %d\n", [.d 32]),
            ("head count kv: %d\n", [.d 32]),
            ("n_embd_head_k: %d\n", [.d 80]),
            ("n_embd_head_v: %d\n", [.d 80])] } :=
  ⟨rfl, rfl⟩

/-- Claim C2, refuted. The scenario file with `general.architecture = "llama"`: the
loader returns `true`, having printed the architecture it read. -/
theorem load_llama_reports_success :
    moondream_load_model (some (scenario_header "llama")) "moondream2-text-model.f16.gguf"
        (sample_model (sample_hparams 0 0 0 0 0 0) (sample_cparams 0 false) false)
        (sample_hparams 0 0 0 0 0 0)
      = .ok { ret := true,
              model := sample_model (sample_hparams 0 0 0 0 0 0) (sample_cparams 0 false) false,
              stdout := [
            ("loaded %s from %s\n", [.s "moondream2", .s "moondream2-text-model.f16.gguf"]),
            ("gguf version: %d\n", [.d 3]),
            ("gguf alignment: %ld\n", [.ld 32]),
            ("gguf data offset: %ld\n", [.ld 4096]),
            ("model architecture: %s\n", [.s "llama"]),
            ("context length: %d\n", [.d 2048]),
            ("embedding length: %d\n", [.d 2560]),
            ("block count: %d\n", [.d 32]),
            ("feed forward length: %d\n", [.d 32]),
            ("head count: %d\n", [.d 32]),
            ("head count kv: %d\n", [.d 32]),
            ("n_embd_head_k: %d\n", [.d 80]),
            ("n_embd_head_v: %d\n", [.d 80])] } :=
  rfl

/-- Claim C2, amended. The loader never compares the architecture string with
anything: for every header in which the two string keys and the six `phi2.*` keys
can be read and `n_embd / n_head` is defined, it returns `true` and leaves the
caller's model as it was, whatever `general.architecture` says. -/
theorem moondream_load_model_any_arch (ctx : gguf_context) (path : String)
    (model : moondream_model) (uninit : moondream_hparams) (arch name : String)
    (n_ctx_train n_embd n_rot n_layer n_head n_head_kv : Nat)
    (h_arch : gguf_get_val_str ctx (gguf_find_key ctx "general.architecture") = .ok arch)
    (h_name : gguf_get_val_str ctx (gguf_find_key ctx "general.name") = .ok name)
    (h_ctx : gguf_get_val_u32 ctx (gguf_find_key ctx (ARCH_PREFIX "context_length"))
      = .ok n_ctx_train)
    (h_embd : gguf_get_val_u32 ctx (gguf_find_key ctx (ARCH_PREFIX "embedding_length"))
      = .ok n_embd)
    (h_rot : gguf_get_val_u32 ctx (gguf_find_key ctx (ARCH_PREFIX "rope.dimension_count"))
      = .ok n_rot)
    (h_layer : gguf_get_val_u32 ctx (gguf_find_key ctx (ARCH_PREFIX "block_count"))
      = .ok n_layer)
    (h_head : gguf_get_val_u32 ctx (gguf_find_key ctx (ARCH_PREFIX "attention.head_count"))
      = .ok n_head)
    (h_head_kv : gguf_get_val_u32 ctx
      (gguf_find_key ctx (ARCH_PREFIX "attention.head_count_kv")) = .ok n_head_kv)
    (h_div : ¬ (to_int32 n_head = 0 ∨ (to_int32 n_embd = -2147483648 ∧ to_int32 n_head = -1))) :
    ∃ r, moondream_load_model (some ctx) path model uninit = .ok r
      ∧ r.ret = true ∧ r.model = model
      ∧ ("model architecture: %s\n", [printf_arg.s arch]) ∈ r.stdout := by
  have hh : moondream_load_hparams ctx uninit
      = .ok { model_arch := arch, model_name := name,
              hparams := { uninit with
                n_ctx_train := to_int32 n_ctx_train, n_embd := to_int32 n_embd,
                n_rot := to_int32 n_rot, n_layer := to_int32 n_layer,
                n_ff := to_int32 n_layer, n_head := to_int32 n_head,
                n_head_kv := to_int32 n_head_kv,
                n_embd_head_k := Int.tdiv (to_int32 n_embd) (to_int32 n_head),
                n_embd_head_v := Int.tdiv (to_int32 n_embd) (to_int32 n_head) } } := by
    unfold moondream_load_hparams
    rw [h_arch, h_name, h_ctx, h_embd, h_rot, h_layer, h_head, h_head_kv]
    simp only [int_div, bind, Except.bind, if_neg h_div]
    rfl
  unfold moondream_load_model
  simp only [hh]
  exact ⟨_, rfl, rfl, rfl, by simp⟩

theorem moondream_load_model_any_arch_witness :
    ∃ r, moondream_load_model (some (scenario_header "llama")) "weights.gguf"
        (sample_model (sample_hparams 0 0 0 0 0 0) (sample_cparams 0 false) false)
        (sample_hparams 0 0 0 0 0 0) = .ok r
      ∧ r.ret = true
      ∧ r.model = sample_model (sample_hparams 0 0 0 0 0 0) (sample_cparams 0 false) false
      ∧ ("model architecture: %s\n", [printf_arg.s "llama"]) ∈ r.stdout :=
  moondream_load_model_any_arch (scenario_header "llama") "weights.gguf" _ _ "llama"
    "moondream2" 2048 2560 32 32 32 32 rfl rfl rfl rfl rfl rfl rfl rfl (by decide)

/-! ## What `build_phi2` checks -/

theorem build_phi2_attn_batch (hparams : moondream_hparams) (cparams : moondream_cparams)
    (b1 b2 : moondream_batch) (kv : moondream_kv_cache) (layer : moondream_layer)
    (x inp_pos KQ_mask : tensor_ptr) (il : Nat) (hn : b1.n_tokens = b2.n_tokens) :
    build_phi2_attn hparams cparams b1 kv layer x inp_pos KQ_mask il
      = build_phi2_attn hparams cparams b2 kv layer x inp_pos KQ_mask il := by
  unfold build_phi2_attn
  rw [hn]

theorem build_phi2_layer_batch (model : moondream_model) (hparams : moondream_hparams)
    (cparams : moondream_cparams) (b1 b2 : moondream_batch) (kv : moondream_kv_cache)
    (inp_pos KQ_mask : tensor_ptr) (n_outputs : Int) (il : Nat) (inpL : tensor_ptr)
    (hn : b1.n_tokens = b2.n_tokens) :
    build_phi2_layer model hparams cparams b1 kv inp_pos KQ_mask n_outputs il inpL
      = build_phi2_layer model hparams cparams b2 kv inp_pos KQ_mask n_outputs il inpL := by
  unfold build_phi2_layer
  simp only [build_phi2_attn_batch hparams cparams b1 b2 kv _ _ _ _ _ hn]

theorem build_phi2_layers_batch (model : moondream_model) (hparams : moondream_hparams)
    (cparams : moondream_cparams) (b1 b2 : moondream_batch) (kv : moondream_kv_cache)
    (inp_pos KQ_mask : tensor_ptr) (n_outputs : Int) (hn : b1.n_tokens = b2.n_tokens)
    (k : Nat) : ∀ (il : Nat) (inpL : tensor_ptr),
    build_phi2_layers model hparams cparams b1 kv inp_pos KQ_mask n_outputs k il inpL
      = build_phi2_layers model hparams cparams b2 kv inp_pos KQ_mask n_outputs k il inpL := by
  induction k with
  | zero => intro il inpL; rfl
  | succ k ih =>
    intro il inpL
    unfold build_phi2_layers
    simp only [build_phi2_layer_batch model hparams cparams b1 b2 kv _ _ _ _ _ hn, ih]

/-- Claim C4, refuted. Each of these batches gets a graph: `token` and `embd` both
set; both unset; `n_tokens = 0`; `n_outputs = 7` with `n_tokens = 3`. -/
theorem unchecked_batches_build :
    returned (sample_build (sample_hparams 4 2 2 2 2 1) (sample_cparams 8 false) false
        (sample_batch 3 true true) 8 0 3 1) = true
    ∧ returned (sample_build (sample_hparams 4 2 2 2 2 1) (sample_cparams 8 false) false
        (sample_batch 3 false false) 8 0 3 1) = true
    ∧ returned (sample_build (sample_hparams 4 2 2 2 2 1) (sample_cparams 8 false) false
        (sample_batch 0 true false) 8 0 3 0) = true
    ∧ returned (sample_build (sample_hparams 4 2 2 2 2 1) (sample_cparams 8 false) false
        (sample_batch 3 true false) 8 0 3 7) = true := by
  decide!

/-- Of the batch `build_phi2` uses `n_tokens` and whether `token` is set, nothing
else: two batches that agree on these two give the same run. -/
theorem build_phi2_batch_eq (model : moondream_model) (hparams : moondream_hparams)
    (cparams : moondream_cparams) (b1 b2 : moondream_batch) (kv : moondream_kv_cache)
    (s : build_state) (hn : b1.n_tokens = b2.n_tokens)
    (ht : b1.token.isSome = b2.token.isSome) :
    build_phi2 model hparams cparams b1 kv s = build_phi2 model hparams cparams b2 kv s := by
  have e1 : ∀ tok, llm_build_inp_embd hparams b1 tok = llm_build_inp_embd hparams b2 tok := by
    intro tok
    unfold llm_build_inp_embd
    rw [hn, ht]
  have e2 : build_inp_pos b1 = build_inp_pos b2 := by
    unfold build_inp_pos
    rw [hn]
  have e3 : ∀ n_kv, build_inp_KQ_mask b1 cparams n_kv = build_inp_KQ_mask b2 cparams n_kv := by
    intro n_kv
    unfold build_inp_KQ_mask
    rw [hn]
  unfold build_phi2
  simp only [e1, e2, e3, build_phi2_layers_batch model hparams cparams b1 b2 kv _ _ _ hn]

/-! ## The shape of `Q` in the first layer -/

theorem columns_append {ctx0 : List ggml_tensor} {p : tensor_ptr} {n : Int}
    (h : columns ctx0 p n) (new : List ggml_tensor) : columns (ctx0 ++ new) p n := by
  obtain ⟨t, h1, h2⟩ := h
  exact ⟨t, lookup_append new h1, h2⟩

theorem columns_grows {s s2 : build_state} {p : tensor_ptr} {n : Int}
    (h : columns s.ctx0 p n) (g : grows s s2) : columns s2.ctx0 p n := by
  obtain ⟨-, new, e⟩ := g
  rw [e]
  exact columns_append h new

theorem llm_build_inp_embd_columns {hparams : moondream_hparams} {batch : moondream_batch}
    {tok_embd : Option tensor_ptr} {s s2 : build_state} {r : tensor_ptr}
    (h : llm_build_inp_embd hparams batch tok_embd s = .ok r s2) :
    columns s2.ctx0 r batch.n_tokens := by
  unfold llm_build_inp_embd at h
  by_cases hb : batch.token.isSome = true
  · rw [if_pos hb] at h
    replace h := step h (fun _ _ => ggml_new_tensor_1d_fwd)
    obtain ⟨t, ht, h⟩ := h
    replace h := step_set_mctx h
    replace h := step_set_input h
    replace h := step_nonnull h
    obtain ⟨w, -, h⟩ := h
    obtain ⟨t2, ⟨rfl, rfl⟩, ta, tb, -, e2, -, -, -, ht2⟩ := ggml_get_rows_fwd h
    dsimp only at e2 ⊢
    rw [lookup_snoc_last] at e2
    cases e2
    refine ⟨t2, ?_, ?_, ?_, ?_⟩
    · exact lookup_snoc_last (s.ctx0 ++ [{ t with is_input := true }]) t2
    · rw [ht2, ht]; rfl
    · rw [ht2, ht]; rfl
    · rw [ht2, ht]; rfl
  · rw [if_neg hb] at h
    replace h := step h (fun _ _ => ggml_new_tensor_2d_fwd)
    obtain ⟨t, ht, h⟩ := h
    replace h := step_set_mctx h
    replace h := step_set_input h
    obtain ⟨rfl, rfl⟩ := pure_ok.mp h
    refine ⟨{ t with is_input := true }, lookup_snoc_last _ _, ?_, ?_, ?_⟩
    · rw [ht]; rfl
    · rw [ht]; rfl
    · rw [ht]; rfl

theorem columns_of_same {s s2 : build_state} {a p : tensor_ptr} {n : Int}
    {C : ggml_tensor → ggml_tensor → Prop}
    (hC : ∀ t ta, C t ta → t.ne1 = ta.ne1 ∧ t.ne2 = ta.ne2 ∧ t.ne3 = ta.ne3)
    (h : ∃ t, alloc s t p s2 ∧ ∃ ta, lookup s.ctx0 a = some ta ∧ C t ta)
    (ha : columns s.ctx0 a n) : columns s2.ctx0 p n := by
  obtain ⟨t, ⟨rfl, rfl⟩, ta, e, hc⟩ := h
  obtain ⟨ta2, e2, h1, h2, h3⟩ := ha
  rw [e] at e2
  cases e2
  obtain ⟨c1, c2, c3⟩ := hC t ta hc
  exact ⟨t, lookup_snoc_last _ _, c1.trans h1, c2.trans h2, c3.trans h3⟩

theorem ggml_norm_columns {a p : tensor_ptr} {eps : f32} {s s2 : build_state} {n : Int}
    (h : ggml_norm a eps s = .ok p s2) (ha : columns s.ctx0 a n) : columns s2.ctx0 p n :=
  columns_of_same (C := fun t ta => t = { new_tensor ta.type ta.ne0 ta.ne1 ta.ne2 ta.ne3 with
      op := .NORM, src := [some a], fparams := [eps] })
    (fun t ta e => by rw [e]; exact ⟨rfl, rfl, rfl⟩) (ggml_norm_fwd h) ha

theorem ggml_mul_columns {a b p : tensor_ptr} {s s2 : build_state} {n : Int}
    (h : ggml_mul a b s = .ok p s2) (ha : columns s.ctx0 a n) : columns s2.ctx0 p n := by
  obtain ⟨t, hal, ta, tb, e1, -, -, ht⟩ := ggml_mul_fwd h
  exact columns_of_same (C := fun t ta => t = { new_tensor ta.type ta.ne0 ta.ne1 ta.ne2 ta.ne3
      with op := .MUL, src := [some a, some b] })
    (fun t ta e => by rw [e]; exact ⟨rfl, rfl, rfl⟩) ⟨t, hal, ta, e1, ht⟩ ha

theorem ggml_add_columns {a b p : tensor_ptr} {s s2 : build_state} {n : Int}
    (h : ggml_add a b s = .ok p s2) (ha : columns s.ctx0 a n) : columns s2.ctx0 p n := by
  obtain ⟨t, hal, ta, tb, e1, -, -, ht⟩ := ggml_add_fwd h
  exact columns_of_same (C := fun t ta => t = { new_tensor ta.type ta.ne0 ta.ne1 ta.ne2 ta.ne3
      with op := .ADD, src := [some a, some b] })
    (fun t ta e => by rw [e]; exact ⟨rfl, rfl, rfl⟩) ⟨t, hal, ta, e1, ht⟩ ha

theorem llm_build_norm_columns {cur r : tensor_ptr} {hparams : moondream_hparams}
    {mw mb : Option tensor_ptr} {s s2 : build_state} {n : Int}
    (h : llm_build_norm cur hparams mw mb .LLM_NORM s = .ok r s2)
    (hc : columns s.ctx0 cur n) : columns s2.ctx0 r n := by
  unfold llm_build_norm at h
  dsimp only at h
  obtain ⟨p1, s1, h1, h⟩ := bind_ok.mp h
  have c1 := ggml_norm_columns h1 hc
  cases mw with
  | none =>
    dsimp only at h
    replace h := step_pure h
    cases mb with
    | none =>
      obtain ⟨rfl, rfl⟩ := pure_ok.mp h
      exact c1
    | some b => exact ggml_add_columns h c1
  | some w =>
    dsimp only at h
    obtain ⟨p2, s3, h3, h⟩ := bind_ok.mp h
    have c3 := ggml_mul_columns h3 c1
    cases mb with
    | none =>
      obtain ⟨rfl, rfl⟩ := pure_ok.mp h
      exact c3
    | some b => exact ggml_add_columns h c3

theorem build_phi2_qkv_q_elements {layer : moondream_layer} {x : tensor_ptr}
    {n_embd n_embd_gqa n_tokens : Int} {s s2 : build_state}
    {r : tensor_ptr × tensor_ptr × tensor_ptr}
    (h : build_phi2_qkv layer x n_embd n_embd_gqa n_tokens s = .ok r s2)
    (hx : columns s.ctx0 x n_tokens)
    (hw : layer.wqkv = none → ∀ wq, layer.wq = some wq → wq.ne1 = n_embd) :
    ∃ tq, lookup s2.ctx0 r.1 = some tq ∧ ggml_nelements tq = n_embd * n_tokens := by
  unfold build_phi2_qkv at h
  cases hq : layer.wqkv with
  | some w =>
    rw [hq] at h
    dsimp only at h
    replace h := step h (fun _ _ => ggml_mul_mat_fwd)
    obtain ⟨t1, -, h⟩ := h
    replace h := step_nonnull h
    obtain ⟨b, -, h⟩ := h
    replace h := step h (fun _ _ => ggml_add_fwd)
    obtain ⟨t2, -, h⟩ := h
    replace h := step_deref h
    obtain ⟨tc, -, h⟩ := h
    replace h := step h (fun _ _ => ggml_view_2d_fwd)
    obtain ⟨t3, ⟨ta3, -, ht3⟩, h⟩ := h
    replace h := step h (fun _ _ => ggml_cont_fwd)
    obtain ⟨t4, ⟨ta4, e4, ht4⟩, h⟩ := h
    replace h := step h (fun _ _ => ggml_view_2d_fwd)
    obtain ⟨t5, -, h⟩ := h
    replace h := step h (fun _ _ => ggml_cont_fwd)
    obtain ⟨t6, -, h⟩ := h
    replace h := step h (fun _ _ => ggml_view_2d_fwd)
    obtain ⟨t7, -, h⟩ := h
    replace h := step h (fun _ _ => ggml_cont_fwd)
    obtain ⟨t8, -, h⟩ := h
    obtain ⟨rfl, rfl⟩ := pure_ok.mp h
    dsimp only at e4 ⊢
    rw [lookup_snoc_last] at e4
    cases e4
    refine ⟨t4, ?_, ?_⟩
    · simp [List.append_assoc]
    · rw [ht4, ht3]
      simp [ggml_nelements]
  | none =>
    rw [hq] at h
    dsimp only at h
    replace h := step_nonnull h
    obtain ⟨wq, hwq, h⟩ := h
    replace h := step h (fun _ _ => ggml_mul_mat_fwd)
    obtain ⟨t1, ⟨ta, tb, e1, e2, -, -, ht1⟩, h⟩ := h
    replace h := step_nonnull h
    obtain ⟨bq, -, h⟩ := h
    replace h := step h (fun _ _ => ggml_add_fwd)
    obtain ⟨t2, ⟨ta2, tb2, e3, -, -, ht2⟩, h⟩ := h
    replace h := step_nonnull h
    obtain ⟨wk, -, h⟩ := h
    replace h := step h (fun _ _ => ggml_mul_mat_fwd)
    obtain ⟨t3, -, h⟩ := h
    replace h := step_nonnull h
    obtain ⟨bk, -, h⟩ := h
    replace h := step h (fun _ _ => ggml_add_fwd)
    obtain ⟨t4, -, h⟩ := h
    replace h := step_nonnull h
    obtain ⟨wv, -, h⟩ := h
    replace h := step h (fun _ _ => ggml_mul_mat_fwd)
    obtain ⟨t5, -, h⟩ := h
    replace h := step_nonnull h
    obtain ⟨bv, -, h⟩ := h
    replace h := step h (fun _ _ => ggml_add_fwd)
    obtain ⟨t6, -, h⟩ := h
    obtain ⟨rfl, rfl⟩ := pure_ok.mp h
    dsimp only at e3 ⊢
    rw [lookup_snoc_last] at e3
    cases e3
    obtain ⟨tx, ex, x1, x2, x3⟩ := hx
    rw [ex] at e2
    cases e2
    cases hwq0 : layer.wq with
    | none => rw [hwq0] at hwq; cases hwq
    | some q =>
      rw [hwq0] at hwq
      cases hwq
      have hne := hw hq q hwq0
      simp only [lookup_ext, Option.some.injEq] at e1
      subst e1
      refine ⟨t2, ?_, ?_⟩
      · simp [List.append_assoc]
      · rw [ht2, ht1]
        simp [ggml_nelements, x1, x2, x3, hne]

theorem build_phi2_attn_product {hparams : moondream_hparams} {cparams : moondream_cparams}
    {batch : moondream_batch} {kv : moondream_kv_cache} {layer : moondream_layer}
    {x inp_pos KQ_mask : tensor_ptr} {il : Nat} {s s2 : build_state} {r : tensor_ptr}
    (h : build_phi2_attn hparams cparams batch kv layer x inp_pos KQ_mask il s = .ok r s2)
    (hx : columns s.ctx0 x batch.n_tokens)
    (hw : layer.wqkv = none → ∀ wq, layer.wq = some wq → wq.ne1 = hparams.n_embd) :
    hparams.n_embd * batch.n_tokens
      = hparams.n_embd_head_v * hparams.n_head * batch.n_tokens := by
  unfold build_phi2_attn at h
  obtain ⟨qkv, s1, h1, h⟩ := bind_ok.mp h
  obtain ⟨tq, e1, e2⟩ := build_phi2_qkv_q_elements h1 hx hw
  obtain ⟨p, s3, h3, -⟩ := bind_ok.mp h
  obtain ⟨t, -, ta, e3, -, e4, -⟩ := ggml_reshape_3d_fwd h3
  rw [e1] at e3
  cases e3
  rw [← e2, e4]

theorem build_phi2_layer_product {model : moondream_model} {hparams : moondream_hparams}
    {cparams : moondream_cparams} {batch : moondream_batch} {kv : moondream_kv_cache}
    {inp_pos KQ_mask inpL r : tensor_ptr} {n_outputs : Int} {il : Nat}
    {s s2 : build_state}
    (h : build_phi2_layer model hparams cparams batch kv inp_pos KQ_mask n_outputs il inpL s
      = .ok r s2)
    (hx : columns s.ctx0 inpL batch.n_tokens)
    (hw : ∀ layer, model.layers[il]? = some layer → layer.wqkv = none →
      ∀ wq, layer.wq = some wq → wq.ne1 = hparams.n_embd) :
    hparams.n_embd * batch.n_tokens
      = hparams.n_embd_head_v * hparams.n_head * batch.n_tokens := by
  unfold build_phi2_layer at h
  replace h := step_vec_at h
  obtain ⟨layer, hlay, h⟩ := h
  obtain ⟨x, s1, h1, h⟩ := bind_ok.mp h
  have c1 := llm_build_norm_columns h1 hx
  obtain ⟨c, s3, h3, -⟩ := bind_ok.mp h
  exact build_phi2_attn_product h3 c1 (hw layer hlay)

theorem build_phi2_product {model : moondream_model} {hparams : moondream_hparams}
    {cparams : moondream_cparams} {batch : moondream_batch} {kv : moondream_kv_cache}
    {s s2 : build_state} {gf : ggml_cgraph}
    (h : build_phi2 model hparams cparams batch kv s = .ok gf s2)
    (hl : 1 ≤ hparams.n_layer) (ht : batch.n_tokens ≠ 0)
    (hw : ∀ layer, model.layers[0]? = some layer → layer.wqkv = none →
      ∀ wq, layer.wq = some wq → wq.ne1 = hparams.n_embd) :
    hparams.n_embd_head_v * hparams.n_head = hparams.n_embd := by
  unfold build_phi2 at h
  obtain ⟨u, s1, h1, h⟩ := bind_ok.mp h
  obtain ⟨m, s1, h1, h⟩ := bind_ok.mp h
  replace h := step_assert h
  obtain ⟨-, h⟩ := h
  obtain ⟨inpL, s1, h1, h⟩ := bind_ok.mp h
  have c1 := llm_build_inp_embd_columns h1
  obtain ⟨inp_pos, s3, h3, h⟩ := bind_ok.mp h
  have c3 := columns_grows c1 (Grows.build_inp_pos _ _ _ _ h3)
  obtain ⟨KQ_mask, s4, h4, h⟩ := bind_ok.mp h
  have c4 := columns_grows c3 (Grows.build_inp_KQ_mask _ _ _ _ _ _ h4)
  obtain ⟨x, s5, h5, -⟩ := bind_ok.mp h
  obtain ⟨k, hk⟩ : ∃ k, hparams.n_layer.toNat = k + 1 := ⟨hparams.n_layer.toNat - 1, by omega⟩
  rw [hk] at h5
  unfold build_phi2_layers at h5
  obtain ⟨y, s6, h6, -⟩ := bind_ok.mp h5
  have e := build_phi2_layer_product h6 c4 hw
  exact (mul_right_cancel₀ ht e).symm

/-- Claim C5, the direction that holds. With at least one layer, a batch that is not
empty and a first-layer `Q` projection of `n_embd` rows (`wq` on the split path; the
fused path always has it), `build_phi2` aborts whenever `n_embd_head_k * n_head`
differs from `n_embd`, and also whenever `n_embd_head_v` differs from
`n_embd_head_k`: a returned graph needs both equalities. -/
theorem build_phi2_head_size_needed (model : moondream_model) (hparams : moondream_hparams)
    (cparams : moondream_cparams) (batch : moondream_batch) (kv : moondream_kv_cache)
    (s : build_state) (hl : 1 ≤ hparams.n_layer) (ht : batch.n_tokens ≠ 0)
    (hw : ∀ layer, model.layers[0]? = some layer → layer.wqkv = none →
      ∀ wq, layer.wq = some wq → wq.ne1 = hparams.n_embd)
    (hbad : hparams.n_embd_head_k * hparams.n_head ≠ hparams.n_embd
      ∨ hparams.n_embd_head_v ≠ hparams.n_embd_head_k) :
    ∃ f s2, build_phi2 model hparams cparams batch kv s = .abort f s2 := by
  cases h : build_phi2 model hparams cparams batch kv s with
  | abort f s2 => exact ⟨f, s2, rfl⟩
  | ok gf s2 =>
    have h1 := (build_phi2_fwd h).1
    have h2 := build_phi2_product h hl ht hw
    rw [h1] at h2
    rcases hbad with hb | hb
    · exact absurd h2 hb
    · exact absurd h1 hb

theorem build_phi2_head_size_needed_witness :
    ∃ f s2, build_phi2 (sample_model (sample_hparams 4 2 2 3 3 1) (sample_cparams 8 false) false)
      (sample_hparams 4 2 2 3 3 1) (sample_cparams 8 false) (sample_batch 3 true false)
      (sample_kv_cache (sample_hparams 4 2 2 3 3 1) 8 0 3)
      (sample_state (sample_cparams 8 false) 1) = .abort f s2 :=
  build_phi2_head_size_needed (sample_model (sample_hparams 4 2 2 3 3 1) (sample_cparams 8 false) false)
    (sample_hparams 4 2 2 3 3 1) (sample_cparams 8 false) (sample_batch 3 true false)
    (sample_kv_cache (sample_hparams 4 2 2 3 3 1) 8 0 3) (sample_state (sample_cparams 8 false) 1)
    (by decide) (by decide)
    (by
      intro layer h1 _ wq h2
      have e : (sample_model (sample_hparams 4 2 2 3 3 1) (sample_cparams 8 false) false).layers[0]?
          = some (sample_layer false (sample_hparams 4 2 2 3 3 1) 0) := rfl
      rw [e] at h1
      cases h1
      cases h2
      rfl)
    (Or.inl (by decide))

/-! ## The cache windows -/

theorem wrap_size_t_of_range (x : Int) (h1 : 0 ≤ x) (h2 : x < 18446744073709551616) :
    wrap_size_t x = x := by
  unfold wrap_size_t
  omega

theorem wrap_size_t_of_neg (x : Int) (h1 : -18446744073709551616 ≤ x) (h2 : x < 0) :
    wrap_size_t x = x + 18446744073709551616 := by
  unfold wrap_size_t
  omega

/-- Claim C6, refuted. A cache head of `4294967295` reaches `llm_build_kv_store` as
`kv_head = -1`. With a row size of 8 and an element size of 2 the call returns, and
the K window starts at byte `18446744073709551608` and the V window at byte
`18446744073709551614` (with flash attention both at `18446744073709551608`): the
products with `kv_head` taken in `size_t`, not `-8` and `-2`. -/
theorem kv_head_negative_wraps :
    to_int32 4294967295 = -1
    ∧ ggml_row_size .F16 (sample_hparams 4 2 2 2 2 1).n_embd_k_gqa * (-1) = -8
    ∧ returned (kv_store_wrap_run false) = true
    ∧ ((state_of (kv_store_wrap_run false)).ctx0.drop 2).map
        (fun t => (t.op, t.ne0, t.ne1, t.view_offs))
      = [(.VIEW, 12, 1, 18446744073709551608), (.CPY, 12, 1, 18446744073709551608),
         (.VIEW, 3, 4, 18446744073709551614), (.TRANSPOSE, 3, 4, 0),
         (.CPY, 3, 4, 18446744073709551614)]
    ∧ returned (kv_store_wrap_run true) = true
    ∧ ((state_of (kv_store_wrap_run true)).ctx0.drop 2).map
        (fun t => (t.op, t.ne0, t.ne1, t.view_offs))
      = [(.VIEW, 12, 1, 18446744073709551608), (.CPY, 12, 1, 18446744073709551608),
         (.VIEW, 12, 1, 18446744073709551608), (.CPY, 12, 1, 18446744073709551608)] := by
  decide!

theorem kv_store_run_returns (flash_attn : Bool) :
    kv_store_run flash_attn = .ok () (state_of (kv_store_run flash_attn)) := by
  cases flash_attn <;> decide!

/-- Claim C6, amended. A call of `llm_build_kv_store` that returns has appended to the
context: the K window, a 1-D view of `kv.k_l[il]` of `n_tokens * n_embd_k_gqa` elements
at byte offset `row_size(type, n_embd_k_gqa) * kv_head`, and the copy of `k_cur` into
it; then with flash attention the V window, a 1-D view of `kv.v_l[il]` of
`n_tokens * n_embd_v_gqa` elements at byte offset `kv_head * row_size(type, n_embd_v_gqa)`,
and the copy of `v_cur` into it; without flash attention the V window, a 2-D view of
shape `[n_tokens, n_embd_v_gqa]` with row stride `n_ctx * element_size` at byte offset
`kv_head * element_size`, the transpose of `v_cur`, and the copy of that transpose
into the window. The type is that of the cache tensor viewed. The offsets and the
stride are products in `size_t`, that is modulo `2^64`: the plain product when that
lies in `[0, 2^64)`, and `2^64` more when it lies in `[-2^64, 0)`, as for a negative
`kv_head`. -/
theorem llm_build_kv_store_windows {hparams : moondream_hparams}
    {cparams : moondream_cparams} {kv : moondream_kv_cache} {k_cur v_cur : tensor_ptr}
    {n_tokens kv_head : Int} {il : Nat} {s s2 : build_state} {u : Unit}
    (h : llm_build_kv_store hparams cparams kv k_cur v_cur n_tokens kv_head il s = .ok u s2) :
    (∃ k_l v_l, kv.k_l[il]? = some k_l ∧ kv.v_l[il]? = some v_l
      ∧ ((cparams.flash_attn = true
          ∧ s2.ctx0 = s.ctx0 ++
            [ cache_view_1d k_l (n_tokens * hparams.n_embd_k_gqa)
                (wrap_size_t (ggml_row_size k_l.type hparams.n_embd_k_gqa * kv_head)),
              cache_cpy k_l (cache_view_1d k_l (n_tokens * hparams.n_embd_k_gqa)
                (wrap_size_t (ggml_row_size k_l.type hparams.n_embd_k_gqa * kv_head)))
                k_cur (.node s.ctx0.length),
              cache_view_1d v_l (n_tokens * hparams.n_embd_v_gqa)
                (wrap_size_t (kv_head * ggml_row_size v_l.type hparams.n_embd_v_gqa)),
              cache_cpy v_l (cache_view_1d v_l (n_tokens * hparams.n_embd_v_gqa)
                (wrap_size_t (kv_head * ggml_row_size v_l.type hparams.n_embd_v_gqa)))
                v_cur (.node (s.ctx0.length + 2)) ])
        ∨ (cparams.flash_attn = false ∧ ∃ vt, vt.op = .TRANSPOSE ∧ vt.src = [some v_cur]
          ∧ s2.ctx0 = s.ctx0 ++
            [ cache_view_1d k_l (n_tokens * hparams.n_embd_k_gqa)
                (wrap_size_t (ggml_row_size k_l.type hparams.n_embd_k_gqa * kv_head)),
              cache_cpy k_l (cache_view_1d k_l (n_tokens * hparams.n_embd_k_gqa)
                (wrap_size_t (ggml_row_size k_l.type hparams.n_embd_k_gqa * kv_head)))
                k_cur (.node s.ctx0.length),
              cache_view_2d v_l n_tokens hparams.n_embd_v_gqa
                (wrap_size_t (cparams.n_ctx * ggml_type_size v_l.type))
                (wrap_size_t (kv_head * ggml_type_size v_l.type)),
              vt,
              cache_cpy v_l (cache_view_2d v_l n_tokens hparams.n_embd_v_gqa
                (wrap_size_t (cparams.n_ctx * ggml_type_size v_l.type))
                (wrap_size_t (kv_head * ggml_type_size v_l.type)))
                (.node (s.ctx0.length + 3)) (.node (s.ctx0.length + 2)) ])))
    ∧ (∀ x : Int, 0 ≤ x → x < 18446744073709551616 → wrap_size_t x = x)
    ∧ (∀ x : Int, -18446744073709551616 ≤ x → x < 0 →
        wrap_size_t x = x + 18446744073709551616) := by
  refine ⟨?_, wrap_size_t_of_range, wrap_size_t_of_neg⟩
  cases hf : cparams.flash_attn with
  | true =>
    obtain ⟨k_l, v_l, h1, h2, -, rfl⟩ := llm_build_kv_store_flash hf h
    exact ⟨k_l, v_l, h1, h2, Or.inl ⟨rfl, rfl⟩⟩
  | false =>
    obtain ⟨k_l, v_l, vt, h1, h2, -, h3, h4, rfl⟩ := llm_build_kv_store_noflash hf h
    exact ⟨k_l, v_l, h1, h2, Or.inr ⟨rfl, vt, h3, h4, rfl⟩⟩

theorem llm_build_kv_store_windows_witness :
    ∃ s2 k_l v_l,
      llm_build_kv_store (sample_hparams 4 2 2 2 2 1) (sample_cparams 8 false)
        (sample_kv_cache (sample_hparams 4 2 2 2 2 1) 8 2 5) (.node 0) (.node 1) 3 2 0
        kv_store_state = .ok () s2
      ∧ (sample_kv_cache (sample_hparams 4 2 2 2 2 1) 8 2 5).k_l[0]? = some k_l
      ∧ (sample_kv_cache (sample_hparams 4 2 2 2 2 1) 8 2 5).v_l[0]? = some v_l
      ∧ s2.ctx0[2]? = some (cache_view_1d k_l 12 16)
      ∧ s2.ctx0[4]? = some (cache_view_2d v_l 3 4 16 4) := by
  obtain ⟨⟨k_l, v_l, h1, h2, h3⟩, -, -⟩ :=
    llm_build_kv_store_windows (kv_store_run_returns false)
  refine ⟨_, k_l, v_l, kv_store_run_returns false, h1, h2, ?_⟩
  rcases h3 with ⟨hf, -⟩ | ⟨-, vt, -, -, e⟩
  · cases hf
  · cases h1
    cases h2
    rw [e]
    exact ⟨rfl, rfl⟩

/-- A call of `llm_build_kqv` that returns has created, as its second tensor, the K
read view over `kv.k_l[il]`: byte offset `0`, strides `row_size(type, n_embd_k_gqa)`
and `row_size(type, n_embd_head_k)`, and shape `[n_embd_head, n_kv, n_head_kv]`,
where `n_embd_head` is read from `hparams.n_embd_head_v`. -/
theorem llm_build_kqv_k_view {hparams : moondream_hparams} {cparams : moondream_cparams}
    {kv : moondream_kv_cache} {wo wo_b : Option tensor_ptr} {q_cur kq_mask : tensor_ptr}
    {n_tokens n_kv : Int} {kq_scale : f32} {il : Nat} {s s2 : build_state} {r : tensor_ptr}
    (h : llm_build_kqv hparams cparams kv wo wo_b q_cur kq_mask n_tokens n_kv kq_scale il s
      = .ok r s2) :
    ∃ k_l k, kv.k_l[il]? = some k_l ∧ lookup s2.ctx0 (.node (s.ctx0.length + 1)) = some k
      ∧ k.op = .VIEW ∧ k.view_src = some (.ext k_l) ∧ k.view_offs = 0
      ∧ k.ne0 = hparams.n_embd_head_v ∧ k.ne1 = n_kv ∧ k.ne2 = hparams.n_head_kv
      ∧ k.nb1 = ggml_row_size k_l.type hparams.n_embd_k_gqa
      ∧ k.nb2 = ggml_row_size k_l.type hparams.n_embd_head_k := by
  cases hf : cparams.flash_attn with
  | true =>
    obtain ⟨k_l, v_l, qp, fa, rs, tail, h1, -, -, -, -, -, -, -, -, -, rfl⟩ :=
      llm_build_kqv_flash hf h
    refine ⟨k_l, cache_view_3d k_l hparams.n_embd_head_v n_kv hparams.n_head_kv
      (ggml_row_size k_l.type hparams.n_embd_k_gqa)
      (ggml_row_size k_l.type hparams.n_embd_head_k), h1, ?_, rfl, rfl, rfl, rfl, rfl, rfl,
      rfl, rfl⟩
    exact lookup_append tail (lookup_fresh _ _ 1)
  | false =>
    obtain ⟨k_l, v_l, qp, kq, sm, kqv, pm, cur, tail, h1, -, -, -, -, -, -, -, -, -, -, -,
      -, -, -, -, rfl⟩ := llm_build_kqv_noflash hf h
    refine ⟨k_l, cache_view_3d k_l hparams.n_embd_head_v n_kv hparams.n_head_kv
      (ggml_row_size k_l.type hparams.n_embd_k_gqa)
      (ggml_row_size k_l.type hparams.n_embd_head_k), h1, ?_, rfl, rfl, rfl, rfl, rfl, rfl,
      rfl, rfl⟩
    exact lookup_append tail (lookup_fresh _ _ 1)

/-! ## The finished graph -/

theorem reg_at {l xs : List tensor_ptr} {n : Nat} (h : (l.drop n).take 6 = xs) (i : Nat)
    (x : tensor_ptr) (hx : xs[i]? = some x) : l[n + i]? = some x := by
  subst h
  rw [List.getElem?_take] at hx
  split at hx
  · rw [List.getElem?_drop] at hx
    exact hx
  · cases hx

theorem build_phi2_layer_facts {model : moondream_model} {hparams : moondream_hparams}
    {cparams : moondream_cparams} {batch : moondream_batch} {kv : moondream_kv_cache}
    {s s2 : build_state} {gf : ggml_cgraph}
    (h : build_phi2 model hparams cparams batch kv s = .ok gf s2) (l : Nat)
    (hl : l < hparams.n_layer.toNat) :
    layer_facts hparams cparams kv s2.ctx0 gf.expanded l := by
  obtain ⟨-, -, -, ⟨m, hm⟩, -⟩ := build_phi2_fwd h
  exact layer_at_facts (hm l hl)

theorem run_noflash_returns :
    run_noflash = .ok (graph_of run_noflash) (state_of run_noflash) := by
  decide!

theorem run_flash_returns :
    run_flash = .ok (graph_of run_flash) (state_of run_flash) := by
  decide!

/-- Claim C8. In a graph that `build_phi2` returns, the registered tensors are six per
layer followed by one: at least `1 + 2 * n_layer`. The last one is the logits, the
`ADD` of `model.output_b` to the `MUL_MAT` by `model.output`; and for each layer `l`
registrations `6 * l + 3` and `6 * l + 4` are a copy into a view of `kv.k_l[l]` and a
copy into a view of `kv.v_l[l]`. -/
theorem build_phi2_sinks {model : moondream_model} {hparams : moondream_hparams}
    {cparams : moondream_cparams} {batch : moondream_batch} {kv : moondream_kv_cache}
    {s s2 : build_state} {gf : ggml_cgraph}
    (h : build_phi2 model hparams cparams batch kv s = .ok gf s2) :
    gf.expanded.length = 6 * hparams.n_layer.toNat + 1
    ∧ 1 + 2 * hparams.n_layer ≤ (gf.expanded.length : Int)
    ∧ (∃ logits tl m tm w b x, gf.expanded[6 * hparams.n_layer.toNat]? = some logits
        ∧ lookup s2.ctx0 logits = some tl ∧ tl.op = .ADD
        ∧ tl.src = [some m, some (.ext b)] ∧ model.output_b = some b
        ∧ lookup s2.ctx0 m = some tm ∧ tm.op = .MUL_MAT
        ∧ tm.src = [some (.ext w), some x] ∧ model.output = some w)
    ∧ ∀ l, l < hparams.n_layer.toNat →
        ∃ k_l v_l kc vc ksrc vsrc, kv.k_l[l]? = some k_l ∧ kv.v_l[l]? = some v_l
          ∧ gf.expanded[6 * l + 3]? = some kc ∧ gf.expanded[6 * l + 4]? = some vc
          ∧ cache_write s2.ctx0 kc k_l ksrc ∧ cache_write s2.ctx0 vc v_l vsrc := by
  obtain ⟨-, -, -, -, reg, front, tm, tl, w, b, cur, e1, e2, e3, e4, e5, e6, e7, e8, e9⟩ :=
    build_phi2_fwd h
  have hlen : gf.expanded.length = 6 * hparams.n_layer.toNat + 1 := by
    rw [e1, List.length_append, e2]
    rfl
  refine ⟨hlen, ?_, ?_, ?_⟩
  · rw [hlen]
    have := Int.self_le_toNat hparams.n_layer
    push_cast
    omega
  · refine ⟨.node (front.length + 1), tl, .node front.length, tm, w, b, cur, ?_, ?_, e8, e9,
      e5, ?_, e6, e7, e4⟩
    · rw [e1, ← e2, List.getElem?_concat_length]
    · rw [e3]
      exact lookup_fresh front [tm, tl] 1
    · rw [e3]
      exact lookup_fresh0 front [tm, tl]
  · intro l hl
    obtain ⟨k_l, v_l, Q, K, V, kc, vc, att, vsrc, tq, tk, f1, f2, f3, -, -, -, -, -, f4, f5,
      -⟩ := build_phi2_layer_facts h l hl
    exact ⟨k_l, v_l, kc, vc, K, vsrc, f1, f2, reg_at f3 3 kc rfl, reg_at f3 4 vc rfl, f4, f5⟩

theorem build_phi2_sinks_witness :
    ∃ gf s2,
      build_phi2 (sample_model (sample_hparams 4 2 2 2 2 1) (sample_cparams 8 false) false)
        (sample_hparams 4 2 2 2 2 1) (sample_cparams 8 false) (sample_batch 3 true false)
        (sample_kv_cache (sample_hparams 4 2 2 2 2 1) 8 0 3)
        (sample_state (sample_cparams 8 false) 1) = .ok gf s2
      ∧ gf.expanded.length = 7 :=
  ⟨_, _, run_noflash_returns, (build_phi2_sinks run_noflash_returns).1⟩

/-- Claim C9. In a graph that `build_phi2` returns, registrations `6 * l .. 6 * l + 5`
are, for each layer `l` and in this order: `Q`, `K`, `V`, the copy of `K` into a view
of `kv.k_l[l]`, the copy of `V` (with flash attention) or of its transpose (without)
into a view of `kv.v_l[l]`, and the attention output, which is computed from `Q` and
from views of `kv.k_l[l]` and `kv.v_l[l]`. -/
theorem build_phi2_registration_order {model : moondream_model}
    {hparams : moondream_hparams} {cparams : moondream_cparams} {batch : moondream_batch}
    {kv : moondream_kv_cache} {s s2 : build_state} {gf : ggml_cgraph}
    (h : build_phi2 model hparams cparams batch kv s = .ok gf s2) :
    ∀ l, l < hparams.n_layer.toNat →
      ∃ k_l v_l Q K V kc vc att vsrc, kv.k_l[l]? = some k_l ∧ kv.v_l[l]? = some v_l
        ∧ (gf.expanded.drop (6 * l)).take 6 = [Q, K, V, kc, vc, att]
        ∧ cache_write s2.ctx0 kc k_l K
        ∧ cache_write s2.ctx0 vc v_l vsrc ∧ (vsrc = V ∨ operand s2.ctx0 vsrc V)
        ∧ depends s2.ctx0 att Q ∧ cache_read s2.ctx0 att k_l
        ∧ cache_read s2.ctx0 att v_l := by
  intro l hl
  obtain ⟨k_l, v_l, Q, K, V, kc, vc, att, vsrc, tq, tk, f1, f2, f3, -, -, -, -, -, f4, f5,
    f6, f7, f8, f9, -⟩ := build_phi2_layer_facts h l hl
  exact ⟨k_l, v_l, Q, K, V, kc, vc, att, vsrc, f1, f2, f3, f4, f5, f6, f7, f8, f9⟩

theorem build_phi2_registration_order_witness :
    ∃ gf s2,
      build_phi2 (sample_model (sample_hparams 4 2 2 2 2 2) (sample_cparams 8 true) false)
        (sample_hparams 4 2 2 2 2 2) (sample_cparams 8 true) (sample_batch 3 true false)
        (sample_kv_cache (sample_hparams 4 2 2 2 2 2) 8 0 3)
        (sample_state (sample_cparams 8 true) 1) = .ok gf s2
      ∧ ∃ Q K V kc vc att, (gf.expanded.drop (6 * 1)).take 6 = [Q, K, V, kc, vc, att] := by
  obtain ⟨k_l, v_l, Q, K, V, kc, vc, att, vsrc, -, -, f3, -⟩ :=
    build_phi2_registration_order run_flash_returns 1 (by decide)
  exact ⟨_, _, run_flash_returns, Q, K, V, kc, vc, att, f3⟩

theorem moondream_load_hparams_ok {ctx : gguf_context} {uninit : moondream_hparams}
    {h : loaded_header} (e : moondream_load_hparams ctx uninit = .ok h) :
    ∃ n_embd n_head : Nat,
      ¬ (to_int32 n_head = 0 ∨ (to_int32 n_embd = -2147483648 ∧ to_int32 n_head = -1))
      ∧ h.hparams.n_embd = to_int32 n_embd ∧ h.hparams.n_head = to_int32 n_head
      ∧ h.hparams.n_embd_head_k = Int.tdiv (to_int32 n_embd) (to_int32 n_head)
      ∧ h.hparams.n_embd_head_v = Int.tdiv (to_int32 n_embd) (to_int32 n_head) := by
  unfold moondream_load_hparams at e
  simp only [bind, Except.bind, pure, Except.pure] at e
  split at e
  · cases e
  split at e
  · cases e
  split at e
  · cases e
  split at e
  · cases e
  rename_i n_embd _
  split at e
  · cases e
  split at e
  · cases e
  split at e
  · cases e
  split at e
  · cases e
  rename_i n_head _
  split at e
  · cases e
  split at e
  · cases e
  rename_i q hq
  simp only [int_div] at hq
  split at hq
  · cases hq
  rename_i hdiv
  cases hq
  cases e
  exact ⟨n_embd, n_head, hdiv, rfl, rfl, rfl, rfl⟩

/-- Claim C13, refuted. A header with `phi2.embedding_length = 2560` and
`phi2.attention.head_count = 24`: the loader returns `true`, and the head size it
derives is `106`, with `106 * 24 = 2544`, not `2560`. -/
theorem indivisible_heads_accepted :
    (moondream_load_model (some (phi2_header 2560 24)) "weights.gguf"
        (sample_model (sample_hparams 0 0 0 0 0 0) (sample_cparams 0 false) false)
        (sample_hparams 0 0 0 0 0 0)).toOption.map load_result.ret = some true
    ∧ (moondream_load_hparams (phi2_header 2560 24) (sample_hparams 0 0 0 0 0 0)).toOption.map
        (fun h => (h.hparams.n_embd_head_k, h.hparams.n_head,
          h.hparams.n_embd_head_k * h.hparams.n_head, h.hparams.n_embd))
      = some (106, 24, 2544, 2560) :=
  ⟨rfl, rfl⟩

/-- Claim C13, amended. For every header from which the loader derives
hyper-parameters, `n_head` is not zero, `n_embd_head_k` and `n_embd_head_v` are the
truncated quotient `n_embd / n_head`, and `n_embd_head_k * n_head = n_embd` holds
exactly when `n_head` divides `n_embd`. -/
theorem derived_head_size (ctx : gguf_context) (uninit : moondream_hparams)
    (h : loaded_header) (e : moondream_load_hparams ctx uninit = .ok h) :
    h.hparams.n_head ≠ 0
    ∧ h.hparams.n_embd_head_k = Int.tdiv h.hparams.n_embd h.hparams.n_head
    ∧ h.hparams.n_embd_head_v = h.hparams.n_embd_head_k
    ∧ (h.hparams.n_embd_head_k * h.hparams.n_head = h.hparams.n_embd
        ↔ h.hparams.n_head ∣ h.hparams.n_embd) := by
  obtain ⟨n_embd, n_head, hdiv, e1, e2, e3, e4⟩ := moondream_load_hparams_ok e
  rw [e1, e2, e3, e4]
  refine ⟨fun h0 => hdiv (Or.inl h0), rfl, rfl, ?_, ?_⟩
  · intro hm
    exact Dvd.intro_left _ hm
  · intro hd
    exact Int.tdiv_mul_cancel hd

theorem derived_head_size_witness :
    ∃ h, moondream_load_hparams (phi2_header 2560 24) (sample_hparams 0 0 0 0 0 0) = .ok h
      ∧ h.hparams.n_head ≠ 0
      ∧ h.hparams.n_embd_head_k = Int.tdiv h.hparams.n_embd h.hparams.n_head
      ∧ h.hparams.n_embd_head_v = h.hparams.n_embd_head_k
      ∧ (h.hparams.n_embd_head_k * h.hparams.n_head = h.hparams.n_embd
          ↔ h.hparams.n_head ∣ h.hparams.n_embd) :=
  ⟨_, rfl, derived_head_size (phi2_header 2560 24) (sample_hparams 0 0 0 0 0 0) _ rfl⟩

theorem strlen_small {s : List Char} (h : s.length ≤ 512) : strlen s = s.length := by
  unfold strlen to_size_t
  exact Nat.mod_eq_of_lt (by omega)

theorem main_paths_eq (data_path : List Char) (h : data_path.length ≤ 512) :
    main_paths data_path
      = (data_path ++ MD_TEXT_MODEL_FNAME, data_path ++ MD_MMPROJ_FNAME) := by
  have h1 : strlen MD_TEXT_MODEL_FNAME = 30 := by decide
  have h2 : MD_TEXT_MODEL_FNAME.length = 30 := by decide
  have h3 : MD_MMPROJ_FNAME.length = 26 := by decide
  have h4 : to_size_t (data_path.length + 30 + 1) = data_path.length + 31 := by
    unfold to_size_t
    exact Nat.mod_eq_of_lt (by omega)
  unfold main_paths snprintf_s_s
  simp only [strlen_small h, h1, h4]
  rw [List.take_of_length_le, List.take_of_length_le]
  · rw [List.length_append, h3]
    omega
  · rw [List.length_append, h2]
    omega

/-- Claim C14. The exit status of `main`: `1` without a positional argument and `1`
for a data path longer than `DATA_PATH_MAX_LEN`; otherwise `0` whenever the loader
returns, also in the branch for a loader that reports failure, and no exit status at
all when the loader dies (as it does on a file that cannot be opened). -/
theorem main_status (argv : List (List Char)) (files : List Char → Option gguf_context)
    (model : moondream_model) (uninit : moondream_hparams) :
    (argv.length < 2 → (main argv files model uninit).status = .ok 1)
    ∧ (2 ≤ argv.length → DATA_PATH_MAX_LEN < strlen (argv.getD 1 []) →
        (main argv files model uninit).status = .ok 1)
    ∧ (2 ≤ argv.length → strlen (argv.getD 1 []) ≤ DATA_PATH_MAX_LEN →
        (main argv files model uninit).status
          = (moondream_load_model (files (main_paths (argv.getD 1 [])).1)
              (String.mk (main_paths (argv.getD 1 [])).1) model uninit).map (fun _ => 0))
    ∧ (∀ result, (main_report result).2 = 0)
    ∧ (files (main_paths (argv.getD 1 [])).1 = none → 2 ≤ argv.length →
        strlen (argv.getD 1 []) ≤ DATA_PATH_MAX_LEN →
        (main argv files model uninit).status = .error .null_ctx) := by
  have key : 2 ≤ argv.length → strlen (argv.getD 1 []) ≤ DATA_PATH_MAX_LEN →
      (main argv files model uninit).status
        = (moondream_load_model (files (main_paths (argv.getD 1 [])).1)
            (String.mk (main_paths (argv.getD 1 [])).1) model uninit).map (fun _ => 0) := by
    intro h1 h2
    unfold main
    rw [if_neg (by omega)]
    simp only
    rw [if_neg (by omega)]
    cases hl : moondream_load_model (files (main_paths (argv.getD 1 [])).1)
        (String.mk (main_paths (argv.getD 1 [])).1) model uninit with
    | error f => rfl
    | ok r =>
      simp only [Except.map]
      cases hr : r.ret <;> simp [main_report]
  refine ⟨?_, ?_, key, ?_, ?_⟩
  · intro h
    unfold main
    rw [if_pos h]
  · intro h1 h2
    unfold main
    rw [if_neg (by omega)]
    simp only
    rw [if_pos h2]
  · intro result
    cases result <;> rfl
  · intro hf h1 h2
    rw [key h1 h2, hf]
    rfl

theorem main_status_witness :
    (main ["moondream".toList, "data/".toList] no_files
        (sample_model (sample_hparams 0 0 0 0 0 0) (sample_cparams 0 false) false)
        (sample_hparams 0 0 0 0 0 0)).status = .error .null_ctx :=
  (main_status ["moondream".toList, "data/".toList] no_files _ _).2.2.2.2 rfl (by decide)
    (by decide)

/-- Claim C19. For a data path of at most 512 chars the two paths that `main` resolves
are the data path followed by `moondream2-text-model-f16.gguf` and by
`moondream2-mmproj-f16.gguf`, nothing cut off and nothing inserted; `main` prints them
first and hands the first to the loader. -/
theorem main_paths_exact (data_path : List Char) (h : data_path.length ≤ 512) :
    main_paths data_path
      = (data_path ++ "moondream2-text-model-f16.gguf".toList,
         data_path ++ "moondream2-mmproj-f16.gguf".toList)
    ∧ ∀ (argv : List (List Char)) (files : List Char → Option gguf_context)
        (model : moondream_model) (uninit : moondream_hparams),
        2 ≤ argv.length → argv.getD 1 [] = data_path →
        (main argv files model uninit).stdout.take 2
          = [("text model path: %s\n",
                [.s (String.mk (data_path ++ "moondream2-text-model-f16.gguf".toList))]),
             ("mmproj path: %s\n",
                [.s (String.mk (data_path ++ "moondream2-mmproj-f16.gguf".toList))])]
        ∧ (main argv files model uninit).status
          = (moondream_load_model
              (files (data_path ++ "moondream2-text-model-f16.gguf".toList))
              (String.mk (data_path ++ "moondream2-text-model-f16.gguf".toList))
              model uninit).map (fun _ => 0) := by
  have hp := main_paths_eq data_path h
  refine ⟨hp, ?_⟩
  intro argv files model uninit h1 h2
  have hs : strlen (argv.getD 1 []) ≤ DATA_PATH_MAX_LEN := by
    rw [h2, strlen_small h]
    exact h
  constructor
  · unfold main
    rw [if_neg (by omega)]
    simp only
    rw [if_neg (by omega)]
    rw [h2, hp]
    cases moondream_load_model (files (data_path ++ MD_TEXT_MODEL_FNAME))
        (String.mk (data_path ++ MD_TEXT_MODEL_FNAME)) model uninit <;> rfl
  · have hk : (main argv files model uninit).status
        = (moondream_load_model (files (main_paths (argv.getD 1 [])).1)
            (String.mk (main_paths (argv.getD 1 [])).1) model uninit).map (fun _ => 0) := by
      unfold main
      rw [if_neg (by omega)]
      simp only
      rw [if_neg (by omega)]
      cases hl : moondream_load_model (files (main_paths (argv.getD 1 [])).1)
          (String.mk (main_paths (argv.getD 1 [])).1) model uninit with
      | error f => rfl
      | ok r =>
        simp only [Except.map]
        cases hr : r.ret <;> simp [main_report]
    rw [hk, h2, hp]
    rfl

theorem main_paths_exact_witness :
    main_paths "/models/".toList
      = ("/models/moondream2-text-model-f16.gguf".toList,
         "/models/moondream2-mmproj-f16.gguf".toList) :=
  (main_paths_exact "/models/".toList (by decide)).1

/-! ## The attention mask -/

theorem land_neg_one (z : Int) : Int.land z (-1) = z := by
  cases z with
  | ofNat m =>
    show Int.land (Int.ofNat m) (Int.negSucc 0) = Int.ofNat m
    simp [Int.land, Nat.ldiff]
  | negSucc m =>
    show Int.land (Int.negSucc m) (Int.negSucc 0) = Int.negSucc m
    simp [Int.land]

theorem land_neg_32 (y : Int) : Int.land y (-32) = y / 32 * 32 := by
  have e : (-32 : Int)
      = Int.bit false (Int.bit false (Int.bit false (Int.bit false (Int.bit false (-1))))) := by
    decide
  obtain ⟨b0, y1, rfl⟩ : ∃ b z, y = Int.bit b z := ⟨_, _, (Int.bit_decomp y).symm⟩
  obtain ⟨b1, y2, rfl⟩ : ∃ b z, y1 = Int.bit b z := ⟨_, _, (Int.bit_decomp y1).symm⟩
  obtain ⟨b2, y3, rfl⟩ : ∃ b z, y2 = Int.bit b z := ⟨_, _, (Int.bit_decomp y2).symm⟩
  obtain ⟨b3, y4, rfl⟩ : ∃ b z, y3 = Int.bit b z := ⟨_, _, (Int.bit_decomp y3).symm⟩
  obtain ⟨b4, y5, rfl⟩ : ∃ b z, y4 = Int.bit b z := ⟨_, _, (Int.bit_decomp y4).symm⟩
  rw [e]
  simp only [Int.land_bit, Bool.and_false, land_neg_one]
  simp only [Int.bit_val]
  cases b0 <;> cases b1 <;> cases b2 <;> cases b3 <;> cases b4 <;>
    simp only [cond_true, cond_false] <;> omega

theorem wrap_int32_of_range (x : Int) (h1 : -2147483648 ≤ x) (h2 : x ≤ 2147483647) :
    wrap_int32 x = x := by
  unfold wrap_int32
  omega

theorem GGML_PAD_32 (x : Int) : GGML_PAD x 32 = wrap_int32 (x + 31) / 32 * 32 := by
  unfold GGML_PAD
  have e : Int.lnot (32 - 1) = -32 := by decide
  have w : wrap_int32 (wrap_int32 (x + 32) - 1) = wrap_int32 (x + 31) := by
    unfold wrap_int32
    omega
  rw [e, w, land_neg_32]

theorem GGML_PAD_32_dvd (x : Int) : 32 ∣ GGML_PAD x 32 := by
  rw [GGML_PAD_32]
  exact Dvd.intro_left _ rfl

theorem GGML_PAD_32_least (x : Int) (h1 : -2147483648 ≤ x) (h2 : x ≤ 2147483616) :
    x ≤ GGML_PAD x 32 ∧ ∀ k, 32 ∣ k → x ≤ k → GGML_PAD x 32 ≤ k := by
  rw [GGML_PAD_32, wrap_int32_of_range (x + 31) (by omega) (by omega)]
  refine ⟨by omega, ?_⟩
  rintro k ⟨c, rfl⟩ h
  omega

theorem GGML_PAD_32_wraps (x : Int) (h1 : 2147483616 < x) (h2 : x ≤ 2147483647) :
    GGML_PAD x 32 = -2147483648 := by
  rw [GGML_PAD_32]
  unfold wrap_int32
  omega

theorem GGML_PAD_16 : GGML_PAD 16 32 = 32 := by
  rw [GGML_PAD_32]
  decide

theorem GGML_PAD_1 : GGML_PAD 1 32 = 32 := by
  rw [GGML_PAD_32]
  decide

/-- What a call of `build_inp_KQ_mask` returns, as an equation. -/
theorem build_inp_KQ_mask_run (batch : moondream_batch) (cparams : moondream_cparams)
    (n_kv : Int) (s : build_state) :
    build_inp_KQ_mask batch cparams n_kv s =
      if cparams.flash_attn then
        .ok (.node (s.ctx0.length + 1))
          { ctx0 := s.ctx0 ++ [
              { new_tensor .F32 (if cparams.causal_attn then n_kv else batch.n_tokens)
                  (GGML_PAD batch.n_tokens GGML_KQ_MASK_PAD) 1 1 with is_input := true },
              { new_tensor .F16 (if cparams.causal_attn then n_kv else batch.n_tokens)
                  (GGML_PAD batch.n_tokens GGML_KQ_MASK_PAD) 1 1 with
                op := .CPY,
                src := [some (.node s.ctx0.length), some (.node (s.ctx0.length + 1))] }],
            gf := s.gf,
            mctx := { s.mctx with inp_KQ_mask := some (.node s.ctx0.length) } }
      else
        .ok (.node s.ctx0.length)
          { ctx0 := s.ctx0 ++ [
              { new_tensor .F32 (if cparams.causal_attn then n_kv else batch.n_tokens)
                  (GGML_PAD batch.n_tokens GGML_KQ_MASK_PAD) 1 1 with is_input := true }],
            gf := s.gf,
            mctx := { s.mctx with inp_KQ_mask := some (.node s.ctx0.length) } } := by
  unfold build_inp_KQ_mask
  cases hc : cparams.causal_attn <;> cases hf : cparams.flash_attn <;>
    simp [bind_run, pure_run, ggml_new_tensor_2d, push, set_mctx, ggml_set_input, modify,
      ggml_cast, deref, lookup, GGML_KQ_MASK_PAD]

/-- Claim C16, refuted. For a batch of `2147483647` tokens the sum `n_tokens + 31`
does not fit the `int` in which the macro is evaluated: `GGML_PAD(n_tokens, 32)` is
`-2147483648`, and that is the second extent of the mask `build_inp_KQ_mask`
creates; it is not a multiple of 32 that is at least `n_tokens`. -/
theorem pad_wraps_at_int_max :
    GGML_PAD 2147483647 32 = -2147483648
    ∧ build_inp_KQ_mask (sample_batch 2147483647 true false) (sample_cparams 8 false) 8
        (sample_state (sample_cparams 8 false) 1)
      = .ok (.node 0)
          { sample_state (sample_cparams 8 false) 1 with
            ctx0 := [{ new_tensor .F32 8 (-2147483648) 1 1 with is_input := true }],
            mctx := { sample_context (sample_cparams 8 false) 1 with
              inp_KQ_mask := some (.node 0) } }
    ∧ ¬ ((2147483647 : Int) ≤ GGML_PAD 2147483647 32) := by
  decide!

/-- Claim C16, amended. `build_inp_KQ_mask` always returns. It creates the mask, an
F32 graph input of shape `[n_kv, P]` with causal attention and `[n_tokens, P]`
without, records it in the context, and returns it, or with flash attention its cast
to F16. Here `P = GGML_PAD(n_tokens, 32)`, evaluated in `int`: always a multiple of
32; for `n_tokens` up to `2147483616` the least multiple of 32 that is at least
`n_tokens`; for the larger `n_tokens` of an `int32_t` the value `-2147483648`. -/
theorem build_inp_KQ_mask_shape (batch : moondream_batch) (cparams : moondream_cparams)
    (n_kv : Int) (s : build_state) :
    ∃ P mask, P = GGML_PAD batch.n_tokens GGML_KQ_MASK_PAD
      ∧ P = Int.land (wrap_int32 (wrap_int32 (batch.n_tokens + 32) - 1)) (Int.lnot (32 - 1))
      ∧ 32 ∣ P
      ∧ (-2147483648 ≤ batch.n_tokens → batch.n_tokens ≤ 2147483616 →
          batch.n_tokens ≤ P ∧ ∀ k, 32 ∣ k → batch.n_tokens ≤ k → P ≤ k)
      ∧ (2147483616 < batch.n_tokens → batch.n_tokens ≤ 2147483647 → P = -2147483648)
      ∧ mask = { new_tensor .F32 (if cparams.causal_attn then n_kv else batch.n_tokens) P 1 1
                 with is_input := true }
      ∧ build_inp_KQ_mask batch cparams n_kv s =
          if cparams.flash_attn then
            .ok (.node (s.ctx0.length + 1))
              { ctx0 := s.ctx0 ++ [mask,
                  { new_tensor .F16 mask.ne0 mask.ne1 mask.ne2 mask.ne3 with
                    op := .CPY,
                    src := [some (.node s.ctx0.length), some (.node (s.ctx0.length + 1))] }],
                gf := s.gf,
                mctx := { s.mctx with inp_KQ_mask := some (.node s.ctx0.length) } }
          else
            .ok (.node s.ctx0.length)
              { ctx0 := s.ctx0 ++ [mask], gf := s.gf,
                mctx := { s.mctx with inp_KQ_mask := some (.node s.ctx0.length) } } := by
  refine ⟨_, _, rfl, rfl, GGML_PAD_32_dvd _, GGML_PAD_32_least _, GGML_PAD_32_wraps _, rfl, ?_⟩
  exact build_inp_KQ_mask_run batch cparams n_kv s

theorem build_inp_KQ_mask_shape_witness :
    ∃ P, P = GGML_PAD 16 32 ∧ (16 : Int) ≤ P ∧ (∀ k : Int, 32 ∣ k → 16 ≤ k → P ≤ k)
      ∧ build_inp_KQ_mask (sample_batch 16 true false) (sample_cparams 8 false) 8
          (sample_state (sample_cparams 8 false) 1)
        = .ok (.node 0)
            { sample_state (sample_cparams 8 false) 1 with
              ctx0 := [{ new_tensor .F32 8 P 1 1 with is_input := true }],
              mctx := { sample_context (sample_cparams 8 false) 1 with
                inp_KQ_mask := some (.node 0) } } := by
  obtain ⟨P, mask, hP, -, -, hle, -, hm, hrun⟩ :=
    build_inp_KQ_mask_shape (sample_batch 16 true false) (sample_cparams 8 false) 8
      (sample_state (sample_cparams 8 false) 1)
  have h := hle (by decide) (by decide)
  subst hm
  exact ⟨P, hP, h.1, h.2, hrun⟩

/-- The Phi-2 feed-forward block when `ffn_up` and both biases are present: exactly
five tensors are appended. -/
theorem llm_build_ffn_phi2_fwd {cur r : tensor_ptr} {up up_b down down_b : ext_tensor}
    {s s2 : build_state}
    (h : llm_build_ffn cur (some (.ext up)) (some (.ext up_b)) none none (some (.ext down))
      (some (.ext down_b)) none .LLM_FFN_GELU .LLM_FFN_SEQ s = .ok r s2) :
    ∃ t1 t2 t3 t4 t5,
      s2 = { s with ctx0 := s.ctx0 ++ [t1, t2, t3, t4, t5] }
      ∧ r = .node (s.ctx0.length + 4)
      ∧ t1.op = .MUL_MAT ∧ t1.src = [some (.ext up), some cur]
      ∧ t2.op = .ADD ∧ t2.src = [some (.node s.ctx0.length), some (.ext up_b)]
      ∧ t3.op = .GELU ∧ t3.src = [some (.node (s.ctx0.length + 1))]
      ∧ t4.op = .MUL_MAT ∧ t4.src = [some (.ext down), some (.node (s.ctx0.length + 2))]
      ∧ t5.op = .ADD ∧ t5.src = [some (.node (s.ctx0.length + 3)), some (.ext down_b)] := by
  unfold llm_build_ffn at h
  simp only [reduceCtorEq, if_false] at h
  replace h := step h (fun _ _ => ggml_mul_mat_fwd)
  obtain ⟨t1, ⟨ta1, tb1, -, -, -, -, ht1⟩, h⟩ := h
  replace h := step h (fun _ _ => ggml_add_fwd)
  obtain ⟨t2, ⟨ta2, tb2, -, -, -, ht2⟩, h⟩ := h
  replace h := step_pure h
  replace h := step h (fun _ _ => ggml_gelu_fwd)
  obtain ⟨t3, ⟨ta3, -, ht3⟩, h⟩ := h
  replace h := step_pure h
  replace h := step_pure h
  replace h := step_nonnull h
  obtain ⟨d, hd, h⟩ := h
  cases hd
  replace h := step h (fun _ _ => ggml_mul_mat_fwd)
  obtain ⟨t4, ⟨ta4, tb4, -, -, -, -, ht4⟩, h⟩ := h
  obtain ⟨t5, ⟨hp, hs⟩, ta5, tb5, -, -, -, ht5⟩ := ggml_add_fwd h
  dsimp only at ht2 ht3 ht4 ht5 hp hs
  simp only [List.length_append, List.length_singleton, List.append_assoc,
    List.singleton_append, List.cons_append, List.nil_append, List.length_cons,
    List.length_nil, Nat.add_assoc, Nat.reduceAdd] at ht3 ht4 ht5 hp hs
  refine ⟨t1, t2, t3, t4, t5, hs, hp, by rw [ht1], by rw [ht1], by rw [ht2], by rw [ht2],
    by rw [ht3], by rw [ht3], by rw [ht4], by rw [ht4], by rw [ht5], by rw [ht5]⟩

/-! ## The fused projection -/

/-- The fused branch of the projection: the eight tensors it appends. The three views
are taken from the biased projection (the second tensor) with the widths and byte
offsets given. -/
theorem build_phi2_qkv_fused_fwd {layer : moondream_layer} {w : ext_tensor} {x : tensor_ptr}
    {n_embd n_embd_gqa n_tokens : Int} {s s2 : build_state}
    {r : tensor_ptr × tensor_ptr × tensor_ptr}
    (h : build_phi2_qkv layer x n_embd n_embd_gqa n_tokens s = .ok r s2)
    (hw : layer.wqkv = some w) :
    ∃ mm cur vq cq vk ck vv cv,
      s2 = { s with ctx0 := s.ctx0 ++ [mm, cur, vq, cq, vk, ck, vv, cv] }
      ∧ r = (.node (s.ctx0.length + 3), .node (s.ctx0.length + 5), .node (s.ctx0.length + 7))
      ∧ mm.op = .MUL_MAT ∧ mm.src = [some (.ext w), some x]
      ∧ cur.op = .ADD ∧ cur.view_src = none
      ∧ vq = { new_tensor cur.type n_embd n_tokens 1 1 with
          view_src := some (.node (s.ctx0.length + 1)), view_offs := 0 * 4 * n_embd,
          op := .VIEW, src := [some (.node (s.ctx0.length + 1))], iparams := [0 * 4 * n_embd],
          nb1 := cur.nb1, nb2 := cur.nb1 * n_tokens, nb3 := cur.nb1 * n_tokens }
      ∧ vk = { new_tensor cur.type n_embd_gqa n_tokens 1 1 with
          view_src := some (.node (s.ctx0.length + 1)), view_offs := 1 * 4 * n_embd,
          op := .VIEW, src := [some (.node (s.ctx0.length + 1))], iparams := [1 * 4 * n_embd],
          nb1 := cur.nb1, nb2 := cur.nb1 * n_tokens, nb3 := cur.nb1 * n_tokens }
      ∧ vv = { new_tensor cur.type n_embd_gqa n_tokens 1 1 with
          view_src := some (.node (s.ctx0.length + 1)),
          view_offs := 1 * 4 * (n_embd + n_embd_gqa),
          op := .VIEW, src := [some (.node (s.ctx0.length + 1))],
          iparams := [1 * 4 * (n_embd + n_embd_gqa)],
          nb1 := cur.nb1, nb2 := cur.nb1 * n_tokens, nb3 := cur.nb1 * n_tokens }
      ∧ cq = { new_tensor cur.type n_embd n_tokens 1 1 with
          op := .CONT, src := [some (.node (s.ctx0.length + 2))] }
      ∧ ck = { new_tensor cur.type n_embd_gqa n_tokens 1 1 with
          op := .CONT, src := [some (.node (s.ctx0.length + 4))] }
      ∧ cv = { new_tensor cur.type n_embd_gqa n_tokens 1 1 with
          op := .CONT, src := [some (.node (s.ctx0.length + 6))] } := by
  unfold build_phi2_qkv at h
  rw [hw] at h
  dsimp only at h
  replace h := step h (fun _ _ => ggml_mul_mat_fwd)
  obtain ⟨t1, ⟨ta1, tb1, -, -, -, -, ht1⟩, h⟩ := h
  replace h := step_nonnull h
  obtain ⟨b, -, h⟩ := h
  replace h := step h (fun _ _ => ggml_add_fwd)
  obtain ⟨t2, ⟨ta2, tb2, -, -, -, ht2⟩, h⟩ := h
  replace h := step_deref h
  obtain ⟨tc, hc, h⟩ := h
  dsimp only at hc
  rw [lookup_snoc_last] at hc
  cases hc
  have hvs : t2.view_src = none := by rw [ht2]; rfl
  replace h := step h (fun _ _ => ggml_view_2d_fwd)
  obtain ⟨t3, ⟨ta3, e3, ht3⟩, h⟩ := h
  dsimp only at e3
  rw [lookup_snoc_last] at e3
  cases e3
  replace h := step h (fun _ _ => ggml_cont_fwd)
  obtain ⟨t4, ⟨ta4, e4, ht4⟩, h⟩ := h
  dsimp only at e4
  rw [lookup_snoc_last] at e4
  cases e4
  replace h := step h (fun _ _ => ggml_view_2d_fwd)
  obtain ⟨t5, ⟨ta5, e5, ht5⟩, h⟩ := h
  dsimp only at e5
  have e5b : lookup (s.ctx0 ++ [t1] ++ [t2] ++ [t3] ++ [t4]) (.node (s.ctx0 ++ [t1]).length)
      = some t2 := by
    simp
  rw [e5b] at e5
  cases e5
  replace h := step h (fun _ _ => ggml_cont_fwd)
  obtain ⟨t6, ⟨ta6, e6, ht6⟩, h⟩ := h
  dsimp only at e6
  rw [lookup_snoc_last] at e6
  cases e6
  replace h := step h (fun _ _ => ggml_view_2d_fwd)
  obtain ⟨t7, ⟨ta7, e7, ht7⟩, h⟩ := h
  dsimp only at e7
  have e7b : lookup (s.ctx0 ++ [t1] ++ [t2] ++ [t3] ++ [t4] ++ [t5] ++ [t6])
      (.node (s.ctx0 ++ [t1]).length) = some t2 := by
    simp
  rw [e7b] at e7
  cases e7
  replace h := step h (fun _ _ => ggml_cont_fwd)
  obtain ⟨t8, ⟨ta8, e8, ht8⟩, h⟩ := h
  dsimp only at e8
  rw [lookup_snoc_last] at e8
  cases e8
  obtain ⟨rfl, rfl⟩ := pure_ok.mp h
  have hb : view_base_of (.node (s.ctx0.length + 1)) t2 = .node (s.ctx0.length + 1) := by
    unfold view_base_of
    rw [hvs]
  have ho : ∀ o, view_offs_of t2 o = o := by
    intro o
    unfold view_offs_of
    rw [hvs]
  dsimp only at ht3 ht4 ht5 ht6 ht7 ht8
  simp only [List.length_append, List.length_singleton, List.append_assoc,
    List.singleton_append, List.cons_append, List.nil_append, List.length_cons,
    List.length_nil, Nat.add_assoc, Nat.reduceAdd, hb, ho] at ht3 ht4 ht5 ht6 ht7 ht8
  refine ⟨t1, t2, t3, t4, t5, t6, t7, t8, by simp, by simp, by rw [ht1], by rw [ht1],
    by rw [ht2], hvs, ht3, ht5, ht7, ?_, ?_, ?_⟩
  · rw [ht4, ht3]; rfl
  · rw [ht6, ht5]; rfl
  · rw [ht8, ht7]; rfl

/-- Claim C15. When a layer has the fused `wqkv` and its attention block returns, `Q`,
`K` and `V` were taken from the biased projection `cur` as 2-D views of `n_tokens`
rows at byte offsets `0`, `4 * n_embd` and `4 * (n_embd + n_embd_gqa)` with widths
`n_embd`, `n_embd_gqa` and `n_embd_gqa`, where the `n_embd_gqa` of the builder is
`n_embd_head_v`, the width of one head. It is the grouped width
`n_embd_head_v * n_head_kv` only for `n_head_kv = 1`, and nothing else gets this far:
with tokens in the batch and a head size that is not zero, `n_head_kv = 1`. -/
theorem build_phi2_attn_fused_views {hparams : moondream_hparams}
    {cparams : moondream_cparams} {batch : moondream_batch} {kv : moondream_kv_cache}
    {layer : moondream_layer} {w : ext_tensor} {x inp_pos KQ_mask : tensor_ptr} {il : Nat}
    {s s2 : build_state} {r : tensor_ptr}
    (h : build_phi2_attn hparams cparams batch kv layer x inp_pos KQ_mask il s = .ok r s2)
    (hw : layer.wqkv = some w) :
    ∃ cur vq vk vv,
      lookup s2.ctx0 (.node (s.ctx0.length + 1)) = some cur
      ∧ lookup s2.ctx0 (.node (s.ctx0.length + 2)) = some vq
      ∧ lookup s2.ctx0 (.node (s.ctx0.length + 4)) = some vk
      ∧ lookup s2.ctx0 (.node (s.ctx0.length + 6)) = some vv
      ∧ cur.op = .ADD
      ∧ vq.op = .VIEW ∧ vq.view_src = some (.node (s.ctx0.length + 1))
      ∧ vq.view_offs = 0 ∧ vq.ne0 = hparams.n_embd ∧ vq.ne1 = batch.n_tokens
      ∧ vq.nb1 = cur.nb1
      ∧ vk.op = .VIEW ∧ vk.view_src = some (.node (s.ctx0.length + 1))
      ∧ vk.view_offs = 4 * hparams.n_embd ∧ vk.ne0 = hparams.n_embd_head_v
      ∧ vk.ne1 = batch.n_tokens ∧ vk.nb1 = cur.nb1
      ∧ vv.op = .VIEW ∧ vv.view_src = some (.node (s.ctx0.length + 1))
      ∧ vv.view_offs = 4 * (hparams.n_embd + hparams.n_embd_head_v)
      ∧ vv.ne0 = hparams.n_embd_head_v ∧ vv.ne1 = batch.n_tokens ∧ vv.nb1 = cur.nb1
      ∧ (batch.n_tokens ≠ 0 → hparams.n_embd_head_v ≠ 0 → hparams.n_head_kv = 1) := by
  unfold build_phi2_attn at h
  obtain ⟨qkv, s1, h1, h⟩ := bind_ok.mp h
  obtain ⟨mm, cur, vq, cq, vk, ck, vv, cv, rfl, rfl, -, -, hcur, -, hvq, hvk, hvv, -, hck, -⟩ :=
    build_phi2_qkv_fused_fwd h1 hw
  replace h := step h (fun _ _ => ggml_reshape_3d_fwd)
  obtain ⟨t1, -, h⟩ := h
  replace h := step h (fun _ _ => ggml_reshape_3d_fwd)
  obtain ⟨t2, ⟨ta2, e2, -, hn2, -⟩, h⟩ := h
  replace h := step h (fun _ _ => ggml_rope_ext_none_fwd)
  obtain ⟨t3, -, h⟩ := h
  replace h := step h (fun _ _ => ggml_scale_fwd)
  obtain ⟨t4, -, h⟩ := h
  replace h := step h (fun _ _ => ggml_rope_ext_none_fwd)
  obtain ⟨t5, -, h⟩ := h
  obtain ⟨seg, tail, six, -, -, rfl⟩ := llm_build_kv_fwd h
  dsimp only at e2 hn2 ⊢
  have L : ∀ i t, [mm, cur, vq, cq, vk, ck, vv, cv][i]? = some t →
      lookup (s.ctx0 ++ [mm, cur, vq, cq, vk, ck, vv, cv] ++ [t1] ++ [t2] ++ [t3] ++ [t4]
        ++ [t5] ++ seg ++ tail) (.node (s.ctx0.length + i)) = some t := by
    intro i t hi
    have e := lookup_mid s.ctx0 [mm, cur, vq, cq, vk, ck, vv, cv]
      ([t1] ++ [t2] ++ [t3] ++ [t4] ++ [t5] ++ seg ++ tail) i t hi
    simpa only [List.append_assoc] using e
  have hk : lookup (s.ctx0 ++ [mm, cur, vq, cq, vk, ck, vv, cv] ++ [t1])
      (.node (s.ctx0.length + 5)) = some ck :=
    lookup_mid s.ctx0 [mm, cur, vq, cq, vk, ck, vv, cv] [t1] 5 ck rfl
  rw [hk] at e2
  cases e2
  refine ⟨cur, vq, vk, vv, L 1 _ rfl, L 2 _ rfl, L 4 _ rfl, L 6 _ rfl, hcur,
    by rw [hvq], by rw [hvq], by rw [hvq]; simp, by rw [hvq]; rfl, by rw [hvq]; rfl,
    by rw [hvq],
    by rw [hvk], by rw [hvk], by rw [hvk]; simp, by rw [hvk]; rfl, by rw [hvk]; rfl,
    by rw [hvk],
    by rw [hvv], by rw [hvv], by rw [hvv]; simp, by rw [hvv]; rfl, by rw [hvv]; rfl,
    by rw [hvv], ?_⟩
  intro hn hh
  rw [hck] at hn2
  simp only [ggml_nelements, new_tensor_ne0, new_tensor_ne1, new_tensor_ne2, new_tensor_ne3,
    mul_one] at hn2
  have e3 : hparams.n_embd_head_v * batch.n_tokens * 1
      = hparams.n_embd_head_v * batch.n_tokens * hparams.n_head_kv := by
    rw [mul_one]
    calc hparams.n_embd_head_v * batch.n_tokens
        = hparams.n_embd_head_v * hparams.n_head_kv * batch.n_tokens := hn2
      _ = hparams.n_embd_head_v * batch.n_tokens * hparams.n_head_kv := by ring
  exact (mul_left_cancel₀ (mul_ne_zero hh hn) e3).symm

theorem attn_run_returns :
    build_phi2_attn (sample_hparams 4 1 1 4 4 1) (sample_cparams 8 false)
      (sample_batch 3 true false) (sample_kv_cache (sample_hparams 4 1 1 4 4 1) 8 0 3)
      (sample_layer true (sample_hparams 4 1 1 4 4 1) 0) (.node 0) (.node 1) (.node 2) 0
      attn_state = .ok (.node 30) (state_of attn_run) := by
  decide!

theorem build_phi2_attn_fused_views_witness :
    ∃ r s2,
      build_phi2_attn (sample_hparams 4 1 1 4 4 1) (sample_cparams 8 false)
        (sample_batch 3 true false) (sample_kv_cache (sample_hparams 4 1 1 4 4 1) 8 0 3)
        (sample_layer true (sample_hparams 4 1 1 4 4 1) 0) (.node 0) (.node 1) (.node 2) 0
        attn_state = .ok r s2
      ∧ ∃ vk, lookup s2.ctx0 (.node 7) = some vk ∧ vk.op = .VIEW ∧ vk.view_offs = 16
        ∧ vk.ne0 = 4 := by
  obtain ⟨cur, vq, vk, vv, -, -, f3, -, -, -, -, -, -, -, -, g1, -, g3, g4, -⟩ :=
    build_phi2_attn_fused_views attn_run_returns rfl
  exact ⟨_, _, attn_run_returns, vk, f3, g1, g3, g4⟩

/-- Claim C15, the scenario. Phi-2 has `n_head_kv = n_head = 32` and a grouped width
`n_embd_v_gqa = 2560`; with the fused `wqkv` the `K` and `V` views of layer `0`
(tensors `11` and `13`) are 80 wide, at byte offsets `4 * 2560` and `4 * (2560 + 80)`,
and the build ends in the assertion of the `K` reshape. -/
theorem fused_views_one_head_wide :
    scenario_hparams.n_head_kv = scenario_hparams.n_head
    ∧ scenario_hparams.n_embd_v_gqa = 2560
    ∧ ((state_of (prefill_run true)).ctx0[11]?).map
        (fun t => (t.op, t.ne0, t.ne1, t.view_offs)) = some (.VIEW, 80, 16, 10240)
    ∧ ((state_of (prefill_run true)).ctx0[13]?).map
        (fun t => (t.op, t.ne0, t.ne1, t.view_offs)) = some (.VIEW, 80, 16, 10560)
    ∧ fault_of (prefill_run true) = some (.op_assert .RESHAPE) := by
  decide!

/-! ## The output selection of the last layer -/

/-- The selection block of the last layer: `inp_out_ids` and the three `GET_ROWS`
tensors, nothing else. -/
theorem build_phi2_gather_fwd {β : Type} {n_outputs : Int} {cur inpL x : tensor_ptr}
    {g : tensor_ptr × tensor_ptr × tensor_ptr → Build β} {s s2 : build_state} {b : β}
    (h : (do
      let inp_out_ids ← build_inp_out_ids n_outputs
      let cur ← ggml_get_rows cur inp_out_ids
      let inpL ← ggml_get_rows inpL inp_out_ids
      let attn_norm_output ← ggml_get_rows x inp_out_ids
      let y ← pure (cur, inpL, attn_norm_output)
      g y : Build β) s = .ok b s2) :
    ∃ g1 g2 g3,
      g (.node (s.ctx0.length + 1), .node (s.ctx0.length + 2), .node (s.ctx0.length + 3))
          { ctx0 := s.ctx0 ++ [{ new_tensor .I32 n_outputs 1 1 1 with is_input := true },
                g1, g2, g3],
            gf := s.gf,
            mctx := { s.mctx with inp_out_ids := some (.node s.ctx0.length) } } = .ok b s2
      ∧ (g1.op = .GET_ROWS ∧ g1.src = [some cur, some (.node s.ctx0.length)]
          ∧ g1.ne1 = n_outputs ∧ g1.ne2 = 1 ∧ g1.ne3 = 1 ∧ g1.is_input = false)
      ∧ (g2.op = .GET_ROWS ∧ g2.src = [some inpL, some (.node s.ctx0.length)]
          ∧ g2.ne1 = n_outputs ∧ g2.ne2 = 1 ∧ g2.ne3 = 1 ∧ g2.is_input = false)
      ∧ (g3.op = .GET_ROWS ∧ g3.src = [some x, some (.node s.ctx0.length)]
          ∧ g3.ne1 = n_outputs ∧ g3.ne2 = 1 ∧ g3.ne3 = 1 ∧ g3.is_input = false) := by
  obtain ⟨ids, s1, h1, h⟩ := bind_ok.mp h
  unfold build_inp_out_ids at h1
  replace h1 := step h1 (fun _ _ => ggml_new_tensor_1d_fwd)
  obtain ⟨t, ht, h1⟩ := h1
  replace h1 := step_set_mctx h1
  replace h1 := step_set_input h1
  obtain ⟨rfl, rfl⟩ := pure_ok.mp h1
  subst ht
  have L : ∀ (m : List ggml_tensor) (tb : ggml_tensor),
      lookup (s.ctx0 ++ [{ new_tensor .I32 n_outputs 1 1 1 with is_input := true }] ++ m)
        (.node s.ctx0.length) = some tb →
      tb = { new_tensor .I32 n_outputs 1 1 1 with is_input := true } := by
    intro m tb e
    have e2 := lookup_mid s.ctx0 [{ new_tensor .I32 n_outputs 1 1 1 with is_input := true }]
      m 0 _ rfl
    rw [Nat.add_zero] at e2
    rw [e2] at e
    exact (Option.some.inj e).symm
  replace h := step h (fun _ _ => ggml_get_rows_fwd)
  obtain ⟨g1, ⟨ta1, tb1, -, e1, -, -, -, hg1⟩, h⟩ := h
  replace h := step h (fun _ _ => ggml_get_rows_fwd)
  obtain ⟨g2, ⟨ta2, tb2, -, e2, -, -, -, hg2⟩, h⟩ := h
  replace h := step h (fun _ _ => ggml_get_rows_fwd)
  obtain ⟨g3, ⟨ta3, tb3, -, e3, -, -, -, hg3⟩, h⟩ := h
  replace h := step_pure h
  dsimp only at e1 e2 e3 hg1 hg2 hg3 h
  have b1 := L [] tb1 (by simpa using e1)
  have b2 := L [g1] tb2 e2
  have b3 := L [g1, g2] tb3 (by simpa using e3)
  subst b1 b2 b3
  simp only [List.length_append, List.length_singleton, List.length_cons, List.length_nil,
    List.append_assoc, List.singleton_append, List.cons_append, List.nil_append,
    Nat.add_assoc, Nat.reduceAdd] at hg1 hg2 hg3 h
  refine ⟨g1, g2, g3, h, ?_, ?_, ?_⟩
  · rw [hg1]; exact ⟨rfl, rfl, rfl, rfl, rfl, rfl⟩
  · rw [hg2]; exact ⟨rfl, rfl, rfl, rfl, rfl, rfl⟩
  · rw [hg3]; exact ⟨rfl, rfl, rfl, rfl, rfl, rfl⟩

/-- Claim C18. One pass of the layer loop, for a layer whose `ffn_up`, `ffn_down` and
both FFN biases are present, ends with exactly seven tensors: `MUL_MAT(ffn_up, x)`,
`ADD(., ffn_up_b)`, `GELU(.)`, `MUL_MAT(ffn_down, .)`, `ADD(., ffn_down_b)` (the FFN
output), `ADD(cur, ffn)` and `ADD(., inpL)`, the last of which is the next `inpL`.
Here `cur`, `inpL` and `x` are the attention output, the layer input and the
normed layer input; in the last layer they are the `GET_ROWS` selections of these,
created directly before. No gate `MUL_MAT`, no `DIV` and no `MUL` stands among them. -/
theorem build_phi2_layer_residual {model : moondream_model} {hparams : moondream_hparams}
    {cparams : moondream_cparams} {batch : moondream_batch} {kv : moondream_kv_cache}
    {inp_pos KQ_mask inpL r : tensor_ptr} {n_outputs : Int} {il : Nat}
    {s s2 : build_state} {layer : moondream_layer} {up up_b down down_b : ext_tensor}
    (h : build_phi2_layer model hparams cparams batch kv inp_pos KQ_mask n_outputs il inpL s
      = .ok r s2)
    (hl : model.layers[il]? = some layer)
    (hup : layer.ffn_up = some up) (hub : layer.ffn_up_b = some up_b)
    (hdn : layer.ffn_down = some down) (hdb : layer.ffn_down_b = some down_b) :
    ∃ x s1 attn s3 front cur res inp t1 t2 t3 t4 t5 t6 t7,
      llm_build_norm inpL hparams (weight_ptr layer.attn_norm) (weight_ptr layer.attn_norm_b)
          .LLM_NORM s = .ok x s1
      ∧ build_phi2_attn hparams cparams batch kv layer x inp_pos KQ_mask il s1 = .ok attn s3
      ∧ ((il : Int) ≠ hparams.n_layer - 1 →
          front = s3.ctx0 ∧ cur = attn ∧ res = inpL ∧ inp = x)
      ∧ ((il : Int) = hparams.n_layer - 1 → ∃ ids g1 g2 g3,
          front = s3.ctx0 ++ [ids, g1, g2, g3]
          ∧ g1.op = .GET_ROWS ∧ g1.src = [some attn, some (.node s3.ctx0.length)]
          ∧ g2.op = .GET_ROWS ∧ g2.src = [some inpL, some (.node s3.ctx0.length)]
          ∧ g3.op = .GET_ROWS ∧ g3.src = [some x, some (.node s3.ctx0.length)]
          ∧ cur = .node (s3.ctx0.length + 1) ∧ res = .node (s3.ctx0.length + 2)
          ∧ inp = .node (s3.ctx0.length + 3))
      ∧ s2.ctx0 = front ++ [t1, t2, t3, t4, t5, t6, t7]
      ∧ t1.op = .MUL_MAT ∧ t1.src = [some (.ext up), some inp]
      ∧ t2.op = .ADD ∧ t2.src = [some (.node front.length), some (.ext up_b)]
      ∧ t3.op = .GELU ∧ t3.src = [some (.node (front.length + 1))]
      ∧ t4.op = .MUL_MAT ∧ t4.src = [some (.ext down), some (.node (front.length + 2))]
      ∧ t5.op = .ADD ∧ t5.src = [some (.node (front.length + 3)), some (.ext down_b)]
      ∧ t6.op = .ADD ∧ t6.src = [some cur, some (.node (front.length + 4))]
      ∧ t7.op = .ADD ∧ t7.src = [some (.node (front.length + 5)), some res]
      ∧ r = .node (front.length + 6) := by
  unfold build_phi2_layer at h
  replace h := step_vec_at h
  obtain ⟨layer2, hl2, h⟩ := h
  rw [hl] at hl2
  cases hl2
  obtain ⟨x, s1, h1, h⟩ := bind_ok.mp h
  obtain ⟨attn, s3, h3, h⟩ := bind_ok.mp h
  rw [hup, hub, hdn, hdb] at h
  simp only [weight_ptr, Option.map_some'] at h
  have key : ∀ (front : List ggml_tensor) (gf : ggml_cgraph) (mctx : moondream_context)
      (cur res inp : tensor_ptr),
      (do
        let ffn_output ← llm_build_ffn inp (some (.ext up)) (some (.ext up_b)) none none
          (some (.ext down)) (some (.ext down_b)) none .LLM_FFN_GELU .LLM_FFN_SEQ
        let c ← ggml_add cur ffn_output
        let c ← ggml_add c res
        pure c : Build tensor_ptr) { ctx0 := front, gf := gf, mctx := mctx } = .ok r s2 →
      ∃ t1 t2 t3 t4 t5 t6 t7, s2.ctx0 = front ++ [t1, t2, t3, t4, t5, t6, t7]
        ∧ t1.op = .MUL_MAT ∧ t1.src = [some (.ext up), some inp]
        ∧ t2.op = .ADD ∧ t2.src = [some (.node front.length), some (.ext up_b)]
        ∧ t3.op = .GELU ∧ t3.src = [some (.node (front.length + 1))]
        ∧ t4.op = .MUL_MAT ∧ t4.src = [some (.ext down), some (.node (front.length + 2))]
        ∧ t5.op = .ADD ∧ t5.src = [some (.node (front.length + 3)), some (.ext down_b)]
        ∧ t6.op = .ADD ∧ t6.src = [some cur, some (.node (front.length + 4))]
        ∧ t7.op = .ADD ∧ t7.src = [some (.node (front.length + 5)), some res]
        ∧ r = .node (front.length + 6) := by
    intro front gf mctx cur res inp h
    obtain ⟨f, s5, h5, h⟩ := bind_ok.mp h
    obtain ⟨t1, t2, t3, t4, t5, rfl, rfl, a1, a2, a3, a4, a5, a6, a7, a8, a9, a10⟩ :=
      llm_build_ffn_phi2_fwd h5
    replace h := step h (fun _ _ => ggml_add_fwd)
    obtain ⟨t6, ⟨ta6, tb6, -, -, -, ht6⟩, h⟩ := h
    replace h := step h (fun _ _ => ggml_add_fwd)
    obtain ⟨t7, ⟨ta7, tb7, -, -, -, ht7⟩, h⟩ := h
    obtain ⟨rfl, rfl⟩ := pure_ok.mp h
    dsimp only at ht6 ht7 a2 a4 a6 a8 a10 ⊢
    simp only [List.length_append, List.length_singleton, List.length_cons, List.length_nil,
      List.append_assoc, List.singleton_append, List.cons_append, List.nil_append,
      Nat.add_assoc, Nat.reduceAdd] at ht6 ht7
    exact ⟨t1, t2, t3, t4, t5, t6, t7, by simp, a1, a2, a3, a4, a5, a6, a7, a8, a9, a10,
      by rw [ht6], by rw [ht6], by rw [ht7], by rw [ht7], by simp⟩
  by_cases he : (il : Int) = hparams.n_layer - 1
  · rw [if_pos he] at h
    obtain ⟨g1, g2, g3, h, b1, b2, b3⟩ := build_phi2_gather_fwd h
    obtain ⟨t1, t2, t3, t4, t5, t6, t7, e, c⟩ := key _ _ _ _ _ _ h
    exact ⟨x, s1, attn, s3, _, _, _, _, t1, t2, t3, t4, t5, t6, t7, h1, h3,
      fun hne => absurd he hne,
      fun _ => ⟨_, g1, g2, g3, rfl, b1.1, b1.2.1, b2.1, b2.2.1, b3.1, b3.2.1, rfl, rfl, rfl⟩,
      e, c⟩
  · rw [if_neg he] at h
    replace h := step_pure h
    obtain ⟨t1, t2, t3, t4, t5, t6, t7, e, c⟩ := key s3.ctx0 s3.gf s3.mctx _ _ _ h
    exact ⟨x, s1, attn, s3, _, _, _, _, t1, t2, t3, t4, t5, t6, t7, h1, h3,
      fun _ => ⟨rfl, rfl, rfl, rfl⟩, fun h2 => absurd h2 he, e, c⟩

theorem layer_run_returns :
    build_phi2_layer
      (sample_model (sample_hparams 4 1 1 4 4 1) (sample_cparams 8 false) true)
      (sample_hparams 4 1 1 4 4 1) (sample_cparams 8 false)
      (sample_batch 3 true false) (sample_kv_cache (sample_hparams 4 1 1 4 4 1) 8 0 3)
      (.node 1) (.node 2) 1 0 (.node 0) attn_state
      = .ok (.node 44) (state_of layer_run) := by
  decide!

theorem build_phi2_layer_residual_witness :
    ∃ r s2,
      build_phi2_layer
        (sample_model (sample_hparams 4 1 1 4 4 1) (sample_cparams 8 false) true)
        (sample_hparams 4 1 1 4 4 1) (sample_cparams 8 false)
        (sample_batch 3 true false) (sample_kv_cache (sample_hparams 4 1 1 4 4 1) 8 0 3)
        (.node 1) (.node 2) 1 0 (.node 0) attn_state = .ok r s2
      ∧ ∃ front cur res t1 t2 t3 t4 t5 t6 t7,
          s2.ctx0 = front ++ [t1, t2, t3, t4, t5, t6, t7]
          ∧ t3.op = .GELU ∧ t6.op = .ADD ∧ t6.src = [some cur, some (.node (front.length + 4))]
          ∧ t7.op = .ADD ∧ t7.src = [some (.node (front.length + 5)), some res]
          ∧ r = .node (front.length + 6) := by
  obtain ⟨x, s1, attn, s3, front, cur, res, inp, t1, t2, t3, t4, t5, t6, t7, -, -, -, -, e,
      -, -, -, -, a5, -, -, -, -, -, a11, a12, a13, a14, a15⟩ :=
    build_phi2_layer_residual layer_run_returns rfl rfl rfl rfl rfl
  exact ⟨_, _, layer_run_returns, front, cur, res, t1, t2, t3, t4, t5, t6, t7, e, a5, a11,
    a12, a13, a14, a15⟩

/-! ## Steps that create no `GET_ROWS` tensor and no input -/

theorem quiet_refl (s : build_state) : quiet s s := ⟨rfl, rfl, rfl⟩

theorem quiet_trans {s s1 s2 : build_state} (h1 : quiet s s1) (h2 : quiet s1 s2) :
    quiet s s2 :=
  ⟨h2.1.trans h1.1, h2.2.1.trans h1.2.1, h2.2.2.trans h1.2.2⟩

theorem quiet_of_alloc {s s2 : build_state} {t : ggml_tensor} {p : tensor_ptr}
    (h : alloc s t p s2) (h1 : t.op ≠ .GET_ROWS) (h2 : t.is_input = false) : quiet s s2 := by
  obtain ⟨-, rfl⟩ := h
  refine ⟨?_, ?_, rfl⟩
  · simp [count_get_rows, List.countP_append, h1]
  · simp [count_inputs, List.countP_append, h2]

theorem countP_set_same {α : Type} (p : α → Bool) (a b : α) (hp : p b = p a) :
    ∀ (l : List α) (i : Nat), l[i]? = some a → (l.set i b).countP p = l.countP p := by
  intro l
  induction l with
  | nil => intro i h; simp at h
  | cons x xs ih =>
    intro i h
    cases i with
    | zero =>
      simp only [List.getElem?_cons_zero, Option.some.injEq] at h
      subst h
      simp [List.countP_cons, hp]
    | succ j =>
      simp only [List.getElem?_cons_succ] at h
      simp [List.countP_cons, ih j h]

theorem quiet_of_set_prec {s : build_state} {i : Nat} {t : ggml_tensor} {prec : ggml_prec}
    (h : s.ctx0[i]? = some t) :
    quiet s { s with ctx0 := s.ctx0.set i { t with prec := prec } } := by
  refine ⟨?_, ?_, rfl⟩
  · unfold count_get_rows
    exact countP_set_same (fun t : ggml_tensor => t.op == .GET_ROWS) t { t with prec := prec }
      rfl s.ctx0 i h
  · unfold count_inputs
    exact countP_set_same (fun t : ggml_tensor => t.is_input) t { t with prec := prec }
      rfl s.ctx0 i h

theorem quiet_pure {α : Type} (a : α) : Quiet (pure a : Build α) := by
  intro s b s2 h
  obtain ⟨-, rfl⟩ := pure_ok.mp h
  exact quiet_refl s

theorem quiet_bind {α β : Type} {x : Build α} {f : α → Build β} (hx : Quiet x)
    (hf : ∀ a, Quiet (f a)) : Quiet (x >>= f) := by
  intro s b s2 h
  obtain ⟨a, s1, h1, h2⟩ := bind_ok.mp h
  exact quiet_trans (hx s a s1 h1) (hf a s1 b s2 h2)

theorem quiet_assert (c : Bool) (f : fault) : Quiet (ggml_assert c f) := by
  intro s b s2 h
  obtain ⟨-, rfl⟩ := assert_ok.mp h
  exact quiet_refl s

theorem quiet_deref (p : tensor_ptr) : Quiet (deref p) := by
  intro s b s2 h
  obtain ⟨-, rfl⟩ := deref_ok.mp h
  exact quiet_refl s

theorem quiet_nonnull (p : Option tensor_ptr) : Quiet (nonnull p) := by
  intro s b s2 h
  obtain ⟨-, rfl⟩ := nonnull_ok.mp h
  exact quiet_refl s

theorem quiet_vec_at {α : Type} (v : List α) (i : Nat) : Quiet (vec_at v i) := by
  intro s b s2 h
  obtain ⟨-, rfl⟩ := vec_at_ok.mp h
  exact quiet_refl s

theorem quiet_expand (t : tensor_ptr) : Quiet (ggml_build_forward_expand t) := by
  intro s b s2 h
  have e := expand_ok.mp h
  subst e
  exact ⟨rfl, rfl, rfl⟩

theorem quiet_of_grows_fwd {op : Build tensor_ptr}
    (hop : ∀ s p s1, op s = .ok p s1 →
      ∃ t, alloc s t p s1 ∧ t.op ≠ .GET_ROWS ∧ t.is_input = false) : Quiet op := by
  intro s p s2 h
  obtain ⟨t, ha, h1, h2⟩ := hop s p s2 h
  exact quiet_of_alloc ha h1 h2

theorem quiet_norm (a : tensor_ptr) (eps : f32) : Quiet (ggml_norm a eps) :=
  quiet_of_grows_fwd (fun _ _ _ h => by
    obtain ⟨t, ha, ta, -, rfl⟩ := ggml_norm_fwd h
    exact ⟨_, ha, by simp, rfl⟩)

theorem quiet_rms_norm (a : tensor_ptr) (eps : f32) : Quiet (ggml_rms_norm a eps) :=
  quiet_of_grows_fwd (fun _ _ _ h => by
    obtain ⟨t, ha, ta, -, rfl⟩ := ggml_rms_norm_fwd h
    exact ⟨_, ha, by simp, rfl⟩)

theorem quiet_mul (a b : tensor_ptr) : Quiet (ggml_mul a b) :=
  quiet_of_grows_fwd (fun _ _ _ h => by
    obtain ⟨t, ha, ta, tb, -, -, -, rfl⟩ := ggml_mul_fwd h
    exact ⟨_, ha, by simp, rfl⟩)

theorem quiet_add (a b : tensor_ptr) : Quiet (ggml_add a b) :=
  quiet_of_grows_fwd (fun _ _ _ h => by
    obtain ⟨t, ha, ta, tb, -, -, -, rfl⟩ := ggml_add_fwd h
    exact ⟨_, ha, by simp, rfl⟩)

theorem quiet_gelu (a : tensor_ptr) : Quiet (ggml_gelu a) :=
  quiet_of_grows_fwd (fun _ _ _ h => by
    obtain ⟨t, ha, ta, -, rfl⟩ := ggml_gelu_fwd h
    exact ⟨_, ha, by simp, rfl⟩)

theorem quiet_mul_mat (a b : tensor_ptr) : Quiet (ggml_mul_mat a b) :=
  quiet_of_grows_fwd (fun _ _ _ h => by
    obtain ⟨t, ha, ta, tb, -, -, -, -, rfl⟩ := ggml_mul_mat_fwd h
    exact ⟨_, ha, by simp, rfl⟩)

theorem quiet_scale (a : tensor_ptr) (sc : f32) : Quiet (ggml_scale a sc) :=
  quiet_of_grows_fwd (fun _ _ _ h => by
    obtain ⟨t, ha, ta, -, rfl⟩ := ggml_scale_fwd h
    exact ⟨_, ha, by simp, rfl⟩)

theorem quiet_cont (a : tensor_ptr) : Quiet (ggml_cont a) :=
  quiet_of_grows_fwd (fun _ _ _ h => by
    obtain ⟨t, ha, ta, -, rfl⟩ := ggml_cont_fwd h
    exact ⟨_, ha, by simp, rfl⟩)

theorem quiet_cont_2d (a : tensor_ptr) (ne0 ne1 : Int) : Quiet (ggml_cont_2d a ne0 ne1) :=
  quiet_of_grows_fwd (fun _ _ _ h => by
    obtain ⟨t, ha, ta, -, -, rfl⟩ := ggml_cont_2d_fwd h
    exact ⟨_, ha, by simp, rfl⟩)

theorem quiet_cpy (a b : tensor_ptr) : Quiet (ggml_cpy a b) :=
  quiet_of_grows_fwd (fun _ _ _ h => by
    obtain ⟨t, ha, ta, tb, -, -, -, rfl⟩ := ggml_cpy_fwd h
    exact ⟨_, ha, by simp, rfl⟩)

theorem quiet_reshape_2d (a : tensor_ptr) (ne0 ne1 : Int) :
    Quiet (ggml_reshape_2d a ne0 ne1) :=
  quiet_of_grows_fwd (fun _ _ _ h => by
    obtain ⟨t, ha, ta, -, -, -, rfl⟩ := ggml_reshape_2d_fwd h
    exact ⟨_, ha, by simp, rfl⟩)

theorem quiet_reshape_3d (a : tensor_ptr) (ne0 ne1 ne2 : Int) :
    Quiet (ggml_reshape_3d a ne0 ne1 ne2) :=
  quiet_of_grows_fwd (fun _ _ _ h => by
    obtain ⟨t, ha, ta, -, -, -, rfl⟩ := ggml_reshape_3d_fwd h
    exact ⟨_, ha, by simp, rfl⟩)

theorem quiet_view_1d (a : tensor_ptr) (ne0 offset : Int) :
    Quiet (ggml_view_1d a ne0 offset) :=
  quiet_of_grows_fwd (fun _ _ _ h => by
    obtain ⟨t, ha, ta, -, rfl⟩ := ggml_view_1d_fwd h
    exact ⟨_, ha, by simp, rfl⟩)

theorem quiet_view_2d (a : tensor_ptr) (ne0 ne1 nb1 offset : Int) :
    Quiet (ggml_view_2d a ne0 ne1 nb1 offset) :=
  quiet_of_grows_fwd (fun _ _ _ h => by
    obtain ⟨t, ha, ta, -, rfl⟩ := ggml_view_2d_fwd h
    exact ⟨_, ha, by simp, rfl⟩)

theorem quiet_view_3d (a : tensor_ptr) (ne0 ne1 ne2 nb1 nb2 offset : Int) :
    Quiet (ggml_view_3d a ne0 ne1 ne2 nb1 nb2 offset) :=
  quiet_of_grows_fwd (fun _ _ _ h => by
    obtain ⟨t, ha, ta, -, rfl⟩ := ggml_view_3d_fwd h
    exact ⟨_, ha, by simp, rfl⟩)

theorem quiet_permute_0213 (a : tensor_ptr) : Quiet (ggml_permute a 0 2 1 3) :=
  quiet_of_grows_fwd (fun _ _ _ h => by
    obtain ⟨t, ha, ta, -, rfl⟩ := ggml_permute_0213_fwd h
    exact ⟨_, ha, by simp, rfl⟩)

theorem quiet_transpose (a : tensor_ptr) : Quiet (ggml_transpose a) :=
  quiet_of_grows_fwd (fun _ _ _ h => by
    obtain ⟨t, ha, ta, -, rfl⟩ := ggml_transpose_fwd h
    exact ⟨_, ha, by simp, rfl⟩)

theorem quiet_rope_ext_none (a b : tensor_ptr) (n_dims mode n_ctx n_ctx_orig : Int)
    (f1 f2 f3 f4 f5 f6 : f32) :
    Quiet (ggml_rope_ext a b none n_dims mode n_ctx n_ctx_orig f1 f2 f3 f4 f5 f6) :=
  quiet_of_grows_fwd (fun _ _ _ h => by
    obtain ⟨t, ha, ta, -, rfl⟩ := ggml_rope_ext_none_fwd h
    exact ⟨_, ha, by simp, rfl⟩)

theorem quiet_soft_max_ext (a mask : tensor_ptr) (scale max_bias : f32) :
    Quiet (ggml_soft_max_ext a mask scale max_bias) :=
  quiet_of_grows_fwd (fun _ _ _ h => by
    obtain ⟨t, ha, ta, -, rfl⟩ := ggml_soft_max_ext_fwd h
    exact ⟨_, ha, by simp, rfl⟩)

theorem quiet_flash_attn_ext (q k v mask : tensor_ptr) (scale max_bias : f32) :
    Quiet (ggml_flash_attn_ext q k v mask scale max_bias) :=
  quiet_of_grows_fwd (fun _ _ _ h => by
    obtain ⟨t, ha, ta, -, rfl⟩ := ggml_flash_attn_ext_fwd h
    exact ⟨_, ha, by simp, rfl⟩)

theorem quiet_mul_mat_set_prec (a : tensor_ptr) (prec : ggml_prec) :
    Quiet (ggml_mul_mat_set_prec a prec) := by
  intro s u s2 h
  obtain ⟨i, t, -, e, -, rfl⟩ := ggml_mul_mat_set_prec_ok.mp h
  exact quiet_of_set_prec e

theorem quiet_flash_attn_ext_set_prec (a : tensor_ptr) (prec : ggml_prec) :
    Quiet (ggml_flash_attn_ext_set_prec a prec) := by
  intro s u s2 h
  obtain ⟨i, t, -, e, -, rfl⟩ := ggml_flash_attn_ext_set_prec_ok.mp h
  exact quiet_of_set_prec e

theorem quiet_llm_build_norm (cur : tensor_ptr) (hparams : moondream_hparams)
    (mw mb : Option tensor_ptr) (type : llm_norm_type) :
    Quiet (llm_build_norm cur hparams mw mb type) := by
  unfold Moondream.llm_build_norm
  cases type <;> cases mw <;> cases mb <;> dsimp only <;>
    repeat' first
      | exact quiet_pure _
      | exact quiet_norm _ _
      | exact quiet_rms_norm _ _
      | exact quiet_mul _ _
      | exact quiet_add _ _
      | apply quiet_bind
      | intro _

theorem quiet_build_phi2_qkv (layer : moondream_layer) (x : tensor_ptr)
    (n_embd n_embd_gqa n_tokens : Int) :
    Quiet (build_phi2_qkv layer x n_embd n_embd_gqa n_tokens) := by
  unfold Moondream.build_phi2_qkv
  cases layer.wqkv <;> dsimp only <;>
    repeat' first
      | exact quiet_pure _
      | exact quiet_nonnull _
      | exact quiet_deref _
      | exact quiet_mul_mat _ _
      | exact quiet_add _ _
      | exact quiet_cont _
      | exact quiet_view_2d _ _ _ _ _
      | apply quiet_bind
      | intro _

theorem quiet_llm_build_ffn_phi2 (cur : tensor_ptr) (up up_b down down_b : Option tensor_ptr) :
    Quiet (llm_build_ffn cur up up_b none none down down_b none .LLM_FFN_GELU .LLM_FFN_SEQ) := by
  unfold Moondream.llm_build_ffn
  cases up <;> cases up_b <;> cases down_b <;>
    simp only [reduceCtorEq, if_false] <;>
    repeat' first
      | exact quiet_pure _
      | exact quiet_nonnull _
      | exact quiet_mul_mat _ _
      | exact quiet_add _ _
      | exact quiet_gelu _
      | apply quiet_bind
      | intro _

theorem stepq {α β : Type} {op : Build α} {g : α → Build β} {s0 s s2 : build_state} {b : β}
    (q : quiet s0 s) (h : (op >>= g) s = .ok b s2) (hq : Quiet op) :
    ∃ a s1, quiet s0 s1 ∧ g a s1 = .ok b s2 := by
  obtain ⟨a, s1, h1, h2⟩ := bind_ok.mp h
  exact ⟨a, s1, quiet_trans q (hq s a s1 h1), h2⟩

theorem quiet_llm_build_kv_store (hparams : moondream_hparams) (cparams : moondream_cparams)
    (kv : moondream_kv_cache) (k_cur v_cur : tensor_ptr) (n_tokens kv_head : Int) (il : Nat) :
    Quiet (llm_build_kv_store hparams cparams kv k_cur v_cur n_tokens kv_head il) := by
  intro s u s2 h
  unfold Moondream.llm_build_kv_store at h
  obtain ⟨_, _, q, h⟩ := stepq (quiet_refl s) h (quiet_assert _ _)
  obtain ⟨_, _, q, h⟩ := stepq q h (quiet_vec_at _ _)
  obtain ⟨_, _, q, h⟩ := stepq q h (quiet_view_1d _ _ _)
  obtain ⟨_, _, q, h⟩ := stepq q h (quiet_cpy _ _)
  obtain ⟨_, _, q, h⟩ := stepq q h (quiet_expand _)
  obtain ⟨_, _, q, h⟩ := stepq q h (quiet_deref _)
  obtain ⟨_, _, q, h⟩ := stepq q h (quiet_assert _ _)
  by_cases hf : cparams.flash_attn = true
  · rw [if_pos hf] at h
    obtain ⟨_, _, q, h⟩ := stepq q h (quiet_vec_at _ _)
    obtain ⟨_, _, q, h⟩ := stepq q h (quiet_view_1d _ _ _)
    obtain ⟨_, _, q, h⟩ := stepq q h (quiet_cpy _ _)
    exact quiet_trans q (quiet_expand _ _ _ _ h)
  · rw [if_neg hf] at h
    obtain ⟨_, _, q, h⟩ := stepq q h (quiet_vec_at _ _)
    obtain ⟨_, _, q, h⟩ := stepq q h (quiet_view_2d _ _ _ _ _)
    obtain ⟨_, _, q, h⟩ := stepq q h (quiet_transpose _)
    obtain ⟨_, _, q, h⟩ := stepq q h (quiet_cpy _ _)
    exact quiet_trans q (quiet_expand _ _ _ _ h)

theorem kqv_tail_quiet (wo wo_b : Option tensor_ptr) (cur : tensor_ptr) :
    Quiet (do
      let wo ← nonnull wo
      let cur ← ggml_mul_mat wo cur
      match wo_b with
      | some b => ggml_add cur b
      | none => pure cur : Build tensor_ptr) := by
  cases wo_b <;> dsimp only <;>
    repeat' first
      | exact quiet_pure _
      | exact quiet_nonnull _
      | exact quiet_mul_mat _ _
      | exact quiet_add _ _
      | apply quiet_bind
      | intro _

theorem quiet_llm_build_kqv (hparams : moondream_hparams) (cparams : moondream_cparams)
    (kv : moondream_kv_cache) (wo wo_b : Option tensor_ptr) (q_cur kq_mask : tensor_ptr)
    (n_tokens n_kv : Int) (kq_scale : f32) (il : Nat) :
    Quiet (llm_build_kqv hparams cparams kv wo wo_b q_cur kq_mask n_tokens n_kv kq_scale il) := by
  intro s u s2 h
  unfold Moondream.llm_build_kqv at h
  obtain ⟨_, _, q, h⟩ := stepq (quiet_refl s) h (quiet_permute_0213 _)
  obtain ⟨_, _, q, h⟩ := stepq q h (quiet_vec_at _ _)
  obtain ⟨_, _, q, h⟩ := stepq q h (quiet_view_3d _ _ _ _ _ _ _)
  by_cases hf : cparams.flash_attn = true
  · rw [if_pos hf] at h
    beta_reduce at h
    obtain ⟨_, _, q, h⟩ := stepq q h (quiet_vec_at _ _)
    obtain ⟨_, _, q, h⟩ := stepq q h (quiet_view_3d _ _ _ _ _ _ _)
    obtain ⟨_, _, q, h⟩ := stepq q h (quiet_flash_attn_ext _ _ _ _ _ _)
    obtain ⟨_, _, q, h⟩ := stepq q h (quiet_flash_attn_ext_set_prec _ _)
    obtain ⟨_, _, q, h⟩ := stepq q h (quiet_reshape_2d _ _ _)
    obtain ⟨_, _, q, h⟩ := stepq q h (quiet_expand _)
    exact quiet_trans q (kqv_tail_quiet _ _ _ _ _ _ h)
  · rw [if_neg hf] at h
    beta_reduce at h
    obtain ⟨_, _, q, h⟩ := stepq q h (quiet_mul_mat _ _)
    obtain ⟨_, _, q, h⟩ := stepq q h (quiet_mul_mat_set_prec _ _)
    obtain ⟨_, _, q, h⟩ := stepq q h (quiet_soft_max_ext _ _ _ _)
    obtain ⟨_, _, q, h⟩ := stepq q h (quiet_assert _ _)
    obtain ⟨_, _, q, h⟩ := stepq q h (quiet_vec_at _ _)
    obtain ⟨_, _, q, h⟩ := stepq q h (quiet_view_3d _ _ _ _ _ _ _)
    obtain ⟨_, _, q, h⟩ := stepq q h (quiet_mul_mat _ _)
    obtain ⟨_, _, q, h⟩ := stepq q h (quiet_permute_0213 _)
    obtain ⟨_, _, q, h⟩ := stepq q h (quiet_cont_2d _ _ _)
    obtain ⟨_, _, q, h⟩ := stepq q h (quiet_expand _)
    exact quiet_trans q (kqv_tail_quiet _ _ _ _ _ _ h)

theorem quiet_llm_build_kv (hparams : moondream_hparams) (cparams : moondream_cparams)
    (kv : moondream_kv_cache) (wo wo_b : Option tensor_ptr)
    (k_cur v_cur q_cur kq_mask : tensor_ptr) (n_tokens kv_head n_kv : Int)
    (kq_scale : f32) (il : Nat) :
    Quiet (llm_build_kv hparams cparams kv wo wo_b k_cur v_cur q_cur kq_mask n_tokens kv_head
      n_kv kq_scale il) := by
  unfold Moondream.llm_build_kv
  repeat' first
    | exact quiet_expand _
    | exact quiet_llm_build_kv_store _ _ _ _ _ _ _ _
    | exact quiet_llm_build_kqv _ _ _ _ _ _ _ _ _ _ _
    | apply quiet_bind
    | intro _

theorem quiet_build_phi2_attn (hparams : moondream_hparams) (cparams : moondream_cparams)
    (batch : moondream_batch) (kv : moondream_kv_cache) (layer : moondream_layer)
    (x inp_pos KQ_mask : tensor_ptr) (il : Nat) :
    Quiet (build_phi2_attn hparams cparams batch kv layer x inp_pos KQ_mask il) := by
  unfold Moondream.build_phi2_attn
  dsimp only
  repeat' first
    | exact quiet_build_phi2_qkv _ _ _ _ _
    | exact quiet_reshape_3d _ _ _ _
    | exact quiet_rope_ext_none _ _ _ _ _ _ _ _ _ _ _ _
    | exact quiet_scale _ _
    | exact quiet_llm_build_kv _ _ _ _ _ _ _ _ _ _ _ _ _ _
    | apply quiet_bind
    | intro _

/-! ## Where the output selection is -/

theorem quiet_back {s s2 : build_state} (g : grows s s2) (q : quiet s s2) :
    ∃ back, s2.ctx0 = s.ctx0 ++ back ∧ count_get_rows back = 0 ∧ count_inputs back = 0
      ∧ s2.gf = s.gf ∧ s2.mctx = s.mctx := by
  obtain ⟨hg, back, e⟩ := g
  obtain ⟨q1, q2, q3⟩ := q
  rw [e] at q1 q2
  simp only [count_get_rows, count_inputs, List.countP_append] at q1 q2 ⊢
  exact ⟨back, e, by omega, by omega, hg, q3⟩

theorem quiet_layer_rest (layer : moondream_layer)
    (sel : tensor_ptr × tensor_ptr × tensor_ptr) :
    Quiet (do
      let ffn_output ← llm_build_ffn sel.2.2 (weight_ptr layer.ffn_up)
        (weight_ptr layer.ffn_up_b) none none (weight_ptr layer.ffn_down)
        (weight_ptr layer.ffn_down_b) none .LLM_FFN_GELU .LLM_FFN_SEQ
      let cur ← ggml_add sel.1 ffn_output
      let cur ← ggml_add cur sel.2.1
      Pure.pure cur : Build tensor_ptr) := by
  repeat' first
    | exact quiet_pure _
    | exact quiet_llm_build_ffn_phi2 _ _ _ _ _
    | exact quiet_add _ _
    | apply quiet_bind
    | intro _

theorem quiet_layer_other (model : moondream_model) (hparams : moondream_hparams)
    (cparams : moondream_cparams) (batch : moondream_batch) (kv : moondream_kv_cache)
    (inp_pos KQ_mask : tensor_ptr) (n_outputs : Int) (il : Nat) (inpL : tensor_ptr)
    (hne : (il : Int) ≠ hparams.n_layer - 1) :
    Quiet (build_phi2_layer model hparams cparams batch kv inp_pos KQ_mask n_outputs il
      inpL) := by
  intro s r s2 h
  unfold Moondream.build_phi2_layer at h
  obtain ⟨layer, _, q, h⟩ := stepq (quiet_refl s) h (quiet_vec_at _ _)
  obtain ⟨x, _, q, h⟩ := stepq q h (quiet_llm_build_norm _ _ _ _ _)
  obtain ⟨attn, _, q, h⟩ := stepq q h (quiet_build_phi2_attn _ _ _ _ _ _ _ _ _)
  rw [if_neg hne] at h
  replace h := step_pure h
  exact quiet_trans q (quiet_layer_rest layer (attn, inpL, x) _ _ _ h)

theorem build_phi2_layers_quiet (model : moondream_model) (hparams : moondream_hparams)
    (cparams : moondream_cparams) (batch : moondream_batch) (kv : moondream_kv_cache)
    (inp_pos KQ_mask : tensor_ptr) (n_outputs : Int) (k : Nat) :
    ∀ (il : Nat) (inpL : tensor_ptr),
      (∀ j, il ≤ j → j < il + k → (j : Int) ≠ hparams.n_layer - 1) →
      Quiet (build_phi2_layers model hparams cparams batch kv inp_pos KQ_mask n_outputs k il
        inpL) := by
  induction k with
  | zero =>
    intro il inpL _
    unfold build_phi2_layers
    exact quiet_pure _
  | succ k ih =>
    intro il inpL hj
    unfold build_phi2_layers
    refine quiet_bind (quiet_layer_other _ _ _ _ _ _ _ _ _ _ (hj il (le_refl il) (by omega)))
      (fun y => ih (il + 1) y (fun j h1 h2 => hj j (by omega) (by omega)))

theorem build_phi2_layers_snoc {model : moondream_model} {hparams : moondream_hparams}
    {cparams : moondream_cparams} {batch : moondream_batch} {kv : moondream_kv_cache}
    {inp_pos KQ_mask : tensor_ptr} {n_outputs : Int} (k : Nat) :
    ∀ (il : Nat) (inpL r : tensor_ptr) (s s2 : build_state),
      build_phi2_layers model hparams cparams batch kv inp_pos KQ_mask n_outputs (k + 1) il
        inpL s = .ok r s2 →
      ∃ y s1,
        build_phi2_layers model hparams cparams batch kv inp_pos KQ_mask n_outputs k il
          inpL s = .ok y s1
        ∧ build_phi2_layer model hparams cparams batch kv inp_pos KQ_mask n_outputs (il + k)
          y s1 = .ok r s2 := by
  induction k with
  | zero =>
    intro il inpL r s s2 h
    unfold build_phi2_layers at h
    obtain ⟨y, s1, h1, h⟩ := bind_ok.mp h
    unfold build_phi2_layers at h
    obtain ⟨rfl, rfl⟩ := pure_ok.mp h
    exact ⟨inpL, s, by unfold build_phi2_layers; rfl, h1⟩
  | succ k ih =>
    intro il inpL r s s2 h
    unfold build_phi2_layers at h
    obtain ⟨y, s1, h1, h⟩ := bind_ok.mp h
    obtain ⟨z, s3, h3, h4⟩ := ih (il + 1) y r s1 s2 h
    refine ⟨z, s3, ?_, ?_⟩
    · unfold build_phi2_layers
      exact bind_ok.mpr ⟨y, s1, h1, h3⟩
    · have e : il + (k + 1) = il + 1 + k := by omega
      rw [e]
      exact h4

theorem ggml_mul_mat_columns {a b p : tensor_ptr} {s s2 : build_state} {n : Int}
    (h : ggml_mul_mat a b s = .ok p s2) (hb : columns s.ctx0 b n) : columns s2.ctx0 p n := by
  obtain ⟨t, ⟨rfl, rfl⟩, ta, tb, -, e, -, -, ht⟩ := ggml_mul_mat_fwd h
  obtain ⟨tb2, e2, h1, h2, h3⟩ := hb
  rw [e] at e2
  cases e2
  refine ⟨t, lookup_snoc_last _ _, ?_, ?_, ?_⟩
  · rw [ht]; exact h1
  · rw [ht]; exact h2
  · rw [ht]; exact h3

/-- The last pass of the layer loop: after the attention block come `inp_out_ids`, the
three `GET_ROWS` tensors, and then tensors among which there is no further `GET_ROWS`
and no input; the result has `n_outputs` columns. -/
theorem build_phi2_layer_last_fwd {model : moondream_model} {hparams : moondream_hparams}
    {cparams : moondream_cparams} {batch : moondream_batch} {kv : moondream_kv_cache}
    {inp_pos KQ_mask inpL r : tensor_ptr} {n_outputs : Int} {il : Nat}
    {s s2 : build_state}
    (h : build_phi2_layer model hparams cparams batch kv inp_pos KQ_mask n_outputs il inpL s
      = .ok r s2)
    (he : (il : Int) = hparams.n_layer - 1) :
    ∃ layer x s1 attn s3 g1 g2 g3 back,
      model.layers[il]? = some layer
      ∧ llm_build_norm inpL hparams (weight_ptr layer.attn_norm)
          (weight_ptr layer.attn_norm_b) .LLM_NORM s = .ok x s1
      ∧ build_phi2_attn hparams cparams batch kv layer x inp_pos KQ_mask il s1 = .ok attn s3
      ∧ quiet s s3
      ∧ s2.ctx0 = s3.ctx0
          ++ [{ new_tensor .I32 n_outputs 1 1 1 with is_input := true }, g1, g2, g3] ++ back
      ∧ s2.gf = s3.gf
      ∧ s2.mctx = { s3.mctx with inp_out_ids := some (.node s3.ctx0.length) }
      ∧ (g1.op = .GET_ROWS ∧ g1.src = [some attn, some (.node s3.ctx0.length)]
          ∧ g1.ne1 = n_outputs ∧ g1.ne2 = 1 ∧ g1.ne3 = 1 ∧ g1.is_input = false)
      ∧ (g2.op = .GET_ROWS ∧ g2.src = [some inpL, some (.node s3.ctx0.length)]
          ∧ g2.ne1 = n_outputs ∧ g2.ne2 = 1 ∧ g2.ne3 = 1 ∧ g2.is_input = false)
      ∧ (g3.op = .GET_ROWS ∧ g3.src = [some x, some (.node s3.ctx0.length)]
          ∧ g3.ne1 = n_outputs ∧ g3.ne2 = 1 ∧ g3.ne3 = 1 ∧ g3.is_input = false)
      ∧ count_get_rows back = 0 ∧ count_inputs back = 0
      ∧ columns s2.ctx0 r n_outputs := by
  unfold build_phi2_layer at h
  replace h := step_vec_at h
  obtain ⟨layer, hl, h⟩ := h
  obtain ⟨x, s1, h1, h⟩ := bind_ok.mp h
  obtain ⟨attn, s3, h3, h⟩ := bind_ok.mp h
  have q3 : quiet s s3 :=
    quiet_trans (quiet_llm_build_norm _ _ _ _ _ _ _ _ h1)
      (quiet_build_phi2_attn _ _ _ _ _ _ _ _ _ _ _ _ h3)
  rw [if_pos he] at h
  obtain ⟨g1, g2, g3, h, b1, b2, b3⟩ := build_phi2_gather_fwd h
  have c1 : columns (s3.ctx0
      ++ [{ new_tensor .I32 n_outputs 1 1 1 with is_input := true }, g1, g2, g3])
      (.node (s3.ctx0.length + 1)) n_outputs := by
    have e := lookup_mid s3.ctx0
      [{ new_tensor .I32 n_outputs 1 1 1 with is_input := true }, g1, g2, g3] [] 1 g1 rfl
    rw [List.append_nil] at e
    exact ⟨g1, e, b1.2.2.1, b1.2.2.2.1, b1.2.2.2.2.1⟩
  obtain ⟨f, s5, h5, h⟩ := bind_ok.mp h
  have gr5 := llm_build_ffn_phi2_grows _ _ _ _ _ _ _ _ h5
  have q5 := quiet_llm_build_ffn_phi2 _ _ _ _ _ _ _ _ h5
  have c5 := columns_grows c1 gr5
  obtain ⟨c, s6, h6, h⟩ := bind_ok.mp h
  have gr6 := Grows.add _ _ _ _ _ h6
  have q6 := quiet_add _ _ _ _ _ h6
  have c6 := ggml_add_columns h6 c5
  obtain ⟨c2, s7, h7, h⟩ := bind_ok.mp h
  have gr7 := Grows.add _ _ _ _ _ h7
  have q7 := quiet_add _ _ _ _ _ h7
  have c7 := ggml_add_columns h7 c6
  obtain ⟨rfl, rfl⟩ := pure_ok.mp h
  obtain ⟨back, e, n1, n2, eg, em⟩ :=
    quiet_back (grows_trans (grows_trans gr5 gr6) gr7) (quiet_trans (quiet_trans q5 q6) q7)
  exact ⟨layer, x, s1, attn, s3, g1, g2, g3, back, hl, h1, h3, q3, e, eg, em, b1, b2, b3, n1,
    n2, c7⟩

/-! ## The output selection in a whole build -/

theorem llm_build_inp_embd_counts {hparams : moondream_hparams} {batch : moondream_batch}
    {tok_embd : Option tensor_ptr} {s s2 : build_state} {r : tensor_ptr}
    (h : llm_build_inp_embd hparams batch tok_embd s = .ok r s2) :
    count_get_rows s2.ctx0
        = count_get_rows s.ctx0 + (if batch.token.isSome then 1 else 0)
      ∧ count_inputs s2.ctx0 = count_inputs s.ctx0 + 1 := by
  unfold llm_build_inp_embd at h
  by_cases hb : batch.token.isSome = true
  · rw [if_pos hb] at h
    replace h := step h (fun _ _ => ggml_new_tensor_1d_fwd)
    obtain ⟨t, ht, h⟩ := h
    replace h := step_set_mctx h
    replace h := step_set_input h
    replace h := step_nonnull h
    obtain ⟨w, -, h⟩ := h
    obtain ⟨t2, ⟨-, rfl⟩, ta, tb, -, -, -, -, -, ht2⟩ := ggml_get_rows_fwd h
    subst ht ht2
    simp [count_get_rows, count_inputs, List.countP_append, List.countP_cons, hb, new_tensor]
  · rw [if_neg hb] at h
    replace h := step h (fun _ _ => ggml_new_tensor_2d_fwd)
    obtain ⟨t, ht, h⟩ := h
    replace h := step_set_mctx h
    replace h := step_set_input h
    obtain ⟨-, rfl⟩ := pure_ok.mp h
    subst ht
    simp [count_get_rows, count_inputs, List.countP_append, List.countP_cons, hb, new_tensor]

theorem build_inp_pos_counts {batch : moondream_batch} {s s2 : build_state} {r : tensor_ptr}
    (h : build_inp_pos batch s = .ok r s2) :
    count_get_rows s2.ctx0 = count_get_rows s.ctx0
      ∧ count_inputs s2.ctx0 = count_inputs s.ctx0 + 1 := by
  unfold build_inp_pos at h
  replace h := step h (fun _ _ => ggml_new_tensor_1d_fwd)
  obtain ⟨t, ht, h⟩ := h
  replace h := step_set_mctx h
  replace h := step_set_input h
  obtain ⟨-, rfl⟩ := pure_ok.mp h
  subst ht
  simp [count_get_rows, count_inputs, List.countP_append, List.countP_cons, new_tensor]

theorem build_inp_KQ_mask_counts {batch : moondream_batch} {cparams : moondream_cparams}
    {n_kv : Int} {s s2 : build_state} {r : tensor_ptr}
    (h : build_inp_KQ_mask batch cparams n_kv s = .ok r s2) :
    count_get_rows s2.ctx0 = count_get_rows s.ctx0
      ∧ count_inputs s2.ctx0 = count_inputs s.ctx0 + 1 := by
  rw [build_inp_KQ_mask_run] at h
  by_cases hf : cparams.flash_attn = true
  · rw [if_pos hf] at h
    cases h
    simp [count_get_rows, count_inputs, List.countP_append, List.countP_cons, new_tensor]
  · rw [if_neg hf] at h
    cases h
    simp [count_get_rows, count_inputs, List.countP_append, List.countP_cons, new_tensor]

theorem build_phi2_selection_fwd {model : moondream_model} {hparams : moondream_hparams}
    {cparams : moondream_cparams} {batch : moondream_batch} {kv : moondream_kv_cache}
    {s s2 : build_state} {gf : ggml_cgraph}
    (h : build_phi2 model hparams cparams batch kv s = .ok gf s2)
    (hn : 1 ≤ hparams.n_layer) :
    ∃ layer inpL inp_pos KQ_mask s0 x s1 attn s3 g1 g2 g3 back logits,
      model.layers[hparams.n_layer.toNat - 1]? = some layer
      ∧ llm_build_norm inpL hparams (weight_ptr layer.attn_norm)
          (weight_ptr layer.attn_norm_b) .LLM_NORM s0 = .ok x s1
      ∧ build_phi2_attn hparams cparams batch kv layer x inp_pos KQ_mask
          (hparams.n_layer.toNat - 1) s1 = .ok attn s3
      ∧ s2.ctx0 = s3.ctx0
          ++ [{ new_tensor .I32 s.mctx.n_outputs 1 1 1 with is_input := true }, g1, g2, g3]
          ++ back
      ∧ s2.mctx.inp_out_ids = some (.node s3.ctx0.length)
      ∧ (g1.op = .GET_ROWS ∧ g1.src = [some attn, some (.node s3.ctx0.length)])
      ∧ (g2.op = .GET_ROWS ∧ g2.src = [some inpL, some (.node s3.ctx0.length)])
      ∧ (g3.op = .GET_ROWS ∧ g3.src = [some x, some (.node s3.ctx0.length)])
      ∧ count_get_rows s3.ctx0
          = count_get_rows s.ctx0 + (if batch.token.isSome then 1 else 0)
      ∧ count_inputs s3.ctx0 = count_inputs s.ctx0 + 3
      ∧ count_get_rows back = 0 ∧ count_inputs back = 0
      ∧ (g1.is_input = false ∧ g2.is_input = false ∧ g3.is_input = false)
      ∧ gf.expanded.getLast? = some logits
      ∧ columns s2.ctx0 logits s.mctx.n_outputs := by
  unfold build_phi2 at h
  obtain ⟨u, sa, h1, h⟩ := bind_ok.mp h
  have e1 := ggml_new_graph_custom_ok.mp h1
  subst e1
  obtain ⟨m, sa, h1, h⟩ := bind_ok.mp h
  obtain ⟨rfl, rfl⟩ := get_mctx_ok.mp h1
  replace h := step_assert h
  obtain ⟨-, h⟩ := h
  obtain ⟨inpL0, sb, hb, h⟩ := bind_ok.mp h
  obtain ⟨cb1, cb2⟩ := llm_build_inp_embd_counts hb
  obtain ⟨inp_pos, sc, hc, h⟩ := bind_ok.mp h
  obtain ⟨cc1, cc2⟩ := build_inp_pos_counts hc
  obtain ⟨KQ_mask, sd, hd, h⟩ := bind_ok.mp h
  obtain ⟨cd1, cd2⟩ := build_inp_KQ_mask_counts hd
  obtain ⟨r, se, he, h⟩ := bind_ok.mp h
  obtain ⟨k, hk⟩ : ∃ k, hparams.n_layer.toNat = k + 1 := ⟨hparams.n_layer.toNat - 1, by omega⟩
  have hki : ((0 + k : Nat) : Int) = hparams.n_layer - 1 := by omega
  rw [hk] at he
  obtain ⟨y, sf, hf, hlast⟩ := build_phi2_layers_snoc k 0 inpL0 r sd se he
  obtain ⟨qf1, qf2, -⟩ := build_phi2_layers_quiet model hparams cparams batch kv inp_pos KQ_mask
    _ k 0 inpL0 (fun j _ hj => by omega) sd y sf hf
  obtain ⟨layer, x, s1, attn, s3, g1, g2, g3, back, hl, hx, ha, ⟨q31, q32, -⟩, ectx, -, em, b1,
    b2, b3, n1, n2, cr⟩ := build_phi2_layer_last_fwd hlast hki
  obtain ⟨z, sg, hg, h⟩ := bind_ok.mp h
  have grg := llm_build_norm_grows _ _ _ _ _ _ _ _ hg
  have qg := quiet_llm_build_norm _ _ _ _ _ _ _ _ hg
  have cg := llm_build_norm_columns hg cr
  replace h := step_nonnull h
  obtain ⟨ow, -, h⟩ := h
  obtain ⟨p1, sh, hh, h⟩ := bind_ok.mp h
  have grh := Grows.mul_mat _ _ _ _ _ hh
  have qh := quiet_mul_mat _ _ _ _ _ hh
  have ch := ggml_mul_mat_columns hh cg
  replace h := step_nonnull h
  obtain ⟨ob, -, h⟩ := h
  obtain ⟨p2, si, hi, h⟩ := bind_ok.mp h
  have gri := Grows.add _ _ _ _ _ hi
  have qi := quiet_add _ _ _ _ _ hi
  have ci := ggml_add_columns hi ch
  replace h := step_expand h
  cases h
  obtain ⟨back2, e2, m1, m2, -, em2⟩ :=
    quiet_back (grows_trans (grows_trans grg grh) gri) (quiet_trans (quiet_trans qg qh) qi)
  have hidx : hparams.n_layer.toNat - 1 = 0 + k := by omega
  rw [hidx]
  refine ⟨layer, y, inp_pos, KQ_mask, sf, x, s1, attn, s3, g1, g2, g3, back ++ back2, p2, hl,
    hx, ha, ?_, ?_, ⟨b1.1, b1.2.1⟩, ⟨b2.1, b2.2.1⟩, ⟨b3.1, b3.2.1⟩, ?_, ?_, ?_, ?_,
    ⟨b1.2.2.2.2.2, b2.2.2.2.2.2, b3.2.2.2.2.2⟩, ?_, ci⟩
  · dsimp only
    rw [e2, ectx]
    simp only [List.append_assoc]
  · dsimp only
    rw [em2, em]
  · rw [q31, qf1, cd1, cc1, cb1]
  · rw [q32, qf2, cd2, cc2, cb2]
  · simp only [count_get_rows, List.countP_append] at n1 m1 ⊢
    omega
  · simp only [count_inputs, List.countP_append] at n2 m2 ⊢
    omega
  · simp

/-- Claim C17, amended. In a graph that `build_phi2` returns for at least one layer,
the output selection is made once, in the last layer `n_layer - 1`: directly after the
attention block of that layer (context `front`) come the I32 input `inp_out_ids` of
shape `[n_outputs]`, recorded in the context, and the `GET_ROWS` of the attention
output, of the layer input and of the normed layer input by it. Before them there is
no `GET_ROWS` but the token-embedding lookup and no input but tokens (or embeddings),
positions and mask; after them there is no `GET_ROWS` and no input. The logits, the
tensor registered last, have `n_outputs` columns. -/
theorem build_phi2_output_selection {model : moondream_model} {hparams : moondream_hparams}
    {cparams : moondream_cparams} {batch : moondream_batch} {kv : moondream_kv_cache}
    {s s2 : build_state} {gf : ggml_cgraph}
    (h : build_phi2 model hparams cparams batch kv s = .ok gf s2)
    (hn : 1 ≤ hparams.n_layer) :
    ∃ layer inpL inp_pos KQ_mask s0 x s1 attn s3 g1 g2 g3 back logits,
      model.layers[hparams.n_layer.toNat - 1]? = some layer
      ∧ llm_build_norm inpL hparams (weight_ptr layer.attn_norm)
          (weight_ptr layer.attn_norm_b) .LLM_NORM s0 = .ok x s1
      ∧ build_phi2_attn hparams cparams batch kv layer x inp_pos KQ_mask
          (hparams.n_layer.toNat - 1) s1 = .ok attn s3
      ∧ s2.ctx0 = s3.ctx0
          ++ [{ new_tensor .I32 s.mctx.n_outputs 1 1 1 with is_input := true }, g1, g2, g3]
          ++ back
      ∧ s2.mctx.inp_out_ids = some (.node s3.ctx0.length)
      ∧ (g1.op = .GET_ROWS ∧ g1.src = [some attn, some (.node s3.ctx0.length)])
      ∧ (g2.op = .GET_ROWS ∧ g2.src = [some inpL, some (.node s3.ctx0.length)])
      ∧ (g3.op = .GET_ROWS ∧ g3.src = [some x, some (.node s3.ctx0.length)])
      ∧ count_get_rows s3.ctx0
          = count_get_rows s.ctx0 + (if batch.token.isSome then 1 else 0)
      ∧ count_inputs s3.ctx0 = count_inputs s.ctx0 + 3
      ∧ count_get_rows back = 0 ∧ count_inputs back = 0
      ∧ gf.expanded.getLast? = some logits
      ∧ columns s2.ctx0 logits s.mctx.n_outputs := by
  obtain ⟨layer, inpL, inp_pos, KQ_mask, s0, x, s1, attn, s3, g1, g2, g3, back, logits, f1, f2,
    f3, f4, f5, f6, f7, f8, f9, f10, f11, f12, -, f13, f14⟩ := build_phi2_selection_fwd h hn
  exact ⟨layer, inpL, inp_pos, KQ_mask, s0, x, s1, attn, s3, g1, g2, g3, back, logits, f1, f2,
    f3, f4, f5, f6, f7, f8, f9, f10, f11, f12, f13, f14⟩

theorem build_phi2_output_selection_witness :
    ∃ gf s2,
      build_phi2 (sample_model (sample_hparams 4 2 2 2 2 1) (sample_cparams 8 false) false)
        (sample_hparams 4 2 2 2 2 1) (sample_cparams 8 false) (sample_batch 3 true false)
        (sample_kv_cache (sample_hparams 4 2 2 2 2 1) 8 0 3)
        (sample_state (sample_cparams 8 false) 1) = .ok gf s2
      ∧ ∃ front g1 g2 g3 back,
          s2.ctx0 = front ++ [{ new_tensor .I32 1 1 1 1 with is_input := true }, g1, g2, g3]
            ++ back
          ∧ s2.mctx.inp_out_ids = some (.node front.length)
          ∧ g1.op = .GET_ROWS ∧ g2.op = .GET_ROWS ∧ g3.op = .GET_ROWS
          ∧ count_get_rows front = 1 ∧ count_get_rows back = 0 := by
  obtain ⟨layer, inpL, inp_pos, KQ_mask, s0, x, s1, attn, s3, g1, g2, g3, back, logits, -, -, -,
      e, f1, f2, f3, f4, f5, -, f7, -, -, -⟩ :=
    build_phi2_output_selection run_noflash_returns (by decide)
  exact ⟨_, _, run_noflash_returns, s3.ctx0, g1, g2, g3, back, e, f1, f2.1, f3.1, f4.1, f5, f7⟩

/-- Claim C17, refuted. A model without layers: the build returns a graph, no
`inp_out_ids` is created (three inputs, and the token-embedding lookup is the only
`GET_ROWS`), and the logits have three columns, one per token, although `n_outputs`
is one. -/
theorem no_layers_no_selection :
    returned run_no_layers = true
    ∧ (state_of run_no_layers).mctx.inp_out_ids = none
    ∧ (state_of run_no_layers).mctx.n_outputs = 1
    ∧ count_get_rows (state_of run_no_layers).ctx0 = 1
    ∧ count_inputs (state_of run_no_layers).ctx0 = 3
    ∧ ((graph_of run_no_layers).expanded.getLast?.bind
        (lookup (state_of run_no_layers).ctx0)).map (fun t => (t.op, t.ne1))
          = some (.ADD, 3) := by
  decide!

theorem runs_iff {α : Type} {m : Build α} {s : build_state} {P : α → build_state → Prop} :
    runs m s P ↔ ∃ a s2, m s = .ok a s2 ∧ P a s2 := by
  unfold runs
  cases h : m s with
  | ok a s2 =>
    constructor
    · intro hp
      exact ⟨a, s2, rfl, hp⟩
    · rintro ⟨_, _, e, hp⟩
      cases e
      exact hp
  | abort f s2 => simp

theorem runs_mono {α : Type} {m : Build α} {s : build_state} {P Q : α → build_state → Prop}
    (h : runs m s P) (hq : ∀ a s2, P a s2 → Q a s2) : runs m s Q := by
  obtain ⟨a, s2, e, hp⟩ := runs_iff.mp h
  exact runs_iff.mpr ⟨a, s2, e, hq a s2 hp⟩

@[simp] theorem runs_bind {α β : Type} (x : Build α) (f : α → Build β) (s : build_state)
    (P : β → build_state → Prop) :
    runs (x >>= f) s P ↔ runs x s (fun a s1 => runs (f a) s1 P) := by
  unfold runs
  rw [bind_run]
  cases x s <;> rfl

@[simp] theorem runs_pure {α : Type} (a : α) (s : build_state) (P : α → build_state → Prop) :
    runs (pure a) s P ↔ P a s := by
  unfold runs
  rw [pure_run]

@[simp] theorem runs_assert (c : Bool) (f : fault) (s : build_state)
    (P : Unit → build_state → Prop) :
    runs (ggml_assert c f) s P ↔ (c = true ∧ P () s) := by
  unfold runs ggml_assert
  cases c <;> simp [pure_run, fail]

@[simp] theorem runs_push (t : ggml_tensor) (s : build_state)
    (P : tensor_ptr → build_state → Prop) :
    runs (push t) s P ↔ P (.node s.ctx0.length) { s with ctx0 := s.ctx0 ++ [t] } := by
  unfold runs push
  rfl

@[simp] theorem runs_deref (p : tensor_ptr) (s : build_state)
    (P : ggml_tensor → build_state → Prop) :
    runs (deref p) s P ↔ match lookup s.ctx0 p with
      | some t => P t s
      | none => False := by
  unfold runs deref
  cases lookup s.ctx0 p <;> rfl

@[simp] theorem lookup_tail (A L : List ggml_tensor) (i : Nat) :
    lookup (A ++ L) (.node (A.length + i)) = L[i]? := by
  show (A ++ L)[A.length + i]? = L[i]?
  rw [List.getElem?_append_right (Nat.le_add_right _ _), Nat.add_sub_cancel_left]

@[simp] theorem lookup_tail0 (A L : List ggml_tensor) :
    lookup (A ++ L) (.node A.length) = L[0]? :=
  lookup_tail A L 0

@[simp] theorem runs_vec_at {α : Type} (v : List α) (i : Nat) (s : build_state)
    (P : α → build_state → Prop) :
    runs (vec_at v i) s P ↔ match v[i]? with
      | some a => P a s
      | none => False := by
  unfold runs vec_at
  cases v[i]? <;> rfl

@[simp] theorem runs_nonnull (p : Option tensor_ptr) (s : build_state)
    (P : tensor_ptr → build_state → Prop) :
    runs (nonnull p) s P ↔ match p with
      | some q => P q s
      | none => False := by
  unfold runs nonnull
  cases p <;> rfl

@[simp] theorem runs_expand (t : tensor_ptr) (s : build_state)
    (P : Unit → build_state → Prop) :
    runs (ggml_build_forward_expand t) s P
      ↔ P () { s with gf := { s.gf with expanded := s.gf.expanded ++ [t] } } := by
  unfold runs ggml_build_forward_expand
  rfl

@[simp] theorem runs_set_mctx (f : moondream_context → moondream_context) (s : build_state)
    (P : Unit → build_state → Prop) :
    runs (set_mctx f) s P ↔ P () { s with mctx := f s.mctx } := by
  unfold runs set_mctx
  rfl

@[simp] theorem runs_modify_tail (A L : List ggml_tensor) (j : Nat)
    (f : ggml_tensor → ggml_tensor) (gf : ggml_cgraph) (mctx : moondream_context)
    (P : Unit → build_state → Prop) :
    runs (modify (.node (A.length + j)) f) { ctx0 := A ++ L, gf := gf, mctx := mctx } P
      ↔ match L[j]? with
        | some t => P () { ctx0 := A ++ L.set j (f t), gf := gf, mctx := mctx }
        | none => False := by
  unfold runs modify
  simp only [List.getElem?_append_right (Nat.le_add_right A.length j), Nat.add_sub_cancel_left]
  cases h : L[j]? with
  | none => rfl
  | some t =>
    simp only [List.set_append_right _ _ (Nat.le_add_right A.length j), Nat.add_sub_cancel_left]

@[simp] theorem runs_modify_tail0 (A L : List ggml_tensor)
    (f : ggml_tensor → ggml_tensor) (gf : ggml_cgraph) (mctx : moondream_context)
    (P : Unit → build_state → Prop) :
    runs (modify (.node A.length) f) { ctx0 := A ++ L, gf := gf, mctx := mctx } P
      ↔ match L[0]? with
        | some t => P () { ctx0 := A ++ L.set 0 (f t), gf := gf, mctx := mctx }
        | none => False :=
  runs_modify_tail A L 0 f gf mctx P

/-! ## The scenario builds return -/

theorem runs_seq {α β : Type} {x : Build α} {f : α → Build β} {s : build_state}
    {Q : α → build_state → Prop} {P : β → build_state → Prop}
    (hx : runs x s Q) (hf : ∀ a s1, Q a s1 → runs (f a) s1 P) : runs (x >>= f) s P :=
  (runs_bind x f s P).mpr (runs_mono hx hf)

theorem plain_at_append {ctx0 : List ggml_tensor} {p : tensor_ptr} {ty : ggml_type}
    {ne0 ne1 ne2 ne3 : Int} (h : plain_at ctx0 p ty ne0 ne1 ne2 ne3)
    (new : List ggml_tensor) : plain_at (ctx0 ++ new) p ty ne0 ne1 ne2 ne3 := by
  obtain ⟨t, e, ht⟩ := h
  exact ⟨t, lookup_append new e, ht⟩

theorem scenario_layers_at (fused : Bool) (il : Nat) (h : il < 32) :
    (scenario_model fused).layers[il]? = some (sample_layer fused scenario_hparams il) := by
  simp [scenario_model, h]

theorem scenario_k_l_at (size head n il : Nat) (h : il < 32) :
    (sample_kv_cache scenario_hparams size head n).k_l[il]?
      = some (sample_tensor (1000 + il) .F16 (2560 * size) 1) := by
  simp [sample_kv_cache, scenario_hparams, h]

theorem scenario_v_l_at (size head n il : Nat) (h : il < 32) :
    (sample_kv_cache scenario_hparams size head n).v_l[il]?
      = some (sample_tensor (2000 + il) .F16 (2560 * size) 1) := by
  simp [sample_kv_cache, scenario_hparams, h]

theorem llm_build_norm_runs (s : build_state) (x : tensor_ptr) (n : Int) (w b : ext_tensor)
    (hw : w.ne0 = 2560 ∧ w.ne1 = 1 ∧ w.ne2 = 1 ∧ w.ne3 = 1)
    (hb : b.ne0 = 2560 ∧ b.ne1 = 1 ∧ b.ne2 = 1 ∧ b.ne3 = 1)
    (hx : plain_at s.ctx0 x .F32 2560 n 1 1) :
    runs (llm_build_norm x scenario_hparams (some (.ext w)) (some (.ext b)) .LLM_NORM) s
      (fun r s2 => (∃ new, s2.ctx0 = s.ctx0 ++ new) ∧ s2.mctx = s.mctx
        ∧ plain_at s2.ctx0 r .F32 2560 n 1 1) := by
  obtain ⟨tx, hx, h1, h2, h3, h4, h5, h6, h7, h8, h9, h10⟩ := hx
  obtain ⟨w0, w1, w2, w3⟩ := hw
  obtain ⟨b0, b1, b2, b3⟩ := hb
  simp [llm_build_norm, ggml_norm, ggml_mul, ggml_add, dup_tensor, hx, ggml_can_repeat,
    ggml_is_empty, ext_tensor.to_tensor, h1, h2, h3, h4, h5, w0, w1, w2, w3, b0, b1, b2, b3,
    plain_at, plain, new_tensor, ggml_type_size, ggml_blck_size]

theorem build_phi2_qkv_runs (s : build_state) (x : tensor_ptr) (n : Int) (il : Nat)
    (hx : plain_at s.ctx0 x .F32 2560 n 1 1) :
    runs (build_phi2_qkv (sample_layer false scenario_hparams il) x 2560 80 n) s
      (fun r s2 => (∃ new, s2.ctx0 = s.ctx0 ++ new) ∧ s2.mctx = s.mctx
        ∧ plain_at s2.ctx0 r.1 .F32 2560 n 1 1 ∧ plain_at s2.ctx0 r.2.1 .F32 2560 n 1 1
        ∧ plain_at s2.ctx0 r.2.2 .F32 2560 n 1 1) := by
  obtain ⟨tx, hx, h1, h2, h3, h4, h5, h6, h7, h8, h9, h10⟩ := hx
  have hx2 := fun L => lookup_append L hx
  simp [build_phi2_qkv, sample_layer, sample_tensor, weight_ptr, scenario_hparams,
    ggml_mul_mat, ggml_can_mul_mat, ggml_is_transposed, ggml_add, dup_tensor, hx, hx2,
    ggml_can_repeat, ggml_is_empty, ext_tensor.to_tensor, h1, h2, h3, h4, h5,
    plain_at, plain, new_tensor, ggml_type_size, ggml_blck_size]

theorem sample_kv_cache_size (h : moondream_hparams) (size head n : Nat) :
    (sample_kv_cache h size head n).size = size := rfl

set_option maxHeartbeats 2000000 in
theorem llm_build_kv_store_runs (s : build_state) (k v : tensor_ptr) (il a b : Nat)
    (n kv_head : Int) (hil : il < 32)
    (hsc : (n = 16 ∧ kv_head = 0) ∨ (n = 1 ∧ kv_head = 16))
    (hk : plain_at s.ctx0 k .F32 80 32 n 1) (hv : plain_at s.ctx0 v .F32 2560 n 1 1) :
    runs (llm_build_kv_store scenario_hparams scenario_cparams
        (sample_kv_cache scenario_hparams 2048 a b) k v n kv_head il) s
      (fun _ s2 => (∃ new, s2.ctx0 = s.ctx0 ++ new) ∧ s2.mctx = s.mctx) := by
  obtain ⟨tk, hk, k1, k2, k3, k4, k5, k6, k7, k8, k9, k10⟩ := hk
  obtain ⟨tv, hv, v1, v2, v3, v4, v5, v6, v7, v8, v9, v10⟩ := hv
  have hk2 := fun L => lookup_append L hk
  have hv2 := fun L => lookup_append L hv
  simp only [llm_build_kv_store, runs_bind, runs_vec_at, scenario_k_l_at 2048 a b il hil,
    scenario_v_l_at 2048 a b il hil, show scenario_cparams.flash_attn = false from rfl,
    Bool.false_eq_true, if_false]
  rcases hsc with ⟨rfl, rfl⟩ | ⟨rfl, rfl⟩ <;>
  simp [
    sample_tensor, scenario_hparams, scenario_cparams, sample_cparams, sample_kv_cache_size,
    ggml_view_1d, ggml_view_2d, ggml_cpy, ggml_view_tensor, ggml_transpose, new_view,
    hk, hv, hk2, hv2, ext_tensor.to_tensor, k1, k2, k3, k4, k5, k6, k7, k8, k9, k10,
    v1, v2, v3, v4, v5, v6, v7, v8, v9, v10, new_tensor, ggml_type_size, ggml_blck_size,
    ggml_row_size, ggml_nbytes, wrap_size_t, ggml_nelements]

set_option maxHeartbeats 4000000 in
theorem llm_build_kqv_runs (s : build_state) (q mask : tensor_ptr) (il a b : Nat)
    (n n_kv : Int) (hil : il < 32)
    (hsc : (n = 16 ∧ n_kv = 0) ∨ (n = 1 ∧ n_kv = 16))
    (hq : plain_at s.ctx0 q .F32 80 32 n 1) (hm : plain_at s.ctx0 mask .F32 n_kv 32 1 1) :
    runs (llm_build_kqv scenario_hparams scenario_cparams
        (sample_kv_cache scenario_hparams 2048 a b)
        (weight_ptr (sample_layer false scenario_hparams il).wo)
        (weight_ptr (sample_layer false scenario_hparams il).bo) q mask n n_kv .one il) s
      (fun r s2 => (∃ new, s2.ctx0 = s.ctx0 ++ new) ∧ s2.mctx = s.mctx
        ∧ plain_at s2.ctx0 r .F32 2560 n 1 1) := by
  obtain ⟨tq, hq, q1, q2, q3, q4, q5, q6, q7, q8, q9, q10⟩ := hq
  obtain ⟨tm, hm, m1, m2, m3, m4, m5, m6, m7, m8, m9, m10⟩ := hm
  have hq2 := fun L => lookup_append L hq
  have hm2 := fun L => lookup_append L hm
  simp only [llm_build_kqv, runs_bind, runs_vec_at, scenario_k_l_at 2048 a b il hil,
    scenario_v_l_at 2048 a b il hil, show scenario_cparams.flash_attn = false from rfl,
    Bool.false_eq_true, if_false]
  rcases hsc with ⟨rfl, rfl⟩ | ⟨rfl, rfl⟩ <;>
  simp [
    sample_tensor, sample_layer, weight_ptr, scenario_hparams, scenario_cparams,
    sample_cparams, sample_kv_cache_size,
    ggml_view_3d, ggml_permute, permute_pick, ggml_view_tensor, new_view, ggml_mul_mat,
    ggml_can_mul_mat, ggml_is_transposed, ggml_mul_mat_set_prec, ggml_soft_max_ext,
    ggml_is_contiguous, ggml_cont_2d, ggml_add, dup_tensor, ggml_can_repeat, ggml_is_empty,
    hq, hm, hq2, hm2, ext_tensor.to_tensor, q1, q2, q3, q4, q5, q6, q7, q8, q9, q10,
    m1, m2, m3, m4, m5, m6, m7, m8, m9, m10, new_tensor, ggml_type_size, ggml_blck_size,
    ggml_row_size, ggml_nbytes, wrap_size_t, ggml_nelements, plain_at, plain]

theorem llm_build_kv_runs (s : build_state) (k v q mask : tensor_ptr) (il a b : Nat)
    (n kv_head n_kv : Int) (hil : il < 32)
    (hsc : (n = 16 ∧ kv_head = 0 ∧ n_kv = 0) ∨ (n = 1 ∧ kv_head = 16 ∧ n_kv = 16))
    (hk : plain_at s.ctx0 k .F32 80 32 n 1) (hv : plain_at s.ctx0 v .F32 2560 n 1 1)
    (hq : plain_at s.ctx0 q .F32 80 32 n 1) (hm : plain_at s.ctx0 mask .F32 n_kv 32 1 1) :
    runs (llm_build_kv scenario_hparams scenario_cparams
        (sample_kv_cache scenario_hparams 2048 a b)
        (weight_ptr (sample_layer false scenario_hparams il).wo)
        (weight_ptr (sample_layer false scenario_hparams il).bo) k v q mask n kv_head n_kv
        .one il) s
      (fun r s2 => (∃ new, s2.ctx0 = s.ctx0 ++ new) ∧ s2.mctx = s.mctx
        ∧ plain_at s2.ctx0 r .F32 2560 n 1 1) := by
  have h1 : (n = 16 ∧ kv_head = 0) ∨ (n = 1 ∧ kv_head = 16) := by
    rcases hsc with ⟨x, y, -⟩ | ⟨x, y, -⟩
    · exact Or.inl ⟨x, y⟩
    · exact Or.inr ⟨x, y⟩
  have h2 : (n = 16 ∧ n_kv = 0) ∨ (n = 1 ∧ n_kv = 16) := by
    rcases hsc with ⟨x, -, y⟩ | ⟨x, -, y⟩
    · exact Or.inl ⟨x, y⟩
    · exact Or.inr ⟨x, y⟩
  unfold llm_build_kv
  simp only [runs_bind, runs_expand]
  refine runs_mono (llm_build_kv_store_runs _ k v il a b n kv_head hil h1 hk hv) ?_
  rintro _ s1 ⟨⟨new, e⟩, em⟩
  dsimp only at e em
  refine runs_mono (llm_build_kqv_runs s1 q mask il a b n n_kv hil h2
    (by rw [e]; exact plain_at_append hq new) (by rw [e]; exact plain_at_append hm new)) ?_
  rintro r s2 ⟨⟨new2, e2⟩, em2, hr⟩
  exact ⟨⟨new ++ new2, by rw [e2, e, List.append_assoc]⟩, by rw [em2, em], hr⟩

set_option maxHeartbeats 4000000 in
theorem build_phi2_attn_runs (s : build_state) (x inp_pos mask : tensor_ptr) (il a b : Nat)
    (n : Int) (hil : il < 32)
    (hsc : (n = 16 ∧ a = 0 ∧ b = 0) ∨ (n = 1 ∧ a = 16 ∧ b = 16))
    (hx : plain_at s.ctx0 x .F32 2560 n 1 1) (hp : plain_at s.ctx0 inp_pos .I32 n 1 1 1)
    (hm : plain_at s.ctx0 mask .F32 (b : Int) 32 1 1) :
    runs (build_phi2_attn scenario_hparams scenario_cparams (sample_batch n true false)
        (sample_kv_cache scenario_hparams 2048 a b) (sample_layer false scenario_hparams il)
        x inp_pos mask il) s
      (fun r s2 => (∃ new, s2.ctx0 = s.ctx0 ++ new) ∧ s2.mctx = s.mctx
        ∧ plain_at s2.ctx0 r .F32 2560 n 1 1) := by
  unfold build_phi2_attn
  simp only [runs_bind]
  refine runs_mono (build_phi2_qkv_runs s x n il hx) ?_
  rintro ⟨Q, K, V⟩ s1 ⟨⟨new, e⟩, em, ⟨tq, hq, q1, q2, q3, q4, q5, q6, q7, q8, q9, q10⟩,
    ⟨tk, hk, k1, k2, k3, k4, k5, k6, k7, k8, k9, k10⟩, hv⟩
  obtain ⟨tp, hp, p1, p2, p3, p4, p5, p6, p7, p8, p9, p10⟩ := hp
  have hp1 : lookup s1.ctx0 inp_pos = some tp := by rw [e]; exact lookup_append new hp
  have hq2 := fun L => lookup_append L hq
  have hk2 := fun L => lookup_append L hk
  have hp2 := fun L => lookup_append L hp1
  dsimp only at hq hk hv ⊢
  have hkv : ∀ (s3 : build_state) (k q : tensor_ptr),
      (∃ new3, s3.ctx0 = s1.ctx0 ++ new3) → s3.mctx = s1.mctx →
      plain_at s3.ctx0 k .F32 80 32 n 1 → plain_at s3.ctx0 q .F32 80 32 n 1 →
      runs (llm_build_kv scenario_hparams scenario_cparams
        (sample_kv_cache scenario_hparams 2048 a b)
        (weight_ptr (sample_layer false scenario_hparams il).wo)
        (weight_ptr (sample_layer false scenario_hparams il).bo) k V q mask n
        (to_int32 (sample_kv_cache scenario_hparams 2048 a b).head)
        (to_int32 (sample_kv_cache scenario_hparams 2048 a b).n) .one il) s3
      (fun r s2 => (∃ new, s2.ctx0 = s.ctx0 ++ new) ∧ s2.mctx = s.mctx
        ∧ plain_at s2.ctx0 r .F32 2560 n 1 1) := by
    rintro s3 k q ⟨new3, e3⟩ em3 hk3 hq3
    have hsc3 : (n = 16 ∧ to_int32 (sample_kv_cache scenario_hparams 2048 a b).head = 0
          ∧ to_int32 (sample_kv_cache scenario_hparams 2048 a b).n = 0)
        ∨ (n = 1 ∧ to_int32 (sample_kv_cache scenario_hparams 2048 a b).head = 16
          ∧ to_int32 (sample_kv_cache scenario_hparams 2048 a b).n = 16) := by
      rcases hsc with ⟨rfl, rfl, rfl⟩ | ⟨rfl, rfl, rfl⟩
      · exact Or.inl ⟨rfl, rfl, rfl⟩
      · exact Or.inr ⟨rfl, rfl, rfl⟩
    have hb : to_int32 (sample_kv_cache scenario_hparams 2048 a b).n = (b : Int) := by
      rcases hsc with ⟨rfl, rfl, rfl⟩ | ⟨rfl, rfl, rfl⟩ <;> rfl
    have hv3 : plain_at s3.ctx0 V .F32 2560 n 1 1 := by
      rw [e3]
      exact plain_at_append hv new3
    have hm3 : plain_at s3.ctx0 mask .F32
        (to_int32 (sample_kv_cache scenario_hparams 2048 a b).n) 32 1 1 := by
      rw [hb, e3, e]
      exact plain_at_append (plain_at_append hm new) new3
    refine runs_mono (llm_build_kv_runs s3 k V q mask il a b n _ _ hil hsc3 hk3 hv3 hq3 hm3) ?_
    rintro r s2 ⟨⟨new4, e4⟩, em4, hr⟩
    exact ⟨⟨new ++ new3 ++ new4, by rw [e4, e3, e]; simp only [List.append_assoc]⟩,
      by rw [em4, em3, em], hr⟩
  rcases hsc with ⟨rfl, rfl, rfl⟩ | ⟨rfl, rfl, rfl⟩ <;>
  simp [ggml_reshape_3d, ggml_is_contiguous, ggml_nelements, new_view, ggml_rope_ext,
    MOONDREAM_ROPE_TYPE, ggml_scale, dup_tensor, hq, hk, hp1, hq2, hk2, hp2,
    q1, q2, q3, q4, q5, q6, q7, q8, q9, q10, k1, k2, k3, k4, k5, k6, k7, k8, k9, k10,
    p1, p2, p3, p4, p5, new_tensor, ggml_type_size, ggml_blck_size, ggml_row_size,
    ggml_nbytes, wrap_size_t, show scenario_hparams.n_embd_head_v = 80 from rfl,
    show scenario_hparams.n_head = 32 from rfl, show scenario_hparams.n_head_kv = 32 from rfl,
    show scenario_hparams.n_rot = 32 from rfl, sample_batch]
  all_goals
    refine hkv _ _ _ ⟨_, rfl⟩ rfl ?_ ?_ <;>
      simp [plain_at, plain, new_tensor, ggml_type_size, ggml_blck_size, Nat.add_assoc]

set_option maxHeartbeats 4000000 in
theorem layer_rest_runs (s : build_state) (sel : tensor_ptr × tensor_ptr × tensor_ptr)
    (il : Nat) (m : Int) (h1 : plain_at s.ctx0 sel.1 .F32 2560 m 1 1)
    (h2 : plain_at s.ctx0 sel.2.1 .F32 2560 m 1 1)
    (h3 : plain_at s.ctx0 sel.2.2 .F32 2560 m 1 1) :
    runs (do
      let ffn_output ← llm_build_ffn sel.2.2
        (weight_ptr (sample_layer false scenario_hparams il).ffn_up)
        (weight_ptr (sample_layer false scenario_hparams il).ffn_up_b) none none
        (weight_ptr (sample_layer false scenario_hparams il).ffn_down)
        (weight_ptr (sample_layer false scenario_hparams il).ffn_down_b) none
        .LLM_FFN_GELU .LLM_FFN_SEQ
      let cur ← ggml_add sel.1 ffn_output
      let cur ← ggml_add cur sel.2.1
      pure cur : Build tensor_ptr) s
      (fun r s2 => (∃ new, s2.ctx0 = s.ctx0 ++ new) ∧ plain_at s2.ctx0 r .F32 2560 m 1 1) := by
  obtain ⟨t1, h1, a1, a2, a3, a4, a5, a6, a7, a8, a9, a10⟩ := h1
  obtain ⟨t2, h2, b1, b2, b3, b4, b5, b6, b7, b8, b9, b10⟩ := h2
  obtain ⟨t3, h3, c1, c2, c3, c4, c5, c6, c7, c8, c9, c10⟩ := h3
  have h12 := fun L => lookup_append L h1
  have h22 := fun L => lookup_append L h2
  have h32 := fun L => lookup_append L h3
  simp [llm_build_ffn, sample_layer, sample_tensor, weight_ptr, scenario_hparams,
    ggml_mul_mat, ggml_can_mul_mat, ggml_is_transposed, ggml_add, ggml_gelu, dup_tensor,
    h1, h2, h3, h12, h22, h32, ggml_can_repeat, ggml_is_empty, ext_tensor.to_tensor,
    a1, a2, a3, a4, a5, b1, b2, b3, b4, b5, c1, c2, c3, c4, c5,
    plain_at, plain, new_tensor, ggml_type_size, ggml_blck_size]

theorem layer_rest_runs_k (s : build_state) (c i x : tensor_ptr)
    (il : Nat) (m : Int) (P : tensor_ptr → build_state → Prop)
    (h1 : plain_at s.ctx0 c .F32 2560 m 1 1)
    (h2 : plain_at s.ctx0 i .F32 2560 m 1 1)
    (h3 : plain_at s.ctx0 x .F32 2560 m 1 1)
    (hP : ∀ r s2, (∃ new, s2.ctx0 = s.ctx0 ++ new) → plain_at s2.ctx0 r .F32 2560 m 1 1 →
      P r s2) :
    runs (llm_build_ffn x
        (weight_ptr (sample_layer false scenario_hparams il).ffn_up)
        (weight_ptr (sample_layer false scenario_hparams il).ffn_up_b) none none
        (weight_ptr (sample_layer false scenario_hparams il).ffn_down)
        (weight_ptr (sample_layer false scenario_hparams il).ffn_down_b) none
        .LLM_FFN_GELU .LLM_FFN_SEQ) s
      (fun f s1 => runs (ggml_add c f) s1
        (fun r s2 => runs (ggml_add r i) s2 P)) := by
  have h := runs_mono (layer_rest_runs s (c, i, x) il m h1 h2 h3) (fun r s2 hr => hP r s2 hr.1 hr.2)
  simpa only [runs_bind, runs_pure] using h

set_option maxHeartbeats 4000000 in
theorem build_phi2_layer_runs (s : build_state) (x inp_pos mask : tensor_ptr) (il a b : Nat)
    (n : Int) (hil : il < 32)
    (hsc : (n = 16 ∧ a = 0 ∧ b = 0) ∨ (n = 1 ∧ a = 16 ∧ b = 16))
    (hx : plain_at s.ctx0 x .F32 2560 n 1 1) (hp : plain_at s.ctx0 inp_pos .I32 n 1 1 1)
    (hm : plain_at s.ctx0 mask .F32 (b : Int) 32 1 1) :
    runs (build_phi2_layer (scenario_model false) scenario_hparams scenario_cparams
        (sample_batch n true false) (sample_kv_cache scenario_hparams 2048 a b) inp_pos mask
        1 il x) s
      (fun r s2 => (∃ new, s2.ctx0 = s.ctx0 ++ new)
        ∧ plain_at s2.ctx0 r .F32 2560 (if il = 31 then 1 else n) 1 1) := by
  unfold build_phi2_layer
  simp only [runs_bind, runs_vec_at, scenario_layers_at false il hil]
  refine runs_mono (llm_build_norm_runs s x n (sample_tensor (100 * il + 1) .F32 2560 1)
    (sample_tensor (100 * il + 2) .F32 2560 1) ⟨rfl, rfl, rfl, rfl⟩ ⟨rfl, rfl, rfl, rfl⟩ hx) ?_
  rintro x1 s1 ⟨⟨new, e⟩, em, hx1⟩
  have hp1 : plain_at s1.ctx0 inp_pos .I32 n 1 1 1 := by rw [e]; exact plain_at_append hp new
  have hm1 : plain_at s1.ctx0 mask .F32 (b : Int) 32 1 1 := by
    rw [e]; exact plain_at_append hm new
  refine runs_mono (build_phi2_attn_runs s1 x1 inp_pos mask il a b n hil hsc hx1 hp1 hm1) ?_
  rintro c s3 ⟨⟨new3, e3⟩, em3, hc⟩
  have hx3 : plain_at s3.ctx0 x .F32 2560 n 1 1 := by
    rw [e3, e]; exact plain_at_append (plain_at_append hx new) new3
  have hx13 : plain_at s3.ctx0 x1 .F32 2560 n 1 1 := by
    rw [e3]; exact plain_at_append hx1 new3
  have hext : ∀ (s2 : build_state), (∃ new4, s2.ctx0 = s3.ctx0 ++ new4) →
      ∃ new, s2.ctx0 = s.ctx0 ++ new := by
    rintro s2 ⟨new4, e4⟩
    exact ⟨new ++ new3 ++ new4, by rw [e4, e3, e]; simp only [List.append_assoc]⟩
  by_cases hl : il = 31
  · subst hl
    have he : ((31 : Nat) : Int) = scenario_hparams.n_layer - 1 := by decide
    rw [if_pos he, if_pos rfl]
    obtain ⟨tc, hc, c1, c2, c3, c4, c5, c6, c7, c8, c9, c10⟩ := hc
    obtain ⟨ti, hi, i1, i2, i3, i4, i5, i6, i7, i8, i9, i10⟩ := hx3
    obtain ⟨tx, hx1, x1, x2, x3, x4, x5, x6, x7, x8, x9, x10⟩ := hx13
    have hc2 := fun L => lookup_append L hc
    have hi2 := fun L => lookup_append L hi
    have hx2 := fun L => lookup_append L hx1
    simp [build_inp_out_ids, ggml_new_tensor_1d, ggml_set_input, ggml_get_rows,
      hc, hi, hx1, hc2, hi2, hx2, c1, c2, c3, c4, c5, i1, i2, i3, i4, i5, x1, x2, x3, x4, x5,
      new_tensor, ggml_type_size, ggml_blck_size]
    refine layer_rest_runs_k _ _ _ _ 31 1 _ ?_ ?_ ?_ ?_
    · simp [plain_at, plain, new_tensor, ggml_type_size, ggml_blck_size, Nat.add_assoc]
    · simp [plain_at, plain, new_tensor, ggml_type_size, ggml_blck_size, Nat.add_assoc]
    · simp [plain_at, plain, new_tensor, ggml_type_size, ggml_blck_size, Nat.add_assoc]
    · rintro r s2 ⟨new4, e4⟩ hr
      dsimp only at e4
      rw [List.append_assoc] at e4
      exact ⟨hext s2 ⟨_, e4⟩, hr⟩
  · have hne : ¬ ((il : Int) = scenario_hparams.n_layer - 1) := by
      have e32 : scenario_hparams.n_layer = 32 := rfl
      rw [e32]
      omega
    rw [if_neg hne, if_neg hl]
    simp only [runs_bind, runs_pure]
    exact layer_rest_runs_k s3 c x x1 il n _ hc hx3 hx13 (fun r s2 h1 h2 => ⟨hext s2 h1, h2⟩)

theorem build_phi2_layers_runs (a b : Nat) (n : Int) (inp_pos mask : tensor_ptr)
    (hsc : (n = 16 ∧ a = 0 ∧ b = 0) ∨ (n = 1 ∧ a = 16 ∧ b = 16)) (k : Nat) :
    ∀ (il : Nat) (x : tensor_ptr) (s : build_state), il + k ≤ 32 →
      plain_at s.ctx0 x .F32 2560 n 1 1 → plain_at s.ctx0 inp_pos .I32 n 1 1 1 →
      plain_at s.ctx0 mask .F32 (b : Int) 32 1 1 →
      runs (build_phi2_layers (scenario_model false) scenario_hparams scenario_cparams
          (sample_batch n true false) (sample_kv_cache scenario_hparams 2048 a b) inp_pos
          mask 1 k il x) s
        (fun r s2 => (∃ new, s2.ctx0 = s.ctx0 ++ new)
          ∧ plain_at s2.ctx0 r .F32 2560 (if il + k = 32 ∧ 0 < k then 1 else n) 1 1) := by
  induction k with
  | zero =>
    intro il x s _ hx _ _
    unfold build_phi2_layers
    rw [runs_pure]
    refine ⟨⟨[], by simp⟩, ?_⟩
    rw [if_neg (by omega)]
    exact hx
  | succ k ih =>
    intro il x s hle hx hp hm
    unfold build_phi2_layers
    rw [runs_bind]
    refine runs_mono (build_phi2_layer_runs s x inp_pos mask il a b n (by omega) hsc hx hp hm) ?_
    rintro r s1 ⟨⟨new, e⟩, hr⟩
    by_cases hl : il = 31
    · have hk : k = 0 := by omega
      subst hk
      unfold build_phi2_layers
      rw [runs_pure]
      refine ⟨⟨new, e⟩, ?_⟩
      rw [if_pos hl] at hr
      rw [if_pos ⟨by omega, by omega⟩]
      exact hr
    · rw [if_neg hl] at hr
      have hp1 : plain_at s1.ctx0 inp_pos .I32 n 1 1 1 := by
        rw [e]; exact plain_at_append hp new
      have hm1 : plain_at s1.ctx0 mask .F32 (b : Int) 32 1 1 := by
        rw [e]; exact plain_at_append hm new
      refine runs_mono (ih (il + 1) r s1 (by omega) hr hp1 hm1) ?_
      rintro r2 s2 ⟨⟨new2, e2⟩, hr2⟩
      refine ⟨⟨new ++ new2, by rw [e2, e, List.append_assoc]⟩, ?_⟩
      by_cases hc : il + 1 + k = 32 ∧ 0 < k
      · rw [if_pos hc] at hr2
        rw [if_pos ⟨by omega, by omega⟩]
        exact hr2
      · rw [if_neg hc] at hr2
        rw [if_neg (by omega)]
        exact hr2

theorem llm_build_inp_embd_runs (s : build_state) (n : Int) :
    runs (llm_build_inp_embd scenario_hparams (sample_batch n true false)
        (weight_ptr (scenario_model false).tok_embd)) s
      (fun r s2 => (∃ new, s2.ctx0 = s.ctx0 ++ new) ∧ plain_at s2.ctx0 r .F32 2560 n 1 1) := by
  simp [llm_build_inp_embd, sample_batch, ggml_new_tensor_1d, ggml_set_input, ggml_get_rows,
    weight_ptr, scenario_model, sample_tensor, ext_tensor.to_tensor, new_tensor,
    ggml_type_size, ggml_blck_size, plain_at, plain]

theorem build_inp_pos_runs (s : build_state) (n : Int) :
    runs (build_inp_pos (sample_batch n true false)) s
      (fun r s2 => (∃ new, s2.ctx0 = s.ctx0 ++ new) ∧ plain_at s2.ctx0 r .I32 n 1 1 1) := by
  simp [build_inp_pos, sample_batch, ggml_new_tensor_1d, ggml_set_input, new_tensor,
    ggml_type_size, ggml_blck_size, plain_at, plain]

theorem build_inp_KQ_mask_runs (s : build_state) (n n_kv : Int) (hn : n = 16 ∨ n = 1) :
    runs (build_inp_KQ_mask (sample_batch n true false) scenario_cparams n_kv) s
      (fun r s2 => (∃ new, s2.ctx0 = s.ctx0 ++ new) ∧ plain_at s2.ctx0 r .F32 n_kv 32 1 1) := by
  have p16 := GGML_PAD_16
  have p1 := GGML_PAD_1
  rcases hn with rfl | rfl <;>
  simp [build_inp_KQ_mask, scenario_cparams, sample_cparams, sample_batch, ggml_new_tensor_2d,
    ggml_set_input, new_tensor, ggml_type_size, ggml_blck_size, plain_at, plain, p16, p1,
    GGML_KQ_MASK_PAD]

theorem runs_new_graph (size : Nat) (grads : Bool) (s : build_state)
    (P : Unit → build_state → Prop) :
    runs (ggml_new_graph_custom size grads) s P
      ↔ P () { s with gf := { size := size, grads := grads, expanded := [] } } := by
  unfold runs ggml_new_graph_custom
  rfl

theorem runs_get_mctx (s : build_state) (P : moondream_context → build_state → Prop) :
    runs get_mctx s P ↔ P s.mctx s := by
  unfold runs get_mctx
  rfl

theorem runs_return_gf (s : build_state) (P : ggml_cgraph → build_state → Prop) :
    runs (fun s => outcome.ok s.gf s) s P ↔ P s.gf s := by
  unfold runs
  rfl

theorem runs_elim {α : Type} {m : Build α} {s : build_state}
    (h : runs m s (fun _ _ => True)) : ∃ a s2, m s = .ok a s2 := by
  obtain ⟨a, s2, h, -⟩ := runs_iff.mp h
  exact ⟨a, s2, h⟩

set_option maxHeartbeats 4000000 in
/-- For the two scenarios (16 tokens on an empty cache; one token with 16 cells in use)
and a model with separate `wq`, `wk`, `wv`, `build_phi2` returns. -/
theorem scenario_returns (a b : Nat) (n : Int)
    (hsc : (n = 16 ∧ a = 0 ∧ b = 0) ∨ (n = 1 ∧ a = 16 ∧ b = 16)) :
    ∃ gf s2, build_phi2 (scenario_model false) scenario_hparams scenario_cparams
      (sample_batch n true false) (sample_kv_cache scenario_hparams 2048 a b)
      (sample_state scenario_cparams 1) = .ok gf s2 := by
  apply runs_elim
  have hn : n = 16 ∨ n = 1 := by
    rcases hsc with ⟨h, -⟩ | ⟨h, -⟩
    · exact Or.inl h
    · exact Or.inr h
  have hb : to_int32 (sample_kv_cache scenario_hparams 2048 a b).n = (b : Int) := by
    rcases hsc with ⟨-, rfl, rfl⟩ | ⟨-, rfl, rfl⟩ <;> rfl
  unfold build_phi2
  simp only [runs_bind, runs_new_graph, runs_get_mctx, runs_assert]
  refine ⟨by decide, ?_⟩
  refine runs_mono (llm_build_inp_embd_runs _ n) ?_
  rintro x s1 ⟨⟨new1, e1⟩, hx⟩
  refine runs_mono (build_inp_pos_runs s1 n) ?_
  rintro p s2 ⟨⟨new2, e2⟩, hp⟩
  rw [hb]
  refine runs_mono (build_inp_KQ_mask_runs s2 n b hn) ?_
  rintro m s3 ⟨⟨new3, e3⟩, hm⟩
  have hx3 : plain_at s3.ctx0 x .F32 2560 n 1 1 := by
    rw [e3, e2]; exact plain_at_append (plain_at_append hx new2) new3
  have hp3 : plain_at s3.ctx0 p .I32 n 1 1 1 := by
    rw [e3]; exact plain_at_append hp new3
  have h32 : scenario_hparams.n_layer.toNat = 32 := rfl
  have h1 : (sample_state scenario_cparams 1).mctx.n_outputs = 1 := rfl
  rw [h32, h1]
  refine runs_mono (build_phi2_layers_runs a b n p m hsc 32 0 x s3 (by omega) hx3 hp3 hm) ?_
  rintro r s4 ⟨-, hr⟩
  rw [if_pos ⟨by omega, by omega⟩] at hr
  refine runs_mono (llm_build_norm_runs s4 r 1 (sample_tensor 2 .F32 2560 1)
    (sample_tensor 3 .F32 2560 1) ⟨rfl, rfl, rfl, rfl⟩ ⟨rfl, rfl, rfl, rfl⟩ hr) ?_
  rintro y s5 ⟨-, -, ty, hy, y1, y2, y3, y4, y5, y6, y7, y8, y9, y10⟩
  have hy2 := fun L => lookup_append L hy
  simp [scenario_model, weight_ptr, sample_tensor, ggml_mul_mat, ggml_can_mul_mat,
    ggml_is_transposed, ggml_add, dup_tensor, ggml_can_repeat, ggml_is_empty,
    ext_tensor.to_tensor, hy, hy2, y1, y2, y3, y4, y5, runs_return_gf, new_tensor,
    ggml_type_size, ggml_blck_size]

/-! ## Steps that create no `CPY` tensor -/

theorem calm_refl (s : build_state) : calm s s := rfl

theorem calm_trans {s s1 s2 : build_state} (h1 : calm s s1) (h2 : calm s1 s2) :
    calm s s2 := h2.trans h1

theorem calm_of_alloc {s s2 : build_state} {t : ggml_tensor} {p : tensor_ptr}
    (h : alloc s t p s2) (h1 : t.op ≠ .CPY) : calm s s2 := by
  obtain ⟨-, rfl⟩ := h
  simp [calm, count_cpy, List.countP_append, h1]

theorem calm_of_set {s : build_state} {i : Nat} {t u : ggml_tensor}
    (h : s.ctx0[i]? = some t) (hu : u.op = t.op) :
    calm s { s with ctx0 := s.ctx0.set i u } := by
  unfold calm count_cpy
  exact countP_set_same (fun t : ggml_tensor => t.op == .CPY) t u (by simp [hu]) s.ctx0 i h

theorem calm_of_set_prec {s : build_state} {i : Nat} {t : ggml_tensor} {prec : ggml_prec}
    (h : s.ctx0[i]? = some t) :
    calm s { s with ctx0 := s.ctx0.set i { t with prec := prec } } :=
  calm_of_set h rfl

theorem calm_pure {α : Type} (a : α) : Calm (pure a : Build α) := by
  intro s b s2 h
  obtain ⟨-, rfl⟩ := pure_ok.mp h
  exact calm_refl s

theorem calm_bind {α β : Type} {x : Build α} {f : α → Build β} (hx : Calm x)
    (hf : ∀ a, Calm (f a)) : Calm (x >>= f) := by
  intro s b s2 h
  obtain ⟨a, s1, h1, h2⟩ := bind_ok.mp h
  exact calm_trans (hx s a s1 h1) (hf a s1 b s2 h2)

theorem calm_assert (c : Bool) (f : fault) : Calm (ggml_assert c f) := by
  intro s b s2 h
  obtain ⟨-, rfl⟩ := assert_ok.mp h
  exact calm_refl s

theorem calm_deref (p : tensor_ptr) : Calm (deref p) := by
  intro s b s2 h
  obtain ⟨-, rfl⟩ := deref_ok.mp h
  exact calm_refl s

theorem calm_nonnull (p : Option tensor_ptr) : Calm (nonnull p) := by
  intro s b s2 h
  obtain ⟨-, rfl⟩ := nonnull_ok.mp h
  exact calm_refl s

theorem calm_vec_at {α : Type} (v : List α) (i : Nat) : Calm (vec_at v i) := by
  intro s b s2 h
  obtain ⟨-, rfl⟩ := vec_at_ok.mp h
  exact calm_refl s

theorem calm_expand (t : tensor_ptr) : Calm (ggml_build_forward_expand t) := by
  intro s b s2 h
  have e := expand_ok.mp h
  subst e
  exact rfl

theorem calm_of_grows_fwd {op : Build tensor_ptr}
    (hop : ∀ s p s1, op s = .ok p s1 → ∃ t, alloc s t p s1 ∧ t.op ≠ .CPY) : Calm op := by
  intro s p s2 h
  obtain ⟨t, ha, h1⟩ := hop s p s2 h
  exact calm_of_alloc ha h1

theorem calm_norm (a : tensor_ptr) (eps : f32) : Calm (ggml_norm a eps) :=
  calm_of_grows_fwd (fun _ _ _ h => by
    obtain ⟨t, ha, ta, -, rfl⟩ := ggml_norm_fwd h
    exact ⟨_, ha, by simp⟩)

theorem calm_rms_norm (a : tensor_ptr) (eps : f32) : Calm (ggml_rms_norm a eps) :=
  calm_of_grows_fwd (fun _ _ _ h => by
    obtain ⟨t, ha, ta, -, rfl⟩ := ggml_rms_norm_fwd h
    exact ⟨_, ha, by simp⟩)

theorem calm_mul (a b : tensor_ptr) : Calm (ggml_mul a b) :=
  calm_of_grows_fwd (fun _ _ _ h => by
    obtain ⟨t, ha, ta, tb, -, -, -, rfl⟩ := ggml_mul_fwd h
    exact ⟨_, ha, by simp⟩)

theorem calm_add (a b : tensor_ptr) : Calm (ggml_add a b) :=
  calm_of_grows_fwd (fun _ _ _ h => by
    obtain ⟨t, ha, ta, tb, -, -, -, rfl⟩ := ggml_add_fwd h
    exact ⟨_, ha, by simp⟩)

theorem calm_gelu (a : tensor_ptr) : Calm (ggml_gelu a) :=
  calm_of_grows_fwd (fun _ _ _ h => by
    obtain ⟨t, ha, ta, -, rfl⟩ := ggml_gelu_fwd h
    exact ⟨_, ha, by simp⟩)

theorem calm_mul_mat (a b : tensor_ptr) : Calm (ggml_mul_mat a b) :=
  calm_of_grows_fwd (fun _ _ _ h => by
    obtain ⟨t, ha, ta, tb, -, -, -, -, rfl⟩ := ggml_mul_mat_fwd h
    exact ⟨_, ha, by simp⟩)

theorem calm_scale (a : tensor_ptr) (sc : f32) : Calm (ggml_scale a sc) :=
  calm_of_grows_fwd (fun _ _ _ h => by
    obtain ⟨t, ha, ta, -, rfl⟩ := ggml_scale_fwd h
    exact ⟨_, ha, by simp⟩)

theorem calm_cont (a : tensor_ptr) : Calm (ggml_cont a) :=
  calm_of_grows_fwd (fun _ _ _ h => by
    obtain ⟨t, ha, ta, -, rfl⟩ := ggml_cont_fwd h
    exact ⟨_, ha, by simp⟩)

theorem calm_cont_2d (a : tensor_ptr) (ne0 ne1 : Int) : Calm (ggml_cont_2d a ne0 ne1) :=
  calm_of_grows_fwd (fun _ _ _ h => by
    obtain ⟨t, ha, ta, -, -, rfl⟩ := ggml_cont_2d_fwd h
    exact ⟨_, ha, by simp⟩)

theorem calm_reshape_2d (a : tensor_ptr) (ne0 ne1 : Int) :
    Calm (ggml_reshape_2d a ne0 ne1) :=
  calm_of_grows_fwd (fun _ _ _ h => by
    obtain ⟨t, ha, ta, -, -, -, rfl⟩ := ggml_reshape_2d_fwd h
    exact ⟨_, ha, by simp⟩)

theorem calm_reshape_3d (a : tensor_ptr) (ne0 ne1 ne2 : Int) :
    Calm (ggml_reshape_3d a ne0 ne1 ne2) :=
  calm_of_grows_fwd (fun _ _ _ h => by
    obtain ⟨t, ha, ta, -, -, -, rfl⟩ := ggml_reshape_3d_fwd h
    exact ⟨_, ha, by simp⟩)

theorem calm_view_1d (a : tensor_ptr) (ne0 offset : Int) :
    Calm (ggml_view_1d a ne0 offset) :=
  calm_of_grows_fwd (fun _ _ _ h => by
    obtain ⟨t, ha, ta, -, rfl⟩ := ggml_view_1d_fwd h
    exact ⟨_, ha, by simp⟩)

theorem calm_view_2d (a : tensor_ptr) (ne0 ne1 nb1 offset : Int) :
    Calm (ggml_view_2d a ne0 ne1 nb1 offset) :=
  calm_of_grows_fwd (fun _ _ _ h => by
    obtain ⟨t, ha, ta, -, rfl⟩ := ggml_view_2d_fwd h
    exact ⟨_, ha, by simp⟩)

theorem calm_view_3d (a : tensor_ptr) (ne0 ne1 ne2 nb1 nb2 offset : Int) :
    Calm (ggml_view_3d a ne0 ne1 ne2 nb1 nb2 offset) :=
  calm_of_grows_fwd (fun _ _ _ h => by
    obtain ⟨t, ha, ta, -, rfl⟩ := ggml_view_3d_fwd h
    exact ⟨_, ha, by simp⟩)

theorem calm_permute_0213 (a : tensor_ptr) : Calm (ggml_permute a 0 2 1 3) :=
  calm_of_grows_fwd (fun _ _ _ h => by
    obtain ⟨t, ha, ta, -, rfl⟩ := ggml_permute_0213_fwd h
    exact ⟨_, ha, by simp⟩)

theorem calm_transpose (a : tensor_ptr) : Calm (ggml_transpose a) :=
  calm_of_grows_fwd (fun _ _ _ h => by
    obtain ⟨t, ha, ta, -, rfl⟩ := ggml_transpose_fwd h
    exact ⟨_, ha, by simp⟩)

theorem calm_rope_ext_none (a b : tensor_ptr) (n_dims mode n_ctx n_ctx_orig : Int)
    (f1 f2 f3 f4 f5 f6 : f32) :
    Calm (ggml_rope_ext a b none n_dims mode n_ctx n_ctx_orig f1 f2 f3 f4 f5 f6) :=
  calm_of_grows_fwd (fun _ _ _ h => by
    obtain ⟨t, ha, ta, -, rfl⟩ := ggml_rope_ext_none_fwd h
    exact ⟨_, ha, by simp⟩)

theorem calm_soft_max_ext (a mask : tensor_ptr) (scale max_bias : f32) :
    Calm (ggml_soft_max_ext a mask scale max_bias) :=
  calm_of_grows_fwd (fun _ _ _ h => by
    obtain ⟨t, ha, ta, -, rfl⟩ := ggml_soft_max_ext_fwd h
    exact ⟨_, ha, by simp⟩)

theorem calm_flash_attn_ext (q k v mask : tensor_ptr) (scale max_bias : f32) :
    Calm (ggml_flash_attn_ext q k v mask scale max_bias) :=
  calm_of_grows_fwd (fun _ _ _ h => by
    obtain ⟨t, ha, ta, -, rfl⟩ := ggml_flash_attn_ext_fwd h
    exact ⟨_, ha, by simp⟩)

theorem calm_mul_mat_set_prec (a : tensor_ptr) (prec : ggml_prec) :
    Calm (ggml_mul_mat_set_prec a prec) := by
  intro s u s2 h
  obtain ⟨i, t, -, e, -, rfl⟩ := ggml_mul_mat_set_prec_ok.mp h
  exact calm_of_set_prec e

theorem calm_flash_attn_ext_set_prec (a : tensor_ptr) (prec : ggml_prec) :
    Calm (ggml_flash_attn_ext_set_prec a prec) := by
  intro s u s2 h
  obtain ⟨i, t, -, e, -, rfl⟩ := ggml_flash_attn_ext_set_prec_ok.mp h
  exact calm_of_set_prec e

theorem calm_llm_build_norm (cur : tensor_ptr) (hparams : moondream_hparams)
    (mw mb : Option tensor_ptr) (type : llm_norm_type) :
    Calm (llm_build_norm cur hparams mw mb type) := by
  unfold Moondream.llm_build_norm
  cases type <;> cases mw <;> cases mb <;> dsimp only <;>
    repeat' first
      | exact calm_pure _
      | exact calm_norm _ _
      | exact calm_rms_norm _ _
      | exact calm_mul _ _
      | exact calm_add _ _
      | apply calm_bind
      | intro _

theorem calm_build_phi2_qkv (layer : moondream_layer) (x : tensor_ptr)
    (n_embd n_embd_gqa n_tokens : Int) :
    Calm (build_phi2_qkv layer x n_embd n_embd_gqa n_tokens) := by
  unfold Moondream.build_phi2_qkv
  cases layer.wqkv <;> dsimp only <;>
    repeat' first
      | exact calm_pure _
      | exact calm_nonnull _
      | exact calm_deref _
      | exact calm_mul_mat _ _
      | exact calm_add _ _
      | exact calm_cont _
      | exact calm_view_2d _ _ _ _ _
      | apply calm_bind
      | intro _

theorem calm_llm_build_ffn_phi2 (cur : tensor_ptr) (up up_b down down_b : Option tensor_ptr) :
    Calm (llm_build_ffn cur up up_b none none down down_b none .LLM_FFN_GELU .LLM_FFN_SEQ) := by
  unfold Moondream.llm_build_ffn
  cases up <;> cases up_b <;> cases down_b <;>
    simp only [reduceCtorEq, if_false] <;>
    repeat' first
      | exact calm_pure _
      | exact calm_nonnull _
      | exact calm_mul_mat _ _
      | exact calm_add _ _
      | exact calm_gelu _
      | apply calm_bind
      | intro _

theorem calm_get_rows (a b : tensor_ptr) : Calm (ggml_get_rows a b) :=
  calm_of_grows_fwd (fun _ _ _ h => by
    obtain ⟨t, ha, ta, tb, -, -, -, -, -, rfl⟩ := ggml_get_rows_fwd h
    exact ⟨_, ha, by simp⟩)

theorem calm_new_tensor_1d (type : ggml_type) (ne0 : Int) :
    Calm (ggml_new_tensor_1d type ne0) :=
  calm_of_grows_fwd (fun _ _ _ h => by
    obtain ⟨t, ha, rfl⟩ := ggml_new_tensor_1d_fwd h
    exact ⟨_, ha, by simp [new_tensor]⟩)

theorem calm_new_tensor_2d (type : ggml_type) (ne0 ne1 : Int) :
    Calm (ggml_new_tensor_2d type ne0 ne1) :=
  calm_of_grows_fwd (fun _ _ _ h => by
    obtain ⟨t, ha, rfl⟩ := ggml_new_tensor_2d_fwd h
    exact ⟨_, ha, by simp [new_tensor]⟩)

theorem calm_set_mctx (f : moondream_context → moondream_context) : Calm (set_mctx f) := by
  intro s b s2 h
  have e := set_mctx_ok.mp h
  subst e
  exact rfl

theorem calm_set_input (p : tensor_ptr) : Calm (ggml_set_input p) := by
  intro s u s2 h
  obtain ⟨i, t, -, e, rfl⟩ := ggml_set_input_ok.mp h
  exact calm_of_set e rfl

theorem stepc {α β : Type} {op : Build α} {g : α → Build β} {s0 s s2 : build_state} {b : β}
    {k : Nat} (q : count_cpy s.ctx0 = count_cpy s0.ctx0 + k) (h : (op >>= g) s = .ok b s2)
    (hq : Calm op) :
    ∃ a s1, count_cpy s1.ctx0 = count_cpy s0.ctx0 + k ∧ g a s1 = .ok b s2 := by
  obtain ⟨a, s1, h1, h2⟩ := bind_ok.mp h
  exact ⟨a, s1, (hq s a s1 h1).trans q, h2⟩

theorem kqv_tail_calm (wo wo_b : Option tensor_ptr) (cur : tensor_ptr) :
    Calm (do
      let wo ← nonnull wo
      let cur ← ggml_mul_mat wo cur
      match wo_b with
      | some b => ggml_add cur b
      | none => pure cur : Build tensor_ptr) := by
  cases wo_b <;> dsimp only <;>
    repeat' first
      | exact calm_pure _
      | exact calm_nonnull _
      | exact calm_mul_mat _ _
      | exact calm_add _ _
      | apply calm_bind
      | intro _

theorem llm_build_kqv_calm (hparams : moondream_hparams) (cparams : moondream_cparams)
    (kv : moondream_kv_cache) (wo wo_b : Option tensor_ptr) (q_cur kq_mask : tensor_ptr)
    (n_tokens n_kv : Int) (kq_scale : f32) (il : Nat) :
    Calm (llm_build_kqv hparams cparams kv wo wo_b q_cur kq_mask n_tokens n_kv kq_scale il) := by
  intro s u s2 h
  unfold Moondream.llm_build_kqv at h
  have q : count_cpy s.ctx0 = count_cpy s.ctx0 + 0 := rfl
  obtain ⟨_, _, q, h⟩ := stepc q h (calm_permute_0213 _)
  obtain ⟨_, _, q, h⟩ := stepc q h (calm_vec_at _ _)
  obtain ⟨_, _, q, h⟩ := stepc q h (calm_view_3d _ _ _ _ _ _ _)
  by_cases hf : cparams.flash_attn = true
  · rw [if_pos hf] at h
    beta_reduce at h
    obtain ⟨_, _, q, h⟩ := stepc q h (calm_vec_at _ _)
    obtain ⟨_, _, q, h⟩ := stepc q h (calm_view_3d _ _ _ _ _ _ _)
    obtain ⟨_, _, q, h⟩ := stepc q h (calm_flash_attn_ext _ _ _ _ _ _)
    obtain ⟨_, _, q, h⟩ := stepc q h (calm_flash_attn_ext_set_prec _ _)
    obtain ⟨_, _, q, h⟩ := stepc q h (calm_reshape_2d _ _ _)
    obtain ⟨_, _, q, h⟩ := stepc q h (calm_expand _)
    exact (kqv_tail_calm _ _ _ _ _ _ h).trans q
  · rw [if_neg hf] at h
    beta_reduce at h
    obtain ⟨_, _, q, h⟩ := stepc q h (calm_mul_mat _ _)
    obtain ⟨_, _, q, h⟩ := stepc q h (calm_mul_mat_set_prec _ _)
    obtain ⟨_, _, q, h⟩ := stepc q h (calm_soft_max_ext _ _ _ _)
    obtain ⟨_, _, q, h⟩ := stepc q h (calm_assert _ _)
    obtain ⟨_, _, q, h⟩ := stepc q h (calm_vec_at _ _)
    obtain ⟨_, _, q, h⟩ := stepc q h (calm_view_3d _ _ _ _ _ _ _)
    obtain ⟨_, _, q, h⟩ := stepc q h (calm_mul_mat _ _)
    obtain ⟨_, _, q, h⟩ := stepc q h (calm_permute_0213 _)
    obtain ⟨_, _, q, h⟩ := stepc q h (calm_cont_2d _ _ _)
    obtain ⟨_, _, q, h⟩ := stepc q h (calm_expand _)
    exact (kqv_tail_calm _ _ _ _ _ _ h).trans q

/-- A call of `llm_build_kv_store` that returns has created two `CPY` tensors. -/
theorem llm_build_kv_store_cpy {hparams : moondream_hparams} {cparams : moondream_cparams}
    {kv : moondream_kv_cache} {k_cur v_cur : tensor_ptr} {n_tokens kv_head : Int} {il : Nat}
    {s s2 : build_state} {u : Unit}
    (h : llm_build_kv_store hparams cparams kv k_cur v_cur n_tokens kv_head il s = .ok u s2) :
    count_cpy s2.ctx0 = count_cpy s.ctx0 + 2 := by
  cases hf : cparams.flash_attn with
  | true =>
    obtain ⟨k_l, v_l, -, -, -, rfl⟩ := llm_build_kv_store_flash hf h
    simp [count_cpy, List.countP_append, List.countP_cons, cache_view_1d, cache_cpy]
  | false =>
    obtain ⟨k_l, v_l, vt, -, -, -, h3, -, rfl⟩ := llm_build_kv_store_noflash hf h
    simp [count_cpy, List.countP_append, List.countP_cons, cache_view_1d, cache_view_2d,
      cache_cpy, h3]

theorem build_phi2_attn_cpy {hparams : moondream_hparams} {cparams : moondream_cparams}
    {batch : moondream_batch} {kv : moondream_kv_cache} {layer : moondream_layer}
    {x inp_pos KQ_mask : tensor_ptr} {il : Nat} {s s2 : build_state} {r : tensor_ptr}
    (h : build_phi2_attn hparams cparams batch kv layer x inp_pos KQ_mask il s = .ok r s2) :
    count_cpy s2.ctx0 = count_cpy s.ctx0 + 2 := by
  unfold build_phi2_attn at h
  have q : count_cpy s.ctx0 = count_cpy s.ctx0 + 0 := rfl
  obtain ⟨_, _, q, h⟩ := stepc q h (calm_build_phi2_qkv _ _ _ _ _)
  obtain ⟨_, _, q, h⟩ := stepc q h (calm_reshape_3d _ _ _ _)
  obtain ⟨_, _, q, h⟩ := stepc q h (calm_reshape_3d _ _ _ _)
  obtain ⟨_, _, q, h⟩ := stepc q h (calm_rope_ext_none _ _ _ _ _ _ _ _ _ _ _ _)
  obtain ⟨_, _, q, h⟩ := stepc q h (calm_scale _ _)
  obtain ⟨_, _, q, h⟩ := stepc q h (calm_rope_ext_none _ _ _ _ _ _ _ _ _ _ _ _)
  unfold llm_build_kv at h
  obtain ⟨_, _, q, h⟩ := stepc q h (calm_expand _)
  obtain ⟨_, _, q, h⟩ := stepc q h (calm_expand _)
  obtain ⟨_, _, q, h⟩ := stepc q h (calm_expand _)
  obtain ⟨_, s5, h5, h⟩ := bind_ok.mp h
  have q5 := llm_build_kv_store_cpy h5
  have q6 := llm_build_kqv_calm _ _ _ _ _ _ _ _ _ _ _ _ _ _ h
  unfold calm at q6
  omega

theorem build_phi2_layer_cpy {model : moondream_model} {hparams : moondream_hparams}
    {cparams : moondream_cparams} {batch : moondream_batch} {kv : moondream_kv_cache}
    {inp_pos KQ_mask inpL r : tensor_ptr} {n_outputs : Int} {il : Nat}
    {s s2 : build_state}
    (h : build_phi2_layer model hparams cparams batch kv inp_pos KQ_mask n_outputs il inpL s
      = .ok r s2) :
    count_cpy s2.ctx0 = count_cpy s.ctx0 + 2 := by
  unfold build_phi2_layer at h
  have q : count_cpy s.ctx0 = count_cpy s.ctx0 + 0 := rfl
  obtain ⟨layer, _, q, h⟩ := stepc q h (calm_vec_at _ _)
  obtain ⟨x, _, q, h⟩ := stepc q h (calm_llm_build_norm _ _ _ _ _)
  obtain ⟨attn, s3, h3, h⟩ := bind_ok.mp h
  have q3 := build_phi2_attn_cpy h3
  have q : count_cpy s3.ctx0 = count_cpy s.ctx0 + 2 := by omega
  have rest : ∀ (sel : tensor_ptr × tensor_ptr × tensor_ptr), Calm (do
      let ffn_output ← llm_build_ffn sel.2.2 (weight_ptr layer.ffn_up)
        (weight_ptr layer.ffn_up_b) none none (weight_ptr layer.ffn_down)
        (weight_ptr layer.ffn_down_b) none .LLM_FFN_GELU .LLM_FFN_SEQ
      let cur ← ggml_add sel.1 ffn_output
      let cur ← ggml_add cur sel.2.1
      pure cur : Build tensor_ptr) := by
    intro sel
    repeat' first
      | exact calm_pure _
      | exact calm_llm_build_ffn_phi2 _ _ _ _ _
      | exact calm_add _ _
      | apply calm_bind
      | intro _
  by_cases he : (il : Int) = hparams.n_layer - 1
  · rw [if_pos he] at h
    unfold build_inp_out_ids at h
    obtain ⟨ids, s4, h4, h⟩ := bind_ok.mp h
    obtain ⟨_, _, q, h4⟩ := stepc q h4 (calm_new_tensor_1d _ _)
    obtain ⟨_, _, q, h4⟩ := stepc q h4 (calm_set_mctx _)
    obtain ⟨_, _, q, h4⟩ := stepc q h4 (calm_set_input _)
    obtain ⟨-, rfl⟩ := pure_ok.mp h4
    obtain ⟨_, _, q, h⟩ := stepc q h (calm_get_rows _ _)
    obtain ⟨_, _, q, h⟩ := stepc q h (calm_get_rows _ _)
    obtain ⟨_, _, q, h⟩ := stepc q h (calm_get_rows _ _)
    replace h := step_pure h
    exact (rest _ _ _ _ h).trans q
  · rw [if_neg he] at h
    replace h := step_pure h
    exact (rest _ _ _ _ h).trans q

theorem build_phi2_layers_cpy {model : moondream_model} {hparams : moondream_hparams}
    {cparams : moondream_cparams} {batch : moondream_batch} {kv : moondream_kv_cache}
    {inp_pos KQ_mask : tensor_ptr} {n_outputs : Int} (k : Nat) :
    ∀ (il : Nat) (inpL r : tensor_ptr) (s s2 : build_state),
      build_phi2_layers model hparams cparams batch kv inp_pos KQ_mask n_outputs k il inpL s
        = .ok r s2 →
      count_cpy s2.ctx0 = count_cpy s.ctx0 + 2 * k := by
  induction k with
  | zero =>
    intro il inpL r s s2 h
    unfold build_phi2_layers at h
    obtain ⟨-, rfl⟩ := pure_ok.mp h
    rfl
  | succ k ih =>
    intro il inpL r s s2 h
    unfold build_phi2_layers at h
    obtain ⟨x, s1, h1, h⟩ := bind_ok.mp h
    have q1 := build_phi2_layer_cpy h1
    have q2 := ih (il + 1) x r s1 s2 h
    omega

/-! ## The inputs of a finished graph -/

theorem build_phi2_layer_inputs_kept {model : moondream_model} {hparams : moondream_hparams}
    {cparams : moondream_cparams} {batch : moondream_batch} {kv : moondream_kv_cache}
    {inp_pos KQ_mask inpL r : tensor_ptr} {n_outputs : Int} {il : Nat}
    {s s2 : build_state}
    (h : build_phi2_layer model hparams cparams batch kv inp_pos KQ_mask n_outputs il inpL s
      = .ok r s2) : inputs_kept s.mctx s2.mctx := by
  by_cases he : (il : Int) = hparams.n_layer - 1
  · obtain ⟨layer, x, s1, attn, s3, g1, g2, g3, back, -, -, -, ⟨-, -, q⟩, -, -, em, -⟩ :=
      build_phi2_layer_last_fwd h he
    rw [em, q]
    exact ⟨rfl, rfl, rfl⟩
  · obtain ⟨-, -, q⟩ := quiet_layer_other _ _ _ _ _ _ _ _ _ _ he _ _ _ h
    rw [q]
    exact ⟨rfl, rfl, rfl⟩

theorem build_phi2_layers_inputs_kept {model : moondream_model} {hparams : moondream_hparams}
    {cparams : moondream_cparams} {batch : moondream_batch} {kv : moondream_kv_cache}
    {inp_pos KQ_mask : tensor_ptr} {n_outputs : Int} (k : Nat) :
    ∀ (il : Nat) (inpL r : tensor_ptr) (s s2 : build_state),
      build_phi2_layers model hparams cparams batch kv inp_pos KQ_mask n_outputs k il inpL s
        = .ok r s2 → inputs_kept s.mctx s2.mctx := by
  induction k with
  | zero =>
    intro il inpL r s s2 h
    unfold build_phi2_layers at h
    obtain ⟨-, rfl⟩ := pure_ok.mp h
    exact ⟨rfl, rfl, rfl⟩
  | succ k ih =>
    intro il inpL r s s2 h
    unfold build_phi2_layers at h
    obtain ⟨x, s1, h1, h⟩ := bind_ok.mp h
    obtain ⟨a1, a2, a3⟩ := build_phi2_layer_inputs_kept h1
    obtain ⟨b1, b2, b3⟩ := ih (il + 1) x r s1 s2 h
    exact ⟨b1.trans a1, b2.trans a2, b3.trans a3⟩

/-- What a returned build with a token batch, causal attention and no flash attention
has at its start: the token input, its embedding lookup, the position input and
the mask input `[n_kv, GGML_PAD(n_tokens, 32)]` with `n_kv = kv.n`, all recorded in
the context; every layer is found behind them, reading that mask; and two `CPY`
tensors per layer are all there are. -/
theorem build_phi2_scene {model : moondream_model} {hparams : moondream_hparams}
    {cparams : moondream_cparams} {batch : moondream_batch} {kv : moondream_kv_cache}
    {s s2 : build_state} {gf : ggml_cgraph}
    (h : build_phi2 model hparams cparams batch kv s = .ok gf s2)
    (ht : batch.token.isSome = true) (hf : cparams.flash_attn = false)
    (hc : cparams.causal_attn = true) :
    ∃ emb rest,
      s2.ctx0 = s.ctx0 ++
          [ { new_tensor .I32 batch.n_tokens 1 1 1 with is_input := true }, emb,
            { new_tensor .I32 batch.n_tokens 1 1 1 with is_input := true },
            { new_tensor .F32 (to_int32 kv.n) (GGML_PAD batch.n_tokens GGML_KQ_MASK_PAD) 1 1
              with is_input := true } ] ++ rest
      ∧ emb.op = .GET_ROWS
      ∧ s2.mctx.inp_tokens = some (.node s.ctx0.length)
      ∧ s2.mctx.inp_pos = some (.node (s.ctx0.length + 2))
      ∧ s2.mctx.inp_KQ_mask = some (.node (s.ctx0.length + 3))
      ∧ count_cpy s2.ctx0 = count_cpy s.ctx0 + 2 * hparams.n_layer.toNat
      ∧ (∀ j, j < hparams.n_layer.toNat →
          layer_at hparams cparams kv batch (.node (s.ctx0.length + 3)) s2.ctx0 gf.expanded j)
      ∧ gf.expanded.length = 6 * hparams.n_layer.toNat + 1 := by
  unfold build_phi2 at h
  obtain ⟨u, sa, h1, h⟩ := bind_ok.mp h
  have e1 := ggml_new_graph_custom_ok.mp h1
  subst e1
  obtain ⟨m, sa, h1, h⟩ := bind_ok.mp h
  obtain ⟨rfl, rfl⟩ := get_mctx_ok.mp h1
  replace h := step_assert h
  obtain ⟨-, h⟩ := h
  obtain ⟨inpL, sb, hb, h⟩ := bind_ok.mp h
  unfold llm_build_inp_embd at hb
  rw [if_pos ht] at hb
  replace hb := step hb (fun _ _ => ggml_new_tensor_1d_fwd)
  obtain ⟨tok, htok, hb⟩ := hb
  replace hb := step_set_mctx hb
  replace hb := step_set_input hb
  replace hb := step_nonnull hb
  obtain ⟨w, -, hb⟩ := hb
  obtain ⟨emb, ⟨rfl, rfl⟩, ta, tb, -, -, -, -, -, hemb⟩ := ggml_get_rows_fwd hb
  subst htok
  obtain ⟨inp_pos, sc, hc2, h⟩ := bind_ok.mp h
  unfold build_inp_pos at hc2
  replace hc2 := step hc2 (fun _ _ => ggml_new_tensor_1d_fwd)
  obtain ⟨pos, hpos, hc2⟩ := hc2
  replace hc2 := step_set_mctx hc2
  replace hc2 := step_set_input hc2
  obtain ⟨rfl, rfl⟩ := pure_ok.mp hc2
  subst hpos
  obtain ⟨KQ_mask, sd, hd, h⟩ := bind_ok.mp h
  rw [build_inp_KQ_mask_run, hf, hc] at hd
  simp only [Bool.false_eq_true, if_false, if_true] at hd
  cases hd
  obtain ⟨x, se, he, h⟩ := bind_ok.mp h
  obtain ⟨⟨new, reg, c5, g5, hreg⟩, hl, -⟩ := build_phi2_layers_fwd _ 0 _ x _ se he rfl
  obtain ⟨k1, k2, k3⟩ := build_phi2_layers_inputs_kept _ _ _ _ _ _ he
  have q5 := build_phi2_layers_cpy _ _ _ _ _ _ he
  obtain ⟨y, sg, hg, h⟩ := bind_ok.mp h
  have grg := llm_build_norm_grows _ _ _ _ _ _ _ _ hg
  have qg := quiet_llm_build_norm _ _ _ _ _ _ _ _ hg
  have cg := calm_llm_build_norm _ _ _ _ _ _ _ _ hg
  replace h := step_nonnull h
  obtain ⟨ow, -, h⟩ := h
  obtain ⟨p1, sh, hh, h⟩ := bind_ok.mp h
  have grh := Grows.mul_mat _ _ _ _ _ hh
  have qh := quiet_mul_mat _ _ _ _ _ hh
  have ch := calm_mul_mat _ _ _ _ _ hh
  replace h := step_nonnull h
  obtain ⟨ob, -, h⟩ := h
  obtain ⟨p2, si, hi, h⟩ := bind_ok.mp h
  have gri := Grows.add _ _ _ _ _ hi
  have qi := quiet_add _ _ _ _ _ hi
  have ci := calm_add _ _ _ _ _ hi
  replace h := step_expand h
  cases h
  obtain ⟨gg, back, eb⟩ := grows_trans (grows_trans grg grh) gri
  obtain ⟨-, -, qm⟩ := quiet_trans (quiet_trans qg qh) qi
  unfold calm at cg ch ci
  dsimp only at c5 g5 k1 k2 k3 q5 hl ⊢
  refine ⟨emb, new ++ back, ?_, by rw [hemb], ?_, ?_, ?_, ?_, ?_, ?_⟩
  · rw [eb, c5]
    simp only [List.append_assoc, List.singleton_append, List.cons_append, List.nil_append]
  · rw [qm, k1]
  · rw [qm, k2]
    simp
  · rw [qm, k3]
    simp
  · rw [ci, ch, cg, q5]
    simp [count_cpy, List.countP_append, List.countP_cons, new_tensor, hemb]
  · intro j hj
    have h0 := hl j (Nat.zero_le j) (by omega)
    have hm := layer_at_mono h0 back [p2]
    rw [eb, gg]
    rw [g5] at hm ⊢
    simpa [List.append_assoc] using hm
  · rw [gg, g5]
    simp [hreg]

/-! ## The prefill and the decode scenario -/

theorem getElem_mid (A M B : List ggml_tensor) (i : Nat) (t : ggml_tensor)
    (h : M[i]? = some t) : (A ++ M ++ B)[A.length + i]? = some t :=
  lookup_mid A M B i t h

theorem layer_at_noflash {hparams : moondream_hparams} {cparams : moondream_cparams}
    {kv : moondream_kv_cache} {batch : moondream_batch} {KQ_mask : tensor_ptr}
    {ctx0 : List ggml_tensor} {expanded : List tensor_ptr} {il : Nat}
    (h : layer_at hparams cparams kv batch KQ_mask ctx0 expanded il)
    (hf : cparams.flash_attn = false) :
    ∃ base k_l v_l sm, kv.k_l[il]? = some k_l ∧ kv.v_l[il]? = some v_l
      ∧ ctx0[base + 1]? = some (cache_view_1d k_l (batch.n_tokens * hparams.n_embd_k_gqa)
          (wrap_size_t (ggml_row_size k_l.type hparams.n_embd_k_gqa * to_int32 kv.head)))
      ∧ ctx0[base + 2]? = some (cache_cpy k_l
          (cache_view_1d k_l (batch.n_tokens * hparams.n_embd_k_gqa)
            (wrap_size_t (ggml_row_size k_l.type hparams.n_embd_k_gqa * to_int32 kv.head)))
          (.node base) (.node (base + 1)))
      ∧ ctx0[base + 3]? = some (cache_view_2d v_l batch.n_tokens hparams.n_embd_v_gqa
          (wrap_size_t (cparams.n_ctx * ggml_type_size v_l.type)) (wrap_size_t (to_int32 kv.head * ggml_type_size v_l.type)))
      ∧ ctx0[base + 5]? = some (cache_cpy v_l
          (cache_view_2d v_l batch.n_tokens hparams.n_embd_v_gqa
            (wrap_size_t (cparams.n_ctx * ggml_type_size v_l.type))
            (wrap_size_t (to_int32 kv.head * ggml_type_size v_l.type)))
          (.node (base + 4)) (.node (base + 3)))
      ∧ ctx0[base + 7]? = some (cache_view_3d k_l hparams.n_embd_head_v (to_int32 kv.n)
          hparams.n_head_kv (ggml_row_size k_l.type hparams.n_embd_k_gqa)
          (ggml_row_size k_l.type hparams.n_embd_head_k))
      ∧ (ctx0[base + 9]? = some sm ∧ sm.op = .SOFT_MAX
          ∧ sm.src = [some (.node (base + 8)), some KQ_mask])
      ∧ ctx0[base + 10]? = some (cache_view_3d v_l (to_int32 kv.n) hparams.n_embd_head_v
          hparams.n_head_kv (ggml_type_size v_l.type * cparams.n_ctx)
          (ggml_type_size v_l.type * cparams.n_ctx * hparams.n_embd_head_v))
      ∧ expanded[6 * il + 3]? = some (.node (base + 2))
      ∧ expanded[6 * il + 4]? = some (.node (base + 5)) := by
  obtain ⟨A, tq, tk, V, tv, seg, B, six, E, F, rfl, rfl, hE, -, -, -, -, -, k_l, v_l, hk, hv, hs⟩ := h
  rcases hs with ⟨hf2, -⟩ | ⟨-, vt, qp, kq, sm, kqv, pm, cur, -, -, -, -, -, -, -, g1, g2, -, -,
    -, -, -, -, -, rfl, rfl⟩
  · rw [hf] at hf2
    cases hf2
  · refine ⟨A.length + 1, k_l, v_l, sm, hk, hv, ?_, ?_, ?_, ?_, ?_, ⟨?_, g1, ?_⟩, ?_, ?_, ?_⟩
    · exact getElem_mid A _ B (1 + 1) _ rfl
    · exact getElem_mid A _ B (1 + 2) _ rfl
    · exact getElem_mid A _ B (1 + 3) _ rfl
    · exact getElem_mid A _ B (1 + 5) _ rfl
    · exact getElem_mid A _ B (1 + 7) _ rfl
    · exact getElem_mid A _ B (1 + 9) _ rfl
    · rw [g2]
    · exact getElem_mid A _ B (1 + 10) _ rfl
    · rw [← hE, List.append_assoc, List.getElem?_append_right (Nat.le_add_right _ _),
        Nat.add_sub_cancel_left, List.getElem?_append_left (by simp)]
      rfl
    · rw [← hE, List.append_assoc, List.getElem?_append_right (Nat.le_add_right _ _),
        Nat.add_sub_cancel_left, List.getElem?_append_left (by simp)]
      rfl

theorem scenario_layer_views (n : Int) (a b l : Nat) (hl : l < 32) {KQ_mask : tensor_ptr}
    {ctx0 : List ggml_tensor} {expanded : List tensor_ptr}
    (h : layer_at scenario_hparams scenario_cparams (sample_kv_cache scenario_hparams 2048 a b)
      (sample_batch n true false) KQ_mask ctx0 expanded l) :
    ∃ base, scenario_layer ctx0 expanded KQ_mask n (to_int32 a) (to_int32 b) l base := by
  obtain ⟨base, k_l, v_l, sm, hk, hv, f1, f2, f3, f4, f5, f6, f7, f8, f9⟩ :=
    layer_at_noflash h rfl
  rw [scenario_k_l_at 2048 a b l hl] at hk
  rw [scenario_v_l_at 2048 a b l hl] at hv
  cases hk
  cases hv
  exact ⟨base, f1, f2, f3, f4, f5, ⟨sm, f6⟩, f7, f8, f9⟩

/-- The two scenario builds with separate `wq`, `wk`, `wv` return, and what the graph
holds: the three inputs, the layers, the selection of the outputs in layer 31, the
logits. -/
theorem scenario_graph (a b : Nat) (n : Int)
    (hsc : (n = 16 ∧ a = 0 ∧ b = 0) ∨ (n = 1 ∧ a = 16 ∧ b = 16)) :
    ∃ gf s2, build_phi2 (scenario_model false) scenario_hparams scenario_cparams
        (sample_batch n true false) (sample_kv_cache scenario_hparams 2048 a b)
        (sample_state scenario_cparams 1) = .ok gf s2
      ∧ (s2.mctx.inp_tokens = some (.node 0)
          ∧ s2.ctx0[0]? = some { new_tensor .I32 n 1 1 1 with is_input := true })
      ∧ (s2.mctx.inp_pos = some (.node 2)
          ∧ s2.ctx0[2]? = some { new_tensor .I32 n 1 1 1 with is_input := true })
      ∧ (s2.mctx.inp_KQ_mask = some (.node 3)
          ∧ s2.ctx0[3]? = some { new_tensor .F32 (to_int32 b) 32 1 1 with is_input := true })
      ∧ count_cpy s2.ctx0 = 64
      ∧ gf.expanded.length = 193
      ∧ (∀ l, l < 32 →
          ∃ base, scenario_layer s2.ctx0 gf.expanded (.node 3) n (to_int32 a) (to_int32 b) l base)
      ∧ (∃ inpL inp_pos KQ_mask s0 x s1 attn s3 g1 g2 g3 back,
          llm_build_norm inpL scenario_hparams
              (weight_ptr (sample_layer false scenario_hparams 31).attn_norm)
              (weight_ptr (sample_layer false scenario_hparams 31).attn_norm_b) .LLM_NORM s0
            = .ok x s1
          ∧ build_phi2_attn scenario_hparams scenario_cparams (sample_batch n true false)
              (sample_kv_cache scenario_hparams 2048 a b) (sample_layer false scenario_hparams 31)
              x inp_pos KQ_mask 31 s1 = .ok attn s3
          ∧ s2.ctx0 = s3.ctx0
              ++ [{ new_tensor .I32 1 1 1 1 with is_input := true }, g1, g2, g3] ++ back
          ∧ s2.mctx.inp_out_ids = some (.node s3.ctx0.length)
          ∧ (g1.op = .GET_ROWS ∧ g1.src = [some attn, some (.node s3.ctx0.length)])
          ∧ (g2.op = .GET_ROWS ∧ g2.src = [some inpL, some (.node s3.ctx0.length)])
          ∧ (g3.op = .GET_ROWS ∧ g3.src = [some x, some (.node s3.ctx0.length)]))
      ∧ count_inputs s2.ctx0 = 4
      ∧ count_get_rows s2.ctx0 = 4
      ∧ ∃ logits, gf.expanded.getLast? = some logits ∧ columns s2.ctx0 logits 1 := by
  obtain ⟨gf, s2, h⟩ := scenario_returns a b n hsc
  have hpad : GGML_PAD (sample_batch n true false).n_tokens GGML_KQ_MASK_PAD = 32 := by
    rcases hsc with ⟨rfl, -⟩ | ⟨rfl, -⟩
    · exact GGML_PAD_16
    · exact GGML_PAD_1
  obtain ⟨emb, rest, e, -, m1, m2, m3, cc, lay, len⟩ := build_phi2_scene h rfl rfl rfl
  obtain ⟨layer, inpL, inp_pos, KQ_mask, s0, x, s1, attn, s3, g1, g2, g3, back, logits, hl, hx,
    ha, ectx, eo, b1, b2, b3, c1, c2, c3, c4, ⟨i1, i2, i3⟩, hlast, hcol⟩ :=
      build_phi2_selection_fwd h (by decide)
  have hl2 : (scenario_model false).layers[31]? = some layer := hl
  rw [scenario_layers_at false 31 (by omega)] at hl2
  cases hl2
  rw [hpad] at e
  refine ⟨gf, s2, h, ⟨m1, ?_⟩, ⟨m2, ?_⟩, ⟨m3, ?_⟩, cc, len, ?_,
    ⟨inpL, inp_pos, KQ_mask, s0, x, s1, attn, s3, g1, g2, g3, back, hx, ha, ectx, eo, b1, b2,
      b3⟩, ?_, ?_, logits, hlast, hcol⟩
  · rw [e]
    rfl
  · rw [e]
    rfl
  · rw [e]
    simp [sample_state, sample_kv_cache]
  · intro l hl
    exact scenario_layer_views n a b l hl (lay l hl)
  · rw [ectx]
    simp only [count_inputs, List.countP_append, List.countP_cons, List.countP_nil] at c2 c4 ⊢
    simp only [i1, i2, i3] at c2 c4 ⊢
    rw [c2, c4]
    rfl
  · rw [ectx]
    simp only [count_get_rows, List.countP_append, List.countP_cons, List.countP_nil]
      at c1 c3 ⊢
    rw [c1, c3, b1.1, b2.1, b3.1]
    rfl

theorem countP_ge_of_nodup {α : Type} (p : α → Bool) (L M : List α) (hn : M.Nodup)
    (hs : ∀ t ∈ M, t ∈ L ∧ p t = true) : M.length ≤ L.countP p := by
  rw [List.countP_eq_length_filter]
  apply List.Subperm.length_le
  apply List.subperm_of_subset hn
  intro t ht
  exact List.mem_filter.mpr (hs t ht)

theorem countP_add_le {α : Type} (p q r : α → Bool) (hp : ∀ a, p a = true → r a = true)
    (hq : ∀ a, q a = true → r a = true) (hd : ∀ a, p a = true → q a = true → False)
    (l : List α) : l.countP p + l.countP q ≤ l.countP r := by
  induction l with
  | nil => simp
  | cons a l ih =>
    simp only [List.countP_cons]
    have h1 := hp a
    have h2 := hq a
    have h3 := hd a
    cases hpa : p a <;> cases hqa : q a <;> cases hra : r a <;> simp_all <;> omega

theorem scenario_cpy_counts {ctx0 : List ggml_tensor} {expanded : List tensor_ptr}
    {mask : tensor_ptr} (n a b : Int) (hc : count_cpy ctx0 = 64)
    (hl : ∀ l, l < 32 → ∃ base, scenario_layer ctx0 expanded mask n a b l base) :
    count_cpy_shape ctx0 (n * 2560) 1 = 32 ∧ count_cpy_shape ctx0 n 2560 = 32 := by
  choose! base hbase using hl
  have hk : 32 ≤ count_cpy_shape ctx0 (n * 2560) 1 := by
    have h := countP_ge_of_nodup
      (fun t : ggml_tensor => t.op == .CPY && t.ne0 == n * 2560 && t.ne1 == 1 && t.ne2 == 1
        && t.ne3 == 1) ctx0
      ((List.range 32).map (fun l => cache_cpy (scenario_k_l l)
        (cache_view_1d (scenario_k_l l) (n * 2560) (wrap_size_t (5120 * a))) (.node (base l))
        (.node (base l + 1)))) ?_ ?_
    · simpa using h
    · apply List.Nodup.map_on _ (List.nodup_range 32)
      intro x _ y _ e
      have e2 := congrArg (fun t => t.view_src) e
      simp [cache_cpy, scenario_k_l, sample_tensor] at e2
      exact e2
    · intro t ht
      obtain ⟨l, hl, rfl⟩ := List.mem_map.mp ht
      have hl2 : l < 32 := List.mem_range.mp hl
      obtain ⟨-, g2, -⟩ := hbase l hl2
      refine ⟨List.getElem?_mem g2, ?_⟩
      simp [cache_cpy, cache_view_1d, new_tensor]
  have hv : 32 ≤ count_cpy_shape ctx0 n 2560 := by
    have h := countP_ge_of_nodup
      (fun t : ggml_tensor => t.op == .CPY && t.ne0 == n && t.ne1 == 2560 && t.ne2 == 1
        && t.ne3 == 1) ctx0
      ((List.range 32).map (fun l => cache_cpy (scenario_v_l l)
        (cache_view_2d (scenario_v_l l) n 2560 4096 (wrap_size_t (a * 2))) (.node (base l + 4))
        (.node (base l + 3)))) ?_ ?_
    · simpa using h
    · apply List.Nodup.map_on _ (List.nodup_range 32)
      intro x _ y _ e
      have e2 := congrArg (fun t => t.view_src) e
      simp [cache_cpy, scenario_v_l, sample_tensor] at e2
      exact e2
    · intro t ht
      obtain ⟨l, hl, rfl⟩ := List.mem_map.mp ht
      have hl2 : l < 32 := List.mem_range.mp hl
      obtain ⟨-, -, -, g4, -⟩ := hbase l hl2
      refine ⟨List.getElem?_mem g4, ?_⟩
      simp [cache_cpy, cache_view_2d, new_tensor]
  have hsum := countP_add_le
    (fun t : ggml_tensor => t.op == .CPY && t.ne0 == n * 2560 && t.ne1 == 1 && t.ne2 == 1
      && t.ne3 == 1)
    (fun t : ggml_tensor => t.op == .CPY && t.ne0 == n && t.ne1 == 2560 && t.ne2 == 1
      && t.ne3 == 1)
    (fun t : ggml_tensor => t.op == .CPY) ?_ ?_ ?_ ctx0
  · unfold count_cpy_shape at hk hv ⊢
    unfold count_cpy at hc
    omega
  · intro t ht
    simp only [Bool.and_eq_true] at ht
    exact ht.1.1.1.1
  · intro t ht
    simp only [Bool.and_eq_true] at ht
    exact ht.1.1.1.1
  · intro t h1 h2
    simp only [Bool.and_eq_true, beq_iff_eq] at h1 h2
    have e1 := h1.1.1.2
    have e2 := h2.1.1.2
    rw [e1] at e2
    exact absurd e2 (by decide)

/-- Claim C11, the failing input. The prefill scenario with the fused `wqkv` of Phi-2:
`build_phi2` does not return. The K and V windows of the fused projection are one head
(80) wide, so the contiguous K has `80 * 16` elements and
`ggml_reshape_3d(Kcur, 80, 32, 16)` asserts in layer 0, after 16 tensors, with
nothing registered in the graph. -/
theorem prefill_fused_aborts :
    fault_of (prefill_run true) = some (.op_assert .RESHAPE)
    ∧ (state_of (prefill_run true)).ctx0.length = 16
    ∧ (state_of (prefill_run true)).gf.expanded = []
    ∧ ((state_of (prefill_run true)).ctx0[12]?).map
        (fun t => (t.op, t.src, t.ne0, t.ne1, t.ne2, t.ne3))
          = some (.CONT, [some (.node 11)], 80, 16, 1, 1) := by
  decide!

/-- Claim C11, for a model with separate `wq`, `wk`, `wv`. In the prefill scenario
`build_phi2` returns a graph. Tensor 0 is the I32 token input `[16]`, tensor 2 the
I32 `inp_pos` `[16]`, tensor 3 the F32 mask `[0, 32]` (`n_kv = kv.n = 0`), each
recorded in the context. There are 64 `CPY` tensors, 32 of shape `[40960]` and 32
of shape `[16, 2560]`, and 193 registered tensors; every layer `l < 32` has the copy of K (tensor `base`) into the 1-D window of length
`16 * 2560 = 40960` at offset 0 of its K cache and the copy of the transposed V into
the 2-D window `[16, 2560]` (row stride 4096) at offset 0 of its V cache, registered
at places `6 l + 3` and `6 l + 4`. Behind the attention block of layer 31 comes the
I32 input `inp_out_ids` of shape `[1]`, recorded in the context, with the three
`GET_ROWS` by it; the graph has four inputs and four `GET_ROWS` in all, and the
logits, registered last, have one column. -/
theorem prefill_split_graph :
    ∃ gf s2, prefill_run false = .ok gf s2
      ∧ (s2.mctx.inp_tokens = some (.node 0)
          ∧ s2.ctx0[0]? = some { new_tensor .I32 16 1 1 1 with is_input := true })
      ∧ (s2.mctx.inp_pos = some (.node 2)
          ∧ s2.ctx0[2]? = some { new_tensor .I32 16 1 1 1 with is_input := true })
      ∧ (s2.mctx.inp_KQ_mask = some (.node 3)
          ∧ s2.ctx0[3]? = some { new_tensor .F32 0 32 1 1 with is_input := true })
      ∧ (count_cpy s2.ctx0 = 64 ∧ count_cpy_shape s2.ctx0 40960 1 = 32
          ∧ count_cpy_shape s2.ctx0 16 2560 = 32)
      ∧ gf.expanded.length = 193
      ∧ (∀ l, l < 32 → ∃ base,
          s2.ctx0[base + 1]? = some (cache_view_1d (scenario_k_l l) 40960 0)
          ∧ s2.ctx0[base + 2]? = some (cache_cpy (scenario_k_l l)
              (cache_view_1d (scenario_k_l l) 40960 0) (.node base) (.node (base + 1)))
          ∧ s2.ctx0[base + 3]? = some (cache_view_2d (scenario_v_l l) 16 2560 4096 0)
          ∧ s2.ctx0[base + 5]? = some (cache_cpy (scenario_v_l l)
              (cache_view_2d (scenario_v_l l) 16 2560 4096 0) (.node (base + 4))
              (.node (base + 3)))
          ∧ gf.expanded[6 * l + 3]? = some (.node (base + 2))
          ∧ gf.expanded[6 * l + 4]? = some (.node (base + 5)))
      ∧ (∃ inpL inp_pos KQ_mask s0 x s1 attn s3 g1 g2 g3 back,
          llm_build_norm inpL scenario_hparams
              (weight_ptr (sample_layer false scenario_hparams 31).attn_norm)
              (weight_ptr (sample_layer false scenario_hparams 31).attn_norm_b) .LLM_NORM s0
            = .ok x s1
          ∧ build_phi2_attn scenario_hparams scenario_cparams (sample_batch 16 true false)
              (sample_kv_cache scenario_hparams 2048 0 0) (sample_layer false scenario_hparams 31)
              x inp_pos KQ_mask 31 s1 = .ok attn s3
          ∧ s2.ctx0 = s3.ctx0
              ++ [{ new_tensor .I32 1 1 1 1 with is_input := true }, g1, g2, g3] ++ back
          ∧ s2.mctx.inp_out_ids = some (.node s3.ctx0.length)
          ∧ (g1.op = .GET_ROWS ∧ g1.src = [some attn, some (.node s3.ctx0.length)])
          ∧ (g2.op = .GET_ROWS ∧ g2.src = [some inpL, some (.node s3.ctx0.length)])
          ∧ (g3.op = .GET_ROWS ∧ g3.src = [some x, some (.node s3.ctx0.length)]))
      ∧ count_inputs s2.ctx0 = 4
      ∧ count_get_rows s2.ctx0 = 4
      ∧ ∃ logits, gf.expanded.getLast? = some logits ∧ columns s2.ctx0 logits 1 := by
  unfold prefill_run
  obtain ⟨gf, s2, h, f1, f2, f3, f4, f5, f6, f7, f8, f9, f10⟩ :=
    scenario_graph 0 0 16 (Or.inl ⟨rfl, rfl, rfl⟩)
  have hc := scenario_cpy_counts 16 (to_int32 0) (to_int32 0) f4 f6
  refine ⟨gf, s2, h, f1, f2, f3, ⟨f4, hc.1, hc.2⟩, f5, ?_, f7, f8, f9, f10⟩
  intro l hl
  obtain ⟨base, g1, g2, g3, g4, -, -, -, g8, g9⟩ := f6 l hl
  exact ⟨base, g1, g2, g3, g4, g8, g9⟩

/-- Claim C12, refuted. The decode scenario, separate `wq`, `wk`, `wv`: the build
returns, and the mask, tensor 3, is F32 `[16, 32]`: its first dimension is
`n_kv = kv.n = 16`, not 17. In layer 0 the K read window is `[80, 16, 32]` and the V
read window `[16, 80, 32]`, and the V write window, the destination of the copy
registered at place 4, starts at byte 32 (`kv.head` elements of two bytes), while
`row_size * 16` is 81920. -/
theorem decode_window_is_cache_n :
    ∃ gf s2, decode_run false = .ok gf s2
      ∧ s2.mctx.inp_KQ_mask = some (.node 3)
      ∧ (s2.ctx0[3]?).map (fun t => (t.type, t.ne0, t.ne1, t.ne2, t.ne3))
          = some (.F32, 16, 32, 1, 1)
      ∧ (∃ base,
          s2.ctx0[base + 3]? = some (cache_view_2d (scenario_v_l 0) 1 2560 4096 32)
          ∧ s2.ctx0[base + 5]? = some (cache_cpy (scenario_v_l 0)
              (cache_view_2d (scenario_v_l 0) 1 2560 4096 32) (.node (base + 4))
              (.node (base + 3)))
          ∧ gf.expanded[4]? = some (.node (base + 5))
          ∧ s2.ctx0[base + 7]? = some (cache_view_3d (scenario_k_l 0) 80 16 32 5120 160)
          ∧ s2.ctx0[base + 10]?
              = some (cache_view_3d (scenario_v_l 0) 16 80 32 4096 327680))
      ∧ (cache_view_2d (scenario_v_l 0) 1 2560 4096 32).view_offs = 32
      ∧ ggml_row_size .F16 2560 * 16 = 81920 := by
  unfold decode_run
  obtain ⟨gf, s2, h, -, -, ⟨f1, f2⟩, -, -, f6, -⟩ :=
    scenario_graph 16 16 1 (Or.inr ⟨rfl, rfl, rfl⟩)
  refine ⟨gf, s2, h, f1, ?_, ?_, rfl, by decide⟩
  · rw [f2]
    rfl
  · obtain ⟨base, -, -, g3, g4, g5, -, g7, -, g9⟩ := f6 0 (by omega)
    exact ⟨base, g3, g4, g9, g5, g7⟩

/-- Claim C12, amended. In the decode scenario with separate `wq`, `wk`, `wv` the
build returns a graph that uses `n_kv = kv.n = 16`. The mask, tensor 3 and recorded
in the context, is the F32 input `[16, 32]`. In every layer `l < 32`: the K write
window is 1-D of length 2560 at byte offset `row_size * 16 = 81920` of the K cache;
the V write window is 2-D `[1, 2560]` with row stride 4096 at byte offset
`16 * 2 = 32` of the V cache; K and the transposed V are copied into them and the
copies registered; the K read window is `[80, 16, 32]`, the V read window
`[16, 80, 32]`, and the soft-max reads the mask. -/
theorem decode_split_graph :
    ∃ gf s2, decode_run false = .ok gf s2
      ∧ (s2.mctx.inp_KQ_mask = some (.node 3)
          ∧ s2.ctx0[3]? = some { new_tensor .F32 16 32 1 1 with is_input := true })
      ∧ (∀ l, l < 32 → ∃ base,
          s2.ctx0[base + 1]? = some (cache_view_1d (scenario_k_l l) 2560 81920)
          ∧ s2.ctx0[base + 2]? = some (cache_cpy (scenario_k_l l)
              (cache_view_1d (scenario_k_l l) 2560 81920) (.node base) (.node (base + 1)))
          ∧ s2.ctx0[base + 3]? = some (cache_view_2d (scenario_v_l l) 1 2560 4096 32)
          ∧ s2.ctx0[base + 5]? = some (cache_cpy (scenario_v_l l)
              (cache_view_2d (scenario_v_l l) 1 2560 4096 32) (.node (base + 4))
              (.node (base + 3)))
          ∧ gf.expanded[6 * l + 3]? = some (.node (base + 2))
          ∧ gf.expanded[6 * l + 4]? = some (.node (base + 5))
          ∧ s2.ctx0[base + 7]? = some (cache_view_3d (scenario_k_l l) 80 16 32 5120 160)
          ∧ (∃ sm, s2.ctx0[base + 9]? = some sm ∧ sm.op = .SOFT_MAX
              ∧ sm.src = [some (.node (base + 8)), some (.node 3)])
          ∧ s2.ctx0[base + 10]?
              = some (cache_view_3d (scenario_v_l l) 16 80 32 4096 327680))
      ∧ ggml_row_size .F16 2560 * 16 = 81920
      ∧ ggml_type_size .F16 * 16 = 32 := by
  unfold decode_run
  obtain ⟨gf, s2, h, -, -, f3, -, -, f6, -⟩ :=
    scenario_graph 16 16 1 (Or.inr ⟨rfl, rfl, rfl⟩)
  refine ⟨gf, s2, h, f3, ?_, by decide, by decide⟩
  intro l hl
  obtain ⟨base, g1, g2, g3, g4, g5, g6, g7, g8, g9⟩ := f6 l hl
  exact ⟨base, g1, g2, g3, g4, g8, g9, g5, g6, g7⟩

/-! ## A cache of the wrong size, and the input path taken -/

theorem nokv_bind {α β : Type} {x : Build α} {g : α → Build β} (hx : NoKv x)
    (hg : ∀ a, NoKv (g a)) : NoKv (x >>= g) := by
  intro s f s2 h
  rw [bind_run] at h
  cases e : x s with
  | ok a s1 =>
    rw [e] at h
    exact hg a s1 f s2 h
  | abort f1 s1 =>
    rw [e] at h
    cases h
    exact hx s _ _ e

theorem nokv_deref (p : tensor_ptr) : NoKv (deref p) := by
  intro s f s2 h
  unfold deref at h
  split at h
  · cases h
  · cases h
    decide

theorem nokv_push (t : ggml_tensor) : NoKv (push t) := by
  intro s f s2 h
  cases h

theorem nokv_cast (a : tensor_ptr) (type : ggml_type) : NoKv (ggml_cast a type) := by
  intro s f s2 h
  unfold ggml_cast at h
  exact (nokv_bind (nokv_deref a) fun _ => nokv_push _) s f s2 h

/-- The layer norm starts with a `NORM` node over its argument. -/
theorem llm_build_norm_first {cur r : tensor_ptr} {hparams : moondream_hparams}
    {mw mb : Option tensor_ptr} {s s2 : build_state}
    (h : llm_build_norm cur hparams mw mb .LLM_NORM s = .ok r s2) :
    ∃ t rest, t.op = .NORM ∧ t.src = [some cur]
      ∧ s2 = { s with ctx0 := s.ctx0 ++ t :: rest } := by
  unfold llm_build_norm at h
  dsimp only at h
  replace h := step h (fun _ _ => ggml_norm_fwd)
  obtain ⟨t, ⟨ta, -, ht⟩, h⟩ := h
  cases mw with
  | none =>
    replace h := step_pure h
    cases mb with
    | none =>
      obtain ⟨-, rfl⟩ := pure_ok.mp h
      exact ⟨t, [], by rw [ht], by rw [ht], rfl⟩
    | some b =>
      obtain ⟨t2, ⟨-, rfl⟩, -⟩ := ggml_add_fwd h
      exact ⟨t, [t2], by rw [ht], by rw [ht], by simp⟩
  | some w =>
    replace h := step h (fun _ _ => ggml_mul_fwd)
    obtain ⟨t2, -, h⟩ := h
    cases mb with
    | none =>
      obtain ⟨-, rfl⟩ := pure_ok.mp h
      exact ⟨t, [t2], by rw [ht], by rw [ht], by simp⟩
    | some b =>
      obtain ⟨t3, ⟨-, rfl⟩, -⟩ := ggml_add_fwd h
      exact ⟨t, [t2, t3], by rw [ht], by rw [ht], by simp⟩

/-- The two paths of `llm_build_inp_embd`: with `batch.token` set, an `I32` input of
`n_tokens` elements and the `GET_ROWS` of `tok_embd` by it; otherwise an `F32` input
`[n_embd, n_tokens]`, which is the result itself. -/
theorem llm_build_inp_embd_path {hparams : moondream_hparams} {batch : moondream_batch}
    {tok_embd : Option tensor_ptr} {s s2 : build_state} {r : tensor_ptr}
    (h : llm_build_inp_embd hparams batch tok_embd s = .ok r s2) :
    (batch.token.isSome = true ∧ ∃ w emb, tok_embd = some w ∧ emb.op = .GET_ROWS
        ∧ emb.src = [some w, some (.node s.ctx0.length)] ∧ emb.is_input = false
        ∧ r = .node (s.ctx0.length + 1)
        ∧ s2 = { ctx0 := s.ctx0 ++
                    [{ new_tensor .I32 batch.n_tokens 1 1 1 with is_input := true }, emb],
                 gf := s.gf,
                 mctx := { s.mctx with inp_tokens := some (.node s.ctx0.length) } })
    ∨ (batch.token.isSome = false ∧ r = .node s.ctx0.length
        ∧ s2 = { ctx0 := s.ctx0 ++
                    [{ new_tensor .F32 hparams.n_embd batch.n_tokens 1 1 with
                        is_input := true }],
                 gf := s.gf,
                 mctx := { s.mctx with inp_embd := some (.node s.ctx0.length) } }) := by
  unfold llm_build_inp_embd at h
  by_cases hb : batch.token.isSome = true
  · rw [if_pos hb] at h
    replace h := step h (fun _ _ => ggml_new_tensor_1d_fwd)
    obtain ⟨t, ht, h⟩ := h
    replace h := step_set_mctx h
    replace h := step_set_input h
    replace h := step_nonnull h
    obtain ⟨w, hw, h⟩ := h
    obtain ⟨t2, ⟨rfl, rfl⟩, ta, tb, -, -, -, -, -, ht2⟩ := ggml_get_rows_fwd h
    subst ht
    refine Or.inl ⟨hb, w, t2, hw, by rw [ht2], by rw [ht2], by rw [ht2]; rfl, by simp, ?_⟩
    simp
  · rw [if_neg hb] at h
    replace h := step h (fun _ _ => ggml_new_tensor_2d_fwd)
    obtain ⟨t, ht, h⟩ := h
    replace h := step_set_mctx h
    replace h := step_set_input h
    obtain ⟨rfl, rfl⟩ := pure_ok.mp h
    subst ht
    exact Or.inr ⟨by simpa using hb, rfl, rfl⟩

theorem build_inp_pos_fwd {batch : moondream_batch} {s s2 : build_state} {r : tensor_ptr}
    (h : build_inp_pos batch s = .ok r s2) :
    r = .node s.ctx0.length
      ∧ s2 = { ctx0 := s.ctx0 ++
                  [{ new_tensor .I32 batch.n_tokens 1 1 1 with is_input := true }],
               gf := s.gf,
               mctx := { s.mctx with inp_pos := some (.node s.ctx0.length) } } := by
  unfold build_inp_pos at h
  replace h := step h (fun _ _ => ggml_new_tensor_1d_fwd)
  obtain ⟨t, ht, h⟩ := h
  replace h := step_set_mctx h
  replace h := step_set_input h
  obtain ⟨rfl, rfl⟩ := pure_ok.mp h
  subst ht
  exact ⟨rfl, rfl⟩

theorem build_phi2_layer_embd_kept {model : moondream_model} {hparams : moondream_hparams}
    {cparams : moondream_cparams} {batch : moondream_batch} {kv : moondream_kv_cache}
    {inp_pos KQ_mask inpL r : tensor_ptr} {n_outputs : Int} {il : Nat}
    {s s2 : build_state}
    (h : build_phi2_layer model hparams cparams batch kv inp_pos KQ_mask n_outputs il inpL s
      = .ok r s2) : s2.mctx.inp_embd = s.mctx.inp_embd := by
  by_cases he : (il : Int) = hparams.n_layer - 1
  · obtain ⟨layer, x, s1, attn, s3, g1, g2, g3, back, -, -, -, ⟨-, -, q⟩, -, -, em, -⟩ :=
      build_phi2_layer_last_fwd h he
    rw [em, q]
  · obtain ⟨-, -, q⟩ := quiet_layer_other _ _ _ _ _ _ _ _ _ _ he _ _ _ h
    rw [q]

/-- The layer loop appends to the context, starting with the `NORM` node over the
layer input, and leaves the recorded `inp_embd` alone. -/
theorem build_phi2_layers_first {model : moondream_model} {hparams : moondream_hparams}
    {cparams : moondream_cparams} {batch : moondream_batch} {kv : moondream_kv_cache}
    {inp_pos KQ_mask : tensor_ptr} {n_outputs : Int} (k : Nat) :
    ∀ (il : Nat) (inpL r : tensor_ptr) (s s2 : build_state),
      build_phi2_layers model hparams cparams batch kv inp_pos KQ_mask n_outputs k il inpL s
        = .ok r s2 →
      s2.mctx.inp_embd = s.mctx.inp_embd
      ∧ ∃ new, s2.ctx0 = s.ctx0 ++ new
        ∧ (0 < k → ∃ nrm, new[0]? = some nrm ∧ nrm.op = .NORM ∧ nrm.src = [some inpL]) := by
  induction k with
  | zero =>
    intro il inpL r s s2 h
    unfold build_phi2_layers at h
    obtain ⟨-, rfl⟩ := pure_ok.mp h
    exact ⟨rfl, [], by simp, fun h0 => absurd h0 (by omega)⟩
  | succ k ih =>
    intro il inpL r s s2 h
    unfold build_phi2_layers at h
    obtain ⟨x, s1, h1, h⟩ := bind_ok.mp h
    have hm := build_phi2_layer_embd_kept h1
    obtain ⟨hm2, new2, e2, -⟩ := ih (il + 1) x r s1 s2 h
    unfold build_phi2_layer at h1
    replace h1 := step_vec_at h1
    obtain ⟨layer, -, h1⟩ := h1
    obtain ⟨y, sa, ha, h1⟩ := bind_ok.mp h1
    obtain ⟨t, rest, ht1, ht2, rfl⟩ := llm_build_norm_first ha
    obtain ⟨c, s3, h3, h1⟩ := bind_ok.mp h1
    obtain ⟨pre, tq, tk, V, tv, seg, tail, six, -, -, -, -, -, -, -, rfl⟩ :=
      build_phi2_attn_fwd h3
    obtain ⟨-, n4, e4⟩ := grows_of (Grows.layer_tail hparams layer n_outputs il c inpL y) h1
    dsimp only at e4
    refine ⟨hm2.trans hm, t :: rest ++ pre ++ ([tq, tk] ++ seg) ++ tail ++ n4 ++ new2, ?_,
      fun _ => ⟨t, by simp, ht1, ht2⟩⟩
    rw [e2, e4]
    simp only [List.append_assoc, List.cons_append]

/-- What a returned build has at its start: the tensors of the input path taken, then
the position input and the mask, then a `NORM` node over the result of the input
path; and the input pointers that the path recorded are still recorded at the end. -/
theorem build_phi2_path_fwd {model : moondream_model} {hparams : moondream_hparams}
    {cparams : moondream_cparams} {batch : moondream_batch} {kv : moondream_kv_cache}
    {s s2 : build_state} {gf : ggml_cgraph}
    (h : build_phi2 model hparams cparams batch kv s = .ok gf s2) :
    ∃ inpL s1 rest nrm,
      llm_build_inp_embd hparams batch (weight_ptr model.tok_embd)
          { s with gf := { size := LLAMA_MAX_NODES, grads := false, expanded := [] } }
        = .ok inpL s1
      ∧ s2.ctx0 = s1.ctx0 ++ rest
      ∧ rest[if cparams.flash_attn then 3 else 2]? = some nrm
      ∧ nrm.op = .NORM ∧ nrm.src = [some inpL]
      ∧ s2.mctx.inp_tokens = s1.mctx.inp_tokens
      ∧ s2.mctx.inp_embd = s1.mctx.inp_embd := by
  unfold build_phi2 at h
  obtain ⟨u, sa, h1, h⟩ := bind_ok.mp h
  have e1 := ggml_new_graph_custom_ok.mp h1
  subst e1
  obtain ⟨m, sa, h1, h⟩ := bind_ok.mp h
  obtain ⟨rfl, rfl⟩ := get_mctx_ok.mp h1
  replace h := step_assert h
  obtain ⟨-, h⟩ := h
  obtain ⟨inpL, sb, hb, h⟩ := bind_ok.mp h
  obtain ⟨inp_pos, sc, hc2, h⟩ := bind_ok.mp h
  obtain ⟨-, rfl⟩ := build_inp_pos_fwd hc2
  obtain ⟨KQ_mask, sd, hd, h⟩ := bind_ok.mp h
  obtain ⟨x, se, he, h⟩ := bind_ok.mp h
  obtain ⟨k1, -, -⟩ := build_phi2_layers_inputs_kept _ _ _ _ _ _ he
  obtain ⟨k4, new, c5, hfirst⟩ := build_phi2_layers_first _ _ _ _ _ _ he
  obtain ⟨y, sg, hg, h⟩ := bind_ok.mp h
  obtain ⟨t, trest, ht1, ht2, rfl⟩ := llm_build_norm_first hg
  replace h := step_nonnull h
  obtain ⟨ow, -, h⟩ := h
  obtain ⟨p1, sh, hh, h⟩ := bind_ok.mp h
  have grh := Grows.mul_mat _ _ _ _ _ hh
  have qh := quiet_mul_mat _ _ _ _ _ hh
  replace h := step_nonnull h
  obtain ⟨ob, -, h⟩ := h
  obtain ⟨p2, si, hi, h⟩ := bind_ok.mp h
  have gri := Grows.add _ _ _ _ _ hi
  have qi := quiet_add _ _ _ _ _ hi
  replace h := step_expand h
  cases h
  obtain ⟨-, back, eb⟩ := grows_trans grh gri
  obtain ⟨-, -, qm⟩ := quiet_trans qh qi
  dsimp only at eb qm ⊢
  have hnrm : ∃ nrm, (new ++ t :: trest)[0]? = some nrm ∧ nrm.op = .NORM
      ∧ nrm.src = [some inpL] := by
    by_cases hk : 0 < hparams.n_layer.toNat
    · obtain ⟨nrm, a, b, c⟩ := hfirst hk
      refine ⟨nrm, ?_, b, c⟩
      have hlen : 0 < new.length := by
        rcases new with _ | ⟨a0, l0⟩
        · simp at a
        · simp
      rw [List.getElem?_append_left hlen]
      exact a
    · have h0 : hparams.n_layer.toNat = 0 := by omega
      rw [h0] at he
      unfold build_phi2_layers at he
      obtain ⟨rfl, rfl⟩ := pure_ok.mp he
      have hnil : new = [] := by simpa using c5
      subst hnil
      exact ⟨t, by simp, ht1, ht2⟩
  obtain ⟨nrm, hn1, hn2, hn3⟩ := hnrm
  rw [build_inp_KQ_mask_run] at hd
  by_cases hf : cparams.flash_attn = true
  · rw [if_pos hf] at hd
    cases hd
    dsimp only at c5 k1 k4 eb qm ⊢
    have hctx : ∃ a b c, si.ctx0 = sb.ctx0 ++ a :: b :: c :: (new ++ t :: trest ++ back) := by
      apply Exists.intro
      apply Exists.intro
      apply Exists.intro
      rw [eb, c5]
      simp only [List.append_assoc, List.singleton_append, List.cons_append, List.nil_append]
      rfl
    obtain ⟨a, b, c, hctx⟩ := hctx
    refine ⟨inpL, sb, a :: b :: c :: (new ++ t :: trest ++ back), nrm, hb, hctx, ?_, hn2, hn3,
      ?_, ?_⟩
    · rw [if_pos hf]
      simp only [List.getElem?_cons_succ, List.append_assoc]
      rw [← List.append_assoc]
      rcases hl : new ++ t :: trest with _ | ⟨a0, l0⟩
      · simp at hl
      · rw [hl] at hn1
        simpa using hn1
    · rw [qm, k1]
    · rw [qm, k4]
  · rw [if_neg hf] at hd
    cases hd
    dsimp only at c5 k1 k4 eb qm ⊢
    have hctx : ∃ a b, si.ctx0 = sb.ctx0 ++ a :: b :: (new ++ t :: trest ++ back) := by
      apply Exists.intro
      apply Exists.intro
      rw [eb, c5]
      simp only [List.append_assoc, List.singleton_append, List.cons_append, List.nil_append]
      rfl
    obtain ⟨a, b, hctx⟩ := hctx
    refine ⟨inpL, sb, a :: b :: (new ++ t :: trest ++ back), nrm, hb, hctx, ?_, hn2, hn3,
      ?_, ?_⟩
    · rw [if_neg hf]
      simp only [List.getElem?_cons_succ, List.append_assoc]
      rw [← List.append_assoc]
      rcases hl : new ++ t :: trest with _ | ⟨a0, l0⟩
      · simp at hl
      · rw [hl] at hn1
        simpa using hn1
    · rw [qm, k1]
    · rw [qm, k4]

theorem embd_sample_returns :
    build_phi2 (sample_model (sample_hparams 4 2 2 2 2 1) (sample_cparams 8 false) false)
        (sample_hparams 4 2 2 2 2 1) (sample_cparams 8 false) (sample_batch 3 false false)
        (sample_kv_cache (sample_hparams 4 2 2 2 2 1) 8 0 3)
        (sample_state (sample_cparams 8 false) 1)
      = .ok
          (graph_of (sample_build (sample_hparams 4 2 2 2 2 1) (sample_cparams 8 false)
            false (sample_batch 3 false false) 8 0 3 1))
          (state_of (sample_build (sample_hparams 4 2 2 2 2 1) (sample_cparams 8 false)
            false (sample_batch 3 false false) 8 0 3 1)) := by
  decide!

/-- Claim C4, amended. `build_phi2` does not validate the batch. Of the batch it uses
`n_tokens` and whether `token` is set, nothing else: a batch that agrees on these two
gives the same run, whatever its `embd`. And the path is chosen by `token` alone. In
a returned build with `token` set, the first two tensors are the `I32` input of
`n_tokens` elements and the `GET_ROWS` of `model.tok_embd` by it, `inp_tokens` is
recorded and `inp_embd` is not touched; with `token` unset, the first tensor is the
`F32` input `[n_embd, n_tokens]`, `inp_embd` is recorded and `inp_tokens` is not
touched. Behind the position input and the mask comes a `NORM` node, whose operand is
the `GET_ROWS` tensor on the token path and the `F32` input on the embedding path. -/
theorem build_phi2_batch_use (model : moondream_model) (hparams : moondream_hparams)
    (cparams : moondream_cparams) (batch : moondream_batch) (kv : moondream_kv_cache)
    (s : build_state) :
    (∀ b2 : moondream_batch, b2.n_tokens = batch.n_tokens →
        b2.token.isSome = batch.token.isSome →
        build_phi2 model hparams cparams b2 kv s = build_phi2 model hparams cparams batch kv s)
    ∧ (∀ gf s2, build_phi2 model hparams cparams batch kv s = .ok gf s2 →
        ∃ rest nrm, rest[if cparams.flash_attn then 3 else 2]? = some nrm ∧ nrm.op = .NORM
          ∧ ((batch.token.isSome = true
                ∧ ∃ w emb, model.tok_embd = some w
                  ∧ s2.ctx0 = s.ctx0 ++
                      [{ new_tensor .I32 batch.n_tokens 1 1 1 with is_input := true }, emb]
                      ++ rest
                  ∧ emb.op = .GET_ROWS
                  ∧ emb.src = [some (.ext w), some (.node s.ctx0.length)]
                  ∧ emb.is_input = false
                  ∧ nrm.src = [some (.node (s.ctx0.length + 1))]
                  ∧ s2.mctx.inp_tokens = some (.node s.ctx0.length)
                  ∧ s2.mctx.inp_embd = s.mctx.inp_embd)
            ∨ (batch.token.isSome = false
                ∧ s2.ctx0 = s.ctx0 ++
                    [{ new_tensor .F32 hparams.n_embd batch.n_tokens 1 1 with
                        is_input := true }] ++ rest
                ∧ nrm.src = [some (.node s.ctx0.length)]
                ∧ s2.mctx.inp_embd = some (.node s.ctx0.length)
                ∧ s2.mctx.inp_tokens = s.mctx.inp_tokens))) := by
  constructor
  · intro b2 hn ht
    exact build_phi2_batch_eq model hparams cparams b2 batch kv s hn ht
  · intro gf s2 h
    obtain ⟨inpL, s1, rest, nrm, hb, hctx, hn1, hn2, hn3, m1, m2⟩ := build_phi2_path_fwd h
    refine ⟨rest, nrm, hn1, hn2, ?_⟩
    rcases llm_build_inp_embd_path hb with ⟨ht, w, emb, hw, e1, e2, e3, rfl, rfl⟩ | ⟨ht, rfl, rfl⟩
    · cases hm : model.tok_embd with
      | none => rw [hm] at hw; cases hw
      | some w0 =>
        rw [hm] at hw
        cases hw
        exact Or.inl ⟨ht, w0, emb, rfl, hctx, e1, e2, e3, hn3, m1, m2⟩
    · exact Or.inr ⟨ht, hctx, hn3, m2, m1⟩

theorem build_phi2_batch_use_witness :
    ∃ gf s2 rest,
      build_phi2 (sample_model (sample_hparams 4 2 2 2 2 1) (sample_cparams 8 false) false)
        (sample_hparams 4 2 2 2 2 1) (sample_cparams 8 false) (sample_batch 3 false false)
        (sample_kv_cache (sample_hparams 4 2 2 2 2 1) 8 0 3)
        (sample_state (sample_cparams 8 false) 1) = .ok gf s2
      ∧ s2.ctx0 = [{ new_tensor .F32 4 3 1 1 with is_input := true }] ++ rest
      ∧ s2.mctx.inp_embd = some (.node 0) ∧ s2.mctx.inp_tokens = none := by
  obtain ⟨rest, nrm, -, -, ⟨hb, -⟩ | ⟨-, hctx, -, he, ht⟩⟩ :=
    (build_phi2_batch_use _ _ _ _ _ _).2 _ _ embd_sample_returns
  · exact absurd hb (by decide)
  · exact ⟨_, _, rest, embd_sample_returns, hctx, he, ht⟩

/-! ## The K read view in a build -/

theorem build_phi2_guard (model : moondream_model) (hparams : moondream_hparams)
    (cparams : moondream_cparams) (batch : moondream_batch) (kv : moondream_kv_cache)
    (s : build_state) (hne : hparams.n_embd_head_v ≠ hparams.n_embd_head_k) :
    build_phi2 model hparams cparams batch kv s
      = .abort .assert_n_embd_head
          { s with gf := { size := LLAMA_MAX_NODES, grads := false, expanded := [] } } := by
  unfold build_phi2
  simp [bind_run, ggml_new_graph_custom, get_mctx, ggml_assert, hne, fail]

theorem layer_at_k_view {hparams : moondream_hparams} {cparams : moondream_cparams}
    {kv : moondream_kv_cache} {batch : moondream_batch} {KQ_mask : tensor_ptr}
    {ctx0 : List ggml_tensor} {expanded : List tensor_ptr} {il : Nat}
    (h : layer_at hparams cparams kv batch KQ_mask ctx0 expanded il)
    (hg : hparams.n_embd_head_v = hparams.n_embd_head_k) :
    ∃ k_l i user, kv.k_l[il]? = some k_l
      ∧ ctx0[i + 1]? = some (cache_view_3d k_l hparams.n_embd_head_k (to_int32 kv.n)
          hparams.n_head_kv (ggml_row_size k_l.type hparams.n_embd_k_gqa)
          (ggml_row_size k_l.type hparams.n_embd_head_k))
      ∧ ((cparams.flash_attn = false ∧ ctx0[i + 2]? = some user ∧ user.op = .MUL_MAT
            ∧ user.src = [some (.node (i + 1)), some (.node i)])
        ∨ (cparams.flash_attn = true ∧ ctx0[i + 3]? = some user ∧ user.op = .FLASH_ATTN_EXT
            ∧ user.src = [some (.node i), some (.node (i + 1)), some (.node (i + 2)),
                some KQ_mask])) := by
  obtain ⟨A, tq, tk, V, tv, seg, B, six, E, F, rfl, rfl, hE, -, -, -, -, -, k_l, v_l, hk, hv, hs⟩ := h
  rcases hs with ⟨hf, qp, fa, rs, -, -, f3, f4, -, -, -, -, rfl, rfl⟩ |
    ⟨hf, vt, qp, kq, sm, kqv, pm, cur, -, -, -, -, g5, g6, -, -, -, -, -, -, -, -, -, -, rfl, rfl⟩
  · refine ⟨k_l, A.length + 2 + 4, fa, hk, ?_, Or.inr ⟨hf, ?_, f3, f4⟩⟩
    · rw [← hg]
      exact getElem_mid A _ B (2 + 5) _ rfl
    · exact getElem_mid A _ B (2 + 7) _ rfl
  · refine ⟨k_l, A.length + 2 + 5, kq, hk, ?_, Or.inl ⟨hf, ?_, g5, g6⟩⟩
    · rw [← hg]
      exact getElem_mid A _ B (2 + 6) _ rfl
    · exact getElem_mid A _ B (2 + 7) _ rfl

/-- Claim C7. `build_phi2` asserts `n_embd_head_v == n_embd_head_k` before it creates a
tensor, so `llm_build_kqv` only runs with equal head sizes. In a graph that
`build_phi2` returns every layer has the K read view over `kv.k_l[il]`: shape
`[n_embd_head_k, n_kv, n_head_kv]` with `n_kv = kv.n`, strides
`row_size(type, n_embd_k_gqa)` and `row_size(type, n_embd_head_k)`, byte offset `0`,
and it is the K operand of the attention product (the `MUL_MAT` with the permuted Q,
or `FLASH_ATTN_EXT`). And every call of `llm_build_kqv` with equal head sizes that
returns has created this view as its second tensor. -/
theorem build_phi2_k_read_view (model : moondream_model) (hparams : moondream_hparams)
    (cparams : moondream_cparams) (batch : moondream_batch) (kv : moondream_kv_cache)
    (s : build_state) :
    (hparams.n_embd_head_v ≠ hparams.n_embd_head_k →
      build_phi2 model hparams cparams batch kv s
        = .abort .assert_n_embd_head
            { s with gf := { size := LLAMA_MAX_NODES, grads := false, expanded := [] } })
    ∧ (∀ gf s2, build_phi2 model hparams cparams batch kv s = .ok gf s2 →
        ∀ il, il < hparams.n_layer.toNat →
          ∃ k_l i k user, kv.k_l[il]? = some k_l ∧ s2.ctx0[i + 1]? = some k
            ∧ k.op = .VIEW ∧ k.view_src = some (.ext k_l) ∧ k.view_offs = 0
            ∧ k.type = k_l.type
            ∧ k.ne0 = hparams.n_embd_head_k ∧ k.ne1 = to_int32 kv.n
            ∧ k.ne2 = hparams.n_head_kv ∧ k.ne3 = 1
            ∧ k.nb1 = ggml_row_size k_l.type hparams.n_embd_k_gqa
            ∧ k.nb2 = ggml_row_size k_l.type hparams.n_embd_head_k
            ∧ ((cparams.flash_attn = false ∧ s2.ctx0[i + 2]? = some user
                  ∧ user.op = .MUL_MAT ∧ user.src = [some (.node (i + 1)), some (.node i)])
              ∨ (cparams.flash_attn = true ∧ s2.ctx0[i + 3]? = some user
                  ∧ user.op = .FLASH_ATTN_EXT ∧ user.src.take 2
                    = [some (.node i), some (.node (i + 1))])))
    ∧ (∀ (wo wo_b : Option tensor_ptr) (q_cur kq_mask : tensor_ptr) (n_tokens n_kv : Int)
        (kq_scale : f32) (il : Nat) (s1 s2 : build_state) (r : tensor_ptr),
        hparams.n_embd_head_v = hparams.n_embd_head_k →
        llm_build_kqv hparams cparams kv wo wo_b q_cur kq_mask n_tokens n_kv kq_scale il s1
          = .ok r s2 →
        ∃ k_l k, kv.k_l[il]? = some k_l ∧ s2.ctx0[s1.ctx0.length + 1]? = some k
          ∧ k.op = .VIEW ∧ k.view_src = some (.ext k_l) ∧ k.view_offs = 0
          ∧ k.ne0 = hparams.n_embd_head_k ∧ k.ne1 = n_kv ∧ k.ne2 = hparams.n_head_kv
          ∧ k.nb1 = ggml_row_size k_l.type hparams.n_embd_k_gqa
          ∧ k.nb2 = ggml_row_size k_l.type hparams.n_embd_head_k) := by
  refine ⟨build_phi2_guard model hparams cparams batch kv s, ?_, ?_⟩
  · intro gf s2 h il hil
    obtain ⟨hg, -, -, ⟨m, hm⟩, -⟩ := build_phi2_fwd h
    obtain ⟨k_l, i, user, hk, hv, hu⟩ := layer_at_k_view (hm il hil) hg
    refine ⟨k_l, i, _, user, hk, hv, rfl, rfl, rfl, rfl, rfl, rfl, rfl, rfl, rfl, rfl, ?_⟩
    rcases hu with ⟨a, b, c, d⟩ | ⟨a, b, c, d⟩
    · exact Or.inl ⟨a, b, c, d⟩
    · refine Or.inr ⟨a, b, c, ?_⟩
      rw [d]
      rfl
  · intro wo wo_b q_cur kq_mask n_tokens n_kv kq_scale il s1 s2 r hg h
    obtain ⟨k_l, k, h1, h2, h3, h4, h5, h6, h7, h8, h9, h10⟩ := llm_build_kqv_k_view h
    exact ⟨k_l, k, h1, h2, h3, h4, h5, by rw [h6, hg], h7, h8, h9, h10⟩

theorem build_phi2_k_read_view_witness :
    ∃ gf s2 k user,
      build_phi2 (sample_model (sample_hparams 4 2 2 2 2 1) (sample_cparams 8 false) false)
        (sample_hparams 4 2 2 2 2 1) (sample_cparams 8 false) (sample_batch 3 true false)
        (sample_kv_cache (sample_hparams 4 2 2 2 2 1) 8 0 3)
        (sample_state (sample_cparams 8 false) 1) = .ok gf s2
      ∧ ∃ i, s2.ctx0[i + 1]? = some k ∧ k.op = .VIEW
        ∧ k.ne0 = 2 ∧ k.ne1 = 3 ∧ k.ne2 = 2 ∧ k.nb1 = 8 ∧ k.nb2 = 4
        ∧ s2.ctx0[i + 2]? = some user ∧ user.op = .MUL_MAT := by
  obtain ⟨k_l, i, k, user, h1, h2, h3, -, -, -, h7, h8, h9, -, h11, h12, h13⟩ :=
    (build_phi2_k_read_view _ _ _ _ _ _).2.1 _ _ run_noflash_returns 0 (by decide)
  cases h1
  rcases h13 with ⟨-, a, b, -⟩ | ⟨hf, -⟩
  · exact ⟨_, _, k, user, run_noflash_returns, i, h2, h3, h7, h8, h9, h11, h12, a, b⟩
  · cases hf

/-! ## The head sizes and the fused projection -/

/-- Claim C5, the failing input. Phi-2 itself, with the fused `wqkv` of its weight
file and the decode batch: `n_embd_head_k * n_head = 80 * 32 = 2560 = n_embd`, the
head sizes are equal, `n_embd_k_gqa` and `n_embd_v_gqa` are head size times
`n_head_kv`, `kv.size = n_ctx = 2048`, and there are 32 layers. Yet `build_phi2`
does not return: the K window of the fused projection is one head (80) wide, the
contiguous K has `80` elements for the one token, and
`ggml_reshape_3d(Kcur, 80, 32, 1)` asserts in layer 0 with nothing registered. With
separate `wq`, `wk`, `wv` of the same shapes the same call returns a graph. -/
theorem fused_heads_abort :
    scenario_hparams.n_embd_head_k * scenario_hparams.n_head = scenario_hparams.n_embd
    ∧ scenario_hparams.n_embd_head_v = scenario_hparams.n_embd_head_k
    ∧ scenario_hparams.n_embd_k_gqa
        = scenario_hparams.n_embd_head_k * scenario_hparams.n_head_kv
    ∧ scenario_hparams.n_embd_v_gqa
        = scenario_hparams.n_embd_head_v * scenario_hparams.n_head_kv
    ∧ ((sample_kv_cache scenario_hparams 2048 16 16).size : Int) = scenario_cparams.n_ctx
    ∧ 1 ≤ scenario_hparams.n_layer
    ∧ (fault_of (decode_run true) = some (.op_assert .RESHAPE)
      ∧ (state_of (decode_run true)).ctx0.length = 16
      ∧ (state_of (decode_run true)).gf.expanded = []
      ∧ ((state_of (decode_run true)).ctx0[12]?).map
          (fun t => (t.op, t.src, t.ne0, t.ne1, t.ne2, t.ne3))
            = some (.CONT, [some (.node 11)], 80, 1, 1, 1))
    ∧ ∃ gf s2, decode_run false = .ok gf s2 := by
  refine ⟨by decide, by decide, by decide, by decide, by decide, by decide, ?_,
    scenario_returns 16 16 1 (Or.inr ⟨rfl, rfl, rfl⟩)⟩
  decide!

end Moondream
